import Mathlib

/-!
Shallow embedding of the `uslm` Go package (github.com/usgpo/uslm):
the USLM legislative-document data model (`pkg/uslm/*.go`), its JSON
codec (struct `json:` tags interpreted by `encoding/json`, modelled at
the JSON-value level), its XML emission (struct `xml:` tags interpreted
by `encoding/xml.MarshalIndent`, modelled as an element tree plus a
renderer), the document-type detector `DetectDocumentType`, the parse
entry points, and the capability accessors.

Go strings are modelled as Lean `String`, byte buffers as `List Char`
(all inputs of interest are ASCII), Go slices as `List` (a nil slice
and an empty slice are identified: both decode from and encode to the
same JSON under the rules below), Go struct pointers as `Option`, and
fallible operations as `Option`/pair-of-options mirroring Go's
`(value, error)` returns.
-/

namespace Uslm

/-! ## JSON values

Every field of every struct in the package is a string, a slice, a
pointer to a struct, or a struct, so JSON numbers and booleans never
occur; `Json` needs only null, strings, arrays and objects.
`encoding/json` semantics modelled: object decoding looks fields up by
key (extra keys ignored, missing key leaves the zero value, `null`
sets nothing, a wrong type is an error); `omitempty` omits empty
strings, empty slices and nil pointers. -/

inductive Json where
  | null : Json
  | str : String → Json
  | arr : List Json → Json
  | obj : List (String × Json) → Json

def jLookup (k : String) : List (String × Json) → Option Json
  | [] => none
  | (k', v) :: rest => if k' = k then some v else jLookup k rest

theorem jLookup_sizeOf {k : String} {kvs : List (String × Json)} {v : Json}
    (h : jLookup k kvs = some v) : sizeOf v < sizeOf kvs := by
  induction kvs with
  | nil => simp [jLookup] at h
  | cons p rest ih =>
    obtain ⟨k', v'⟩ := p
    simp only [jLookup] at h
    split at h
    · cases h; simp; omega
    · have := ih h; simp; omega

@[simp] theorem jLookup_nil {k : String} :
    jLookup k ([] : List (String × Json)) = none := rfl

/-! ### Field emission combinators

One combinator per Go struct-tag shape: `fStr` for a string field with
no `omitempty`, `fStrOmit` with `omitempty`, `fArr` for a `[]string`
field with no `omitempty`, `fArrOmit` for a slice field with
`omitempty`, `fOptOmit` for a pointer field with `omitempty`,
`fOptNull` for a pointer field without `omitempty` (marshalled as
`null` when nil). -/

def fStr (k v : String) : List (String × Json) := [(k, Json.str v)]

def fStrOmit (k v : String) : List (String × Json) :=
  if v = "" then [] else [(k, Json.str v)]

def fArr (k : String) (js : List Json) : List (String × Json) := [(k, Json.arr js)]

def fArrOmit (k : String) (js : List Json) : List (String × Json) :=
  match js with
  | [] => []
  | _ => [(k, Json.arr js)]

def fOptOmit (k : String) : Option Json → List (String × Json)
  | none => []
  | some j => [(k, j)]

def fOptNull (k : String) : Option Json → List (String × Json)
  | none => [(k, Json.null)]
  | some j => [(k, j)]

/-! ### Field readers (decode side) -/

def optMapM {α β : Type} (f : α → Option β) : List α → Option (List β)
  | [] => some []
  | x :: xs => (f x).bind fun y => (optMapM f xs).map fun ys => y :: ys

/-- Non-inlined `Option.bind`, used for the decoders' field chains. -/
def obind {α β : Type} (x : Option α) (f : α → Option β) : Option β := x.bind f

@[simp] theorem obind_some {α β : Type} {a : α} {f : α → Option β} :
    obind (some a) f = f a := rfl

@[simp] theorem obind_none {α β : Type} {f : α → Option β} :
    obind none f = none := rfl

def readStr (kvs : List (String × Json)) (k : String) : Option String :=
  match jLookup k kvs with
  | none => some ""
  | some Json.null => some ""
  | some (Json.str s) => some s
  | some _ => none

def decStrElem : Json → Option String
  | Json.str s => some s
  | Json.null => some ""
  | _ => none

def readStrList (kvs : List (String × Json)) (k : String) : Option (List String) :=
  match jLookup k kvs with
  | none => some []
  | some Json.null => some []
  | some (Json.arr js) => optMapM decStrElem js
  | some _ => none

def readOpt {α : Type} (dec : Json → Option α) (kvs : List (String × Json))
    (k : String) : Option (Option α) :=
  match jLookup k kvs with
  | none => some none
  | some Json.null => some none
  | some j => (dec j).map some

def readList {α : Type} (dec : Json → Option α) (kvs : List (String × Json))
    (k : String) : Option (List α) :=
  match jLookup k kvs with
  | none => some []
  | some Json.null => some []
  | some (Json.arr js) => optMapM dec js
  | some _ => none

/-! ### Skip lemmas: a lookup for a key passes over a segment written
for a different key. -/

@[simp] theorem jLookup_fStr_skip {k k' v : String} {rest} (h : ¬ k = k') :
    jLookup k (fStr k' v ++ rest) = jLookup k rest := by
  have h' : ¬ k' = k := fun hh => h hh.symm
  simp [fStr, jLookup, h']

@[simp] theorem jLookup_fStrOmit_skip {k k' v : String} {rest} (h : ¬ k = k') :
    jLookup k (fStrOmit k' v ++ rest) = jLookup k rest := by
  have h' : ¬ k' = k := fun hh => h hh.symm
  unfold fStrOmit; split <;> simp [jLookup, h']

@[simp] theorem jLookup_fArr_skip {k k' : String} {js rest} (h : ¬ k = k') :
    jLookup k (fArr k' js ++ rest) = jLookup k rest := by
  have h' : ¬ k' = k := fun hh => h hh.symm
  simp [fArr, jLookup, h']

@[simp] theorem jLookup_fArrOmit_skip {k k' : String} {js rest} (h : ¬ k = k') :
    jLookup k (fArrOmit k' js ++ rest) = jLookup k rest := by
  have h' : ¬ k' = k := fun hh => h hh.symm
  unfold fArrOmit; split <;> simp [jLookup, h']

@[simp] theorem jLookup_fOptOmit_skip {k k' : String} {o rest} (h : ¬ k = k') :
    jLookup k (fOptOmit k' o ++ rest) = jLookup k rest := by
  have h' : ¬ k' = k := fun hh => h hh.symm
  cases o <;> simp [fOptOmit, jLookup, h']

@[simp] theorem jLookup_fOptNull_skip {k k' : String} {o rest} (h : ¬ k = k') :
    jLookup k (fOptNull k' o ++ rest) = jLookup k rest := by
  have h' : ¬ k' = k := fun hh => h hh.symm
  cases o <;> simp [fOptNull, jLookup, h']

@[simp] theorem jLookup_fStr_last_skip {k k' v : String} (h : ¬ k = k') :
    jLookup k (fStr k' v) = none := by
  have h' : ¬ k' = k := fun hh => h hh.symm
  simp [fStr, jLookup, h']

@[simp] theorem jLookup_fStrOmit_last_skip {k k' v : String} (h : ¬ k = k') :
    jLookup k (fStrOmit k' v) = none := by
  have h' : ¬ k' = k := fun hh => h hh.symm
  unfold fStrOmit; split <;> simp [jLookup, h']

@[simp] theorem jLookup_fArr_last_skip {k k' : String} {js} (h : ¬ k = k') :
    jLookup k (fArr k' js) = none := by
  have h' : ¬ k' = k := fun hh => h hh.symm
  simp [fArr, jLookup, h']

@[simp] theorem jLookup_fArrOmit_last_skip {k k' : String} {js} (h : ¬ k = k') :
    jLookup k (fArrOmit k' js) = none := by
  have h' : ¬ k' = k := fun hh => h hh.symm
  unfold fArrOmit; split <;> simp [jLookup, h']

@[simp] theorem jLookup_fOptOmit_last_skip {k k' : String} {o} (h : ¬ k = k') :
    jLookup k (fOptOmit k' o) = none := by
  have h' : ¬ k' = k := fun hh => h hh.symm
  cases o <;> simp [fOptOmit, jLookup, h']

@[simp] theorem jLookup_fOptNull_last_skip {k k' : String} {o} (h : ¬ k = k') :
    jLookup k (fOptNull k' o) = none := by
  have h' : ¬ k' = k := fun hh => h hh.symm
  cases o <;> simp [fOptNull, jLookup, h']

/-! ### Here lemmas: reading back the field a segment wrote. -/

@[simp] theorem readStr_fStr_here {k v : String} {rest} :
    readStr (fStr k v ++ rest) k = some v := by
  simp [readStr, fStr, jLookup]

@[simp] theorem readStr_fStr_last_here {k v : String} :
    readStr (fStr k v) k = some v := by
  simp [readStr, fStr, jLookup]

@[simp] theorem readStr_fStrOmit_here {k v : String} {rest}
    (h : jLookup k rest = none) :
    readStr (fStrOmit k v ++ rest) k = some v := by
  by_cases hv : v = ""
  · subst hv; simp [fStrOmit, readStr, h]
  · simp [fStrOmit, hv, readStr, jLookup]

@[simp] theorem readStr_fStrOmit_last_here {k v : String} :
    readStr (fStrOmit k v) k = some v := by
  by_cases hv : v = ""
  · subst hv; simp [fStrOmit, readStr, jLookup]
  · simp [fStrOmit, hv, readStr, jLookup]

theorem mapM_decStrElem_map_str (vs : List String) :
    optMapM decStrElem (vs.map Json.str) = some vs := by
  induction vs with
  | nil => rfl
  | cons v rest ih => simp [optMapM, decStrElem, ih]

@[simp] theorem readStrList_fArr_here {k : String} {vs : List String} {rest} :
    readStrList (fArr k (vs.map Json.str) ++ rest) k = some vs := by
  simp [readStrList, fArr, jLookup, mapM_decStrElem_map_str]

@[simp] theorem readStrList_fArr_last_here {k : String} {vs : List String} :
    readStrList (fArr k (vs.map Json.str)) k = some vs := by
  simp [readStrList, fArr, jLookup, mapM_decStrElem_map_str]

theorem mapM_map_rt {α β : Type} {dec : Json → Option β} {enc : α → Json}
    {cl : α → β} {xs : List α}
    (hdec : ∀ x ∈ xs, dec (enc x) = some (cl x)) :
    optMapM dec (xs.map enc) = some (xs.map cl) := by
  induction xs with
  | nil => rfl
  | cons x rest ih =>
    simp only [List.map_cons, optMapM, hdec x (by simp)]
    rw [ih (fun y hy => hdec y (by simp [hy]))]
    rfl

theorem readList_fArrOmit_map {α β : Type} {dec : Json → Option β} {enc : α → Json}
    {cl : α → β} {k : String} {rest} {xs : List α}
    (h : jLookup k rest = none)
    (hdec : ∀ x ∈ xs, dec (enc x) = some (cl x)) :
    readList dec (fArrOmit k (xs.map enc) ++ rest) k = some (xs.map cl) := by
  cases xs with
  | nil => simp [fArrOmit, readList, h]
  | cons x xs =>
    have hm := mapM_map_rt hdec
    simp only [List.map_cons] at hm
    simp [fArrOmit, readList, jLookup, hm]

theorem readList_fArrOmit_last_map {α β : Type} {dec : Json → Option β}
    {enc : α → Json} {cl : α → β} {k : String} {xs : List α}
    (hdec : ∀ x ∈ xs, dec (enc x) = some (cl x)) :
    readList dec (fArrOmit k (xs.map enc)) k = some (xs.map cl) := by
  cases xs with
  | nil => simp [fArrOmit, readList, jLookup]
  | cons x xs =>
    have hm := mapM_map_rt hdec
    simp only [List.map_cons] at hm
    simp [fArrOmit, readList, jLookup, hm]

theorem readOpt_fOptOmit_map {α β : Type} {dec : Json → Option β} {enc : α → Json}
    {cl : α → β} {k : String} {rest} {c : Option α}
    (h : jLookup k rest = none)
    (hobj : ∀ x, ∃ l, enc x = Json.obj l)
    (hdec : ∀ x, c = some x → dec (enc x) = some (cl x)) :
    readOpt dec (fOptOmit k (c.map enc) ++ rest) k = some (c.map cl) := by
  cases c with
  | none => simp [fOptOmit, readOpt, h]
  | some x =>
    obtain ⟨l, hl⟩ := hobj x
    simp [fOptOmit, readOpt, jLookup, hl, hl ▸ hdec x rfl]

theorem readOpt_fOptOmit_last_map {α β : Type} {dec : Json → Option β}
    {enc : α → Json} {cl : α → β} {k : String} {c : Option α}
    (hobj : ∀ x, ∃ l, enc x = Json.obj l)
    (hdec : ∀ x, c = some x → dec (enc x) = some (cl x)) :
    readOpt dec (fOptOmit k (c.map enc)) k = some (c.map cl) := by
  cases c with
  | none => simp [fOptOmit, readOpt, jLookup]
  | some x =>
    obtain ⟨l, hl⟩ := hobj x
    simp [fOptOmit, readOpt, jLookup, hl, hl ▸ hdec x rfl]

theorem readOpt_fOptNull_map {α β : Type} {dec : Json → Option β} {enc : α → Json}
    {cl : α → β} {k : String} {rest} {c : Option α}
    (hobj : ∀ x, ∃ l, enc x = Json.obj l)
    (hdec : ∀ x, c = some x → dec (enc x) = some (cl x)) :
    readOpt dec (fOptNull k (c.map enc) ++ rest) k = some (c.map cl) := by
  cases c with
  | none => simp [fOptNull, readOpt, jLookup]
  | some x =>
    obtain ⟨l, hl⟩ := hobj x
    simp [fOptNull, readOpt, jLookup, hl, hl ▸ hdec x rfl]

theorem readOpt_fOptNull_last_map {α β : Type} {dec : Json → Option β}
    {enc : α → Json} {cl : α → β} {k : String} {c : Option α}
    (hobj : ∀ x, ∃ l, enc x = Json.obj l)
    (hdec : ∀ x, c = some x → dec (enc x) = some (cl x)) :
    readOpt dec (fOptNull k (c.map enc)) k = some (c.map cl) := by
  cases c with
  | none => simp [fOptNull, readOpt, jLookup]
  | some x =>
    obtain ⟨l, hl⟩ := hobj x
    simp [fOptNull, readOpt, jLookup, hl, hl ▸ hdec x rfl]

/-! ### Reader terminal values and skip lemmas (derived from the jLookup skips). -/

@[simp] theorem readStr_nil {k : String} : readStr [] k = some "" := rfl

@[simp] theorem readStrList_nil {k : String} : readStrList [] k = some [] := rfl

@[simp] theorem readOpt_nil {α : Type} {dec : Json → Option α} {k : String} :
    readOpt dec [] k = some none := rfl

@[simp] theorem readList_nil {α : Type} {dec : Json → Option α} {k : String} :
    readList dec [] k = some [] := rfl

@[simp] theorem readStr_fStr_skip {k k' v : String} {rest} (h : ¬ k = k') :
    readStr (fStr k' v ++ rest) k = readStr rest k := by
  simp [readStr, jLookup_fStr_skip h]

@[simp] theorem readStr_fStr_last_skip {k k' v : String} (h : ¬ k = k') :
    readStr (fStr k' v) k = some "" := by
  simp [readStr, jLookup_fStr_last_skip h]

@[simp] theorem readStr_fStrOmit_skip {k k' v : String} {rest} (h : ¬ k = k') :
    readStr (fStrOmit k' v ++ rest) k = readStr rest k := by
  simp [readStr, jLookup_fStrOmit_skip h]

@[simp] theorem readStr_fStrOmit_last_skip {k k' v : String} (h : ¬ k = k') :
    readStr (fStrOmit k' v) k = some "" := by
  simp [readStr, jLookup_fStrOmit_last_skip h]

@[simp] theorem readStr_fArr_skip {k k' : String} {js} {rest} (h : ¬ k = k') :
    readStr (fArr k' js ++ rest) k = readStr rest k := by
  simp [readStr, jLookup_fArr_skip h]

@[simp] theorem readStr_fArr_last_skip {k k' : String} {js} (h : ¬ k = k') :
    readStr (fArr k' js) k = some "" := by
  simp [readStr, jLookup_fArr_last_skip h]

@[simp] theorem readStr_fArrOmit_skip {k k' : String} {js} {rest} (h : ¬ k = k') :
    readStr (fArrOmit k' js ++ rest) k = readStr rest k := by
  simp [readStr, jLookup_fArrOmit_skip h]

@[simp] theorem readStr_fArrOmit_last_skip {k k' : String} {js} (h : ¬ k = k') :
    readStr (fArrOmit k' js) k = some "" := by
  simp [readStr, jLookup_fArrOmit_last_skip h]

@[simp] theorem readStr_fOptOmit_skip {k k' : String} {o} {rest} (h : ¬ k = k') :
    readStr (fOptOmit k' o ++ rest) k = readStr rest k := by
  simp [readStr, jLookup_fOptOmit_skip h]

@[simp] theorem readStr_fOptOmit_last_skip {k k' : String} {o} (h : ¬ k = k') :
    readStr (fOptOmit k' o) k = some "" := by
  simp [readStr, jLookup_fOptOmit_last_skip h]

@[simp] theorem readStr_fOptNull_skip {k k' : String} {o} {rest} (h : ¬ k = k') :
    readStr (fOptNull k' o ++ rest) k = readStr rest k := by
  simp [readStr, jLookup_fOptNull_skip h]

@[simp] theorem readStr_fOptNull_last_skip {k k' : String} {o} (h : ¬ k = k') :
    readStr (fOptNull k' o) k = some "" := by
  simp [readStr, jLookup_fOptNull_last_skip h]

@[simp] theorem readStrList_fStr_skip {k k' v : String} {rest} (h : ¬ k = k') :
    readStrList (fStr k' v ++ rest) k = readStrList rest k := by
  simp [readStrList, jLookup_fStr_skip h]

@[simp] theorem readStrList_fStr_last_skip {k k' v : String} (h : ¬ k = k') :
    readStrList (fStr k' v) k = some [] := by
  simp [readStrList, jLookup_fStr_last_skip h]

@[simp] theorem readStrList_fStrOmit_skip {k k' v : String} {rest} (h : ¬ k = k') :
    readStrList (fStrOmit k' v ++ rest) k = readStrList rest k := by
  simp [readStrList, jLookup_fStrOmit_skip h]

@[simp] theorem readStrList_fStrOmit_last_skip {k k' v : String} (h : ¬ k = k') :
    readStrList (fStrOmit k' v) k = some [] := by
  simp [readStrList, jLookup_fStrOmit_last_skip h]

@[simp] theorem readStrList_fArr_skip {k k' : String} {js} {rest} (h : ¬ k = k') :
    readStrList (fArr k' js ++ rest) k = readStrList rest k := by
  simp [readStrList, jLookup_fArr_skip h]

@[simp] theorem readStrList_fArr_last_skip {k k' : String} {js} (h : ¬ k = k') :
    readStrList (fArr k' js) k = some [] := by
  simp [readStrList, jLookup_fArr_last_skip h]

@[simp] theorem readStrList_fArrOmit_skip {k k' : String} {js} {rest} (h : ¬ k = k') :
    readStrList (fArrOmit k' js ++ rest) k = readStrList rest k := by
  simp [readStrList, jLookup_fArrOmit_skip h]

@[simp] theorem readStrList_fArrOmit_last_skip {k k' : String} {js} (h : ¬ k = k') :
    readStrList (fArrOmit k' js) k = some [] := by
  simp [readStrList, jLookup_fArrOmit_last_skip h]

@[simp] theorem readStrList_fOptOmit_skip {k k' : String} {o} {rest} (h : ¬ k = k') :
    readStrList (fOptOmit k' o ++ rest) k = readStrList rest k := by
  simp [readStrList, jLookup_fOptOmit_skip h]

@[simp] theorem readStrList_fOptOmit_last_skip {k k' : String} {o} (h : ¬ k = k') :
    readStrList (fOptOmit k' o) k = some [] := by
  simp [readStrList, jLookup_fOptOmit_last_skip h]

@[simp] theorem readStrList_fOptNull_skip {k k' : String} {o} {rest} (h : ¬ k = k') :
    readStrList (fOptNull k' o ++ rest) k = readStrList rest k := by
  simp [readStrList, jLookup_fOptNull_skip h]

@[simp] theorem readStrList_fOptNull_last_skip {k k' : String} {o} (h : ¬ k = k') :
    readStrList (fOptNull k' o) k = some [] := by
  simp [readStrList, jLookup_fOptNull_last_skip h]

@[simp] theorem readOpt_fStr_skip {α : Type} {dec : Json → Option α} {k k' v : String} {rest} (h : ¬ k = k') :
    readOpt dec (fStr k' v ++ rest) k = readOpt dec rest k := by
  simp [readOpt, jLookup_fStr_skip h]

@[simp] theorem readOpt_fStr_last_skip {α : Type} {dec : Json → Option α} {k k' v : String} (h : ¬ k = k') :
    readOpt dec (fStr k' v) k = some none := by
  simp [readOpt, jLookup_fStr_last_skip h]

@[simp] theorem readOpt_fStrOmit_skip {α : Type} {dec : Json → Option α} {k k' v : String} {rest} (h : ¬ k = k') :
    readOpt dec (fStrOmit k' v ++ rest) k = readOpt dec rest k := by
  simp [readOpt, jLookup_fStrOmit_skip h]

@[simp] theorem readOpt_fStrOmit_last_skip {α : Type} {dec : Json → Option α} {k k' v : String} (h : ¬ k = k') :
    readOpt dec (fStrOmit k' v) k = some none := by
  simp [readOpt, jLookup_fStrOmit_last_skip h]

@[simp] theorem readOpt_fArr_skip {α : Type} {dec : Json → Option α} {k k' : String} {js} {rest} (h : ¬ k = k') :
    readOpt dec (fArr k' js ++ rest) k = readOpt dec rest k := by
  simp [readOpt, jLookup_fArr_skip h]

@[simp] theorem readOpt_fArr_last_skip {α : Type} {dec : Json → Option α} {k k' : String} {js} (h : ¬ k = k') :
    readOpt dec (fArr k' js) k = some none := by
  simp [readOpt, jLookup_fArr_last_skip h]

@[simp] theorem readOpt_fArrOmit_skip {α : Type} {dec : Json → Option α} {k k' : String} {js} {rest} (h : ¬ k = k') :
    readOpt dec (fArrOmit k' js ++ rest) k = readOpt dec rest k := by
  simp [readOpt, jLookup_fArrOmit_skip h]

@[simp] theorem readOpt_fArrOmit_last_skip {α : Type} {dec : Json → Option α} {k k' : String} {js} (h : ¬ k = k') :
    readOpt dec (fArrOmit k' js) k = some none := by
  simp [readOpt, jLookup_fArrOmit_last_skip h]

@[simp] theorem readOpt_fOptOmit_skip {α : Type} {dec : Json → Option α} {k k' : String} {o} {rest} (h : ¬ k = k') :
    readOpt dec (fOptOmit k' o ++ rest) k = readOpt dec rest k := by
  simp [readOpt, jLookup_fOptOmit_skip h]

@[simp] theorem readOpt_fOptOmit_last_skip {α : Type} {dec : Json → Option α} {k k' : String} {o} (h : ¬ k = k') :
    readOpt dec (fOptOmit k' o) k = some none := by
  simp [readOpt, jLookup_fOptOmit_last_skip h]

@[simp] theorem readOpt_fOptNull_skip {α : Type} {dec : Json → Option α} {k k' : String} {o} {rest} (h : ¬ k = k') :
    readOpt dec (fOptNull k' o ++ rest) k = readOpt dec rest k := by
  simp [readOpt, jLookup_fOptNull_skip h]

@[simp] theorem readOpt_fOptNull_last_skip {α : Type} {dec : Json → Option α} {k k' : String} {o} (h : ¬ k = k') :
    readOpt dec (fOptNull k' o) k = some none := by
  simp [readOpt, jLookup_fOptNull_last_skip h]

@[simp] theorem readList_fStr_skip {α : Type} {dec : Json → Option α} {k k' v : String} {rest} (h : ¬ k = k') :
    readList dec (fStr k' v ++ rest) k = readList dec rest k := by
  simp [readList, jLookup_fStr_skip h]

@[simp] theorem readList_fStr_last_skip {α : Type} {dec : Json → Option α} {k k' v : String} (h : ¬ k = k') :
    readList dec (fStr k' v) k = some [] := by
  simp [readList, jLookup_fStr_last_skip h]

@[simp] theorem readList_fStrOmit_skip {α : Type} {dec : Json → Option α} {k k' v : String} {rest} (h : ¬ k = k') :
    readList dec (fStrOmit k' v ++ rest) k = readList dec rest k := by
  simp [readList, jLookup_fStrOmit_skip h]

@[simp] theorem readList_fStrOmit_last_skip {α : Type} {dec : Json → Option α} {k k' v : String} (h : ¬ k = k') :
    readList dec (fStrOmit k' v) k = some [] := by
  simp [readList, jLookup_fStrOmit_last_skip h]

@[simp] theorem readList_fArr_skip {α : Type} {dec : Json → Option α} {k k' : String} {js} {rest} (h : ¬ k = k') :
    readList dec (fArr k' js ++ rest) k = readList dec rest k := by
  simp [readList, jLookup_fArr_skip h]

@[simp] theorem readList_fArr_last_skip {α : Type} {dec : Json → Option α} {k k' : String} {js} (h : ¬ k = k') :
    readList dec (fArr k' js) k = some [] := by
  simp [readList, jLookup_fArr_last_skip h]

@[simp] theorem readList_fArrOmit_skip {α : Type} {dec : Json → Option α} {k k' : String} {js} {rest} (h : ¬ k = k') :
    readList dec (fArrOmit k' js ++ rest) k = readList dec rest k := by
  simp [readList, jLookup_fArrOmit_skip h]

@[simp] theorem readList_fArrOmit_last_skip {α : Type} {dec : Json → Option α} {k k' : String} {js} (h : ¬ k = k') :
    readList dec (fArrOmit k' js) k = some [] := by
  simp [readList, jLookup_fArrOmit_last_skip h]

@[simp] theorem readList_fOptOmit_skip {α : Type} {dec : Json → Option α} {k k' : String} {o} {rest} (h : ¬ k = k') :
    readList dec (fOptOmit k' o ++ rest) k = readList dec rest k := by
  simp [readList, jLookup_fOptOmit_skip h]

@[simp] theorem readList_fOptOmit_last_skip {α : Type} {dec : Json → Option α} {k k' : String} {o} (h : ¬ k = k') :
    readList dec (fOptOmit k' o) k = some [] := by
  simp [readList, jLookup_fOptOmit_last_skip h]

@[simp] theorem readList_fOptNull_skip {α : Type} {dec : Json → Option α} {k k' : String} {o} {rest} (h : ¬ k = k') :
    readList dec (fOptNull k' o ++ rest) k = readList dec rest k := by
  simp [readList, jLookup_fOptNull_skip h]

@[simp] theorem readList_fOptNull_last_skip {α : Type} {dec : Json → Option α} {k k' : String} {o} (h : ¬ k = k') :
    readList dec (fOptNull k' o) k = some [] := by
  simp [readList, jLookup_fOptNull_last_skip h]


/-! ## The data model: leaf structures

Each Lean structure transliterates the Go struct of the same name
(`pkg/uslm/common.go`, `preface.go`, `content.go`, and the metadata and
document files), field for field in source order. `XMLName xml.Name`
is modelled by `Name`; it carries `json:"-"`, so the JSON encoder skips
it and the JSON decoder leaves it at the zero value. Go struct
`Notation` is rendered here as `NotationElem`. For every type `T`:
`encT`/`decT` are the JSON codec read off the `json:` tags, `clearT`
zeroes every `XMLName` in the tree (what a JSON round trip does to the
element-name markers), and `rt_T` is the per-type round-trip lemma. -/

structure Name where
  Space : String
  Local : String
deriving DecidableEq

def emptyName : Name := ⟨"", ""⟩

structure Inline where
  XMLName : Name
  Class : String
  Role : String
  Text : String

def encInline (x : Inline) : Json :=
  Json.obj (fStrOmit "class" x.Class ++
    fStrOmit "role" x.Role ++
    fStrOmit "text" x.Text)

def decInline : Json → Option Inline
  | Json.obj kvs =>
    obind (readStr kvs "class") fun a1 =>
    obind (readStr kvs "role") fun a2 =>
    obind (readStr kvs "text") fun a3 =>
    some ⟨emptyName, a1, a2, a3⟩
  | _ => none

def clearInline (x : Inline) : Inline :=
  ⟨emptyName, x.Class, x.Role, x.Text⟩

theorem encInline_obj (x : Inline) : ∃ l, encInline x = Json.obj l := ⟨_, rfl⟩

theorem rt_Inline (x : Inline) : decInline (encInline x) = some (clearInline x) := by
  simp only [encInline, decInline, clearInline, List.append_assoc, obind_some, ne_eq, not_false_eq_true, String.reduceEq, jLookup_nil, readStr_nil, readStrList_nil, readOpt_nil, readList_nil, jLookup_fStr_skip, jLookup_fStrOmit_skip, jLookup_fArr_skip, jLookup_fArrOmit_skip, jLookup_fOptOmit_skip, jLookup_fOptNull_skip, jLookup_fStr_last_skip, jLookup_fStrOmit_last_skip, jLookup_fArr_last_skip, jLookup_fArrOmit_last_skip, jLookup_fOptOmit_last_skip, jLookup_fOptNull_last_skip, readStr_fStr_here, readStr_fStr_last_here, readStr_fStrOmit_here, readStr_fStrOmit_last_here, readStrList_fArr_here, readStrList_fArr_last_here, readStr_fStr_skip, readStr_fStrOmit_skip, readStr_fArr_skip, readStr_fArrOmit_skip, readStr_fOptOmit_skip, readStr_fOptNull_skip, readStr_fStr_last_skip, readStr_fStrOmit_last_skip, readStr_fArr_last_skip, readStr_fArrOmit_last_skip, readStr_fOptOmit_last_skip, readStr_fOptNull_last_skip, readStrList_fStr_skip, readStrList_fStrOmit_skip, readStrList_fArrOmit_skip, readStrList_fOptOmit_skip, readStrList_fOptNull_skip, readStrList_fStr_last_skip, readStrList_fStrOmit_last_skip, readStrList_fArrOmit_last_skip, readStrList_fOptOmit_last_skip, readStrList_fOptNull_last_skip, readOpt_fStr_skip, readOpt_fStrOmit_skip, readOpt_fArr_skip, readOpt_fArrOmit_skip, readOpt_fOptOmit_skip, readOpt_fOptNull_skip, readOpt_fStr_last_skip, readOpt_fStrOmit_last_skip, readOpt_fArr_last_skip, readOpt_fArrOmit_last_skip, readOpt_fOptOmit_last_skip, readOpt_fOptNull_last_skip, readList_fStr_skip, readList_fStrOmit_skip, readList_fArr_skip, readList_fArrOmit_skip, readList_fOptOmit_skip, readList_fOptNull_skip, readList_fStr_last_skip, readList_fStrOmit_last_skip, readList_fArr_last_skip, readList_fArrOmit_last_skip, readList_fOptOmit_last_skip, readList_fOptNull_last_skip]

@[simp] theorem readList_encInline_here {k : String} {rest} {xs : List Inline}
    (h : jLookup k rest = none) :
    readList decInline (fArrOmit k (xs.map encInline) ++ rest) k = some (xs.map clearInline) :=
  readList_fArrOmit_map h (fun y _ => rt_Inline y)

@[simp] theorem readList_encInline_last_here {k : String} {xs : List Inline} :
    readList decInline (fArrOmit k (xs.map encInline)) k = some (xs.map clearInline) :=
  readList_fArrOmit_last_map (fun y _ => rt_Inline y)

@[simp] theorem readOpt_encInline_here {k : String} {rest} {c : Option Inline}
    (h : jLookup k rest = none) :
    readOpt decInline (fOptOmit k (c.map encInline) ++ rest) k = some (c.map clearInline) :=
  readOpt_fOptOmit_map h encInline_obj (fun y _ => rt_Inline y)

@[simp] theorem readOpt_encInline_last_here {k : String} {c : Option Inline} :
    readOpt decInline (fOptOmit k (c.map encInline)) k = some (c.map clearInline) :=
  readOpt_fOptOmit_last_map encInline_obj (fun y _ => rt_Inline y)

structure Italic where
  XMLName : Name
  Text : String

def encItalic (x : Italic) : Json :=
  Json.obj (fStrOmit "text" x.Text)

def decItalic : Json → Option Italic
  | Json.obj kvs =>
    obind (readStr kvs "text") fun a1 =>
    some ⟨emptyName, a1⟩
  | _ => none

def clearItalic (x : Italic) : Italic :=
  ⟨emptyName, x.Text⟩

theorem encItalic_obj (x : Italic) : ∃ l, encItalic x = Json.obj l := ⟨_, rfl⟩

theorem rt_Italic (x : Italic) : decItalic (encItalic x) = some (clearItalic x) := by
  simp only [encItalic, decItalic, clearItalic, List.append_assoc, obind_some, ne_eq, not_false_eq_true, String.reduceEq, jLookup_nil, readStr_nil, readStrList_nil, readOpt_nil, readList_nil, jLookup_fStr_skip, jLookup_fStrOmit_skip, jLookup_fArr_skip, jLookup_fArrOmit_skip, jLookup_fOptOmit_skip, jLookup_fOptNull_skip, jLookup_fStr_last_skip, jLookup_fStrOmit_last_skip, jLookup_fArr_last_skip, jLookup_fArrOmit_last_skip, jLookup_fOptOmit_last_skip, jLookup_fOptNull_last_skip, readStr_fStr_here, readStr_fStr_last_here, readStr_fStrOmit_here, readStr_fStrOmit_last_here, readStrList_fArr_here, readStrList_fArr_last_here, readStr_fStr_skip, readStr_fStrOmit_skip, readStr_fArr_skip, readStr_fArrOmit_skip, readStr_fOptOmit_skip, readStr_fOptNull_skip, readStr_fStr_last_skip, readStr_fStrOmit_last_skip, readStr_fArr_last_skip, readStr_fArrOmit_last_skip, readStr_fOptOmit_last_skip, readStr_fOptNull_last_skip, readStrList_fStr_skip, readStrList_fStrOmit_skip, readStrList_fArrOmit_skip, readStrList_fOptOmit_skip, readStrList_fOptNull_skip, readStrList_fStr_last_skip, readStrList_fStrOmit_last_skip, readStrList_fArrOmit_last_skip, readStrList_fOptOmit_last_skip, readStrList_fOptNull_last_skip, readOpt_fStr_skip, readOpt_fStrOmit_skip, readOpt_fArr_skip, readOpt_fArrOmit_skip, readOpt_fOptOmit_skip, readOpt_fOptNull_skip, readOpt_fStr_last_skip, readOpt_fStrOmit_last_skip, readOpt_fArr_last_skip, readOpt_fArrOmit_last_skip, readOpt_fOptOmit_last_skip, readOpt_fOptNull_last_skip, readList_fStr_skip, readList_fStrOmit_skip, readList_fArr_skip, readList_fArrOmit_skip, readList_fOptOmit_skip, readList_fOptNull_skip, readList_fStr_last_skip, readList_fStrOmit_last_skip, readList_fArr_last_skip, readList_fArrOmit_last_skip, readList_fOptOmit_last_skip, readList_fOptNull_last_skip]

@[simp] theorem readList_encItalic_here {k : String} {rest} {xs : List Italic}
    (h : jLookup k rest = none) :
    readList decItalic (fArrOmit k (xs.map encItalic) ++ rest) k = some (xs.map clearItalic) :=
  readList_fArrOmit_map h (fun y _ => rt_Italic y)

@[simp] theorem readList_encItalic_last_here {k : String} {xs : List Italic} :
    readList decItalic (fArrOmit k (xs.map encItalic)) k = some (xs.map clearItalic) :=
  readList_fArrOmit_last_map (fun y _ => rt_Italic y)

@[simp] theorem readOpt_encItalic_here {k : String} {rest} {c : Option Italic}
    (h : jLookup k rest = none) :
    readOpt decItalic (fOptOmit k (c.map encItalic) ++ rest) k = some (c.map clearItalic) :=
  readOpt_fOptOmit_map h encItalic_obj (fun y _ => rt_Italic y)

@[simp] theorem readOpt_encItalic_last_here {k : String} {c : Option Italic} :
    readOpt decItalic (fOptOmit k (c.map encItalic)) k = some (c.map clearItalic) :=
  readOpt_fOptOmit_last_map encItalic_obj (fun y _ => rt_Italic y)

structure Bold where
  XMLName : Name
  Text : String

def encBold (x : Bold) : Json :=
  Json.obj (fStrOmit "text" x.Text)

def decBold : Json → Option Bold
  | Json.obj kvs =>
    obind (readStr kvs "text") fun a1 =>
    some ⟨emptyName, a1⟩
  | _ => none

def clearBold (x : Bold) : Bold :=
  ⟨emptyName, x.Text⟩

theorem encBold_obj (x : Bold) : ∃ l, encBold x = Json.obj l := ⟨_, rfl⟩

theorem rt_Bold (x : Bold) : decBold (encBold x) = some (clearBold x) := by
  simp only [encBold, decBold, clearBold, List.append_assoc, obind_some, ne_eq, not_false_eq_true, String.reduceEq, jLookup_nil, readStr_nil, readStrList_nil, readOpt_nil, readList_nil, jLookup_fStr_skip, jLookup_fStrOmit_skip, jLookup_fArr_skip, jLookup_fArrOmit_skip, jLookup_fOptOmit_skip, jLookup_fOptNull_skip, jLookup_fStr_last_skip, jLookup_fStrOmit_last_skip, jLookup_fArr_last_skip, jLookup_fArrOmit_last_skip, jLookup_fOptOmit_last_skip, jLookup_fOptNull_last_skip, readStr_fStr_here, readStr_fStr_last_here, readStr_fStrOmit_here, readStr_fStrOmit_last_here, readStrList_fArr_here, readStrList_fArr_last_here, readStr_fStr_skip, readStr_fStrOmit_skip, readStr_fArr_skip, readStr_fArrOmit_skip, readStr_fOptOmit_skip, readStr_fOptNull_skip, readStr_fStr_last_skip, readStr_fStrOmit_last_skip, readStr_fArr_last_skip, readStr_fArrOmit_last_skip, readStr_fOptOmit_last_skip, readStr_fOptNull_last_skip, readStrList_fStr_skip, readStrList_fStrOmit_skip, readStrList_fArrOmit_skip, readStrList_fOptOmit_skip, readStrList_fOptNull_skip, readStrList_fStr_last_skip, readStrList_fStrOmit_last_skip, readStrList_fArrOmit_last_skip, readStrList_fOptOmit_last_skip, readStrList_fOptNull_last_skip, readOpt_fStr_skip, readOpt_fStrOmit_skip, readOpt_fArr_skip, readOpt_fArrOmit_skip, readOpt_fOptOmit_skip, readOpt_fOptNull_skip, readOpt_fStr_last_skip, readOpt_fStrOmit_last_skip, readOpt_fArr_last_skip, readOpt_fArrOmit_last_skip, readOpt_fOptOmit_last_skip, readOpt_fOptNull_last_skip, readList_fStr_skip, readList_fStrOmit_skip, readList_fArr_skip, readList_fArrOmit_skip, readList_fOptOmit_skip, readList_fOptNull_skip, readList_fStr_last_skip, readList_fStrOmit_last_skip, readList_fArr_last_skip, readList_fArrOmit_last_skip, readList_fOptOmit_last_skip, readList_fOptNull_last_skip]

@[simp] theorem readList_encBold_here {k : String} {rest} {xs : List Bold}
    (h : jLookup k rest = none) :
    readList decBold (fArrOmit k (xs.map encBold) ++ rest) k = some (xs.map clearBold) :=
  readList_fArrOmit_map h (fun y _ => rt_Bold y)

@[simp] theorem readList_encBold_last_here {k : String} {xs : List Bold} :
    readList decBold (fArrOmit k (xs.map encBold)) k = some (xs.map clearBold) :=
  readList_fArrOmit_last_map (fun y _ => rt_Bold y)

@[simp] theorem readOpt_encBold_here {k : String} {rest} {c : Option Bold}
    (h : jLookup k rest = none) :
    readOpt decBold (fOptOmit k (c.map encBold) ++ rest) k = some (c.map clearBold) :=
  readOpt_fOptOmit_map h encBold_obj (fun y _ => rt_Bold y)

@[simp] theorem readOpt_encBold_last_here {k : String} {c : Option Bold} :
    readOpt decBold (fOptOmit k (c.map encBold)) k = some (c.map clearBold) :=
  readOpt_fOptOmit_last_map encBold_obj (fun y _ => rt_Bold y)

structure Sup where
  XMLName : Name
  Text : String

def encSup (x : Sup) : Json :=
  Json.obj (fStrOmit "text" x.Text)

def decSup : Json → Option Sup
  | Json.obj kvs =>
    obind (readStr kvs "text") fun a1 =>
    some ⟨emptyName, a1⟩
  | _ => none

def clearSup (x : Sup) : Sup :=
  ⟨emptyName, x.Text⟩

theorem encSup_obj (x : Sup) : ∃ l, encSup x = Json.obj l := ⟨_, rfl⟩

theorem rt_Sup (x : Sup) : decSup (encSup x) = some (clearSup x) := by
  simp only [encSup, decSup, clearSup, List.append_assoc, obind_some, ne_eq, not_false_eq_true, String.reduceEq, jLookup_nil, readStr_nil, readStrList_nil, readOpt_nil, readList_nil, jLookup_fStr_skip, jLookup_fStrOmit_skip, jLookup_fArr_skip, jLookup_fArrOmit_skip, jLookup_fOptOmit_skip, jLookup_fOptNull_skip, jLookup_fStr_last_skip, jLookup_fStrOmit_last_skip, jLookup_fArr_last_skip, jLookup_fArrOmit_last_skip, jLookup_fOptOmit_last_skip, jLookup_fOptNull_last_skip, readStr_fStr_here, readStr_fStr_last_here, readStr_fStrOmit_here, readStr_fStrOmit_last_here, readStrList_fArr_here, readStrList_fArr_last_here, readStr_fStr_skip, readStr_fStrOmit_skip, readStr_fArr_skip, readStr_fArrOmit_skip, readStr_fOptOmit_skip, readStr_fOptNull_skip, readStr_fStr_last_skip, readStr_fStrOmit_last_skip, readStr_fArr_last_skip, readStr_fArrOmit_last_skip, readStr_fOptOmit_last_skip, readStr_fOptNull_last_skip, readStrList_fStr_skip, readStrList_fStrOmit_skip, readStrList_fArrOmit_skip, readStrList_fOptOmit_skip, readStrList_fOptNull_skip, readStrList_fStr_last_skip, readStrList_fStrOmit_last_skip, readStrList_fArrOmit_last_skip, readStrList_fOptOmit_last_skip, readStrList_fOptNull_last_skip, readOpt_fStr_skip, readOpt_fStrOmit_skip, readOpt_fArr_skip, readOpt_fArrOmit_skip, readOpt_fOptOmit_skip, readOpt_fOptNull_skip, readOpt_fStr_last_skip, readOpt_fStrOmit_last_skip, readOpt_fArr_last_skip, readOpt_fArrOmit_last_skip, readOpt_fOptOmit_last_skip, readOpt_fOptNull_last_skip, readList_fStr_skip, readList_fStrOmit_skip, readList_fArr_skip, readList_fArrOmit_skip, readList_fOptOmit_skip, readList_fOptNull_skip, readList_fStr_last_skip, readList_fStrOmit_last_skip, readList_fArr_last_skip, readList_fArrOmit_last_skip, readList_fOptOmit_last_skip, readList_fOptNull_last_skip]

@[simp] theorem readList_encSup_here {k : String} {rest} {xs : List Sup}
    (h : jLookup k rest = none) :
    readList decSup (fArrOmit k (xs.map encSup) ++ rest) k = some (xs.map clearSup) :=
  readList_fArrOmit_map h (fun y _ => rt_Sup y)

@[simp] theorem readList_encSup_last_here {k : String} {xs : List Sup} :
    readList decSup (fArrOmit k (xs.map encSup)) k = some (xs.map clearSup) :=
  readList_fArrOmit_last_map (fun y _ => rt_Sup y)

@[simp] theorem readOpt_encSup_here {k : String} {rest} {c : Option Sup}
    (h : jLookup k rest = none) :
    readOpt decSup (fOptOmit k (c.map encSup) ++ rest) k = some (c.map clearSup) :=
  readOpt_fOptOmit_map h encSup_obj (fun y _ => rt_Sup y)

@[simp] theorem readOpt_encSup_last_here {k : String} {c : Option Sup} :
    readOpt decSup (fOptOmit k (c.map encSup)) k = some (c.map clearSup) :=
  readOpt_fOptOmit_last_map encSup_obj (fun y _ => rt_Sup y)

structure Sub where
  XMLName : Name
  Text : String

def encSub (x : Sub) : Json :=
  Json.obj (fStrOmit "text" x.Text)

def decSub : Json → Option Sub
  | Json.obj kvs =>
    obind (readStr kvs "text") fun a1 =>
    some ⟨emptyName, a1⟩
  | _ => none

def clearSub (x : Sub) : Sub :=
  ⟨emptyName, x.Text⟩

theorem encSub_obj (x : Sub) : ∃ l, encSub x = Json.obj l := ⟨_, rfl⟩

theorem rt_Sub (x : Sub) : decSub (encSub x) = some (clearSub x) := by
  simp only [encSub, decSub, clearSub, List.append_assoc, obind_some, ne_eq, not_false_eq_true, String.reduceEq, jLookup_nil, readStr_nil, readStrList_nil, readOpt_nil, readList_nil, jLookup_fStr_skip, jLookup_fStrOmit_skip, jLookup_fArr_skip, jLookup_fArrOmit_skip, jLookup_fOptOmit_skip, jLookup_fOptNull_skip, jLookup_fStr_last_skip, jLookup_fStrOmit_last_skip, jLookup_fArr_last_skip, jLookup_fArrOmit_last_skip, jLookup_fOptOmit_last_skip, jLookup_fOptNull_last_skip, readStr_fStr_here, readStr_fStr_last_here, readStr_fStrOmit_here, readStr_fStrOmit_last_here, readStrList_fArr_here, readStrList_fArr_last_here, readStr_fStr_skip, readStr_fStrOmit_skip, readStr_fArr_skip, readStr_fArrOmit_skip, readStr_fOptOmit_skip, readStr_fOptNull_skip, readStr_fStr_last_skip, readStr_fStrOmit_last_skip, readStr_fArr_last_skip, readStr_fArrOmit_last_skip, readStr_fOptOmit_last_skip, readStr_fOptNull_last_skip, readStrList_fStr_skip, readStrList_fStrOmit_skip, readStrList_fArrOmit_skip, readStrList_fOptOmit_skip, readStrList_fOptNull_skip, readStrList_fStr_last_skip, readStrList_fStrOmit_last_skip, readStrList_fArrOmit_last_skip, readStrList_fOptOmit_last_skip, readStrList_fOptNull_last_skip, readOpt_fStr_skip, readOpt_fStrOmit_skip, readOpt_fArr_skip, readOpt_fArrOmit_skip, readOpt_fOptOmit_skip, readOpt_fOptNull_skip, readOpt_fStr_last_skip, readOpt_fStrOmit_last_skip, readOpt_fArr_last_skip, readOpt_fArrOmit_last_skip, readOpt_fOptOmit_last_skip, readOpt_fOptNull_last_skip, readList_fStr_skip, readList_fStrOmit_skip, readList_fArr_skip, readList_fArrOmit_skip, readList_fOptOmit_skip, readList_fOptNull_skip, readList_fStr_last_skip, readList_fStrOmit_last_skip, readList_fArr_last_skip, readList_fArrOmit_last_skip, readList_fOptOmit_last_skip, readList_fOptNull_last_skip]

@[simp] theorem readList_encSub_here {k : String} {rest} {xs : List Sub}
    (h : jLookup k rest = none) :
    readList decSub (fArrOmit k (xs.map encSub) ++ rest) k = some (xs.map clearSub) :=
  readList_fArrOmit_map h (fun y _ => rt_Sub y)

@[simp] theorem readList_encSub_last_here {k : String} {xs : List Sub} :
    readList decSub (fArrOmit k (xs.map encSub)) k = some (xs.map clearSub) :=
  readList_fArrOmit_last_map (fun y _ => rt_Sub y)

@[simp] theorem readOpt_encSub_here {k : String} {rest} {c : Option Sub}
    (h : jLookup k rest = none) :
    readOpt decSub (fOptOmit k (c.map encSub) ++ rest) k = some (c.map clearSub) :=
  readOpt_fOptOmit_map h encSub_obj (fun y _ => rt_Sub y)

@[simp] theorem readOpt_encSub_last_here {k : String} {c : Option Sub} :
    readOpt decSub (fOptOmit k (c.map encSub)) k = some (c.map clearSub) :=
  readOpt_fOptOmit_last_map encSub_obj (fun y _ => rt_Sub y)

structure Term where
  XMLName : Name
  Text : String

def encTerm (x : Term) : Json :=
  Json.obj (fStrOmit "text" x.Text)

def decTerm : Json → Option Term
  | Json.obj kvs =>
    obind (readStr kvs "text") fun a1 =>
    some ⟨emptyName, a1⟩
  | _ => none

def clearTerm (x : Term) : Term :=
  ⟨emptyName, x.Text⟩

theorem encTerm_obj (x : Term) : ∃ l, encTerm x = Json.obj l := ⟨_, rfl⟩

theorem rt_Term (x : Term) : decTerm (encTerm x) = some (clearTerm x) := by
  simp only [encTerm, decTerm, clearTerm, List.append_assoc, obind_some, ne_eq, not_false_eq_true, String.reduceEq, jLookup_nil, readStr_nil, readStrList_nil, readOpt_nil, readList_nil, jLookup_fStr_skip, jLookup_fStrOmit_skip, jLookup_fArr_skip, jLookup_fArrOmit_skip, jLookup_fOptOmit_skip, jLookup_fOptNull_skip, jLookup_fStr_last_skip, jLookup_fStrOmit_last_skip, jLookup_fArr_last_skip, jLookup_fArrOmit_last_skip, jLookup_fOptOmit_last_skip, jLookup_fOptNull_last_skip, readStr_fStr_here, readStr_fStr_last_here, readStr_fStrOmit_here, readStr_fStrOmit_last_here, readStrList_fArr_here, readStrList_fArr_last_here, readStr_fStr_skip, readStr_fStrOmit_skip, readStr_fArr_skip, readStr_fArrOmit_skip, readStr_fOptOmit_skip, readStr_fOptNull_skip, readStr_fStr_last_skip, readStr_fStrOmit_last_skip, readStr_fArr_last_skip, readStr_fArrOmit_last_skip, readStr_fOptOmit_last_skip, readStr_fOptNull_last_skip, readStrList_fStr_skip, readStrList_fStrOmit_skip, readStrList_fArrOmit_skip, readStrList_fOptOmit_skip, readStrList_fOptNull_skip, readStrList_fStr_last_skip, readStrList_fStrOmit_last_skip, readStrList_fArrOmit_last_skip, readStrList_fOptOmit_last_skip, readStrList_fOptNull_last_skip, readOpt_fStr_skip, readOpt_fStrOmit_skip, readOpt_fArr_skip, readOpt_fArrOmit_skip, readOpt_fOptOmit_skip, readOpt_fOptNull_skip, readOpt_fStr_last_skip, readOpt_fStrOmit_last_skip, readOpt_fArr_last_skip, readOpt_fArrOmit_last_skip, readOpt_fOptOmit_last_skip, readOpt_fOptNull_last_skip, readList_fStr_skip, readList_fStrOmit_skip, readList_fArr_skip, readList_fArrOmit_skip, readList_fOptOmit_skip, readList_fOptNull_skip, readList_fStr_last_skip, readList_fStrOmit_last_skip, readList_fArr_last_skip, readList_fArrOmit_last_skip, readList_fOptOmit_last_skip, readList_fOptNull_last_skip]

@[simp] theorem readList_encTerm_here {k : String} {rest} {xs : List Term}
    (h : jLookup k rest = none) :
    readList decTerm (fArrOmit k (xs.map encTerm) ++ rest) k = some (xs.map clearTerm) :=
  readList_fArrOmit_map h (fun y _ => rt_Term y)

@[simp] theorem readList_encTerm_last_here {k : String} {xs : List Term} :
    readList decTerm (fArrOmit k (xs.map encTerm)) k = some (xs.map clearTerm) :=
  readList_fArrOmit_last_map (fun y _ => rt_Term y)

@[simp] theorem readOpt_encTerm_here {k : String} {rest} {c : Option Term}
    (h : jLookup k rest = none) :
    readOpt decTerm (fOptOmit k (c.map encTerm) ++ rest) k = some (c.map clearTerm) :=
  readOpt_fOptOmit_map h encTerm_obj (fun y _ => rt_Term y)

@[simp] theorem readOpt_encTerm_last_here {k : String} {c : Option Term} :
    readOpt decTerm (fOptOmit k (c.map encTerm)) k = some (c.map clearTerm) :=
  readOpt_fOptOmit_last_map encTerm_obj (fun y _ => rt_Term y)

structure P where
  XMLName : Name
  Class : String
  Text : String

def encP (x : P) : Json :=
  Json.obj (fStrOmit "class" x.Class ++
    fStrOmit "text" x.Text)

def decP : Json → Option P
  | Json.obj kvs =>
    obind (readStr kvs "class") fun a1 =>
    obind (readStr kvs "text") fun a2 =>
    some ⟨emptyName, a1, a2⟩
  | _ => none

def clearP (x : P) : P :=
  ⟨emptyName, x.Class, x.Text⟩

theorem encP_obj (x : P) : ∃ l, encP x = Json.obj l := ⟨_, rfl⟩

theorem rt_P (x : P) : decP (encP x) = some (clearP x) := by
  simp only [encP, decP, clearP, List.append_assoc, obind_some, ne_eq, not_false_eq_true, String.reduceEq, jLookup_nil, readStr_nil, readStrList_nil, readOpt_nil, readList_nil, jLookup_fStr_skip, jLookup_fStrOmit_skip, jLookup_fArr_skip, jLookup_fArrOmit_skip, jLookup_fOptOmit_skip, jLookup_fOptNull_skip, jLookup_fStr_last_skip, jLookup_fStrOmit_last_skip, jLookup_fArr_last_skip, jLookup_fArrOmit_last_skip, jLookup_fOptOmit_last_skip, jLookup_fOptNull_last_skip, readStr_fStr_here, readStr_fStr_last_here, readStr_fStrOmit_here, readStr_fStrOmit_last_here, readStrList_fArr_here, readStrList_fArr_last_here, readStr_fStr_skip, readStr_fStrOmit_skip, readStr_fArr_skip, readStr_fArrOmit_skip, readStr_fOptOmit_skip, readStr_fOptNull_skip, readStr_fStr_last_skip, readStr_fStrOmit_last_skip, readStr_fArr_last_skip, readStr_fArrOmit_last_skip, readStr_fOptOmit_last_skip, readStr_fOptNull_last_skip, readStrList_fStr_skip, readStrList_fStrOmit_skip, readStrList_fArrOmit_skip, readStrList_fOptOmit_skip, readStrList_fOptNull_skip, readStrList_fStr_last_skip, readStrList_fStrOmit_last_skip, readStrList_fArrOmit_last_skip, readStrList_fOptOmit_last_skip, readStrList_fOptNull_last_skip, readOpt_fStr_skip, readOpt_fStrOmit_skip, readOpt_fArr_skip, readOpt_fArrOmit_skip, readOpt_fOptOmit_skip, readOpt_fOptNull_skip, readOpt_fStr_last_skip, readOpt_fStrOmit_last_skip, readOpt_fArr_last_skip, readOpt_fArrOmit_last_skip, readOpt_fOptOmit_last_skip, readOpt_fOptNull_last_skip, readList_fStr_skip, readList_fStrOmit_skip, readList_fArr_skip, readList_fArrOmit_skip, readList_fOptOmit_skip, readList_fOptNull_skip, readList_fStr_last_skip, readList_fStrOmit_last_skip, readList_fArr_last_skip, readList_fArrOmit_last_skip, readList_fOptOmit_last_skip, readList_fOptNull_last_skip]

@[simp] theorem readList_encP_here {k : String} {rest} {xs : List P}
    (h : jLookup k rest = none) :
    readList decP (fArrOmit k (xs.map encP) ++ rest) k = some (xs.map clearP) :=
  readList_fArrOmit_map h (fun y _ => rt_P y)

@[simp] theorem readList_encP_last_here {k : String} {xs : List P} :
    readList decP (fArrOmit k (xs.map encP)) k = some (xs.map clearP) :=
  readList_fArrOmit_last_map (fun y _ => rt_P y)

@[simp] theorem readOpt_encP_here {k : String} {rest} {c : Option P}
    (h : jLookup k rest = none) :
    readOpt decP (fOptOmit k (c.map encP) ++ rest) k = some (c.map clearP) :=
  readOpt_fOptOmit_map h encP_obj (fun y _ => rt_P y)

@[simp] theorem readOpt_encP_last_here {k : String} {c : Option P} :
    readOpt decP (fOptOmit k (c.map encP)) k = some (c.map clearP) :=
  readOpt_fOptOmit_last_map encP_obj (fun y _ => rt_P y)

structure ShortTitle where
  XMLName : Name
  Role : String
  Text : String

def encShortTitle (x : ShortTitle) : Json :=
  Json.obj (fStrOmit "role" x.Role ++
    fStrOmit "text" x.Text)

def decShortTitle : Json → Option ShortTitle
  | Json.obj kvs =>
    obind (readStr kvs "role") fun a1 =>
    obind (readStr kvs "text") fun a2 =>
    some ⟨emptyName, a1, a2⟩
  | _ => none

def clearShortTitle (x : ShortTitle) : ShortTitle :=
  ⟨emptyName, x.Role, x.Text⟩

theorem encShortTitle_obj (x : ShortTitle) : ∃ l, encShortTitle x = Json.obj l := ⟨_, rfl⟩

theorem rt_ShortTitle (x : ShortTitle) : decShortTitle (encShortTitle x) = some (clearShortTitle x) := by
  simp only [encShortTitle, decShortTitle, clearShortTitle, List.append_assoc, obind_some, ne_eq, not_false_eq_true, String.reduceEq, jLookup_nil, readStr_nil, readStrList_nil, readOpt_nil, readList_nil, jLookup_fStr_skip, jLookup_fStrOmit_skip, jLookup_fArr_skip, jLookup_fArrOmit_skip, jLookup_fOptOmit_skip, jLookup_fOptNull_skip, jLookup_fStr_last_skip, jLookup_fStrOmit_last_skip, jLookup_fArr_last_skip, jLookup_fArrOmit_last_skip, jLookup_fOptOmit_last_skip, jLookup_fOptNull_last_skip, readStr_fStr_here, readStr_fStr_last_here, readStr_fStrOmit_here, readStr_fStrOmit_last_here, readStrList_fArr_here, readStrList_fArr_last_here, readStr_fStr_skip, readStr_fStrOmit_skip, readStr_fArr_skip, readStr_fArrOmit_skip, readStr_fOptOmit_skip, readStr_fOptNull_skip, readStr_fStr_last_skip, readStr_fStrOmit_last_skip, readStr_fArr_last_skip, readStr_fArrOmit_last_skip, readStr_fOptOmit_last_skip, readStr_fOptNull_last_skip, readStrList_fStr_skip, readStrList_fStrOmit_skip, readStrList_fArrOmit_skip, readStrList_fOptOmit_skip, readStrList_fOptNull_skip, readStrList_fStr_last_skip, readStrList_fStrOmit_last_skip, readStrList_fArrOmit_last_skip, readStrList_fOptOmit_last_skip, readStrList_fOptNull_last_skip, readOpt_fStr_skip, readOpt_fStrOmit_skip, readOpt_fArr_skip, readOpt_fArrOmit_skip, readOpt_fOptOmit_skip, readOpt_fOptNull_skip, readOpt_fStr_last_skip, readOpt_fStrOmit_last_skip, readOpt_fArr_last_skip, readOpt_fArrOmit_last_skip, readOpt_fOptOmit_last_skip, readOpt_fOptNull_last_skip, readList_fStr_skip, readList_fStrOmit_skip, readList_fArr_skip, readList_fArrOmit_skip, readList_fOptOmit_skip, readList_fOptNull_skip, readList_fStr_last_skip, readList_fStrOmit_last_skip, readList_fArr_last_skip, readList_fArrOmit_last_skip, readList_fOptOmit_last_skip, readList_fOptNull_last_skip]

@[simp] theorem readList_encShortTitle_here {k : String} {rest} {xs : List ShortTitle}
    (h : jLookup k rest = none) :
    readList decShortTitle (fArrOmit k (xs.map encShortTitle) ++ rest) k = some (xs.map clearShortTitle) :=
  readList_fArrOmit_map h (fun y _ => rt_ShortTitle y)

@[simp] theorem readList_encShortTitle_last_here {k : String} {xs : List ShortTitle} :
    readList decShortTitle (fArrOmit k (xs.map encShortTitle)) k = some (xs.map clearShortTitle) :=
  readList_fArrOmit_last_map (fun y _ => rt_ShortTitle y)

@[simp] theorem readOpt_encShortTitle_here {k : String} {rest} {c : Option ShortTitle}
    (h : jLookup k rest = none) :
    readOpt decShortTitle (fOptOmit k (c.map encShortTitle) ++ rest) k = some (c.map clearShortTitle) :=
  readOpt_fOptOmit_map h encShortTitle_obj (fun y _ => rt_ShortTitle y)

@[simp] theorem readOpt_encShortTitle_last_here {k : String} {c : Option ShortTitle} :
    readOpt decShortTitle (fOptOmit k (c.map encShortTitle)) k = some (c.map clearShortTitle) :=
  readOpt_fOptOmit_last_map encShortTitle_obj (fun y _ => rt_ShortTitle y)

structure QuotedText where
  XMLName : Name
  Text : String

def encQuotedText (x : QuotedText) : Json :=
  Json.obj (fStrOmit "text" x.Text)

def decQuotedText : Json → Option QuotedText
  | Json.obj kvs =>
    obind (readStr kvs "text") fun a1 =>
    some ⟨emptyName, a1⟩
  | _ => none

def clearQuotedText (x : QuotedText) : QuotedText :=
  ⟨emptyName, x.Text⟩

theorem encQuotedText_obj (x : QuotedText) : ∃ l, encQuotedText x = Json.obj l := ⟨_, rfl⟩

theorem rt_QuotedText (x : QuotedText) : decQuotedText (encQuotedText x) = some (clearQuotedText x) := by
  simp only [encQuotedText, decQuotedText, clearQuotedText, List.append_assoc, obind_some, ne_eq, not_false_eq_true, String.reduceEq, jLookup_nil, readStr_nil, readStrList_nil, readOpt_nil, readList_nil, jLookup_fStr_skip, jLookup_fStrOmit_skip, jLookup_fArr_skip, jLookup_fArrOmit_skip, jLookup_fOptOmit_skip, jLookup_fOptNull_skip, jLookup_fStr_last_skip, jLookup_fStrOmit_last_skip, jLookup_fArr_last_skip, jLookup_fArrOmit_last_skip, jLookup_fOptOmit_last_skip, jLookup_fOptNull_last_skip, readStr_fStr_here, readStr_fStr_last_here, readStr_fStrOmit_here, readStr_fStrOmit_last_here, readStrList_fArr_here, readStrList_fArr_last_here, readStr_fStr_skip, readStr_fStrOmit_skip, readStr_fArr_skip, readStr_fArrOmit_skip, readStr_fOptOmit_skip, readStr_fOptNull_skip, readStr_fStr_last_skip, readStr_fStrOmit_last_skip, readStr_fArr_last_skip, readStr_fArrOmit_last_skip, readStr_fOptOmit_last_skip, readStr_fOptNull_last_skip, readStrList_fStr_skip, readStrList_fStrOmit_skip, readStrList_fArrOmit_skip, readStrList_fOptOmit_skip, readStrList_fOptNull_skip, readStrList_fStr_last_skip, readStrList_fStrOmit_last_skip, readStrList_fArrOmit_last_skip, readStrList_fOptOmit_last_skip, readStrList_fOptNull_last_skip, readOpt_fStr_skip, readOpt_fStrOmit_skip, readOpt_fArr_skip, readOpt_fArrOmit_skip, readOpt_fOptOmit_skip, readOpt_fOptNull_skip, readOpt_fStr_last_skip, readOpt_fStrOmit_last_skip, readOpt_fArr_last_skip, readOpt_fArrOmit_last_skip, readOpt_fOptOmit_last_skip, readOpt_fOptNull_last_skip, readList_fStr_skip, readList_fStrOmit_skip, readList_fArr_skip, readList_fArrOmit_skip, readList_fOptOmit_skip, readList_fOptNull_skip, readList_fStr_last_skip, readList_fStrOmit_last_skip, readList_fArr_last_skip, readList_fArrOmit_last_skip, readList_fOptOmit_last_skip, readList_fOptNull_last_skip]

@[simp] theorem readList_encQuotedText_here {k : String} {rest} {xs : List QuotedText}
    (h : jLookup k rest = none) :
    readList decQuotedText (fArrOmit k (xs.map encQuotedText) ++ rest) k = some (xs.map clearQuotedText) :=
  readList_fArrOmit_map h (fun y _ => rt_QuotedText y)

@[simp] theorem readList_encQuotedText_last_here {k : String} {xs : List QuotedText} :
    readList decQuotedText (fArrOmit k (xs.map encQuotedText)) k = some (xs.map clearQuotedText) :=
  readList_fArrOmit_last_map (fun y _ => rt_QuotedText y)

@[simp] theorem readOpt_encQuotedText_here {k : String} {rest} {c : Option QuotedText}
    (h : jLookup k rest = none) :
    readOpt decQuotedText (fOptOmit k (c.map encQuotedText) ++ rest) k = some (c.map clearQuotedText) :=
  readOpt_fOptOmit_map h encQuotedText_obj (fun y _ => rt_QuotedText y)

@[simp] theorem readOpt_encQuotedText_last_here {k : String} {c : Option QuotedText} :
    readOpt decQuotedText (fOptOmit k (c.map encQuotedText)) k = some (c.map clearQuotedText) :=
  readOpt_fOptOmit_last_map encQuotedText_obj (fun y _ => rt_QuotedText y)

structure AmendingAction where
  XMLName : Name
  Type' : String
  Text : String

def encAmendingAction (x : AmendingAction) : Json :=
  Json.obj (fStrOmit "type" x.Type' ++
    fStrOmit "text" x.Text)

def decAmendingAction : Json → Option AmendingAction
  | Json.obj kvs =>
    obind (readStr kvs "type") fun a1 =>
    obind (readStr kvs "text") fun a2 =>
    some ⟨emptyName, a1, a2⟩
  | _ => none

def clearAmendingAction (x : AmendingAction) : AmendingAction :=
  ⟨emptyName, x.Type', x.Text⟩

theorem encAmendingAction_obj (x : AmendingAction) : ∃ l, encAmendingAction x = Json.obj l := ⟨_, rfl⟩

theorem rt_AmendingAction (x : AmendingAction) : decAmendingAction (encAmendingAction x) = some (clearAmendingAction x) := by
  simp only [encAmendingAction, decAmendingAction, clearAmendingAction, List.append_assoc, obind_some, ne_eq, not_false_eq_true, String.reduceEq, jLookup_nil, readStr_nil, readStrList_nil, readOpt_nil, readList_nil, jLookup_fStr_skip, jLookup_fStrOmit_skip, jLookup_fArr_skip, jLookup_fArrOmit_skip, jLookup_fOptOmit_skip, jLookup_fOptNull_skip, jLookup_fStr_last_skip, jLookup_fStrOmit_last_skip, jLookup_fArr_last_skip, jLookup_fArrOmit_last_skip, jLookup_fOptOmit_last_skip, jLookup_fOptNull_last_skip, readStr_fStr_here, readStr_fStr_last_here, readStr_fStrOmit_here, readStr_fStrOmit_last_here, readStrList_fArr_here, readStrList_fArr_last_here, readStr_fStr_skip, readStr_fStrOmit_skip, readStr_fArr_skip, readStr_fArrOmit_skip, readStr_fOptOmit_skip, readStr_fOptNull_skip, readStr_fStr_last_skip, readStr_fStrOmit_last_skip, readStr_fArr_last_skip, readStr_fArrOmit_last_skip, readStr_fOptOmit_last_skip, readStr_fOptNull_last_skip, readStrList_fStr_skip, readStrList_fStrOmit_skip, readStrList_fArrOmit_skip, readStrList_fOptOmit_skip, readStrList_fOptNull_skip, readStrList_fStr_last_skip, readStrList_fStrOmit_last_skip, readStrList_fArrOmit_last_skip, readStrList_fOptOmit_last_skip, readStrList_fOptNull_last_skip, readOpt_fStr_skip, readOpt_fStrOmit_skip, readOpt_fArr_skip, readOpt_fArrOmit_skip, readOpt_fOptOmit_skip, readOpt_fOptNull_skip, readOpt_fStr_last_skip, readOpt_fStrOmit_last_skip, readOpt_fArr_last_skip, readOpt_fArrOmit_last_skip, readOpt_fOptOmit_last_skip, readOpt_fOptNull_last_skip, readList_fStr_skip, readList_fStrOmit_skip, readList_fArr_skip, readList_fArrOmit_skip, readList_fOptOmit_skip, readList_fOptNull_skip, readList_fStr_last_skip, readList_fStrOmit_last_skip, readList_fArr_last_skip, readList_fArrOmit_last_skip, readList_fOptOmit_last_skip, readList_fOptNull_last_skip]

@[simp] theorem readList_encAmendingAction_here {k : String} {rest} {xs : List AmendingAction}
    (h : jLookup k rest = none) :
    readList decAmendingAction (fArrOmit k (xs.map encAmendingAction) ++ rest) k = some (xs.map clearAmendingAction) :=
  readList_fArrOmit_map h (fun y _ => rt_AmendingAction y)

@[simp] theorem readList_encAmendingAction_last_here {k : String} {xs : List AmendingAction} :
    readList decAmendingAction (fArrOmit k (xs.map encAmendingAction)) k = some (xs.map clearAmendingAction) :=
  readList_fArrOmit_last_map (fun y _ => rt_AmendingAction y)

@[simp] theorem readOpt_encAmendingAction_here {k : String} {rest} {c : Option AmendingAction}
    (h : jLookup k rest = none) :
    readOpt decAmendingAction (fOptOmit k (c.map encAmendingAction) ++ rest) k = some (c.map clearAmendingAction) :=
  readOpt_fOptOmit_map h encAmendingAction_obj (fun y _ => rt_AmendingAction y)

@[simp] theorem readOpt_encAmendingAction_last_here {k : String} {c : Option AmendingAction} :
    readOpt decAmendingAction (fOptOmit k (c.map encAmendingAction)) k = some (c.map clearAmendingAction) :=
  readOpt_fOptOmit_last_map encAmendingAction_obj (fun y _ => rt_AmendingAction y)

structure Num where
  XMLName : Name
  Value : String
  Text : String

def encNum (x : Num) : Json :=
  Json.obj (fStrOmit "value" x.Value ++
    fStrOmit "text" x.Text)

def decNum : Json → Option Num
  | Json.obj kvs =>
    obind (readStr kvs "value") fun a1 =>
    obind (readStr kvs "text") fun a2 =>
    some ⟨emptyName, a1, a2⟩
  | _ => none

def clearNum (x : Num) : Num :=
  ⟨emptyName, x.Value, x.Text⟩

theorem encNum_obj (x : Num) : ∃ l, encNum x = Json.obj l := ⟨_, rfl⟩

theorem rt_Num (x : Num) : decNum (encNum x) = some (clearNum x) := by
  simp only [encNum, decNum, clearNum, List.append_assoc, obind_some, ne_eq, not_false_eq_true, String.reduceEq, jLookup_nil, readStr_nil, readStrList_nil, readOpt_nil, readList_nil, jLookup_fStr_skip, jLookup_fStrOmit_skip, jLookup_fArr_skip, jLookup_fArrOmit_skip, jLookup_fOptOmit_skip, jLookup_fOptNull_skip, jLookup_fStr_last_skip, jLookup_fStrOmit_last_skip, jLookup_fArr_last_skip, jLookup_fArrOmit_last_skip, jLookup_fOptOmit_last_skip, jLookup_fOptNull_last_skip, readStr_fStr_here, readStr_fStr_last_here, readStr_fStrOmit_here, readStr_fStrOmit_last_here, readStrList_fArr_here, readStrList_fArr_last_here, readStr_fStr_skip, readStr_fStrOmit_skip, readStr_fArr_skip, readStr_fArrOmit_skip, readStr_fOptOmit_skip, readStr_fOptNull_skip, readStr_fStr_last_skip, readStr_fStrOmit_last_skip, readStr_fArr_last_skip, readStr_fArrOmit_last_skip, readStr_fOptOmit_last_skip, readStr_fOptNull_last_skip, readStrList_fStr_skip, readStrList_fStrOmit_skip, readStrList_fArrOmit_skip, readStrList_fOptOmit_skip, readStrList_fOptNull_skip, readStrList_fStr_last_skip, readStrList_fStrOmit_last_skip, readStrList_fArrOmit_last_skip, readStrList_fOptOmit_last_skip, readStrList_fOptNull_last_skip, readOpt_fStr_skip, readOpt_fStrOmit_skip, readOpt_fArr_skip, readOpt_fArrOmit_skip, readOpt_fOptOmit_skip, readOpt_fOptNull_skip, readOpt_fStr_last_skip, readOpt_fStrOmit_last_skip, readOpt_fArr_last_skip, readOpt_fArrOmit_last_skip, readOpt_fOptOmit_last_skip, readOpt_fOptNull_last_skip, readList_fStr_skip, readList_fStrOmit_skip, readList_fArr_skip, readList_fArrOmit_skip, readList_fOptOmit_skip, readList_fOptNull_skip, readList_fStr_last_skip, readList_fStrOmit_last_skip, readList_fArr_last_skip, readList_fArrOmit_last_skip, readList_fOptOmit_last_skip, readList_fOptNull_last_skip]

@[simp] theorem readList_encNum_here {k : String} {rest} {xs : List Num}
    (h : jLookup k rest = none) :
    readList decNum (fArrOmit k (xs.map encNum) ++ rest) k = some (xs.map clearNum) :=
  readList_fArrOmit_map h (fun y _ => rt_Num y)

@[simp] theorem readList_encNum_last_here {k : String} {xs : List Num} :
    readList decNum (fArrOmit k (xs.map encNum)) k = some (xs.map clearNum) :=
  readList_fArrOmit_last_map (fun y _ => rt_Num y)

@[simp] theorem readOpt_encNum_here {k : String} {rest} {c : Option Num}
    (h : jLookup k rest = none) :
    readOpt decNum (fOptOmit k (c.map encNum) ++ rest) k = some (c.map clearNum) :=
  readOpt_fOptOmit_map h encNum_obj (fun y _ => rt_Num y)

@[simp] theorem readOpt_encNum_last_here {k : String} {c : Option Num} :
    readOpt decNum (fOptOmit k (c.map encNum)) k = some (c.map clearNum) :=
  readOpt_fOptOmit_last_map encNum_obj (fun y _ => rt_Num y)

structure Heading where
  XMLName : Name
  Class : String
  Text : String
  Inline : List Inline

def encHeading (x : Heading) : Json :=
  Json.obj (fStrOmit "class" x.Class ++
    fStrOmit "text" x.Text ++
    fArrOmit "inline" (x.Inline.map encInline))

def decHeading : Json → Option Heading
  | Json.obj kvs =>
    obind (readStr kvs "class") fun a1 =>
    obind (readStr kvs "text") fun a2 =>
    obind (readList decInline kvs "inline") fun a3 =>
    some ⟨emptyName, a1, a2, a3⟩
  | _ => none

def clearHeading (x : Heading) : Heading :=
  ⟨emptyName, x.Class, x.Text, x.Inline.map clearInline⟩

theorem encHeading_obj (x : Heading) : ∃ l, encHeading x = Json.obj l := ⟨_, rfl⟩

theorem rt_Heading (x : Heading) : decHeading (encHeading x) = some (clearHeading x) := by
  simp only [encHeading, decHeading, clearHeading, List.append_assoc, obind_some, ne_eq, not_false_eq_true, String.reduceEq, jLookup_nil, readStr_nil, readStrList_nil, readOpt_nil, readList_nil, jLookup_fStr_skip, jLookup_fStrOmit_skip, jLookup_fArr_skip, jLookup_fArrOmit_skip, jLookup_fOptOmit_skip, jLookup_fOptNull_skip, jLookup_fStr_last_skip, jLookup_fStrOmit_last_skip, jLookup_fArr_last_skip, jLookup_fArrOmit_last_skip, jLookup_fOptOmit_last_skip, jLookup_fOptNull_last_skip, readStr_fStr_here, readStr_fStr_last_here, readStr_fStrOmit_here, readStr_fStrOmit_last_here, readStrList_fArr_here, readStrList_fArr_last_here, readStr_fStr_skip, readStr_fStrOmit_skip, readStr_fArr_skip, readStr_fArrOmit_skip, readStr_fOptOmit_skip, readStr_fOptNull_skip, readStr_fStr_last_skip, readStr_fStrOmit_last_skip, readStr_fArr_last_skip, readStr_fArrOmit_last_skip, readStr_fOptOmit_last_skip, readStr_fOptNull_last_skip, readStrList_fStr_skip, readStrList_fStrOmit_skip, readStrList_fArrOmit_skip, readStrList_fOptOmit_skip, readStrList_fOptNull_skip, readStrList_fStr_last_skip, readStrList_fStrOmit_last_skip, readStrList_fArrOmit_last_skip, readStrList_fOptOmit_last_skip, readStrList_fOptNull_last_skip, readOpt_fStr_skip, readOpt_fStrOmit_skip, readOpt_fArr_skip, readOpt_fArrOmit_skip, readOpt_fOptOmit_skip, readOpt_fOptNull_skip, readOpt_fStr_last_skip, readOpt_fStrOmit_last_skip, readOpt_fArr_last_skip, readOpt_fArrOmit_last_skip, readOpt_fOptOmit_last_skip, readOpt_fOptNull_last_skip, readList_fStr_skip, readList_fStrOmit_skip, readList_fArr_skip, readList_fArrOmit_skip, readList_fOptOmit_skip, readList_fOptNull_skip, readList_fStr_last_skip, readList_fStrOmit_last_skip, readList_fArr_last_skip, readList_fArrOmit_last_skip, readList_fOptOmit_last_skip, readList_fOptNull_last_skip, readList_encInline_here, readList_encInline_last_here, readOpt_encInline_here, readOpt_encInline_last_here]

@[simp] theorem readList_encHeading_here {k : String} {rest} {xs : List Heading}
    (h : jLookup k rest = none) :
    readList decHeading (fArrOmit k (xs.map encHeading) ++ rest) k = some (xs.map clearHeading) :=
  readList_fArrOmit_map h (fun y _ => rt_Heading y)

@[simp] theorem readList_encHeading_last_here {k : String} {xs : List Heading} :
    readList decHeading (fArrOmit k (xs.map encHeading)) k = some (xs.map clearHeading) :=
  readList_fArrOmit_last_map (fun y _ => rt_Heading y)

@[simp] theorem readOpt_encHeading_here {k : String} {rest} {c : Option Heading}
    (h : jLookup k rest = none) :
    readOpt decHeading (fOptOmit k (c.map encHeading) ++ rest) k = some (c.map clearHeading) :=
  readOpt_fOptOmit_map h encHeading_obj (fun y _ => rt_Heading y)

@[simp] theorem readOpt_encHeading_last_here {k : String} {c : Option Heading} :
    readOpt decHeading (fOptOmit k (c.map encHeading)) k = some (c.map clearHeading) :=
  readOpt_fOptOmit_last_map encHeading_obj (fun y _ => rt_Heading y)

structure RelatedDocument where
  XMLName : Name
  Role : String
  Href : String
  Text : String

def encRelatedDocument (x : RelatedDocument) : Json :=
  Json.obj (fStrOmit "role" x.Role ++
    fStrOmit "href" x.Href ++
    fStrOmit "text" x.Text)

def decRelatedDocument : Json → Option RelatedDocument
  | Json.obj kvs =>
    obind (readStr kvs "role") fun a1 =>
    obind (readStr kvs "href") fun a2 =>
    obind (readStr kvs "text") fun a3 =>
    some ⟨emptyName, a1, a2, a3⟩
  | _ => none

def clearRelatedDocument (x : RelatedDocument) : RelatedDocument :=
  ⟨emptyName, x.Role, x.Href, x.Text⟩

theorem encRelatedDocument_obj (x : RelatedDocument) : ∃ l, encRelatedDocument x = Json.obj l := ⟨_, rfl⟩

theorem rt_RelatedDocument (x : RelatedDocument) : decRelatedDocument (encRelatedDocument x) = some (clearRelatedDocument x) := by
  simp only [encRelatedDocument, decRelatedDocument, clearRelatedDocument, List.append_assoc, obind_some, ne_eq, not_false_eq_true, String.reduceEq, jLookup_nil, readStr_nil, readStrList_nil, readOpt_nil, readList_nil, jLookup_fStr_skip, jLookup_fStrOmit_skip, jLookup_fArr_skip, jLookup_fArrOmit_skip, jLookup_fOptOmit_skip, jLookup_fOptNull_skip, jLookup_fStr_last_skip, jLookup_fStrOmit_last_skip, jLookup_fArr_last_skip, jLookup_fArrOmit_last_skip, jLookup_fOptOmit_last_skip, jLookup_fOptNull_last_skip, readStr_fStr_here, readStr_fStr_last_here, readStr_fStrOmit_here, readStr_fStrOmit_last_here, readStrList_fArr_here, readStrList_fArr_last_here, readStr_fStr_skip, readStr_fStrOmit_skip, readStr_fArr_skip, readStr_fArrOmit_skip, readStr_fOptOmit_skip, readStr_fOptNull_skip, readStr_fStr_last_skip, readStr_fStrOmit_last_skip, readStr_fArr_last_skip, readStr_fArrOmit_last_skip, readStr_fOptOmit_last_skip, readStr_fOptNull_last_skip, readStrList_fStr_skip, readStrList_fStrOmit_skip, readStrList_fArrOmit_skip, readStrList_fOptOmit_skip, readStrList_fOptNull_skip, readStrList_fStr_last_skip, readStrList_fStrOmit_last_skip, readStrList_fArrOmit_last_skip, readStrList_fOptOmit_last_skip, readStrList_fOptNull_last_skip, readOpt_fStr_skip, readOpt_fStrOmit_skip, readOpt_fArr_skip, readOpt_fArrOmit_skip, readOpt_fOptOmit_skip, readOpt_fOptNull_skip, readOpt_fStr_last_skip, readOpt_fStrOmit_last_skip, readOpt_fArr_last_skip, readOpt_fArrOmit_last_skip, readOpt_fOptOmit_last_skip, readOpt_fOptNull_last_skip, readList_fStr_skip, readList_fStrOmit_skip, readList_fArr_skip, readList_fArrOmit_skip, readList_fOptOmit_skip, readList_fOptNull_skip, readList_fStr_last_skip, readList_fStrOmit_last_skip, readList_fArr_last_skip, readList_fArrOmit_last_skip, readList_fOptOmit_last_skip, readList_fOptNull_last_skip]

@[simp] theorem readList_encRelatedDocument_here {k : String} {rest} {xs : List RelatedDocument}
    (h : jLookup k rest = none) :
    readList decRelatedDocument (fArrOmit k (xs.map encRelatedDocument) ++ rest) k = some (xs.map clearRelatedDocument) :=
  readList_fArrOmit_map h (fun y _ => rt_RelatedDocument y)

@[simp] theorem readList_encRelatedDocument_last_here {k : String} {xs : List RelatedDocument} :
    readList decRelatedDocument (fArrOmit k (xs.map encRelatedDocument)) k = some (xs.map clearRelatedDocument) :=
  readList_fArrOmit_last_map (fun y _ => rt_RelatedDocument y)

@[simp] theorem readOpt_encRelatedDocument_here {k : String} {rest} {c : Option RelatedDocument}
    (h : jLookup k rest = none) :
    readOpt decRelatedDocument (fOptOmit k (c.map encRelatedDocument) ++ rest) k = some (c.map clearRelatedDocument) :=
  readOpt_fOptOmit_map h encRelatedDocument_obj (fun y _ => rt_RelatedDocument y)

@[simp] theorem readOpt_encRelatedDocument_last_here {k : String} {c : Option RelatedDocument} :
    readOpt decRelatedDocument (fOptOmit k (c.map encRelatedDocument)) k = some (c.map clearRelatedDocument) :=
  readOpt_fOptOmit_last_map encRelatedDocument_obj (fun y _ => rt_RelatedDocument y)

structure DistributionCode where
  XMLName : Name
  Display : String
  Text : String

def encDistributionCode (x : DistributionCode) : Json :=
  Json.obj (fStrOmit "display" x.Display ++
    fStrOmit "text" x.Text)

def decDistributionCode : Json → Option DistributionCode
  | Json.obj kvs =>
    obind (readStr kvs "display") fun a1 =>
    obind (readStr kvs "text") fun a2 =>
    some ⟨emptyName, a1, a2⟩
  | _ => none

def clearDistributionCode (x : DistributionCode) : DistributionCode :=
  ⟨emptyName, x.Display, x.Text⟩

theorem encDistributionCode_obj (x : DistributionCode) : ∃ l, encDistributionCode x = Json.obj l := ⟨_, rfl⟩

theorem rt_DistributionCode (x : DistributionCode) : decDistributionCode (encDistributionCode x) = some (clearDistributionCode x) := by
  simp only [encDistributionCode, decDistributionCode, clearDistributionCode, List.append_assoc, obind_some, ne_eq, not_false_eq_true, String.reduceEq, jLookup_nil, readStr_nil, readStrList_nil, readOpt_nil, readList_nil, jLookup_fStr_skip, jLookup_fStrOmit_skip, jLookup_fArr_skip, jLookup_fArrOmit_skip, jLookup_fOptOmit_skip, jLookup_fOptNull_skip, jLookup_fStr_last_skip, jLookup_fStrOmit_last_skip, jLookup_fArr_last_skip, jLookup_fArrOmit_last_skip, jLookup_fOptOmit_last_skip, jLookup_fOptNull_last_skip, readStr_fStr_here, readStr_fStr_last_here, readStr_fStrOmit_here, readStr_fStrOmit_last_here, readStrList_fArr_here, readStrList_fArr_last_here, readStr_fStr_skip, readStr_fStrOmit_skip, readStr_fArr_skip, readStr_fArrOmit_skip, readStr_fOptOmit_skip, readStr_fOptNull_skip, readStr_fStr_last_skip, readStr_fStrOmit_last_skip, readStr_fArr_last_skip, readStr_fArrOmit_last_skip, readStr_fOptOmit_last_skip, readStr_fOptNull_last_skip, readStrList_fStr_skip, readStrList_fStrOmit_skip, readStrList_fArrOmit_skip, readStrList_fOptOmit_skip, readStrList_fOptNull_skip, readStrList_fStr_last_skip, readStrList_fStrOmit_last_skip, readStrList_fArrOmit_last_skip, readStrList_fOptOmit_last_skip, readStrList_fOptNull_last_skip, readOpt_fStr_skip, readOpt_fStrOmit_skip, readOpt_fArr_skip, readOpt_fArrOmit_skip, readOpt_fOptOmit_skip, readOpt_fOptNull_skip, readOpt_fStr_last_skip, readOpt_fStrOmit_last_skip, readOpt_fArr_last_skip, readOpt_fArrOmit_last_skip, readOpt_fOptOmit_last_skip, readOpt_fOptNull_last_skip, readList_fStr_skip, readList_fStrOmit_skip, readList_fArr_skip, readList_fArrOmit_skip, readList_fOptOmit_skip, readList_fOptNull_skip, readList_fStr_last_skip, readList_fStrOmit_last_skip, readList_fArr_last_skip, readList_fArrOmit_last_skip, readList_fOptOmit_last_skip, readList_fOptNull_last_skip]

@[simp] theorem readList_encDistributionCode_here {k : String} {rest} {xs : List DistributionCode}
    (h : jLookup k rest = none) :
    readList decDistributionCode (fArrOmit k (xs.map encDistributionCode) ++ rest) k = some (xs.map clearDistributionCode) :=
  readList_fArrOmit_map h (fun y _ => rt_DistributionCode y)

@[simp] theorem readList_encDistributionCode_last_here {k : String} {xs : List DistributionCode} :
    readList decDistributionCode (fArrOmit k (xs.map encDistributionCode)) k = some (xs.map clearDistributionCode) :=
  readList_fArrOmit_last_map (fun y _ => rt_DistributionCode y)

@[simp] theorem readOpt_encDistributionCode_here {k : String} {rest} {c : Option DistributionCode}
    (h : jLookup k rest = none) :
    readOpt decDistributionCode (fOptOmit k (c.map encDistributionCode) ++ rest) k = some (c.map clearDistributionCode) :=
  readOpt_fOptOmit_map h encDistributionCode_obj (fun y _ => rt_DistributionCode y)

@[simp] theorem readOpt_encDistributionCode_last_here {k : String} {c : Option DistributionCode} :
    readOpt decDistributionCode (fOptOmit k (c.map encDistributionCode)) k = some (c.map clearDistributionCode) :=
  readOpt_fOptOmit_last_map encDistributionCode_obj (fun y _ => rt_DistributionCode y)

structure CongressElement where
  XMLName : Name
  Value : String
  Text : String

def encCongressElement (x : CongressElement) : Json :=
  Json.obj (fStrOmit "value" x.Value ++
    fStrOmit "text" x.Text)

def decCongressElement : Json → Option CongressElement
  | Json.obj kvs =>
    obind (readStr kvs "value") fun a1 =>
    obind (readStr kvs "text") fun a2 =>
    some ⟨emptyName, a1, a2⟩
  | _ => none

def clearCongressElement (x : CongressElement) : CongressElement :=
  ⟨emptyName, x.Value, x.Text⟩

theorem encCongressElement_obj (x : CongressElement) : ∃ l, encCongressElement x = Json.obj l := ⟨_, rfl⟩

theorem rt_CongressElement (x : CongressElement) : decCongressElement (encCongressElement x) = some (clearCongressElement x) := by
  simp only [encCongressElement, decCongressElement, clearCongressElement, List.append_assoc, obind_some, ne_eq, not_false_eq_true, String.reduceEq, jLookup_nil, readStr_nil, readStrList_nil, readOpt_nil, readList_nil, jLookup_fStr_skip, jLookup_fStrOmit_skip, jLookup_fArr_skip, jLookup_fArrOmit_skip, jLookup_fOptOmit_skip, jLookup_fOptNull_skip, jLookup_fStr_last_skip, jLookup_fStrOmit_last_skip, jLookup_fArr_last_skip, jLookup_fArrOmit_last_skip, jLookup_fOptOmit_last_skip, jLookup_fOptNull_last_skip, readStr_fStr_here, readStr_fStr_last_here, readStr_fStrOmit_here, readStr_fStrOmit_last_here, readStrList_fArr_here, readStrList_fArr_last_here, readStr_fStr_skip, readStr_fStrOmit_skip, readStr_fArr_skip, readStr_fArrOmit_skip, readStr_fOptOmit_skip, readStr_fOptNull_skip, readStr_fStr_last_skip, readStr_fStrOmit_last_skip, readStr_fArr_last_skip, readStr_fArrOmit_last_skip, readStr_fOptOmit_last_skip, readStr_fOptNull_last_skip, readStrList_fStr_skip, readStrList_fStrOmit_skip, readStrList_fArrOmit_skip, readStrList_fOptOmit_skip, readStrList_fOptNull_skip, readStrList_fStr_last_skip, readStrList_fStrOmit_last_skip, readStrList_fArrOmit_last_skip, readStrList_fOptOmit_last_skip, readStrList_fOptNull_last_skip, readOpt_fStr_skip, readOpt_fStrOmit_skip, readOpt_fArr_skip, readOpt_fArrOmit_skip, readOpt_fOptOmit_skip, readOpt_fOptNull_skip, readOpt_fStr_last_skip, readOpt_fStrOmit_last_skip, readOpt_fArr_last_skip, readOpt_fArrOmit_last_skip, readOpt_fOptOmit_last_skip, readOpt_fOptNull_last_skip, readList_fStr_skip, readList_fStrOmit_skip, readList_fArr_skip, readList_fArrOmit_skip, readList_fOptOmit_skip, readList_fOptNull_skip, readList_fStr_last_skip, readList_fStrOmit_last_skip, readList_fArr_last_skip, readList_fArrOmit_last_skip, readList_fOptOmit_last_skip, readList_fOptNull_last_skip]

@[simp] theorem readList_encCongressElement_here {k : String} {rest} {xs : List CongressElement}
    (h : jLookup k rest = none) :
    readList decCongressElement (fArrOmit k (xs.map encCongressElement) ++ rest) k = some (xs.map clearCongressElement) :=
  readList_fArrOmit_map h (fun y _ => rt_CongressElement y)

@[simp] theorem readList_encCongressElement_last_here {k : String} {xs : List CongressElement} :
    readList decCongressElement (fArrOmit k (xs.map encCongressElement)) k = some (xs.map clearCongressElement) :=
  readList_fArrOmit_last_map (fun y _ => rt_CongressElement y)

@[simp] theorem readOpt_encCongressElement_here {k : String} {rest} {c : Option CongressElement}
    (h : jLookup k rest = none) :
    readOpt decCongressElement (fOptOmit k (c.map encCongressElement) ++ rest) k = some (c.map clearCongressElement) :=
  readOpt_fOptOmit_map h encCongressElement_obj (fun y _ => rt_CongressElement y)

@[simp] theorem readOpt_encCongressElement_last_here {k : String} {c : Option CongressElement} :
    readOpt decCongressElement (fOptOmit k (c.map encCongressElement)) k = some (c.map clearCongressElement) :=
  readOpt_fOptOmit_last_map encCongressElement_obj (fun y _ => rt_CongressElement y)

structure SessionElement where
  XMLName : Name
  Value : String
  Text : String

def encSessionElement (x : SessionElement) : Json :=
  Json.obj (fStrOmit "value" x.Value ++
    fStrOmit "text" x.Text)

def decSessionElement : Json → Option SessionElement
  | Json.obj kvs =>
    obind (readStr kvs "value") fun a1 =>
    obind (readStr kvs "text") fun a2 =>
    some ⟨emptyName, a1, a2⟩
  | _ => none

def clearSessionElement (x : SessionElement) : SessionElement :=
  ⟨emptyName, x.Value, x.Text⟩

theorem encSessionElement_obj (x : SessionElement) : ∃ l, encSessionElement x = Json.obj l := ⟨_, rfl⟩

theorem rt_SessionElement (x : SessionElement) : decSessionElement (encSessionElement x) = some (clearSessionElement x) := by
  simp only [encSessionElement, decSessionElement, clearSessionElement, List.append_assoc, obind_some, ne_eq, not_false_eq_true, String.reduceEq, jLookup_nil, readStr_nil, readStrList_nil, readOpt_nil, readList_nil, jLookup_fStr_skip, jLookup_fStrOmit_skip, jLookup_fArr_skip, jLookup_fArrOmit_skip, jLookup_fOptOmit_skip, jLookup_fOptNull_skip, jLookup_fStr_last_skip, jLookup_fStrOmit_last_skip, jLookup_fArr_last_skip, jLookup_fArrOmit_last_skip, jLookup_fOptOmit_last_skip, jLookup_fOptNull_last_skip, readStr_fStr_here, readStr_fStr_last_here, readStr_fStrOmit_here, readStr_fStrOmit_last_here, readStrList_fArr_here, readStrList_fArr_last_here, readStr_fStr_skip, readStr_fStrOmit_skip, readStr_fArr_skip, readStr_fArrOmit_skip, readStr_fOptOmit_skip, readStr_fOptNull_skip, readStr_fStr_last_skip, readStr_fStrOmit_last_skip, readStr_fArr_last_skip, readStr_fArrOmit_last_skip, readStr_fOptOmit_last_skip, readStr_fOptNull_last_skip, readStrList_fStr_skip, readStrList_fStrOmit_skip, readStrList_fArrOmit_skip, readStrList_fOptOmit_skip, readStrList_fOptNull_skip, readStrList_fStr_last_skip, readStrList_fStrOmit_last_skip, readStrList_fArrOmit_last_skip, readStrList_fOptOmit_last_skip, readStrList_fOptNull_last_skip, readOpt_fStr_skip, readOpt_fStrOmit_skip, readOpt_fArr_skip, readOpt_fArrOmit_skip, readOpt_fOptOmit_skip, readOpt_fOptNull_skip, readOpt_fStr_last_skip, readOpt_fStrOmit_last_skip, readOpt_fArr_last_skip, readOpt_fArrOmit_last_skip, readOpt_fOptOmit_last_skip, readOpt_fOptNull_last_skip, readList_fStr_skip, readList_fStrOmit_skip, readList_fArr_skip, readList_fArrOmit_skip, readList_fOptOmit_skip, readList_fOptNull_skip, readList_fStr_last_skip, readList_fStrOmit_last_skip, readList_fArr_last_skip, readList_fArrOmit_last_skip, readList_fOptOmit_last_skip, readList_fOptNull_last_skip]

@[simp] theorem readList_encSessionElement_here {k : String} {rest} {xs : List SessionElement}
    (h : jLookup k rest = none) :
    readList decSessionElement (fArrOmit k (xs.map encSessionElement) ++ rest) k = some (xs.map clearSessionElement) :=
  readList_fArrOmit_map h (fun y _ => rt_SessionElement y)

@[simp] theorem readList_encSessionElement_last_here {k : String} {xs : List SessionElement} :
    readList decSessionElement (fArrOmit k (xs.map encSessionElement)) k = some (xs.map clearSessionElement) :=
  readList_fArrOmit_last_map (fun y _ => rt_SessionElement y)

@[simp] theorem readOpt_encSessionElement_here {k : String} {rest} {c : Option SessionElement}
    (h : jLookup k rest = none) :
    readOpt decSessionElement (fOptOmit k (c.map encSessionElement) ++ rest) k = some (c.map clearSessionElement) :=
  readOpt_fOptOmit_map h encSessionElement_obj (fun y _ => rt_SessionElement y)

@[simp] theorem readOpt_encSessionElement_last_here {k : String} {c : Option SessionElement} :
    readOpt decSessionElement (fOptOmit k (c.map encSessionElement)) k = some (c.map clearSessionElement) :=
  readOpt_fOptOmit_last_map encSessionElement_obj (fun y _ => rt_SessionElement y)

structure CurrentChamber where
  XMLName : Name
  Value : String
  Text : String

def encCurrentChamber (x : CurrentChamber) : Json :=
  Json.obj (fStrOmit "value" x.Value ++
    fStrOmit "text" x.Text)

def decCurrentChamber : Json → Option CurrentChamber
  | Json.obj kvs =>
    obind (readStr kvs "value") fun a1 =>
    obind (readStr kvs "text") fun a2 =>
    some ⟨emptyName, a1, a2⟩
  | _ => none

def clearCurrentChamber (x : CurrentChamber) : CurrentChamber :=
  ⟨emptyName, x.Value, x.Text⟩

theorem encCurrentChamber_obj (x : CurrentChamber) : ∃ l, encCurrentChamber x = Json.obj l := ⟨_, rfl⟩

theorem rt_CurrentChamber (x : CurrentChamber) : decCurrentChamber (encCurrentChamber x) = some (clearCurrentChamber x) := by
  simp only [encCurrentChamber, decCurrentChamber, clearCurrentChamber, List.append_assoc, obind_some, ne_eq, not_false_eq_true, String.reduceEq, jLookup_nil, readStr_nil, readStrList_nil, readOpt_nil, readList_nil, jLookup_fStr_skip, jLookup_fStrOmit_skip, jLookup_fArr_skip, jLookup_fArrOmit_skip, jLookup_fOptOmit_skip, jLookup_fOptNull_skip, jLookup_fStr_last_skip, jLookup_fStrOmit_last_skip, jLookup_fArr_last_skip, jLookup_fArrOmit_last_skip, jLookup_fOptOmit_last_skip, jLookup_fOptNull_last_skip, readStr_fStr_here, readStr_fStr_last_here, readStr_fStrOmit_here, readStr_fStrOmit_last_here, readStrList_fArr_here, readStrList_fArr_last_here, readStr_fStr_skip, readStr_fStrOmit_skip, readStr_fArr_skip, readStr_fArrOmit_skip, readStr_fOptOmit_skip, readStr_fOptNull_skip, readStr_fStr_last_skip, readStr_fStrOmit_last_skip, readStr_fArr_last_skip, readStr_fArrOmit_last_skip, readStr_fOptOmit_last_skip, readStr_fOptNull_last_skip, readStrList_fStr_skip, readStrList_fStrOmit_skip, readStrList_fArrOmit_skip, readStrList_fOptOmit_skip, readStrList_fOptNull_skip, readStrList_fStr_last_skip, readStrList_fStrOmit_last_skip, readStrList_fArrOmit_last_skip, readStrList_fOptOmit_last_skip, readStrList_fOptNull_last_skip, readOpt_fStr_skip, readOpt_fStrOmit_skip, readOpt_fArr_skip, readOpt_fArrOmit_skip, readOpt_fOptOmit_skip, readOpt_fOptNull_skip, readOpt_fStr_last_skip, readOpt_fStrOmit_last_skip, readOpt_fArr_last_skip, readOpt_fArrOmit_last_skip, readOpt_fOptOmit_last_skip, readOpt_fOptNull_last_skip, readList_fStr_skip, readList_fStrOmit_skip, readList_fArr_skip, readList_fArrOmit_skip, readList_fOptOmit_skip, readList_fOptNull_skip, readList_fStr_last_skip, readList_fStrOmit_last_skip, readList_fArr_last_skip, readList_fArrOmit_last_skip, readList_fOptOmit_last_skip, readList_fOptNull_last_skip]

@[simp] theorem readList_encCurrentChamber_here {k : String} {rest} {xs : List CurrentChamber}
    (h : jLookup k rest = none) :
    readList decCurrentChamber (fArrOmit k (xs.map encCurrentChamber) ++ rest) k = some (xs.map clearCurrentChamber) :=
  readList_fArrOmit_map h (fun y _ => rt_CurrentChamber y)

@[simp] theorem readList_encCurrentChamber_last_here {k : String} {xs : List CurrentChamber} :
    readList decCurrentChamber (fArrOmit k (xs.map encCurrentChamber)) k = some (xs.map clearCurrentChamber) :=
  readList_fArrOmit_last_map (fun y _ => rt_CurrentChamber y)

@[simp] theorem readOpt_encCurrentChamber_here {k : String} {rest} {c : Option CurrentChamber}
    (h : jLookup k rest = none) :
    readOpt decCurrentChamber (fOptOmit k (c.map encCurrentChamber) ++ rest) k = some (c.map clearCurrentChamber) :=
  readOpt_fOptOmit_map h encCurrentChamber_obj (fun y _ => rt_CurrentChamber y)

@[simp] theorem readOpt_encCurrentChamber_last_here {k : String} {c : Option CurrentChamber} :
    readOpt decCurrentChamber (fOptOmit k (c.map encCurrentChamber)) k = some (c.map clearCurrentChamber) :=
  readOpt_fOptOmit_last_map encCurrentChamber_obj (fun y _ => rt_CurrentChamber y)

structure ActionDate where
  XMLName : Name
  Date : String
  Text : String
  Inline : List Inline

def encActionDate (x : ActionDate) : Json :=
  Json.obj (fStrOmit "date" x.Date ++
    fStrOmit "text" x.Text ++
    fArrOmit "inline" (x.Inline.map encInline))

def decActionDate : Json → Option ActionDate
  | Json.obj kvs =>
    obind (readStr kvs "date") fun a1 =>
    obind (readStr kvs "text") fun a2 =>
    obind (readList decInline kvs "inline") fun a3 =>
    some ⟨emptyName, a1, a2, a3⟩
  | _ => none

def clearActionDate (x : ActionDate) : ActionDate :=
  ⟨emptyName, x.Date, x.Text, x.Inline.map clearInline⟩

theorem encActionDate_obj (x : ActionDate) : ∃ l, encActionDate x = Json.obj l := ⟨_, rfl⟩

theorem rt_ActionDate (x : ActionDate) : decActionDate (encActionDate x) = some (clearActionDate x) := by
  simp only [encActionDate, decActionDate, clearActionDate, List.append_assoc, obind_some, ne_eq, not_false_eq_true, String.reduceEq, jLookup_nil, readStr_nil, readStrList_nil, readOpt_nil, readList_nil, jLookup_fStr_skip, jLookup_fStrOmit_skip, jLookup_fArr_skip, jLookup_fArrOmit_skip, jLookup_fOptOmit_skip, jLookup_fOptNull_skip, jLookup_fStr_last_skip, jLookup_fStrOmit_last_skip, jLookup_fArr_last_skip, jLookup_fArrOmit_last_skip, jLookup_fOptOmit_last_skip, jLookup_fOptNull_last_skip, readStr_fStr_here, readStr_fStr_last_here, readStr_fStrOmit_here, readStr_fStrOmit_last_here, readStrList_fArr_here, readStrList_fArr_last_here, readStr_fStr_skip, readStr_fStrOmit_skip, readStr_fArr_skip, readStr_fArrOmit_skip, readStr_fOptOmit_skip, readStr_fOptNull_skip, readStr_fStr_last_skip, readStr_fStrOmit_last_skip, readStr_fArr_last_skip, readStr_fArrOmit_last_skip, readStr_fOptOmit_last_skip, readStr_fOptNull_last_skip, readStrList_fStr_skip, readStrList_fStrOmit_skip, readStrList_fArrOmit_skip, readStrList_fOptOmit_skip, readStrList_fOptNull_skip, readStrList_fStr_last_skip, readStrList_fStrOmit_last_skip, readStrList_fArrOmit_last_skip, readStrList_fOptOmit_last_skip, readStrList_fOptNull_last_skip, readOpt_fStr_skip, readOpt_fStrOmit_skip, readOpt_fArr_skip, readOpt_fArrOmit_skip, readOpt_fOptOmit_skip, readOpt_fOptNull_skip, readOpt_fStr_last_skip, readOpt_fStrOmit_last_skip, readOpt_fArr_last_skip, readOpt_fArrOmit_last_skip, readOpt_fOptOmit_last_skip, readOpt_fOptNull_last_skip, readList_fStr_skip, readList_fStrOmit_skip, readList_fArr_skip, readList_fArrOmit_skip, readList_fOptOmit_skip, readList_fOptNull_skip, readList_fStr_last_skip, readList_fStrOmit_last_skip, readList_fArr_last_skip, readList_fArrOmit_last_skip, readList_fOptOmit_last_skip, readList_fOptNull_last_skip, readList_encInline_here, readList_encInline_last_here, readOpt_encInline_here, readOpt_encInline_last_here]

@[simp] theorem readList_encActionDate_here {k : String} {rest} {xs : List ActionDate}
    (h : jLookup k rest = none) :
    readList decActionDate (fArrOmit k (xs.map encActionDate) ++ rest) k = some (xs.map clearActionDate) :=
  readList_fArrOmit_map h (fun y _ => rt_ActionDate y)

@[simp] theorem readList_encActionDate_last_here {k : String} {xs : List ActionDate} :
    readList decActionDate (fArrOmit k (xs.map encActionDate)) k = some (xs.map clearActionDate) :=
  readList_fArrOmit_last_map (fun y _ => rt_ActionDate y)

@[simp] theorem readOpt_encActionDate_here {k : String} {rest} {c : Option ActionDate}
    (h : jLookup k rest = none) :
    readOpt decActionDate (fOptOmit k (c.map encActionDate) ++ rest) k = some (c.map clearActionDate) :=
  readOpt_fOptOmit_map h encActionDate_obj (fun y _ => rt_ActionDate y)

@[simp] theorem readOpt_encActionDate_last_here {k : String} {c : Option ActionDate} :
    readOpt decActionDate (fOptOmit k (c.map encActionDate)) k = some (c.map clearActionDate) :=
  readOpt_fOptOmit_last_map encActionDate_obj (fun y _ => rt_ActionDate y)

structure Sponsor where
  XMLName : Name
  SenateID : String
  HouseID : String
  Text : String
  Inline : List Inline

def encSponsor (x : Sponsor) : Json :=
  Json.obj (fStrOmit "senateId" x.SenateID ++
    fStrOmit "houseId" x.HouseID ++
    fStrOmit "text" x.Text ++
    fArrOmit "inline" (x.Inline.map encInline))

def decSponsor : Json → Option Sponsor
  | Json.obj kvs =>
    obind (readStr kvs "senateId") fun a1 =>
    obind (readStr kvs "houseId") fun a2 =>
    obind (readStr kvs "text") fun a3 =>
    obind (readList decInline kvs "inline") fun a4 =>
    some ⟨emptyName, a1, a2, a3, a4⟩
  | _ => none

def clearSponsor (x : Sponsor) : Sponsor :=
  ⟨emptyName, x.SenateID, x.HouseID, x.Text, x.Inline.map clearInline⟩

theorem encSponsor_obj (x : Sponsor) : ∃ l, encSponsor x = Json.obj l := ⟨_, rfl⟩

theorem rt_Sponsor (x : Sponsor) : decSponsor (encSponsor x) = some (clearSponsor x) := by
  simp only [encSponsor, decSponsor, clearSponsor, List.append_assoc, obind_some, ne_eq, not_false_eq_true, String.reduceEq, jLookup_nil, readStr_nil, readStrList_nil, readOpt_nil, readList_nil, jLookup_fStr_skip, jLookup_fStrOmit_skip, jLookup_fArr_skip, jLookup_fArrOmit_skip, jLookup_fOptOmit_skip, jLookup_fOptNull_skip, jLookup_fStr_last_skip, jLookup_fStrOmit_last_skip, jLookup_fArr_last_skip, jLookup_fArrOmit_last_skip, jLookup_fOptOmit_last_skip, jLookup_fOptNull_last_skip, readStr_fStr_here, readStr_fStr_last_here, readStr_fStrOmit_here, readStr_fStrOmit_last_here, readStrList_fArr_here, readStrList_fArr_last_here, readStr_fStr_skip, readStr_fStrOmit_skip, readStr_fArr_skip, readStr_fArrOmit_skip, readStr_fOptOmit_skip, readStr_fOptNull_skip, readStr_fStr_last_skip, readStr_fStrOmit_last_skip, readStr_fArr_last_skip, readStr_fArrOmit_last_skip, readStr_fOptOmit_last_skip, readStr_fOptNull_last_skip, readStrList_fStr_skip, readStrList_fStrOmit_skip, readStrList_fArrOmit_skip, readStrList_fOptOmit_skip, readStrList_fOptNull_skip, readStrList_fStr_last_skip, readStrList_fStrOmit_last_skip, readStrList_fArrOmit_last_skip, readStrList_fOptOmit_last_skip, readStrList_fOptNull_last_skip, readOpt_fStr_skip, readOpt_fStrOmit_skip, readOpt_fArr_skip, readOpt_fArrOmit_skip, readOpt_fOptOmit_skip, readOpt_fOptNull_skip, readOpt_fStr_last_skip, readOpt_fStrOmit_last_skip, readOpt_fArr_last_skip, readOpt_fArrOmit_last_skip, readOpt_fOptOmit_last_skip, readOpt_fOptNull_last_skip, readList_fStr_skip, readList_fStrOmit_skip, readList_fArr_skip, readList_fArrOmit_skip, readList_fOptOmit_skip, readList_fOptNull_skip, readList_fStr_last_skip, readList_fStrOmit_last_skip, readList_fArr_last_skip, readList_fArrOmit_last_skip, readList_fOptOmit_last_skip, readList_fOptNull_last_skip, readList_encInline_here, readList_encInline_last_here, readOpt_encInline_here, readOpt_encInline_last_here]

@[simp] theorem readList_encSponsor_here {k : String} {rest} {xs : List Sponsor}
    (h : jLookup k rest = none) :
    readList decSponsor (fArrOmit k (xs.map encSponsor) ++ rest) k = some (xs.map clearSponsor) :=
  readList_fArrOmit_map h (fun y _ => rt_Sponsor y)

@[simp] theorem readList_encSponsor_last_here {k : String} {xs : List Sponsor} :
    readList decSponsor (fArrOmit k (xs.map encSponsor)) k = some (xs.map clearSponsor) :=
  readList_fArrOmit_last_map (fun y _ => rt_Sponsor y)

@[simp] theorem readOpt_encSponsor_here {k : String} {rest} {c : Option Sponsor}
    (h : jLookup k rest = none) :
    readOpt decSponsor (fOptOmit k (c.map encSponsor) ++ rest) k = some (c.map clearSponsor) :=
  readOpt_fOptOmit_map h encSponsor_obj (fun y _ => rt_Sponsor y)

@[simp] theorem readOpt_encSponsor_last_here {k : String} {c : Option Sponsor} :
    readOpt decSponsor (fOptOmit k (c.map encSponsor)) k = some (c.map clearSponsor) :=
  readOpt_fOptOmit_last_map encSponsor_obj (fun y _ => rt_Sponsor y)

structure Cosponsor where
  XMLName : Name
  SenateID : String
  HouseID : String
  Text : String
  Inline : List Inline

def encCosponsor (x : Cosponsor) : Json :=
  Json.obj (fStrOmit "senateId" x.SenateID ++
    fStrOmit "houseId" x.HouseID ++
    fStrOmit "text" x.Text ++
    fArrOmit "inline" (x.Inline.map encInline))

def decCosponsor : Json → Option Cosponsor
  | Json.obj kvs =>
    obind (readStr kvs "senateId") fun a1 =>
    obind (readStr kvs "houseId") fun a2 =>
    obind (readStr kvs "text") fun a3 =>
    obind (readList decInline kvs "inline") fun a4 =>
    some ⟨emptyName, a1, a2, a3, a4⟩
  | _ => none

def clearCosponsor (x : Cosponsor) : Cosponsor :=
  ⟨emptyName, x.SenateID, x.HouseID, x.Text, x.Inline.map clearInline⟩

theorem encCosponsor_obj (x : Cosponsor) : ∃ l, encCosponsor x = Json.obj l := ⟨_, rfl⟩

theorem rt_Cosponsor (x : Cosponsor) : decCosponsor (encCosponsor x) = some (clearCosponsor x) := by
  simp only [encCosponsor, decCosponsor, clearCosponsor, List.append_assoc, obind_some, ne_eq, not_false_eq_true, String.reduceEq, jLookup_nil, readStr_nil, readStrList_nil, readOpt_nil, readList_nil, jLookup_fStr_skip, jLookup_fStrOmit_skip, jLookup_fArr_skip, jLookup_fArrOmit_skip, jLookup_fOptOmit_skip, jLookup_fOptNull_skip, jLookup_fStr_last_skip, jLookup_fStrOmit_last_skip, jLookup_fArr_last_skip, jLookup_fArrOmit_last_skip, jLookup_fOptOmit_last_skip, jLookup_fOptNull_last_skip, readStr_fStr_here, readStr_fStr_last_here, readStr_fStrOmit_here, readStr_fStrOmit_last_here, readStrList_fArr_here, readStrList_fArr_last_here, readStr_fStr_skip, readStr_fStrOmit_skip, readStr_fArr_skip, readStr_fArrOmit_skip, readStr_fOptOmit_skip, readStr_fOptNull_skip, readStr_fStr_last_skip, readStr_fStrOmit_last_skip, readStr_fArr_last_skip, readStr_fArrOmit_last_skip, readStr_fOptOmit_last_skip, readStr_fOptNull_last_skip, readStrList_fStr_skip, readStrList_fStrOmit_skip, readStrList_fArrOmit_skip, readStrList_fOptOmit_skip, readStrList_fOptNull_skip, readStrList_fStr_last_skip, readStrList_fStrOmit_last_skip, readStrList_fArrOmit_last_skip, readStrList_fOptOmit_last_skip, readStrList_fOptNull_last_skip, readOpt_fStr_skip, readOpt_fStrOmit_skip, readOpt_fArr_skip, readOpt_fArrOmit_skip, readOpt_fOptOmit_skip, readOpt_fOptNull_skip, readOpt_fStr_last_skip, readOpt_fStrOmit_last_skip, readOpt_fArr_last_skip, readOpt_fArrOmit_last_skip, readOpt_fOptOmit_last_skip, readOpt_fOptNull_last_skip, readList_fStr_skip, readList_fStrOmit_skip, readList_fArr_skip, readList_fArrOmit_skip, readList_fOptOmit_skip, readList_fOptNull_skip, readList_fStr_last_skip, readList_fStrOmit_last_skip, readList_fArr_last_skip, readList_fArrOmit_last_skip, readList_fOptOmit_last_skip, readList_fOptNull_last_skip, readList_encInline_here, readList_encInline_last_here, readOpt_encInline_here, readOpt_encInline_last_here]

@[simp] theorem readList_encCosponsor_here {k : String} {rest} {xs : List Cosponsor}
    (h : jLookup k rest = none) :
    readList decCosponsor (fArrOmit k (xs.map encCosponsor) ++ rest) k = some (xs.map clearCosponsor) :=
  readList_fArrOmit_map h (fun y _ => rt_Cosponsor y)

@[simp] theorem readList_encCosponsor_last_here {k : String} {xs : List Cosponsor} :
    readList decCosponsor (fArrOmit k (xs.map encCosponsor)) k = some (xs.map clearCosponsor) :=
  readList_fArrOmit_last_map (fun y _ => rt_Cosponsor y)

@[simp] theorem readOpt_encCosponsor_here {k : String} {rest} {c : Option Cosponsor}
    (h : jLookup k rest = none) :
    readOpt decCosponsor (fOptOmit k (c.map encCosponsor) ++ rest) k = some (c.map clearCosponsor) :=
  readOpt_fOptOmit_map h encCosponsor_obj (fun y _ => rt_Cosponsor y)

@[simp] theorem readOpt_encCosponsor_last_here {k : String} {c : Option Cosponsor} :
    readOpt decCosponsor (fOptOmit k (c.map encCosponsor)) k = some (c.map clearCosponsor) :=
  readOpt_fOptOmit_last_map encCosponsor_obj (fun y _ => rt_Cosponsor y)

structure Committee where
  XMLName : Name
  CommitteeID : String
  Text : String

def encCommittee (x : Committee) : Json :=
  Json.obj (fStrOmit "committeeId" x.CommitteeID ++
    fStrOmit "text" x.Text)

def decCommittee : Json → Option Committee
  | Json.obj kvs =>
    obind (readStr kvs "committeeId") fun a1 =>
    obind (readStr kvs "text") fun a2 =>
    some ⟨emptyName, a1, a2⟩
  | _ => none

def clearCommittee (x : Committee) : Committee :=
  ⟨emptyName, x.CommitteeID, x.Text⟩

theorem encCommittee_obj (x : Committee) : ∃ l, encCommittee x = Json.obj l := ⟨_, rfl⟩

theorem rt_Committee (x : Committee) : decCommittee (encCommittee x) = some (clearCommittee x) := by
  simp only [encCommittee, decCommittee, clearCommittee, List.append_assoc, obind_some, ne_eq, not_false_eq_true, String.reduceEq, jLookup_nil, readStr_nil, readStrList_nil, readOpt_nil, readList_nil, jLookup_fStr_skip, jLookup_fStrOmit_skip, jLookup_fArr_skip, jLookup_fArrOmit_skip, jLookup_fOptOmit_skip, jLookup_fOptNull_skip, jLookup_fStr_last_skip, jLookup_fStrOmit_last_skip, jLookup_fArr_last_skip, jLookup_fArrOmit_last_skip, jLookup_fOptOmit_last_skip, jLookup_fOptNull_last_skip, readStr_fStr_here, readStr_fStr_last_here, readStr_fStrOmit_here, readStr_fStrOmit_last_here, readStrList_fArr_here, readStrList_fArr_last_here, readStr_fStr_skip, readStr_fStrOmit_skip, readStr_fArr_skip, readStr_fArrOmit_skip, readStr_fOptOmit_skip, readStr_fOptNull_skip, readStr_fStr_last_skip, readStr_fStrOmit_last_skip, readStr_fArr_last_skip, readStr_fArrOmit_last_skip, readStr_fOptOmit_last_skip, readStr_fOptNull_last_skip, readStrList_fStr_skip, readStrList_fStrOmit_skip, readStrList_fArrOmit_skip, readStrList_fOptOmit_skip, readStrList_fOptNull_skip, readStrList_fStr_last_skip, readStrList_fStrOmit_last_skip, readStrList_fArrOmit_last_skip, readStrList_fOptOmit_last_skip, readStrList_fOptNull_last_skip, readOpt_fStr_skip, readOpt_fStrOmit_skip, readOpt_fArr_skip, readOpt_fArrOmit_skip, readOpt_fOptOmit_skip, readOpt_fOptNull_skip, readOpt_fStr_last_skip, readOpt_fStrOmit_last_skip, readOpt_fArr_last_skip, readOpt_fArrOmit_last_skip, readOpt_fOptOmit_last_skip, readOpt_fOptNull_last_skip, readList_fStr_skip, readList_fStrOmit_skip, readList_fArr_skip, readList_fArrOmit_skip, readList_fOptOmit_skip, readList_fOptNull_skip, readList_fStr_last_skip, readList_fStrOmit_last_skip, readList_fArr_last_skip, readList_fArrOmit_last_skip, readList_fOptOmit_last_skip, readList_fOptNull_last_skip]

@[simp] theorem readList_encCommittee_here {k : String} {rest} {xs : List Committee}
    (h : jLookup k rest = none) :
    readList decCommittee (fArrOmit k (xs.map encCommittee) ++ rest) k = some (xs.map clearCommittee) :=
  readList_fArrOmit_map h (fun y _ => rt_Committee y)

@[simp] theorem readList_encCommittee_last_here {k : String} {xs : List Committee} :
    readList decCommittee (fArrOmit k (xs.map encCommittee)) k = some (xs.map clearCommittee) :=
  readList_fArrOmit_last_map (fun y _ => rt_Committee y)

@[simp] theorem readOpt_encCommittee_here {k : String} {rest} {c : Option Committee}
    (h : jLookup k rest = none) :
    readOpt decCommittee (fOptOmit k (c.map encCommittee) ++ rest) k = some (c.map clearCommittee) :=
  readOpt_fOptOmit_map h encCommittee_obj (fun y _ => rt_Committee y)

@[simp] theorem readOpt_encCommittee_last_here {k : String} {c : Option Committee} :
    readOpt decCommittee (fOptOmit k (c.map encCommittee)) k = some (c.map clearCommittee) :=
  readOpt_fOptOmit_last_map encCommittee_obj (fun y _ => rt_Committee y)

structure ActionDescription where
  XMLName : Name
  Text : String
  Sponsors : List Sponsor
  Cosponsors : List Cosponsor
  Committees : List Committee
  Inline : List Inline

def encActionDescription (x : ActionDescription) : Json :=
  Json.obj (fStrOmit "text" x.Text ++
    fArrOmit "sponsors" (x.Sponsors.map encSponsor) ++
    fArrOmit "cosponsors" (x.Cosponsors.map encCosponsor) ++
    fArrOmit "committees" (x.Committees.map encCommittee) ++
    fArrOmit "inline" (x.Inline.map encInline))

def decActionDescription : Json → Option ActionDescription
  | Json.obj kvs =>
    obind (readStr kvs "text") fun a1 =>
    obind (readList decSponsor kvs "sponsors") fun a2 =>
    obind (readList decCosponsor kvs "cosponsors") fun a3 =>
    obind (readList decCommittee kvs "committees") fun a4 =>
    obind (readList decInline kvs "inline") fun a5 =>
    some ⟨emptyName, a1, a2, a3, a4, a5⟩
  | _ => none

def clearActionDescription (x : ActionDescription) : ActionDescription :=
  ⟨emptyName, x.Text, x.Sponsors.map clearSponsor, x.Cosponsors.map clearCosponsor, x.Committees.map clearCommittee, x.Inline.map clearInline⟩

theorem encActionDescription_obj (x : ActionDescription) : ∃ l, encActionDescription x = Json.obj l := ⟨_, rfl⟩

theorem rt_ActionDescription (x : ActionDescription) : decActionDescription (encActionDescription x) = some (clearActionDescription x) := by
  simp only [encActionDescription, decActionDescription, clearActionDescription, List.append_assoc, obind_some, ne_eq, not_false_eq_true, String.reduceEq, jLookup_nil, readStr_nil, readStrList_nil, readOpt_nil, readList_nil, jLookup_fStr_skip, jLookup_fStrOmit_skip, jLookup_fArr_skip, jLookup_fArrOmit_skip, jLookup_fOptOmit_skip, jLookup_fOptNull_skip, jLookup_fStr_last_skip, jLookup_fStrOmit_last_skip, jLookup_fArr_last_skip, jLookup_fArrOmit_last_skip, jLookup_fOptOmit_last_skip, jLookup_fOptNull_last_skip, readStr_fStr_here, readStr_fStr_last_here, readStr_fStrOmit_here, readStr_fStrOmit_last_here, readStrList_fArr_here, readStrList_fArr_last_here, readStr_fStr_skip, readStr_fStrOmit_skip, readStr_fArr_skip, readStr_fArrOmit_skip, readStr_fOptOmit_skip, readStr_fOptNull_skip, readStr_fStr_last_skip, readStr_fStrOmit_last_skip, readStr_fArr_last_skip, readStr_fArrOmit_last_skip, readStr_fOptOmit_last_skip, readStr_fOptNull_last_skip, readStrList_fStr_skip, readStrList_fStrOmit_skip, readStrList_fArrOmit_skip, readStrList_fOptOmit_skip, readStrList_fOptNull_skip, readStrList_fStr_last_skip, readStrList_fStrOmit_last_skip, readStrList_fArrOmit_last_skip, readStrList_fOptOmit_last_skip, readStrList_fOptNull_last_skip, readOpt_fStr_skip, readOpt_fStrOmit_skip, readOpt_fArr_skip, readOpt_fArrOmit_skip, readOpt_fOptOmit_skip, readOpt_fOptNull_skip, readOpt_fStr_last_skip, readOpt_fStrOmit_last_skip, readOpt_fArr_last_skip, readOpt_fArrOmit_last_skip, readOpt_fOptOmit_last_skip, readOpt_fOptNull_last_skip, readList_fStr_skip, readList_fStrOmit_skip, readList_fArr_skip, readList_fArrOmit_skip, readList_fOptOmit_skip, readList_fOptNull_skip, readList_fStr_last_skip, readList_fStrOmit_last_skip, readList_fArr_last_skip, readList_fArrOmit_last_skip, readList_fOptOmit_last_skip, readList_fOptNull_last_skip, readList_encCommittee_here, readList_encCommittee_last_here, readOpt_encCommittee_here, readOpt_encCommittee_last_here, readList_encCosponsor_here, readList_encCosponsor_last_here, readOpt_encCosponsor_here, readOpt_encCosponsor_last_here, readList_encInline_here, readList_encInline_last_here, readOpt_encInline_here, readOpt_encInline_last_here, readList_encSponsor_here, readList_encSponsor_last_here, readOpt_encSponsor_here, readOpt_encSponsor_last_here]

@[simp] theorem readList_encActionDescription_here {k : String} {rest} {xs : List ActionDescription}
    (h : jLookup k rest = none) :
    readList decActionDescription (fArrOmit k (xs.map encActionDescription) ++ rest) k = some (xs.map clearActionDescription) :=
  readList_fArrOmit_map h (fun y _ => rt_ActionDescription y)

@[simp] theorem readList_encActionDescription_last_here {k : String} {xs : List ActionDescription} :
    readList decActionDescription (fArrOmit k (xs.map encActionDescription)) k = some (xs.map clearActionDescription) :=
  readList_fArrOmit_last_map (fun y _ => rt_ActionDescription y)

@[simp] theorem readOpt_encActionDescription_here {k : String} {rest} {c : Option ActionDescription}
    (h : jLookup k rest = none) :
    readOpt decActionDescription (fOptOmit k (c.map encActionDescription) ++ rest) k = some (c.map clearActionDescription) :=
  readOpt_fOptOmit_map h encActionDescription_obj (fun y _ => rt_ActionDescription y)

@[simp] theorem readOpt_encActionDescription_last_here {k : String} {c : Option ActionDescription} :
    readOpt decActionDescription (fOptOmit k (c.map encActionDescription)) k = some (c.map clearActionDescription) :=
  readOpt_fOptOmit_last_map encActionDescription_obj (fun y _ => rt_ActionDescription y)

structure Action where
  XMLName : Name
  ActionStage : String
  Date : Option ActionDate
  ActionDescription : Option ActionDescription
  ActionInstruction : String

def encAction (x : Action) : Json :=
  Json.obj (fStrOmit "actionStage" x.ActionStage ++
    fOptOmit "date" (x.Date.map encActionDate) ++
    fOptOmit "actionDescription" (x.ActionDescription.map encActionDescription) ++
    fStrOmit "actionInstruction" x.ActionInstruction)

def decAction : Json → Option Action
  | Json.obj kvs =>
    obind (readStr kvs "actionStage") fun a1 =>
    obind (readOpt decActionDate kvs "date") fun a2 =>
    obind (readOpt decActionDescription kvs "actionDescription") fun a3 =>
    obind (readStr kvs "actionInstruction") fun a4 =>
    some ⟨emptyName, a1, a2, a3, a4⟩
  | _ => none

def clearAction (x : Action) : Action :=
  ⟨emptyName, x.ActionStage, x.Date.map clearActionDate, x.ActionDescription.map clearActionDescription, x.ActionInstruction⟩

theorem encAction_obj (x : Action) : ∃ l, encAction x = Json.obj l := ⟨_, rfl⟩

theorem rt_Action (x : Action) : decAction (encAction x) = some (clearAction x) := by
  simp only [encAction, decAction, clearAction, List.append_assoc, obind_some, ne_eq, not_false_eq_true, String.reduceEq, jLookup_nil, readStr_nil, readStrList_nil, readOpt_nil, readList_nil, jLookup_fStr_skip, jLookup_fStrOmit_skip, jLookup_fArr_skip, jLookup_fArrOmit_skip, jLookup_fOptOmit_skip, jLookup_fOptNull_skip, jLookup_fStr_last_skip, jLookup_fStrOmit_last_skip, jLookup_fArr_last_skip, jLookup_fArrOmit_last_skip, jLookup_fOptOmit_last_skip, jLookup_fOptNull_last_skip, readStr_fStr_here, readStr_fStr_last_here, readStr_fStrOmit_here, readStr_fStrOmit_last_here, readStrList_fArr_here, readStrList_fArr_last_here, readStr_fStr_skip, readStr_fStrOmit_skip, readStr_fArr_skip, readStr_fArrOmit_skip, readStr_fOptOmit_skip, readStr_fOptNull_skip, readStr_fStr_last_skip, readStr_fStrOmit_last_skip, readStr_fArr_last_skip, readStr_fArrOmit_last_skip, readStr_fOptOmit_last_skip, readStr_fOptNull_last_skip, readStrList_fStr_skip, readStrList_fStrOmit_skip, readStrList_fArrOmit_skip, readStrList_fOptOmit_skip, readStrList_fOptNull_skip, readStrList_fStr_last_skip, readStrList_fStrOmit_last_skip, readStrList_fArrOmit_last_skip, readStrList_fOptOmit_last_skip, readStrList_fOptNull_last_skip, readOpt_fStr_skip, readOpt_fStrOmit_skip, readOpt_fArr_skip, readOpt_fArrOmit_skip, readOpt_fOptOmit_skip, readOpt_fOptNull_skip, readOpt_fStr_last_skip, readOpt_fStrOmit_last_skip, readOpt_fArr_last_skip, readOpt_fArrOmit_last_skip, readOpt_fOptOmit_last_skip, readOpt_fOptNull_last_skip, readList_fStr_skip, readList_fStrOmit_skip, readList_fArr_skip, readList_fArrOmit_skip, readList_fOptOmit_skip, readList_fOptNull_skip, readList_fStr_last_skip, readList_fStrOmit_last_skip, readList_fArr_last_skip, readList_fArrOmit_last_skip, readList_fOptOmit_last_skip, readList_fOptNull_last_skip, readList_encActionDate_here, readList_encActionDate_last_here, readOpt_encActionDate_here, readOpt_encActionDate_last_here, readList_encActionDescription_here, readList_encActionDescription_last_here, readOpt_encActionDescription_here, readOpt_encActionDescription_last_here]

@[simp] theorem readList_encAction_here {k : String} {rest} {xs : List Action}
    (h : jLookup k rest = none) :
    readList decAction (fArrOmit k (xs.map encAction) ++ rest) k = some (xs.map clearAction) :=
  readList_fArrOmit_map h (fun y _ => rt_Action y)

@[simp] theorem readList_encAction_last_here {k : String} {xs : List Action} :
    readList decAction (fArrOmit k (xs.map encAction)) k = some (xs.map clearAction) :=
  readList_fArrOmit_last_map (fun y _ => rt_Action y)

@[simp] theorem readOpt_encAction_here {k : String} {rest} {c : Option Action}
    (h : jLookup k rest = none) :
    readOpt decAction (fOptOmit k (c.map encAction) ++ rest) k = some (c.map clearAction) :=
  readOpt_fOptOmit_map h encAction_obj (fun y _ => rt_Action y)

@[simp] theorem readOpt_encAction_last_here {k : String} {c : Option Action} :
    readOpt decAction (fOptOmit k (c.map encAction)) k = some (c.map clearAction) :=
  readOpt_fOptOmit_last_map encAction_obj (fun y _ => rt_Action y)

structure Preface where
  XMLName : Name
  SlugLine : String
  DistributionCode : Option DistributionCode
  Congress : Option CongressElement
  Session : Option SessionElement
  DCType : String
  DocNumber : String
  DCTitle : String
  CurrentChamber : Option CurrentChamber
  Actions : List Action

def encPreface (x : Preface) : Json :=
  Json.obj (fStrOmit "slugLine" x.SlugLine ++
    fOptOmit "distributionCode" (x.DistributionCode.map encDistributionCode) ++
    fOptOmit "congress" (x.Congress.map encCongressElement) ++
    fOptOmit "session" (x.Session.map encSessionElement) ++
    fStrOmit "dcType" x.DCType ++
    fStrOmit "docNumber" x.DocNumber ++
    fStrOmit "dcTitle" x.DCTitle ++
    fOptOmit "currentChamber" (x.CurrentChamber.map encCurrentChamber) ++
    fArrOmit "actions" (x.Actions.map encAction))

def decPreface : Json → Option Preface
  | Json.obj kvs =>
    obind (readStr kvs "slugLine") fun a1 =>
    obind (readOpt decDistributionCode kvs "distributionCode") fun a2 =>
    obind (readOpt decCongressElement kvs "congress") fun a3 =>
    obind (readOpt decSessionElement kvs "session") fun a4 =>
    obind (readStr kvs "dcType") fun a5 =>
    obind (readStr kvs "docNumber") fun a6 =>
    obind (readStr kvs "dcTitle") fun a7 =>
    obind (readOpt decCurrentChamber kvs "currentChamber") fun a8 =>
    obind (readList decAction kvs "actions") fun a9 =>
    some ⟨emptyName, a1, a2, a3, a4, a5, a6, a7, a8, a9⟩
  | _ => none

def clearPreface (x : Preface) : Preface :=
  ⟨emptyName, x.SlugLine, x.DistributionCode.map clearDistributionCode, x.Congress.map clearCongressElement, x.Session.map clearSessionElement, x.DCType, x.DocNumber, x.DCTitle, x.CurrentChamber.map clearCurrentChamber, x.Actions.map clearAction⟩

theorem encPreface_obj (x : Preface) : ∃ l, encPreface x = Json.obj l := ⟨_, rfl⟩

theorem rt_Preface (x : Preface) : decPreface (encPreface x) = some (clearPreface x) := by
  simp only [encPreface, decPreface, clearPreface, List.append_assoc, obind_some, ne_eq, not_false_eq_true, String.reduceEq, jLookup_nil, readStr_nil, readStrList_nil, readOpt_nil, readList_nil, jLookup_fStr_skip, jLookup_fStrOmit_skip, jLookup_fArr_skip, jLookup_fArrOmit_skip, jLookup_fOptOmit_skip, jLookup_fOptNull_skip, jLookup_fStr_last_skip, jLookup_fStrOmit_last_skip, jLookup_fArr_last_skip, jLookup_fArrOmit_last_skip, jLookup_fOptOmit_last_skip, jLookup_fOptNull_last_skip, readStr_fStr_here, readStr_fStr_last_here, readStr_fStrOmit_here, readStr_fStrOmit_last_here, readStrList_fArr_here, readStrList_fArr_last_here, readStr_fStr_skip, readStr_fStrOmit_skip, readStr_fArr_skip, readStr_fArrOmit_skip, readStr_fOptOmit_skip, readStr_fOptNull_skip, readStr_fStr_last_skip, readStr_fStrOmit_last_skip, readStr_fArr_last_skip, readStr_fArrOmit_last_skip, readStr_fOptOmit_last_skip, readStr_fOptNull_last_skip, readStrList_fStr_skip, readStrList_fStrOmit_skip, readStrList_fArrOmit_skip, readStrList_fOptOmit_skip, readStrList_fOptNull_skip, readStrList_fStr_last_skip, readStrList_fStrOmit_last_skip, readStrList_fArrOmit_last_skip, readStrList_fOptOmit_last_skip, readStrList_fOptNull_last_skip, readOpt_fStr_skip, readOpt_fStrOmit_skip, readOpt_fArr_skip, readOpt_fArrOmit_skip, readOpt_fOptOmit_skip, readOpt_fOptNull_skip, readOpt_fStr_last_skip, readOpt_fStrOmit_last_skip, readOpt_fArr_last_skip, readOpt_fArrOmit_last_skip, readOpt_fOptOmit_last_skip, readOpt_fOptNull_last_skip, readList_fStr_skip, readList_fStrOmit_skip, readList_fArr_skip, readList_fArrOmit_skip, readList_fOptOmit_skip, readList_fOptNull_skip, readList_fStr_last_skip, readList_fStrOmit_last_skip, readList_fArr_last_skip, readList_fArrOmit_last_skip, readList_fOptOmit_last_skip, readList_fOptNull_last_skip, readList_encAction_here, readList_encAction_last_here, readOpt_encAction_here, readOpt_encAction_last_here, readList_encCongressElement_here, readList_encCongressElement_last_here, readOpt_encCongressElement_here, readOpt_encCongressElement_last_here, readList_encCurrentChamber_here, readList_encCurrentChamber_last_here, readOpt_encCurrentChamber_here, readOpt_encCurrentChamber_last_here, readList_encDistributionCode_here, readList_encDistributionCode_last_here, readOpt_encDistributionCode_here, readOpt_encDistributionCode_last_here, readList_encSessionElement_here, readList_encSessionElement_last_here, readOpt_encSessionElement_here, readOpt_encSessionElement_last_here]

@[simp] theorem readList_encPreface_here {k : String} {rest} {xs : List Preface}
    (h : jLookup k rest = none) :
    readList decPreface (fArrOmit k (xs.map encPreface) ++ rest) k = some (xs.map clearPreface) :=
  readList_fArrOmit_map h (fun y _ => rt_Preface y)

@[simp] theorem readList_encPreface_last_here {k : String} {xs : List Preface} :
    readList decPreface (fArrOmit k (xs.map encPreface)) k = some (xs.map clearPreface) :=
  readList_fArrOmit_last_map (fun y _ => rt_Preface y)

@[simp] theorem readOpt_encPreface_here {k : String} {rest} {c : Option Preface}
    (h : jLookup k rest = none) :
    readOpt decPreface (fOptOmit k (c.map encPreface) ++ rest) k = some (c.map clearPreface) :=
  readOpt_fOptOmit_map h encPreface_obj (fun y _ => rt_Preface y)

@[simp] theorem readOpt_encPreface_last_here {k : String} {c : Option Preface} :
    readOpt decPreface (fOptOmit k (c.map encPreface)) k = some (c.map clearPreface) :=
  readOpt_fOptOmit_last_map encPreface_obj (fun y _ => rt_Preface y)

structure AmendPreface where
  XMLName : Name
  SlugLine : String
  CurrentChamber : Option CurrentChamber
  Actions : List Action

def encAmendPreface (x : AmendPreface) : Json :=
  Json.obj (fStrOmit "slugLine" x.SlugLine ++
    fOptOmit "currentChamber" (x.CurrentChamber.map encCurrentChamber) ++
    fArrOmit "actions" (x.Actions.map encAction))

def decAmendPreface : Json → Option AmendPreface
  | Json.obj kvs =>
    obind (readStr kvs "slugLine") fun a1 =>
    obind (readOpt decCurrentChamber kvs "currentChamber") fun a2 =>
    obind (readList decAction kvs "actions") fun a3 =>
    some ⟨emptyName, a1, a2, a3⟩
  | _ => none

def clearAmendPreface (x : AmendPreface) : AmendPreface :=
  ⟨emptyName, x.SlugLine, x.CurrentChamber.map clearCurrentChamber, x.Actions.map clearAction⟩

theorem encAmendPreface_obj (x : AmendPreface) : ∃ l, encAmendPreface x = Json.obj l := ⟨_, rfl⟩

theorem rt_AmendPreface (x : AmendPreface) : decAmendPreface (encAmendPreface x) = some (clearAmendPreface x) := by
  simp only [encAmendPreface, decAmendPreface, clearAmendPreface, List.append_assoc, obind_some, ne_eq, not_false_eq_true, String.reduceEq, jLookup_nil, readStr_nil, readStrList_nil, readOpt_nil, readList_nil, jLookup_fStr_skip, jLookup_fStrOmit_skip, jLookup_fArr_skip, jLookup_fArrOmit_skip, jLookup_fOptOmit_skip, jLookup_fOptNull_skip, jLookup_fStr_last_skip, jLookup_fStrOmit_last_skip, jLookup_fArr_last_skip, jLookup_fArrOmit_last_skip, jLookup_fOptOmit_last_skip, jLookup_fOptNull_last_skip, readStr_fStr_here, readStr_fStr_last_here, readStr_fStrOmit_here, readStr_fStrOmit_last_here, readStrList_fArr_here, readStrList_fArr_last_here, readStr_fStr_skip, readStr_fStrOmit_skip, readStr_fArr_skip, readStr_fArrOmit_skip, readStr_fOptOmit_skip, readStr_fOptNull_skip, readStr_fStr_last_skip, readStr_fStrOmit_last_skip, readStr_fArr_last_skip, readStr_fArrOmit_last_skip, readStr_fOptOmit_last_skip, readStr_fOptNull_last_skip, readStrList_fStr_skip, readStrList_fStrOmit_skip, readStrList_fArrOmit_skip, readStrList_fOptOmit_skip, readStrList_fOptNull_skip, readStrList_fStr_last_skip, readStrList_fStrOmit_last_skip, readStrList_fArrOmit_last_skip, readStrList_fOptOmit_last_skip, readStrList_fOptNull_last_skip, readOpt_fStr_skip, readOpt_fStrOmit_skip, readOpt_fArr_skip, readOpt_fArrOmit_skip, readOpt_fOptOmit_skip, readOpt_fOptNull_skip, readOpt_fStr_last_skip, readOpt_fStrOmit_last_skip, readOpt_fArr_last_skip, readOpt_fArrOmit_last_skip, readOpt_fOptOmit_last_skip, readOpt_fOptNull_last_skip, readList_fStr_skip, readList_fStrOmit_skip, readList_fArr_skip, readList_fArrOmit_skip, readList_fOptOmit_skip, readList_fOptNull_skip, readList_fStr_last_skip, readList_fStrOmit_last_skip, readList_fArr_last_skip, readList_fArrOmit_last_skip, readList_fOptOmit_last_skip, readList_fOptNull_last_skip, readList_encAction_here, readList_encAction_last_here, readOpt_encAction_here, readOpt_encAction_last_here, readList_encCurrentChamber_here, readList_encCurrentChamber_last_here, readOpt_encCurrentChamber_here, readOpt_encCurrentChamber_last_here]

@[simp] theorem readList_encAmendPreface_here {k : String} {rest} {xs : List AmendPreface}
    (h : jLookup k rest = none) :
    readList decAmendPreface (fArrOmit k (xs.map encAmendPreface) ++ rest) k = some (xs.map clearAmendPreface) :=
  readList_fArrOmit_map h (fun y _ => rt_AmendPreface y)

@[simp] theorem readList_encAmendPreface_last_here {k : String} {xs : List AmendPreface} :
    readList decAmendPreface (fArrOmit k (xs.map encAmendPreface)) k = some (xs.map clearAmendPreface) :=
  readList_fArrOmit_last_map (fun y _ => rt_AmendPreface y)

@[simp] theorem readOpt_encAmendPreface_here {k : String} {rest} {c : Option AmendPreface}
    (h : jLookup k rest = none) :
    readOpt decAmendPreface (fOptOmit k (c.map encAmendPreface) ++ rest) k = some (c.map clearAmendPreface) :=
  readOpt_fOptOmit_map h encAmendPreface_obj (fun y _ => rt_AmendPreface y)

@[simp] theorem readOpt_encAmendPreface_last_here {k : String} {c : Option AmendPreface} :
    readOpt decAmendPreface (fOptOmit k (c.map encAmendPreface)) k = some (c.map clearAmendPreface) :=
  readOpt_fOptOmit_last_map encAmendPreface_obj (fun y _ => rt_AmendPreface y)

structure Meta where
  XMLName : Name
  DCTitle : String
  DCType : String
  DCCreator : String
  DCPublisher : String
  DCFormat : String
  DCLanguage : String
  DCRights : String
  DocNumber : String
  CitableAs : List String
  DocStage : String
  CurrentChamber : String
  Congress : String
  Session : String
  PublicPrivate : String
  ProcessedBy : String
  ProcessedDate : String
  RelatedDocuments : List RelatedDocument
  PopularName : String

def encMeta (x : Meta) : Json :=
  Json.obj (fStr "dcTitle" x.DCTitle ++
    fStr "dcType" x.DCType ++
    fStrOmit "dcCreator" x.DCCreator ++
    fStrOmit "dcPublisher" x.DCPublisher ++
    fStrOmit "dcFormat" x.DCFormat ++
    fStrOmit "dcLanguage" x.DCLanguage ++
    fStrOmit "dcRights" x.DCRights ++
    fStr "docNumber" x.DocNumber ++
    fArr "citableAs" (x.CitableAs.map Json.str) ++
    fStr "docStage" x.DocStage ++
    fStrOmit "currentChamber" x.CurrentChamber ++
    fStr "congress" x.Congress ++
    fStr "session" x.Session ++
    fStr "publicPrivate" x.PublicPrivate ++
    fStrOmit "processedBy" x.ProcessedBy ++
    fStrOmit "processedDate" x.ProcessedDate ++
    fArrOmit "relatedDocuments" (x.RelatedDocuments.map encRelatedDocument) ++
    fStrOmit "popularName" x.PopularName)

def decMeta : Json → Option Meta
  | Json.obj kvs =>
    obind (readStr kvs "dcTitle") fun a1 =>
    obind (readStr kvs "dcType") fun a2 =>
    obind (readStr kvs "dcCreator") fun a3 =>
    obind (readStr kvs "dcPublisher") fun a4 =>
    obind (readStr kvs "dcFormat") fun a5 =>
    obind (readStr kvs "dcLanguage") fun a6 =>
    obind (readStr kvs "dcRights") fun a7 =>
    obind (readStr kvs "docNumber") fun a8 =>
    obind (readStrList kvs "citableAs") fun a9 =>
    obind (readStr kvs "docStage") fun a10 =>
    obind (readStr kvs "currentChamber") fun a11 =>
    obind (readStr kvs "congress") fun a12 =>
    obind (readStr kvs "session") fun a13 =>
    obind (readStr kvs "publicPrivate") fun a14 =>
    obind (readStr kvs "processedBy") fun a15 =>
    obind (readStr kvs "processedDate") fun a16 =>
    obind (readList decRelatedDocument kvs "relatedDocuments") fun a17 =>
    obind (readStr kvs "popularName") fun a18 =>
    some ⟨emptyName, a1, a2, a3, a4, a5, a6, a7, a8, a9, a10, a11, a12, a13, a14, a15, a16, a17, a18⟩
  | _ => none

def clearMeta (x : Meta) : Meta :=
  ⟨emptyName, x.DCTitle, x.DCType, x.DCCreator, x.DCPublisher, x.DCFormat, x.DCLanguage, x.DCRights, x.DocNumber, x.CitableAs, x.DocStage, x.CurrentChamber, x.Congress, x.Session, x.PublicPrivate, x.ProcessedBy, x.ProcessedDate, x.RelatedDocuments.map clearRelatedDocument, x.PopularName⟩

theorem encMeta_obj (x : Meta) : ∃ l, encMeta x = Json.obj l := ⟨_, rfl⟩

theorem rt_Meta (x : Meta) : decMeta (encMeta x) = some (clearMeta x) := by
  simp only [encMeta, decMeta, clearMeta, List.append_assoc, obind_some, ne_eq, not_false_eq_true, String.reduceEq, jLookup_nil, readStr_nil, readStrList_nil, readOpt_nil, readList_nil, jLookup_fStr_skip, jLookup_fStrOmit_skip, jLookup_fArr_skip, jLookup_fArrOmit_skip, jLookup_fOptOmit_skip, jLookup_fOptNull_skip, jLookup_fStr_last_skip, jLookup_fStrOmit_last_skip, jLookup_fArr_last_skip, jLookup_fArrOmit_last_skip, jLookup_fOptOmit_last_skip, jLookup_fOptNull_last_skip, readStr_fStr_here, readStr_fStr_last_here, readStr_fStrOmit_here, readStr_fStrOmit_last_here, readStrList_fArr_here, readStrList_fArr_last_here, readStr_fStr_skip, readStr_fStrOmit_skip, readStr_fArr_skip, readStr_fArrOmit_skip, readStr_fOptOmit_skip, readStr_fOptNull_skip, readStr_fStr_last_skip, readStr_fStrOmit_last_skip, readStr_fArr_last_skip, readStr_fArrOmit_last_skip, readStr_fOptOmit_last_skip, readStr_fOptNull_last_skip, readStrList_fStr_skip, readStrList_fStrOmit_skip, readStrList_fArrOmit_skip, readStrList_fOptOmit_skip, readStrList_fOptNull_skip, readStrList_fStr_last_skip, readStrList_fStrOmit_last_skip, readStrList_fArrOmit_last_skip, readStrList_fOptOmit_last_skip, readStrList_fOptNull_last_skip, readOpt_fStr_skip, readOpt_fStrOmit_skip, readOpt_fArr_skip, readOpt_fArrOmit_skip, readOpt_fOptOmit_skip, readOpt_fOptNull_skip, readOpt_fStr_last_skip, readOpt_fStrOmit_last_skip, readOpt_fArr_last_skip, readOpt_fArrOmit_last_skip, readOpt_fOptOmit_last_skip, readOpt_fOptNull_last_skip, readList_fStr_skip, readList_fStrOmit_skip, readList_fArr_skip, readList_fArrOmit_skip, readList_fOptOmit_skip, readList_fOptNull_skip, readList_fStr_last_skip, readList_fStrOmit_last_skip, readList_fArr_last_skip, readList_fArrOmit_last_skip, readList_fOptOmit_last_skip, readList_fOptNull_last_skip, readList_encRelatedDocument_here, readList_encRelatedDocument_last_here, readOpt_encRelatedDocument_here, readOpt_encRelatedDocument_last_here]

@[simp] theorem readList_encMeta_here {k : String} {rest} {xs : List Meta}
    (h : jLookup k rest = none) :
    readList decMeta (fArrOmit k (xs.map encMeta) ++ rest) k = some (xs.map clearMeta) :=
  readList_fArrOmit_map h (fun y _ => rt_Meta y)

@[simp] theorem readList_encMeta_last_here {k : String} {xs : List Meta} :
    readList decMeta (fArrOmit k (xs.map encMeta)) k = some (xs.map clearMeta) :=
  readList_fArrOmit_last_map (fun y _ => rt_Meta y)

@[simp] theorem readOpt_encMeta_here {k : String} {rest} {c : Option Meta}
    (h : jLookup k rest = none) :
    readOpt decMeta (fOptOmit k (c.map encMeta) ++ rest) k = some (c.map clearMeta) :=
  readOpt_fOptOmit_map h encMeta_obj (fun y _ => rt_Meta y)

@[simp] theorem readOpt_encMeta_last_here {k : String} {c : Option Meta} :
    readOpt decMeta (fOptOmit k (c.map encMeta)) k = some (c.map clearMeta) :=
  readOpt_fOptOmit_last_map encMeta_obj (fun y _ => rt_Meta y)

structure AmendMeta where
  XMLName : Name
  DCTitle : String
  DCType : String
  DCCreator : String
  DCPublisher : String
  DCFormat : String
  DCLanguage : String
  DCRights : String
  DocNumber : String
  CitableAs : List String
  DocStage : String
  CurrentChamber : String
  AmendDegree : String
  Congress : String
  Session : String
  PublicPrivate : String
  ProcessedBy : String
  ProcessedDate : String

def encAmendMeta (x : AmendMeta) : Json :=
  Json.obj (fStr "dcTitle" x.DCTitle ++
    fStr "dcType" x.DCType ++
    fStrOmit "dcCreator" x.DCCreator ++
    fStrOmit "dcPublisher" x.DCPublisher ++
    fStrOmit "dcFormat" x.DCFormat ++
    fStrOmit "dcLanguage" x.DCLanguage ++
    fStrOmit "dcRights" x.DCRights ++
    fStr "docNumber" x.DocNumber ++
    fArr "citableAs" (x.CitableAs.map Json.str) ++
    fStr "docStage" x.DocStage ++
    fStrOmit "currentChamber" x.CurrentChamber ++
    fStrOmit "amendDegree" x.AmendDegree ++
    fStr "congress" x.Congress ++
    fStr "session" x.Session ++
    fStr "publicPrivate" x.PublicPrivate ++
    fStrOmit "processedBy" x.ProcessedBy ++
    fStrOmit "processedDate" x.ProcessedDate)

def decAmendMeta : Json → Option AmendMeta
  | Json.obj kvs =>
    obind (readStr kvs "dcTitle") fun a1 =>
    obind (readStr kvs "dcType") fun a2 =>
    obind (readStr kvs "dcCreator") fun a3 =>
    obind (readStr kvs "dcPublisher") fun a4 =>
    obind (readStr kvs "dcFormat") fun a5 =>
    obind (readStr kvs "dcLanguage") fun a6 =>
    obind (readStr kvs "dcRights") fun a7 =>
    obind (readStr kvs "docNumber") fun a8 =>
    obind (readStrList kvs "citableAs") fun a9 =>
    obind (readStr kvs "docStage") fun a10 =>
    obind (readStr kvs "currentChamber") fun a11 =>
    obind (readStr kvs "amendDegree") fun a12 =>
    obind (readStr kvs "congress") fun a13 =>
    obind (readStr kvs "session") fun a14 =>
    obind (readStr kvs "publicPrivate") fun a15 =>
    obind (readStr kvs "processedBy") fun a16 =>
    obind (readStr kvs "processedDate") fun a17 =>
    some ⟨emptyName, a1, a2, a3, a4, a5, a6, a7, a8, a9, a10, a11, a12, a13, a14, a15, a16, a17⟩
  | _ => none

def clearAmendMeta (x : AmendMeta) : AmendMeta :=
  ⟨emptyName, x.DCTitle, x.DCType, x.DCCreator, x.DCPublisher, x.DCFormat, x.DCLanguage, x.DCRights, x.DocNumber, x.CitableAs, x.DocStage, x.CurrentChamber, x.AmendDegree, x.Congress, x.Session, x.PublicPrivate, x.ProcessedBy, x.ProcessedDate⟩

theorem encAmendMeta_obj (x : AmendMeta) : ∃ l, encAmendMeta x = Json.obj l := ⟨_, rfl⟩

theorem rt_AmendMeta (x : AmendMeta) : decAmendMeta (encAmendMeta x) = some (clearAmendMeta x) := by
  simp only [encAmendMeta, decAmendMeta, clearAmendMeta, List.append_assoc, obind_some, ne_eq, not_false_eq_true, String.reduceEq, jLookup_nil, readStr_nil, readStrList_nil, readOpt_nil, readList_nil, jLookup_fStr_skip, jLookup_fStrOmit_skip, jLookup_fArr_skip, jLookup_fArrOmit_skip, jLookup_fOptOmit_skip, jLookup_fOptNull_skip, jLookup_fStr_last_skip, jLookup_fStrOmit_last_skip, jLookup_fArr_last_skip, jLookup_fArrOmit_last_skip, jLookup_fOptOmit_last_skip, jLookup_fOptNull_last_skip, readStr_fStr_here, readStr_fStr_last_here, readStr_fStrOmit_here, readStr_fStrOmit_last_here, readStrList_fArr_here, readStrList_fArr_last_here, readStr_fStr_skip, readStr_fStrOmit_skip, readStr_fArr_skip, readStr_fArrOmit_skip, readStr_fOptOmit_skip, readStr_fOptNull_skip, readStr_fStr_last_skip, readStr_fStrOmit_last_skip, readStr_fArr_last_skip, readStr_fArrOmit_last_skip, readStr_fOptOmit_last_skip, readStr_fOptNull_last_skip, readStrList_fStr_skip, readStrList_fStrOmit_skip, readStrList_fArrOmit_skip, readStrList_fOptOmit_skip, readStrList_fOptNull_skip, readStrList_fStr_last_skip, readStrList_fStrOmit_last_skip, readStrList_fArrOmit_last_skip, readStrList_fOptOmit_last_skip, readStrList_fOptNull_last_skip, readOpt_fStr_skip, readOpt_fStrOmit_skip, readOpt_fArr_skip, readOpt_fArrOmit_skip, readOpt_fOptOmit_skip, readOpt_fOptNull_skip, readOpt_fStr_last_skip, readOpt_fStrOmit_last_skip, readOpt_fArr_last_skip, readOpt_fArrOmit_last_skip, readOpt_fOptOmit_last_skip, readOpt_fOptNull_last_skip, readList_fStr_skip, readList_fStrOmit_skip, readList_fArr_skip, readList_fArrOmit_skip, readList_fOptOmit_skip, readList_fOptNull_skip, readList_fStr_last_skip, readList_fStrOmit_last_skip, readList_fArr_last_skip, readList_fArrOmit_last_skip, readList_fOptOmit_last_skip, readList_fOptNull_last_skip]

@[simp] theorem readList_encAmendMeta_here {k : String} {rest} {xs : List AmendMeta}
    (h : jLookup k rest = none) :
    readList decAmendMeta (fArrOmit k (xs.map encAmendMeta) ++ rest) k = some (xs.map clearAmendMeta) :=
  readList_fArrOmit_map h (fun y _ => rt_AmendMeta y)

@[simp] theorem readList_encAmendMeta_last_here {k : String} {xs : List AmendMeta} :
    readList decAmendMeta (fArrOmit k (xs.map encAmendMeta)) k = some (xs.map clearAmendMeta) :=
  readList_fArrOmit_last_map (fun y _ => rt_AmendMeta y)

@[simp] theorem readOpt_encAmendMeta_here {k : String} {rest} {c : Option AmendMeta}
    (h : jLookup k rest = none) :
    readOpt decAmendMeta (fOptOmit k (c.map encAmendMeta) ++ rest) k = some (c.map clearAmendMeta) :=
  readOpt_fOptOmit_map h encAmendMeta_obj (fun y _ => rt_AmendMeta y)

@[simp] theorem readOpt_encAmendMeta_last_here {k : String} {c : Option AmendMeta} :
    readOpt decAmendMeta (fOptOmit k (c.map encAmendMeta)) k = some (c.map clearAmendMeta) :=
  readOpt_fOptOmit_last_map encAmendMeta_obj (fun y _ => rt_AmendMeta y)

structure LongTitle where
  XMLName : Name
  DocTitle : String
  OfficialTitle : String

def encLongTitle (x : LongTitle) : Json :=
  Json.obj (fStrOmit "docTitle" x.DocTitle ++
    fStrOmit "officialTitle" x.OfficialTitle)

def decLongTitle : Json → Option LongTitle
  | Json.obj kvs =>
    obind (readStr kvs "docTitle") fun a1 =>
    obind (readStr kvs "officialTitle") fun a2 =>
    some ⟨emptyName, a1, a2⟩
  | _ => none

def clearLongTitle (x : LongTitle) : LongTitle :=
  ⟨emptyName, x.DocTitle, x.OfficialTitle⟩

theorem encLongTitle_obj (x : LongTitle) : ∃ l, encLongTitle x = Json.obj l := ⟨_, rfl⟩

theorem rt_LongTitle (x : LongTitle) : decLongTitle (encLongTitle x) = some (clearLongTitle x) := by
  simp only [encLongTitle, decLongTitle, clearLongTitle, List.append_assoc, obind_some, ne_eq, not_false_eq_true, String.reduceEq, jLookup_nil, readStr_nil, readStrList_nil, readOpt_nil, readList_nil, jLookup_fStr_skip, jLookup_fStrOmit_skip, jLookup_fArr_skip, jLookup_fArrOmit_skip, jLookup_fOptOmit_skip, jLookup_fOptNull_skip, jLookup_fStr_last_skip, jLookup_fStrOmit_last_skip, jLookup_fArr_last_skip, jLookup_fArrOmit_last_skip, jLookup_fOptOmit_last_skip, jLookup_fOptNull_last_skip, readStr_fStr_here, readStr_fStr_last_here, readStr_fStrOmit_here, readStr_fStrOmit_last_here, readStrList_fArr_here, readStrList_fArr_last_here, readStr_fStr_skip, readStr_fStrOmit_skip, readStr_fArr_skip, readStr_fArrOmit_skip, readStr_fOptOmit_skip, readStr_fOptNull_skip, readStr_fStr_last_skip, readStr_fStrOmit_last_skip, readStr_fArr_last_skip, readStr_fArrOmit_last_skip, readStr_fOptOmit_last_skip, readStr_fOptNull_last_skip, readStrList_fStr_skip, readStrList_fStrOmit_skip, readStrList_fArrOmit_skip, readStrList_fOptOmit_skip, readStrList_fOptNull_skip, readStrList_fStr_last_skip, readStrList_fStrOmit_last_skip, readStrList_fArrOmit_last_skip, readStrList_fOptOmit_last_skip, readStrList_fOptNull_last_skip, readOpt_fStr_skip, readOpt_fStrOmit_skip, readOpt_fArr_skip, readOpt_fArrOmit_skip, readOpt_fOptOmit_skip, readOpt_fOptNull_skip, readOpt_fStr_last_skip, readOpt_fStrOmit_last_skip, readOpt_fArr_last_skip, readOpt_fArrOmit_last_skip, readOpt_fOptOmit_last_skip, readOpt_fOptNull_last_skip, readList_fStr_skip, readList_fStrOmit_skip, readList_fArr_skip, readList_fArrOmit_skip, readList_fOptOmit_skip, readList_fOptNull_skip, readList_fStr_last_skip, readList_fStrOmit_last_skip, readList_fArr_last_skip, readList_fArrOmit_last_skip, readList_fOptOmit_last_skip, readList_fOptNull_last_skip]

@[simp] theorem readList_encLongTitle_here {k : String} {rest} {xs : List LongTitle}
    (h : jLookup k rest = none) :
    readList decLongTitle (fArrOmit k (xs.map encLongTitle) ++ rest) k = some (xs.map clearLongTitle) :=
  readList_fArrOmit_map h (fun y _ => rt_LongTitle y)

@[simp] theorem readList_encLongTitle_last_here {k : String} {xs : List LongTitle} :
    readList decLongTitle (fArrOmit k (xs.map encLongTitle)) k = some (xs.map clearLongTitle) :=
  readList_fArrOmit_last_map (fun y _ => rt_LongTitle y)

@[simp] theorem readOpt_encLongTitle_here {k : String} {rest} {c : Option LongTitle}
    (h : jLookup k rest = none) :
    readOpt decLongTitle (fOptOmit k (c.map encLongTitle) ++ rest) k = some (c.map clearLongTitle) :=
  readOpt_fOptOmit_map h encLongTitle_obj (fun y _ => rt_LongTitle y)

@[simp] theorem readOpt_encLongTitle_last_here {k : String} {c : Option LongTitle} :
    readOpt decLongTitle (fOptOmit k (c.map encLongTitle)) k = some (c.map clearLongTitle) :=
  readOpt_fOptOmit_last_map encLongTitle_obj (fun y _ => rt_LongTitle y)

structure EnactingFormula where
  XMLName : Name
  Text : String
  I : List Italic

def encEnactingFormula (x : EnactingFormula) : Json :=
  Json.obj (fStrOmit "text" x.Text ++
    fArrOmit "i" (x.I.map encItalic))

def decEnactingFormula : Json → Option EnactingFormula
  | Json.obj kvs =>
    obind (readStr kvs "text") fun a1 =>
    obind (readList decItalic kvs "i") fun a2 =>
    some ⟨emptyName, a1, a2⟩
  | _ => none

def clearEnactingFormula (x : EnactingFormula) : EnactingFormula :=
  ⟨emptyName, x.Text, x.I.map clearItalic⟩

theorem encEnactingFormula_obj (x : EnactingFormula) : ∃ l, encEnactingFormula x = Json.obj l := ⟨_, rfl⟩

theorem rt_EnactingFormula (x : EnactingFormula) : decEnactingFormula (encEnactingFormula x) = some (clearEnactingFormula x) := by
  simp only [encEnactingFormula, decEnactingFormula, clearEnactingFormula, List.append_assoc, obind_some, ne_eq, not_false_eq_true, String.reduceEq, jLookup_nil, readStr_nil, readStrList_nil, readOpt_nil, readList_nil, jLookup_fStr_skip, jLookup_fStrOmit_skip, jLookup_fArr_skip, jLookup_fArrOmit_skip, jLookup_fOptOmit_skip, jLookup_fOptNull_skip, jLookup_fStr_last_skip, jLookup_fStrOmit_last_skip, jLookup_fArr_last_skip, jLookup_fArrOmit_last_skip, jLookup_fOptOmit_last_skip, jLookup_fOptNull_last_skip, readStr_fStr_here, readStr_fStr_last_here, readStr_fStrOmit_here, readStr_fStrOmit_last_here, readStrList_fArr_here, readStrList_fArr_last_here, readStr_fStr_skip, readStr_fStrOmit_skip, readStr_fArr_skip, readStr_fArrOmit_skip, readStr_fOptOmit_skip, readStr_fOptNull_skip, readStr_fStr_last_skip, readStr_fStrOmit_last_skip, readStr_fArr_last_skip, readStr_fArrOmit_last_skip, readStr_fOptOmit_last_skip, readStr_fOptNull_last_skip, readStrList_fStr_skip, readStrList_fStrOmit_skip, readStrList_fArrOmit_skip, readStrList_fOptOmit_skip, readStrList_fOptNull_skip, readStrList_fStr_last_skip, readStrList_fStrOmit_last_skip, readStrList_fArrOmit_last_skip, readStrList_fOptOmit_last_skip, readStrList_fOptNull_last_skip, readOpt_fStr_skip, readOpt_fStrOmit_skip, readOpt_fArr_skip, readOpt_fArrOmit_skip, readOpt_fOptOmit_skip, readOpt_fOptNull_skip, readOpt_fStr_last_skip, readOpt_fStrOmit_last_skip, readOpt_fArr_last_skip, readOpt_fArrOmit_last_skip, readOpt_fOptOmit_last_skip, readOpt_fOptNull_last_skip, readList_fStr_skip, readList_fStrOmit_skip, readList_fArr_skip, readList_fArrOmit_skip, readList_fOptOmit_skip, readList_fOptNull_skip, readList_fStr_last_skip, readList_fStrOmit_last_skip, readList_fArr_last_skip, readList_fArrOmit_last_skip, readList_fOptOmit_last_skip, readList_fOptNull_last_skip, readList_encItalic_here, readList_encItalic_last_here, readOpt_encItalic_here, readOpt_encItalic_last_here]

@[simp] theorem readList_encEnactingFormula_here {k : String} {rest} {xs : List EnactingFormula}
    (h : jLookup k rest = none) :
    readList decEnactingFormula (fArrOmit k (xs.map encEnactingFormula) ++ rest) k = some (xs.map clearEnactingFormula) :=
  readList_fArrOmit_map h (fun y _ => rt_EnactingFormula y)

@[simp] theorem readList_encEnactingFormula_last_here {k : String} {xs : List EnactingFormula} :
    readList decEnactingFormula (fArrOmit k (xs.map encEnactingFormula)) k = some (xs.map clearEnactingFormula) :=
  readList_fArrOmit_last_map (fun y _ => rt_EnactingFormula y)

@[simp] theorem readOpt_encEnactingFormula_here {k : String} {rest} {c : Option EnactingFormula}
    (h : jLookup k rest = none) :
    readOpt decEnactingFormula (fOptOmit k (c.map encEnactingFormula) ++ rest) k = some (c.map clearEnactingFormula) :=
  readOpt_fOptOmit_map h encEnactingFormula_obj (fun y _ => rt_EnactingFormula y)

@[simp] theorem readOpt_encEnactingFormula_last_here {k : String} {c : Option EnactingFormula} :
    readOpt decEnactingFormula (fOptOmit k (c.map encEnactingFormula)) k = some (c.map clearEnactingFormula) :=
  readOpt_fOptOmit_last_map encEnactingFormula_obj (fun y _ => rt_EnactingFormula y)

structure ReferenceItem where
  XMLName : Name
  Role : String
  Designator : String
  Label : String

def encReferenceItem (x : ReferenceItem) : Json :=
  Json.obj (fStrOmit "role" x.Role ++
    fStrOmit "designator" x.Designator ++
    fStrOmit "label" x.Label)

def decReferenceItem : Json → Option ReferenceItem
  | Json.obj kvs =>
    obind (readStr kvs "role") fun a1 =>
    obind (readStr kvs "designator") fun a2 =>
    obind (readStr kvs "label") fun a3 =>
    some ⟨emptyName, a1, a2, a3⟩
  | _ => none

def clearReferenceItem (x : ReferenceItem) : ReferenceItem :=
  ⟨emptyName, x.Role, x.Designator, x.Label⟩

theorem encReferenceItem_obj (x : ReferenceItem) : ∃ l, encReferenceItem x = Json.obj l := ⟨_, rfl⟩

theorem rt_ReferenceItem (x : ReferenceItem) : decReferenceItem (encReferenceItem x) = some (clearReferenceItem x) := by
  simp only [encReferenceItem, decReferenceItem, clearReferenceItem, List.append_assoc, obind_some, ne_eq, not_false_eq_true, String.reduceEq, jLookup_nil, readStr_nil, readStrList_nil, readOpt_nil, readList_nil, jLookup_fStr_skip, jLookup_fStrOmit_skip, jLookup_fArr_skip, jLookup_fArrOmit_skip, jLookup_fOptOmit_skip, jLookup_fOptNull_skip, jLookup_fStr_last_skip, jLookup_fStrOmit_last_skip, jLookup_fArr_last_skip, jLookup_fArrOmit_last_skip, jLookup_fOptOmit_last_skip, jLookup_fOptNull_last_skip, readStr_fStr_here, readStr_fStr_last_here, readStr_fStrOmit_here, readStr_fStrOmit_last_here, readStrList_fArr_here, readStrList_fArr_last_here, readStr_fStr_skip, readStr_fStrOmit_skip, readStr_fArr_skip, readStr_fArrOmit_skip, readStr_fOptOmit_skip, readStr_fOptNull_skip, readStr_fStr_last_skip, readStr_fStrOmit_last_skip, readStr_fArr_last_skip, readStr_fArrOmit_last_skip, readStr_fOptOmit_last_skip, readStr_fOptNull_last_skip, readStrList_fStr_skip, readStrList_fStrOmit_skip, readStrList_fArrOmit_skip, readStrList_fOptOmit_skip, readStrList_fOptNull_skip, readStrList_fStr_last_skip, readStrList_fStrOmit_last_skip, readStrList_fArrOmit_last_skip, readStrList_fOptOmit_last_skip, readStrList_fOptNull_last_skip, readOpt_fStr_skip, readOpt_fStrOmit_skip, readOpt_fArr_skip, readOpt_fArrOmit_skip, readOpt_fOptOmit_skip, readOpt_fOptNull_skip, readOpt_fStr_last_skip, readOpt_fStrOmit_last_skip, readOpt_fArr_last_skip, readOpt_fArrOmit_last_skip, readOpt_fOptOmit_last_skip, readOpt_fOptNull_last_skip, readList_fStr_skip, readList_fStrOmit_skip, readList_fArr_skip, readList_fArrOmit_skip, readList_fOptOmit_skip, readList_fOptNull_skip, readList_fStr_last_skip, readList_fStrOmit_last_skip, readList_fArr_last_skip, readList_fArrOmit_last_skip, readList_fOptOmit_last_skip, readList_fOptNull_last_skip]

@[simp] theorem readList_encReferenceItem_here {k : String} {rest} {xs : List ReferenceItem}
    (h : jLookup k rest = none) :
    readList decReferenceItem (fArrOmit k (xs.map encReferenceItem) ++ rest) k = some (xs.map clearReferenceItem) :=
  readList_fArrOmit_map h (fun y _ => rt_ReferenceItem y)

@[simp] theorem readList_encReferenceItem_last_here {k : String} {xs : List ReferenceItem} :
    readList decReferenceItem (fArrOmit k (xs.map encReferenceItem)) k = some (xs.map clearReferenceItem) :=
  readList_fArrOmit_last_map (fun y _ => rt_ReferenceItem y)

@[simp] theorem readOpt_encReferenceItem_here {k : String} {rest} {c : Option ReferenceItem}
    (h : jLookup k rest = none) :
    readOpt decReferenceItem (fOptOmit k (c.map encReferenceItem) ++ rest) k = some (c.map clearReferenceItem) :=
  readOpt_fOptOmit_map h encReferenceItem_obj (fun y _ => rt_ReferenceItem y)

@[simp] theorem readOpt_encReferenceItem_last_here {k : String} {c : Option ReferenceItem} :
    readOpt decReferenceItem (fOptOmit k (c.map encReferenceItem)) k = some (c.map clearReferenceItem) :=
  readOpt_fOptOmit_last_map encReferenceItem_obj (fun y _ => rt_ReferenceItem y)

structure TOC where
  XMLName : Name
  ReferenceItem : List ReferenceItem

def encTOC (x : TOC) : Json :=
  Json.obj (fArrOmit "referenceItems" (x.ReferenceItem.map encReferenceItem))

def decTOC : Json → Option TOC
  | Json.obj kvs =>
    obind (readList decReferenceItem kvs "referenceItems") fun a1 =>
    some ⟨emptyName, a1⟩
  | _ => none

def clearTOC (x : TOC) : TOC :=
  ⟨emptyName, x.ReferenceItem.map clearReferenceItem⟩

theorem encTOC_obj (x : TOC) : ∃ l, encTOC x = Json.obj l := ⟨_, rfl⟩

theorem rt_TOC (x : TOC) : decTOC (encTOC x) = some (clearTOC x) := by
  simp only [encTOC, decTOC, clearTOC, List.append_assoc, obind_some, ne_eq, not_false_eq_true, String.reduceEq, jLookup_nil, readStr_nil, readStrList_nil, readOpt_nil, readList_nil, jLookup_fStr_skip, jLookup_fStrOmit_skip, jLookup_fArr_skip, jLookup_fArrOmit_skip, jLookup_fOptOmit_skip, jLookup_fOptNull_skip, jLookup_fStr_last_skip, jLookup_fStrOmit_last_skip, jLookup_fArr_last_skip, jLookup_fArrOmit_last_skip, jLookup_fOptOmit_last_skip, jLookup_fOptNull_last_skip, readStr_fStr_here, readStr_fStr_last_here, readStr_fStrOmit_here, readStr_fStrOmit_last_here, readStrList_fArr_here, readStrList_fArr_last_here, readStr_fStr_skip, readStr_fStrOmit_skip, readStr_fArr_skip, readStr_fArrOmit_skip, readStr_fOptOmit_skip, readStr_fOptNull_skip, readStr_fStr_last_skip, readStr_fStrOmit_last_skip, readStr_fArr_last_skip, readStr_fArrOmit_last_skip, readStr_fOptOmit_last_skip, readStr_fOptNull_last_skip, readStrList_fStr_skip, readStrList_fStrOmit_skip, readStrList_fArrOmit_skip, readStrList_fOptOmit_skip, readStrList_fOptNull_skip, readStrList_fStr_last_skip, readStrList_fStrOmit_last_skip, readStrList_fArrOmit_last_skip, readStrList_fOptOmit_last_skip, readStrList_fOptNull_last_skip, readOpt_fStr_skip, readOpt_fStrOmit_skip, readOpt_fArr_skip, readOpt_fArrOmit_skip, readOpt_fOptOmit_skip, readOpt_fOptNull_skip, readOpt_fStr_last_skip, readOpt_fStrOmit_last_skip, readOpt_fArr_last_skip, readOpt_fArrOmit_last_skip, readOpt_fOptOmit_last_skip, readOpt_fOptNull_last_skip, readList_fStr_skip, readList_fStrOmit_skip, readList_fArr_skip, readList_fArrOmit_skip, readList_fOptOmit_skip, readList_fOptNull_skip, readList_fStr_last_skip, readList_fStrOmit_last_skip, readList_fArr_last_skip, readList_fArrOmit_last_skip, readList_fOptOmit_last_skip, readList_fOptNull_last_skip, readList_encReferenceItem_here, readList_encReferenceItem_last_here, readOpt_encReferenceItem_here, readOpt_encReferenceItem_last_here]

@[simp] theorem readList_encTOC_here {k : String} {rest} {xs : List TOC}
    (h : jLookup k rest = none) :
    readList decTOC (fArrOmit k (xs.map encTOC) ++ rest) k = some (xs.map clearTOC) :=
  readList_fArrOmit_map h (fun y _ => rt_TOC y)

@[simp] theorem readList_encTOC_last_here {k : String} {xs : List TOC} :
    readList decTOC (fArrOmit k (xs.map encTOC)) k = some (xs.map clearTOC) :=
  readList_fArrOmit_last_map (fun y _ => rt_TOC y)

@[simp] theorem readOpt_encTOC_here {k : String} {rest} {c : Option TOC}
    (h : jLookup k rest = none) :
    readOpt decTOC (fOptOmit k (c.map encTOC) ++ rest) k = some (c.map clearTOC) :=
  readOpt_fOptOmit_map h encTOC_obj (fun y _ => rt_TOC y)

@[simp] theorem readOpt_encTOC_last_here {k : String} {c : Option TOC} :
    readOpt decTOC (fOptOmit k (c.map encTOC)) k = some (c.map clearTOC) :=
  readOpt_fOptOmit_last_map encTOC_obj (fun y _ => rt_TOC y)

structure ResolvingClause where
  XMLName : Name
  Class : String
  Text : String
  I : List Italic

def encResolvingClause (x : ResolvingClause) : Json :=
  Json.obj (fStrOmit "class" x.Class ++
    fStrOmit "text" x.Text ++
    fArrOmit "i" (x.I.map encItalic))

def decResolvingClause : Json → Option ResolvingClause
  | Json.obj kvs =>
    obind (readStr kvs "class") fun a1 =>
    obind (readStr kvs "text") fun a2 =>
    obind (readList decItalic kvs "i") fun a3 =>
    some ⟨emptyName, a1, a2, a3⟩
  | _ => none

def clearResolvingClause (x : ResolvingClause) : ResolvingClause :=
  ⟨emptyName, x.Class, x.Text, x.I.map clearItalic⟩

theorem encResolvingClause_obj (x : ResolvingClause) : ∃ l, encResolvingClause x = Json.obj l := ⟨_, rfl⟩

theorem rt_ResolvingClause (x : ResolvingClause) : decResolvingClause (encResolvingClause x) = some (clearResolvingClause x) := by
  simp only [encResolvingClause, decResolvingClause, clearResolvingClause, List.append_assoc, obind_some, ne_eq, not_false_eq_true, String.reduceEq, jLookup_nil, readStr_nil, readStrList_nil, readOpt_nil, readList_nil, jLookup_fStr_skip, jLookup_fStrOmit_skip, jLookup_fArr_skip, jLookup_fArrOmit_skip, jLookup_fOptOmit_skip, jLookup_fOptNull_skip, jLookup_fStr_last_skip, jLookup_fStrOmit_last_skip, jLookup_fArr_last_skip, jLookup_fArrOmit_last_skip, jLookup_fOptOmit_last_skip, jLookup_fOptNull_last_skip, readStr_fStr_here, readStr_fStr_last_here, readStr_fStrOmit_here, readStr_fStrOmit_last_here, readStrList_fArr_here, readStrList_fArr_last_here, readStr_fStr_skip, readStr_fStrOmit_skip, readStr_fArr_skip, readStr_fArrOmit_skip, readStr_fOptOmit_skip, readStr_fOptNull_skip, readStr_fStr_last_skip, readStr_fStrOmit_last_skip, readStr_fArr_last_skip, readStr_fArrOmit_last_skip, readStr_fOptOmit_last_skip, readStr_fOptNull_last_skip, readStrList_fStr_skip, readStrList_fStrOmit_skip, readStrList_fArrOmit_skip, readStrList_fOptOmit_skip, readStrList_fOptNull_skip, readStrList_fStr_last_skip, readStrList_fStrOmit_last_skip, readStrList_fArrOmit_last_skip, readStrList_fOptOmit_last_skip, readStrList_fOptNull_last_skip, readOpt_fStr_skip, readOpt_fStrOmit_skip, readOpt_fArr_skip, readOpt_fArrOmit_skip, readOpt_fOptOmit_skip, readOpt_fOptNull_skip, readOpt_fStr_last_skip, readOpt_fStrOmit_last_skip, readOpt_fArr_last_skip, readOpt_fArrOmit_last_skip, readOpt_fOptOmit_last_skip, readOpt_fOptNull_last_skip, readList_fStr_skip, readList_fStrOmit_skip, readList_fArr_skip, readList_fArrOmit_skip, readList_fOptOmit_skip, readList_fOptNull_skip, readList_fStr_last_skip, readList_fStrOmit_last_skip, readList_fArr_last_skip, readList_fArrOmit_last_skip, readList_fOptOmit_last_skip, readList_fOptNull_last_skip, readList_encItalic_here, readList_encItalic_last_here, readOpt_encItalic_here, readOpt_encItalic_last_here]

@[simp] theorem readList_encResolvingClause_here {k : String} {rest} {xs : List ResolvingClause}
    (h : jLookup k rest = none) :
    readList decResolvingClause (fArrOmit k (xs.map encResolvingClause) ++ rest) k = some (xs.map clearResolvingClause) :=
  readList_fArrOmit_map h (fun y _ => rt_ResolvingClause y)

@[simp] theorem readList_encResolvingClause_last_here {k : String} {xs : List ResolvingClause} :
    readList decResolvingClause (fArrOmit k (xs.map encResolvingClause)) k = some (xs.map clearResolvingClause) :=
  readList_fArrOmit_last_map (fun y _ => rt_ResolvingClause y)

@[simp] theorem readOpt_encResolvingClause_here {k : String} {rest} {c : Option ResolvingClause}
    (h : jLookup k rest = none) :
    readOpt decResolvingClause (fOptOmit k (c.map encResolvingClause) ++ rest) k = some (c.map clearResolvingClause) :=
  readOpt_fOptOmit_map h encResolvingClause_obj (fun y _ => rt_ResolvingClause y)

@[simp] theorem readOpt_encResolvingClause_last_here {k : String} {c : Option ResolvingClause} :
    readOpt decResolvingClause (fOptOmit k (c.map encResolvingClause)) k = some (c.map clearResolvingClause) :=
  readOpt_fOptOmit_last_map encResolvingClause_obj (fun y _ => rt_ResolvingClause y)

structure NotationElem where
  XMLName : Name
  Type' : String
  Text : String

def encNotationElem (x : NotationElem) : Json :=
  Json.obj (fStrOmit "type" x.Type' ++
    fStrOmit "text" x.Text)

def decNotationElem : Json → Option NotationElem
  | Json.obj kvs =>
    obind (readStr kvs "type") fun a1 =>
    obind (readStr kvs "text") fun a2 =>
    some ⟨emptyName, a1, a2⟩
  | _ => none

def clearNotationElem (x : NotationElem) : NotationElem :=
  ⟨emptyName, x.Type', x.Text⟩

theorem encNotationElem_obj (x : NotationElem) : ∃ l, encNotationElem x = Json.obj l := ⟨_, rfl⟩

theorem rt_NotationElem (x : NotationElem) : decNotationElem (encNotationElem x) = some (clearNotationElem x) := by
  simp only [encNotationElem, decNotationElem, clearNotationElem, List.append_assoc, obind_some, ne_eq, not_false_eq_true, String.reduceEq, jLookup_nil, readStr_nil, readStrList_nil, readOpt_nil, readList_nil, jLookup_fStr_skip, jLookup_fStrOmit_skip, jLookup_fArr_skip, jLookup_fArrOmit_skip, jLookup_fOptOmit_skip, jLookup_fOptNull_skip, jLookup_fStr_last_skip, jLookup_fStrOmit_last_skip, jLookup_fArr_last_skip, jLookup_fArrOmit_last_skip, jLookup_fOptOmit_last_skip, jLookup_fOptNull_last_skip, readStr_fStr_here, readStr_fStr_last_here, readStr_fStrOmit_here, readStr_fStrOmit_last_here, readStrList_fArr_here, readStrList_fArr_last_here, readStr_fStr_skip, readStr_fStrOmit_skip, readStr_fArr_skip, readStr_fArrOmit_skip, readStr_fOptOmit_skip, readStr_fOptNull_skip, readStr_fStr_last_skip, readStr_fStrOmit_last_skip, readStr_fArr_last_skip, readStr_fArrOmit_last_skip, readStr_fOptOmit_last_skip, readStr_fOptNull_last_skip, readStrList_fStr_skip, readStrList_fStrOmit_skip, readStrList_fArrOmit_skip, readStrList_fOptOmit_skip, readStrList_fOptNull_skip, readStrList_fStr_last_skip, readStrList_fStrOmit_last_skip, readStrList_fArrOmit_last_skip, readStrList_fOptOmit_last_skip, readStrList_fOptNull_last_skip, readOpt_fStr_skip, readOpt_fStrOmit_skip, readOpt_fArr_skip, readOpt_fArrOmit_skip, readOpt_fOptOmit_skip, readOpt_fOptNull_skip, readOpt_fStr_last_skip, readOpt_fStrOmit_last_skip, readOpt_fArr_last_skip, readOpt_fArrOmit_last_skip, readOpt_fOptOmit_last_skip, readOpt_fOptNull_last_skip, readList_fStr_skip, readList_fStrOmit_skip, readList_fArr_skip, readList_fArrOmit_skip, readList_fOptOmit_skip, readList_fOptNull_skip, readList_fStr_last_skip, readList_fStrOmit_last_skip, readList_fArr_last_skip, readList_fArrOmit_last_skip, readList_fOptOmit_last_skip, readList_fOptNull_last_skip]

@[simp] theorem readList_encNotationElem_here {k : String} {rest} {xs : List NotationElem}
    (h : jLookup k rest = none) :
    readList decNotationElem (fArrOmit k (xs.map encNotationElem) ++ rest) k = some (xs.map clearNotationElem) :=
  readList_fArrOmit_map h (fun y _ => rt_NotationElem y)

@[simp] theorem readList_encNotationElem_last_here {k : String} {xs : List NotationElem} :
    readList decNotationElem (fArrOmit k (xs.map encNotationElem)) k = some (xs.map clearNotationElem) :=
  readList_fArrOmit_last_map (fun y _ => rt_NotationElem y)

@[simp] theorem readOpt_encNotationElem_here {k : String} {rest} {c : Option NotationElem}
    (h : jLookup k rest = none) :
    readOpt decNotationElem (fOptOmit k (c.map encNotationElem) ++ rest) k = some (c.map clearNotationElem) :=
  readOpt_fOptOmit_map h encNotationElem_obj (fun y _ => rt_NotationElem y)

@[simp] theorem readOpt_encNotationElem_last_here {k : String} {c : Option NotationElem} :
    readOpt decNotationElem (fOptOmit k (c.map encNotationElem)) k = some (c.map clearNotationElem) :=
  readOpt_fOptOmit_last_map encNotationElem_obj (fun y _ => rt_NotationElem y)

structure Signature where
  XMLName : Name
  Notation : Option NotationElem
  Role : String
  Text : String

def encSignature (x : Signature) : Json :=
  Json.obj (fOptOmit "notation" (x.Notation.map encNotationElem) ++
    fStrOmit "role" x.Role ++
    fStrOmit "text" x.Text)

def decSignature : Json → Option Signature
  | Json.obj kvs =>
    obind (readOpt decNotationElem kvs "notation") fun a1 =>
    obind (readStr kvs "role") fun a2 =>
    obind (readStr kvs "text") fun a3 =>
    some ⟨emptyName, a1, a2, a3⟩
  | _ => none

def clearSignature (x : Signature) : Signature :=
  ⟨emptyName, x.Notation.map clearNotationElem, x.Role, x.Text⟩

theorem encSignature_obj (x : Signature) : ∃ l, encSignature x = Json.obj l := ⟨_, rfl⟩

theorem rt_Signature (x : Signature) : decSignature (encSignature x) = some (clearSignature x) := by
  simp only [encSignature, decSignature, clearSignature, List.append_assoc, obind_some, ne_eq, not_false_eq_true, String.reduceEq, jLookup_nil, readStr_nil, readStrList_nil, readOpt_nil, readList_nil, jLookup_fStr_skip, jLookup_fStrOmit_skip, jLookup_fArr_skip, jLookup_fArrOmit_skip, jLookup_fOptOmit_skip, jLookup_fOptNull_skip, jLookup_fStr_last_skip, jLookup_fStrOmit_last_skip, jLookup_fArr_last_skip, jLookup_fArrOmit_last_skip, jLookup_fOptOmit_last_skip, jLookup_fOptNull_last_skip, readStr_fStr_here, readStr_fStr_last_here, readStr_fStrOmit_here, readStr_fStrOmit_last_here, readStrList_fArr_here, readStrList_fArr_last_here, readStr_fStr_skip, readStr_fStrOmit_skip, readStr_fArr_skip, readStr_fArrOmit_skip, readStr_fOptOmit_skip, readStr_fOptNull_skip, readStr_fStr_last_skip, readStr_fStrOmit_last_skip, readStr_fArr_last_skip, readStr_fArrOmit_last_skip, readStr_fOptOmit_last_skip, readStr_fOptNull_last_skip, readStrList_fStr_skip, readStrList_fStrOmit_skip, readStrList_fArrOmit_skip, readStrList_fOptOmit_skip, readStrList_fOptNull_skip, readStrList_fStr_last_skip, readStrList_fStrOmit_last_skip, readStrList_fArrOmit_last_skip, readStrList_fOptOmit_last_skip, readStrList_fOptNull_last_skip, readOpt_fStr_skip, readOpt_fStrOmit_skip, readOpt_fArr_skip, readOpt_fArrOmit_skip, readOpt_fOptOmit_skip, readOpt_fOptNull_skip, readOpt_fStr_last_skip, readOpt_fStrOmit_last_skip, readOpt_fArr_last_skip, readOpt_fArrOmit_last_skip, readOpt_fOptOmit_last_skip, readOpt_fOptNull_last_skip, readList_fStr_skip, readList_fStrOmit_skip, readList_fArr_skip, readList_fArrOmit_skip, readList_fOptOmit_skip, readList_fOptNull_skip, readList_fStr_last_skip, readList_fStrOmit_last_skip, readList_fArr_last_skip, readList_fArrOmit_last_skip, readList_fOptOmit_last_skip, readList_fOptNull_last_skip, readList_encNotationElem_here, readList_encNotationElem_last_here, readOpt_encNotationElem_here, readOpt_encNotationElem_last_here]

@[simp] theorem readList_encSignature_here {k : String} {rest} {xs : List Signature}
    (h : jLookup k rest = none) :
    readList decSignature (fArrOmit k (xs.map encSignature) ++ rest) k = some (xs.map clearSignature) :=
  readList_fArrOmit_map h (fun y _ => rt_Signature y)

@[simp] theorem readList_encSignature_last_here {k : String} {xs : List Signature} :
    readList decSignature (fArrOmit k (xs.map encSignature)) k = some (xs.map clearSignature) :=
  readList_fArrOmit_last_map (fun y _ => rt_Signature y)

@[simp] theorem readOpt_encSignature_here {k : String} {rest} {c : Option Signature}
    (h : jLookup k rest = none) :
    readOpt decSignature (fOptOmit k (c.map encSignature) ++ rest) k = some (c.map clearSignature) :=
  readOpt_fOptOmit_map h encSignature_obj (fun y _ => rt_Signature y)

@[simp] theorem readOpt_encSignature_last_here {k : String} {c : Option Signature} :
    readOpt decSignature (fOptOmit k (c.map encSignature)) k = some (c.map clearSignature) :=
  readOpt_fOptOmit_last_map encSignature_obj (fun y _ => rt_Signature y)

structure Signatures where
  XMLName : Name
  Signature : List Signature

def encSignatures (x : Signatures) : Json :=
  Json.obj (fArrOmit "signatures" (x.Signature.map encSignature))

def decSignatures : Json → Option Signatures
  | Json.obj kvs =>
    obind (readList decSignature kvs "signatures") fun a1 =>
    some ⟨emptyName, a1⟩
  | _ => none

def clearSignatures (x : Signatures) : Signatures :=
  ⟨emptyName, x.Signature.map clearSignature⟩

theorem encSignatures_obj (x : Signatures) : ∃ l, encSignatures x = Json.obj l := ⟨_, rfl⟩

theorem rt_Signatures (x : Signatures) : decSignatures (encSignatures x) = some (clearSignatures x) := by
  simp only [encSignatures, decSignatures, clearSignatures, List.append_assoc, obind_some, ne_eq, not_false_eq_true, String.reduceEq, jLookup_nil, readStr_nil, readStrList_nil, readOpt_nil, readList_nil, jLookup_fStr_skip, jLookup_fStrOmit_skip, jLookup_fArr_skip, jLookup_fArrOmit_skip, jLookup_fOptOmit_skip, jLookup_fOptNull_skip, jLookup_fStr_last_skip, jLookup_fStrOmit_last_skip, jLookup_fArr_last_skip, jLookup_fArrOmit_last_skip, jLookup_fOptOmit_last_skip, jLookup_fOptNull_last_skip, readStr_fStr_here, readStr_fStr_last_here, readStr_fStrOmit_here, readStr_fStrOmit_last_here, readStrList_fArr_here, readStrList_fArr_last_here, readStr_fStr_skip, readStr_fStrOmit_skip, readStr_fArr_skip, readStr_fArrOmit_skip, readStr_fOptOmit_skip, readStr_fOptNull_skip, readStr_fStr_last_skip, readStr_fStrOmit_last_skip, readStr_fArr_last_skip, readStr_fArrOmit_last_skip, readStr_fOptOmit_last_skip, readStr_fOptNull_last_skip, readStrList_fStr_skip, readStrList_fStrOmit_skip, readStrList_fArrOmit_skip, readStrList_fOptOmit_skip, readStrList_fOptNull_skip, readStrList_fStr_last_skip, readStrList_fStrOmit_last_skip, readStrList_fArrOmit_last_skip, readStrList_fOptOmit_last_skip, readStrList_fOptNull_last_skip, readOpt_fStr_skip, readOpt_fStrOmit_skip, readOpt_fArr_skip, readOpt_fArrOmit_skip, readOpt_fOptOmit_skip, readOpt_fOptNull_skip, readOpt_fStr_last_skip, readOpt_fStrOmit_last_skip, readOpt_fArr_last_skip, readOpt_fArrOmit_last_skip, readOpt_fOptOmit_last_skip, readOpt_fOptNull_last_skip, readList_fStr_skip, readList_fStrOmit_skip, readList_fArr_skip, readList_fArrOmit_skip, readList_fOptOmit_skip, readList_fOptNull_skip, readList_fStr_last_skip, readList_fStrOmit_last_skip, readList_fArr_last_skip, readList_fArrOmit_last_skip, readList_fOptOmit_last_skip, readList_fOptNull_last_skip, readList_encSignature_here, readList_encSignature_last_here, readOpt_encSignature_here, readOpt_encSignature_last_here]

@[simp] theorem readList_encSignatures_here {k : String} {rest} {xs : List Signatures}
    (h : jLookup k rest = none) :
    readList decSignatures (fArrOmit k (xs.map encSignatures) ++ rest) k = some (xs.map clearSignatures) :=
  readList_fArrOmit_map h (fun y _ => rt_Signatures y)

@[simp] theorem readList_encSignatures_last_here {k : String} {xs : List Signatures} :
    readList decSignatures (fArrOmit k (xs.map encSignatures)) k = some (xs.map clearSignatures) :=
  readList_fArrOmit_last_map (fun y _ => rt_Signatures y)

@[simp] theorem readOpt_encSignatures_here {k : String} {rest} {c : Option Signatures}
    (h : jLookup k rest = none) :
    readOpt decSignatures (fOptOmit k (c.map encSignatures) ++ rest) k = some (c.map clearSignatures) :=
  readOpt_fOptOmit_map h encSignatures_obj (fun y _ => rt_Signatures y)

@[simp] theorem readOpt_encSignatures_last_here {k : String} {c : Option Signatures} :
    readOpt decSignatures (fOptOmit k (c.map encSignatures)) k = some (c.map clearSignatures) :=
  readOpt_fOptOmit_last_map encSignatures_obj (fun y _ => rt_Signatures y)

structure Endorsement where
  XMLName : Name
  Orientation : String
  Congress : Option CongressElement
  Session : Option SessionElement
  DCType : String
  DocNumber : String
  DocTitle : String

def encEndorsement (x : Endorsement) : Json :=
  Json.obj (fStrOmit "orientation" x.Orientation ++
    fOptOmit "congress" (x.Congress.map encCongressElement) ++
    fOptOmit "session" (x.Session.map encSessionElement) ++
    fStrOmit "dcType" x.DCType ++
    fStrOmit "docNumber" x.DocNumber ++
    fStrOmit "docTitle" x.DocTitle)

def decEndorsement : Json → Option Endorsement
  | Json.obj kvs =>
    obind (readStr kvs "orientation") fun a1 =>
    obind (readOpt decCongressElement kvs "congress") fun a2 =>
    obind (readOpt decSessionElement kvs "session") fun a3 =>
    obind (readStr kvs "dcType") fun a4 =>
    obind (readStr kvs "docNumber") fun a5 =>
    obind (readStr kvs "docTitle") fun a6 =>
    some ⟨emptyName, a1, a2, a3, a4, a5, a6⟩
  | _ => none

def clearEndorsement (x : Endorsement) : Endorsement :=
  ⟨emptyName, x.Orientation, x.Congress.map clearCongressElement, x.Session.map clearSessionElement, x.DCType, x.DocNumber, x.DocTitle⟩

theorem encEndorsement_obj (x : Endorsement) : ∃ l, encEndorsement x = Json.obj l := ⟨_, rfl⟩

theorem rt_Endorsement (x : Endorsement) : decEndorsement (encEndorsement x) = some (clearEndorsement x) := by
  simp only [encEndorsement, decEndorsement, clearEndorsement, List.append_assoc, obind_some, ne_eq, not_false_eq_true, String.reduceEq, jLookup_nil, readStr_nil, readStrList_nil, readOpt_nil, readList_nil, jLookup_fStr_skip, jLookup_fStrOmit_skip, jLookup_fArr_skip, jLookup_fArrOmit_skip, jLookup_fOptOmit_skip, jLookup_fOptNull_skip, jLookup_fStr_last_skip, jLookup_fStrOmit_last_skip, jLookup_fArr_last_skip, jLookup_fArrOmit_last_skip, jLookup_fOptOmit_last_skip, jLookup_fOptNull_last_skip, readStr_fStr_here, readStr_fStr_last_here, readStr_fStrOmit_here, readStr_fStrOmit_last_here, readStrList_fArr_here, readStrList_fArr_last_here, readStr_fStr_skip, readStr_fStrOmit_skip, readStr_fArr_skip, readStr_fArrOmit_skip, readStr_fOptOmit_skip, readStr_fOptNull_skip, readStr_fStr_last_skip, readStr_fStrOmit_last_skip, readStr_fArr_last_skip, readStr_fArrOmit_last_skip, readStr_fOptOmit_last_skip, readStr_fOptNull_last_skip, readStrList_fStr_skip, readStrList_fStrOmit_skip, readStrList_fArrOmit_skip, readStrList_fOptOmit_skip, readStrList_fOptNull_skip, readStrList_fStr_last_skip, readStrList_fStrOmit_last_skip, readStrList_fArrOmit_last_skip, readStrList_fOptOmit_last_skip, readStrList_fOptNull_last_skip, readOpt_fStr_skip, readOpt_fStrOmit_skip, readOpt_fArr_skip, readOpt_fArrOmit_skip, readOpt_fOptOmit_skip, readOpt_fOptNull_skip, readOpt_fStr_last_skip, readOpt_fStrOmit_last_skip, readOpt_fArr_last_skip, readOpt_fArrOmit_last_skip, readOpt_fOptOmit_last_skip, readOpt_fOptNull_last_skip, readList_fStr_skip, readList_fStrOmit_skip, readList_fArr_skip, readList_fArrOmit_skip, readList_fOptOmit_skip, readList_fOptNull_skip, readList_fStr_last_skip, readList_fStrOmit_last_skip, readList_fArr_last_skip, readList_fArrOmit_last_skip, readList_fOptOmit_last_skip, readList_fOptNull_last_skip, readList_encCongressElement_here, readList_encCongressElement_last_here, readOpt_encCongressElement_here, readOpt_encCongressElement_last_here, readList_encSessionElement_here, readList_encSessionElement_last_here, readOpt_encSessionElement_here, readOpt_encSessionElement_last_here]

@[simp] theorem readList_encEndorsement_here {k : String} {rest} {xs : List Endorsement}
    (h : jLookup k rest = none) :
    readList decEndorsement (fArrOmit k (xs.map encEndorsement) ++ rest) k = some (xs.map clearEndorsement) :=
  readList_fArrOmit_map h (fun y _ => rt_Endorsement y)

@[simp] theorem readList_encEndorsement_last_here {k : String} {xs : List Endorsement} :
    readList decEndorsement (fArrOmit k (xs.map encEndorsement)) k = some (xs.map clearEndorsement) :=
  readList_fArrOmit_last_map (fun y _ => rt_Endorsement y)

@[simp] theorem readOpt_encEndorsement_here {k : String} {rest} {c : Option Endorsement}
    (h : jLookup k rest = none) :
    readOpt decEndorsement (fOptOmit k (c.map encEndorsement) ++ rest) k = some (c.map clearEndorsement) :=
  readOpt_fOptOmit_map h encEndorsement_obj (fun y _ => rt_Endorsement y)

@[simp] theorem readOpt_encEndorsement_last_here {k : String} {c : Option Endorsement} :
    readOpt decEndorsement (fOptOmit k (c.map encEndorsement)) k = some (c.map clearEndorsement) :=
  readOpt_fOptOmit_last_map encEndorsement_obj (fun y _ => rt_Endorsement y)


/-! ## Ref: the recursive reference span

Go struct `Ref` (`pkg/uslm/common.go`): `InnerRef *Ref` makes the type
recursive — the source comment reads "Nested refs can occur". -/

inductive Ref where
  | mk : Name → String → String → Option Ref → Ref

def Ref.XMLName : Ref → Name
  | .mk n _ _ _ => n

def Ref.Href : Ref → String
  | .mk _ h _ _ => h

def Ref.Text : Ref → String
  | .mk _ _ t _ => t

def Ref.InnerRef : Ref → Option Ref
  | .mk _ _ _ r => r

/-- Nesting depth of a reference chain: a `Ref` with no inner reference
has depth 1, and each `InnerRef` level adds one. -/
def Ref.depth : Ref → Nat
  | .mk _ _ _ none => 1
  | .mk _ _ _ (some r) => Ref.depth r + 1
  termination_by r => sizeOf r
  decreasing_by simp_wf <;> omega

@[simp] theorem jLookup_fOptOmit_here {k : String} {o rest}
    (h : jLookup k rest = none) :
    jLookup k (fOptOmit k o ++ rest) = o := by
  cases o <;> simp [fOptOmit, jLookup, h]

@[simp] theorem jLookup_fOptOmit_last_here {k : String} {o} :
    jLookup k (fOptOmit k o) = o := by
  cases o <;> simp [fOptOmit, jLookup]

def encRef : Ref → Json
  | .mk _ h t ir =>
    Json.obj (fStrOmit "href" h ++ fStrOmit "text" t ++
      fOptOmit "innerRef" (match ir with | none => none | some r => some (encRef r)))
  termination_by r => sizeOf r
  decreasing_by simp_wf <;> omega

mutual
def decRef (j : Json) : Option Ref :=
  match j with
  | Json.obj kvs =>
    obind (readStr kvs "href") fun h =>
    obind (readStr kvs "text") fun t =>
    obind (decRefInner kvs) fun ir =>
    some (Ref.mk emptyName h t ir)
  | _ => none
  termination_by sizeOf j
  decreasing_by simp_wf <;> omega

def decRefInner (kvs : List (String × Json)) : Option (Option Ref) :=
  match hh : jLookup "innerRef" kvs with
  | none => some none
  | some Json.null => some none
  | some j' => (decRef j').map some
  termination_by sizeOf kvs
  decreasing_by simp_wf; have := jLookup_sizeOf hh; simp at this ⊢ <;> omega
end

theorem decRefInner_eq_none {kvs} (h : jLookup "innerRef" kvs = none) :
    decRefInner kvs = some none := by
  rw [decRefInner]
  split <;> simp_all

theorem decRefInner_eq_obj {kvs l} (h : jLookup "innerRef" kvs = some (Json.obj l)) :
    decRefInner kvs = (decRef (Json.obj l)).map some := by
  rw [decRefInner]
  split <;> simp_all

def clearRef : Ref → Ref
  | .mk _ h t none => .mk emptyName h t none
  | .mk _ h t (some r) => .mk emptyName h t (some (clearRef r))
  termination_by r => sizeOf r
  decreasing_by simp_wf <;> omega

theorem encRef_obj (r : Ref) : ∃ l, encRef r = Json.obj l := by
  cases r with
  | mk n h t ir => cases ir <;> simp [encRef]

theorem rt_Ref (r : Ref) : decRef (encRef r) = some (clearRef r) := by
  match r with
  | .mk n h t ir =>
    cases ir with
    | none =>
      rw [encRef, decRef]
      rw [decRefInner_eq_none (by simp)]
      simp [clearRef]
    | some r' =>
      have ih := rt_Ref r'
      obtain ⟨l, hl⟩ := encRef_obj r'
      rw [encRef, decRef, hl]
      rw [decRefInner_eq_obj (l := l) (by simp)]
      rw [hl] at ih
      simp [ih, clearRef]
  termination_by sizeOf r

@[simp] theorem readList_encRef_here {k : String} {rest} {xs : List Ref}
    (h : jLookup k rest = none) :
    readList decRef (fArrOmit k (xs.map encRef) ++ rest) k = some (xs.map clearRef) :=
  readList_fArrOmit_map h (fun y _ => rt_Ref y)

@[simp] theorem readList_encRef_last_here {k : String} {xs : List Ref} :
    readList decRef (fArrOmit k (xs.map encRef)) k = some (xs.map clearRef) :=
  readList_fArrOmit_last_map (fun y _ => rt_Ref y)

theorem encRef_obj_ex : ∀ x, ∃ l, encRef x = Json.obj l := encRef_obj

@[simp] theorem readOpt_encRef_here {k : String} {rest} {c : Option Ref}
    (h : jLookup k rest = none) :
    readOpt decRef (fOptOmit k (c.map encRef) ++ rest) k = some (c.map clearRef) :=
  readOpt_fOptOmit_map h encRef_obj (fun y _ => rt_Ref y)

@[simp] theorem readOpt_encRef_last_here {k : String} {c : Option Ref} :
    readOpt decRef (fOptOmit k (c.map encRef)) k = some (c.map clearRef) :=
  readOpt_fOptOmit_last_map encRef_obj (fun y _ => rt_Ref y)

/-! ## Chapeau (leads-in text; holds inline spans and references) -/

structure Chapeau where
  XMLName : Name
  Class : String
  Text : String
  Inline : List Inline
  Ref : List Ref
  AmendingAction : List AmendingAction

def encChapeau (x : Chapeau) : Json :=
  Json.obj (fStrOmit "class" x.Class ++
    fStrOmit "text" x.Text ++
    fArrOmit "inline" (x.Inline.map encInline) ++
    fArrOmit "ref" (x.Ref.map encRef) ++
    fArrOmit "amendingAction" (x.AmendingAction.map encAmendingAction))

def decChapeau : Json → Option Chapeau
  | Json.obj kvs =>
    obind (readStr kvs "class") fun a1 =>
    obind (readStr kvs "text") fun a2 =>
    obind (readList decInline kvs "inline") fun a3 =>
    obind (readList decRef kvs "ref") fun a4 =>
    obind (readList decAmendingAction kvs "amendingAction") fun a5 =>
    some ⟨emptyName, a1, a2, a3, a4, a5⟩
  | _ => none

def clearChapeau (x : Chapeau) : Chapeau :=
  ⟨emptyName, x.Class, x.Text, x.Inline.map clearInline, x.Ref.map clearRef,
    x.AmendingAction.map clearAmendingAction⟩

theorem encChapeau_obj (x : Chapeau) : ∃ l, encChapeau x = Json.obj l := ⟨_, rfl⟩

theorem rt_Chapeau (x : Chapeau) : decChapeau (encChapeau x) = some (clearChapeau x) := by
  simp only [encChapeau, decChapeau, clearChapeau, List.append_assoc, obind_some, ne_eq, not_false_eq_true, String.reduceEq, jLookup_nil, readStr_nil, readStrList_nil, readOpt_nil, readList_nil, jLookup_fStr_skip, jLookup_fStrOmit_skip, jLookup_fArr_skip, jLookup_fArrOmit_skip, jLookup_fOptOmit_skip, jLookup_fOptNull_skip, jLookup_fStr_last_skip, jLookup_fStrOmit_last_skip, jLookup_fArr_last_skip, jLookup_fArrOmit_last_skip, jLookup_fOptOmit_last_skip, jLookup_fOptNull_last_skip, readStr_fStr_here, readStr_fStr_last_here, readStr_fStrOmit_here, readStr_fStrOmit_last_here, readStrList_fArr_here, readStrList_fArr_last_here, readStr_fStr_skip, readStr_fStrOmit_skip, readStr_fArr_skip, readStr_fArrOmit_skip, readStr_fOptOmit_skip, readStr_fOptNull_skip, readStr_fStr_last_skip, readStr_fStrOmit_last_skip, readStr_fArr_last_skip, readStr_fArrOmit_last_skip, readStr_fOptOmit_last_skip, readStr_fOptNull_last_skip, readStrList_fStr_skip, readStrList_fStrOmit_skip, readStrList_fArrOmit_skip, readStrList_fOptOmit_skip, readStrList_fOptNull_skip, readStrList_fStr_last_skip, readStrList_fStrOmit_last_skip, readStrList_fArrOmit_last_skip, readStrList_fOptOmit_last_skip, readStrList_fOptNull_last_skip, readOpt_fStr_skip, readOpt_fStrOmit_skip, readOpt_fArr_skip, readOpt_fArrOmit_skip, readOpt_fOptOmit_skip, readOpt_fOptNull_skip, readOpt_fStr_last_skip, readOpt_fStrOmit_last_skip, readOpt_fArr_last_skip, readOpt_fArrOmit_last_skip, readOpt_fOptOmit_last_skip, readOpt_fOptNull_last_skip, readList_fStr_skip, readList_fStrOmit_skip, readList_fArr_skip, readList_fArrOmit_skip, readList_fOptOmit_skip, readList_fOptNull_skip, readList_fStr_last_skip, readList_fStrOmit_last_skip, readList_fArr_last_skip, readList_fArrOmit_last_skip, readList_fOptOmit_last_skip, readList_fOptNull_last_skip, readList_encAmendingAction_here, readList_encAmendingAction_last_here, readOpt_encAmendingAction_here, readOpt_encAmendingAction_last_here, readList_encInline_here, readList_encInline_last_here, readOpt_encInline_here, readOpt_encInline_last_here, readList_encRef_here, readList_encRef_last_here, readOpt_encRef_here, readOpt_encRef_last_here]

@[simp] theorem readOpt_encChapeau_here {k : String} {rest} {c : Option Chapeau}
    (h : jLookup k rest = none) :
    readOpt decChapeau (fOptOmit k (c.map encChapeau) ++ rest) k = some (c.map clearChapeau) :=
  readOpt_fOptOmit_map h encChapeau_obj (fun y _ => rt_Chapeau y)

@[simp] theorem readOpt_encChapeau_last_here {k : String} {c : Option Chapeau} :
    readOpt decChapeau (fOptOmit k (c.map encChapeau)) k = some (c.map clearChapeau) :=
  readOpt_fOptOmit_last_map encChapeau_obj (fun y _ => rt_Chapeau y)

theorem List.one_le_sizeOf {α : Type} [SizeOf α] (l : List α) : 1 ≤ sizeOf l := by
  cases l <;> simp <;> omega

theorem jLookup_opt_sizeOf {k : String} {kvs : List (String × Json)} :
    sizeOf (jLookup k kvs) ≤ sizeOf kvs := by
  cases h : jLookup k kvs with
  | none => simpa using List.one_le_sizeOf kvs
  | some v => have := jLookup_sizeOf h; simp; omega

theorem jLookup_opt_sizeOf_lt {k : String} {kvs : List (String × Json)} :
    sizeOf (jLookup k kvs) < 1 + sizeOf kvs :=
  Nat.lt_of_le_of_lt jLookup_opt_sizeOf (by omega)

/-! ## The recursive section-content family

`Section` through `Subclause`, `Content`, `QuotedContent` and
`AmendmentContent` are mutually recursive in the Go source
(`pkg/uslm/content.go`, `common.go`): a `Content` may embed
`QuotedContent`/`AmendmentContent` nodes, each holding further nested
section subtrees. Constructor arguments follow the Go struct fields in
source order (`XMLName` first). List-typed fields get explicit list
encoders/decoders so the mutual recursion is visible to the
termination checker; the `...From` helpers decode one looked-up JSON
field value. -/

mutual

inductive Section where

  | mk : Name → String → String → String → String → Option Num → Option Heading → Option Chapeau → Option Content → List Paragraph → List Subsection → Section

inductive Subsection where

  | mk : Name → String → String → String → Option Num → Option Heading → Option Chapeau → Option Content → List Paragraph → Subsection

inductive Paragraph where

  | mk : Name → String → String → String → String → Option Num → Option Heading → Option Chapeau → Option Content → List Subparagraph → Paragraph

inductive Subparagraph where

  | mk : Name → String → String → String → Option Num → Option Chapeau → Option Content → List Clause → Subparagraph

inductive Clause where

  | mk : Name → String → String → String → Option Num → Option Content → List Subclause → Clause

inductive Subclause where

  | mk : Name → String → String → String → Option Num → Option Content → Subclause

inductive Content where

  | mk : Name → String → String → List Inline → List Italic → List Ref → List ShortTitle → List QuotedText → List AmendingAction → List QuotedContent → List AmendmentContent → Content

inductive QuotedContent where

  | mk : Name → String → String → List Paragraph → List Subsection → List Section → QuotedContent

inductive AmendmentContent where

  | mk : Name → String → String → String → List Section → AmendmentContent

end



mutual

def encSection : Section → Json
  | .mk _ a1 a2 a3 a4 a5 a6 a7 a8 a9 a10 =>
    Json.obj (fStrOmit "id" a1 ++
      fStrOmit "identifier" a2 ++
      fStrOmit "role" a3 ++
      fStrOmit "class" a4 ++
      fOptOmit "num" (a5.map encNum) ++
      fOptOmit "heading" (a6.map encHeading) ++
      fOptOmit "chapeau" (a7.map encChapeau) ++
      fOptOmit "content" (match a8 with | none => none | some c => some (encContent c)) ++
      fArrOmit "paragraphs" (encParagraphsList a9) ++
      fArrOmit "subsections" (encSubsectionsList a10))
  termination_by x => sizeOf x
  decreasing_by all_goals (simp_wf <;> omega)

def encSubsection : Subsection → Json
  | .mk _ a1 a2 a3 a4 a5 a6 a7 a8 =>
    Json.obj (fStrOmit "id" a1 ++
      fStrOmit "identifier" a2 ++
      fStrOmit "class" a3 ++
      fOptOmit "num" (a4.map encNum) ++
      fOptOmit "heading" (a5.map encHeading) ++
      fOptOmit "chapeau" (a6.map encChapeau) ++
      fOptOmit "content" (match a7 with | none => none | some c => some (encContent c)) ++
      fArrOmit "paragraphs" (encParagraphsList a8))
  termination_by x => sizeOf x
  decreasing_by all_goals (simp_wf <;> omega)

def encParagraph : Paragraph → Json
  | .mk _ a1 a2 a3 a4 a5 a6 a7 a8 a9 =>
    Json.obj (fStrOmit "id" a1 ++
      fStrOmit "identifier" a2 ++
      fStrOmit "class" a3 ++
      fStrOmit "role" a4 ++
      fOptOmit "num" (a5.map encNum) ++
      fOptOmit "heading" (a6.map encHeading) ++
      fOptOmit "chapeau" (a7.map encChapeau) ++
      fOptOmit "content" (match a8 with | none => none | some c => some (encContent c)) ++
      fArrOmit "subparagraphs" (encSubparagraphsList a9))
  termination_by x => sizeOf x
  decreasing_by all_goals (simp_wf <;> omega)

def encSubparagraph : Subparagraph → Json
  | .mk _ a1 a2 a3 a4 a5 a6 a7 =>
    Json.obj (fStrOmit "id" a1 ++
      fStrOmit "identifier" a2 ++
      fStrOmit "class" a3 ++
      fOptOmit "num" (a4.map encNum) ++
      fOptOmit "chapeau" (a5.map encChapeau) ++
      fOptOmit "content" (match a6 with | none => none | some c => some (encContent c)) ++
      fArrOmit "clauses" (encClausesList a7))
  termination_by x => sizeOf x
  decreasing_by all_goals (simp_wf <;> omega)

def encClause : Clause → Json
  | .mk _ a1 a2 a3 a4 a5 a6 =>
    Json.obj (fStrOmit "id" a1 ++
      fStrOmit "identifier" a2 ++
      fStrOmit "class" a3 ++
      fOptOmit "num" (a4.map encNum) ++
      fOptOmit "content" (match a5 with | none => none | some c => some (encContent c)) ++
      fArrOmit "subclauses" (encSubclausesList a6))
  termination_by x => sizeOf x
  decreasing_by all_goals (simp_wf <;> omega)

def encSubclause : Subclause → Json
  | .mk _ a1 a2 a3 a4 a5 =>
    Json.obj (fStrOmit "id" a1 ++
      fStrOmit "identifier" a2 ++
      fStrOmit "class" a3 ++
      fOptOmit "num" (a4.map encNum) ++
      fOptOmit "content" (match a5 with | none => none | some c => some (encContent c)))
  termination_by x => sizeOf x
  decreasing_by all_goals (simp_wf <;> omega)

def encContent : Content → Json
  | .mk _ a1 a2 a3 a4 a5 a6 a7 a8 a9 a10 =>
    Json.obj (fStrOmit "class" a1 ++
      fStrOmit "text" a2 ++
      fArrOmit "inline" (a3.map encInline) ++
      fArrOmit "i" (a4.map encItalic) ++
      fArrOmit "ref" (a5.map encRef) ++
      fArrOmit "shortTitle" (a6.map encShortTitle) ++
      fArrOmit "quotedText" (a7.map encQuotedText) ++
      fArrOmit "amendingAction" (a8.map encAmendingAction) ++
      fArrOmit "quotedContent" (encQuotedContentsList a9) ++
      fArrOmit "amendmentContent" (encAmendmentContentsList a10))
  termination_by x => sizeOf x
  decreasing_by all_goals (simp_wf <;> omega)

def encQuotedContent : QuotedContent → Json
  | .mk _ a1 a2 a3 a4 a5 =>
    Json.obj (fStrOmit "id" a1 ++
      fStrOmit "styleType" a2 ++
      fArrOmit "paragraph" (encParagraphsList a3) ++
      fArrOmit "subsection" (encSubsectionsList a4) ++
      fArrOmit "section" (encSectionsList a5))
  termination_by x => sizeOf x
  decreasing_by all_goals (simp_wf <;> omega)

def encAmendmentContent : AmendmentContent → Json
  | .mk _ a1 a2 a3 a4 =>
    Json.obj (fStrOmit "class" a1 ++
      fStrOmit "changed" a2 ++
      fStrOmit "styleType" a3 ++
      fArrOmit "section" (encSectionsList a4))
  termination_by x => sizeOf x
  decreasing_by all_goals (simp_wf <;> omega)

def encSectionsList : List Section → List Json
  | [] => []
  | x :: xs => encSection x :: encSectionsList xs
  termination_by xs => sizeOf xs
  decreasing_by all_goals (simp_wf <;> omega)

def encSubsectionsList : List Subsection → List Json
  | [] => []
  | x :: xs => encSubsection x :: encSubsectionsList xs
  termination_by xs => sizeOf xs
  decreasing_by all_goals (simp_wf <;> omega)

def encParagraphsList : List Paragraph → List Json
  | [] => []
  | x :: xs => encParagraph x :: encParagraphsList xs
  termination_by xs => sizeOf xs
  decreasing_by all_goals (simp_wf <;> omega)

def encSubparagraphsList : List Subparagraph → List Json
  | [] => []
  | x :: xs => encSubparagraph x :: encSubparagraphsList xs
  termination_by xs => sizeOf xs
  decreasing_by all_goals (simp_wf <;> omega)

def encClausesList : List Clause → List Json
  | [] => []
  | x :: xs => encClause x :: encClausesList xs
  termination_by xs => sizeOf xs
  decreasing_by all_goals (simp_wf <;> omega)

def encSubclausesList : List Subclause → List Json
  | [] => []
  | x :: xs => encSubclause x :: encSubclausesList xs
  termination_by xs => sizeOf xs
  decreasing_by all_goals (simp_wf <;> omega)

def encQuotedContentsList : List QuotedContent → List Json
  | [] => []
  | x :: xs => encQuotedContent x :: encQuotedContentsList xs
  termination_by xs => sizeOf xs
  decreasing_by all_goals (simp_wf <;> omega)

def encAmendmentContentsList : List AmendmentContent → List Json
  | [] => []
  | x :: xs => encAmendmentContent x :: encAmendmentContentsList xs
  termination_by xs => sizeOf xs
  decreasing_by all_goals (simp_wf <;> omega)

end



theorem encSection_obj (x : Section) : ∃ l, encSection x = Json.obj l := by
  cases x
  rw [encSection.eq_def]
  exact ⟨_, rfl⟩


theorem encSubsection_obj (x : Subsection) : ∃ l, encSubsection x = Json.obj l := by
  cases x
  rw [encSubsection.eq_def]
  exact ⟨_, rfl⟩


theorem encParagraph_obj (x : Paragraph) : ∃ l, encParagraph x = Json.obj l := by
  cases x
  rw [encParagraph.eq_def]
  exact ⟨_, rfl⟩


theorem encSubparagraph_obj (x : Subparagraph) : ∃ l, encSubparagraph x = Json.obj l := by
  cases x
  rw [encSubparagraph.eq_def]
  exact ⟨_, rfl⟩


theorem encClause_obj (x : Clause) : ∃ l, encClause x = Json.obj l := by
  cases x
  rw [encClause.eq_def]
  exact ⟨_, rfl⟩


theorem encSubclause_obj (x : Subclause) : ∃ l, encSubclause x = Json.obj l := by
  cases x
  rw [encSubclause.eq_def]
  exact ⟨_, rfl⟩


theorem encContent_obj (x : Content) : ∃ l, encContent x = Json.obj l := by
  cases x
  rw [encContent.eq_def]
  exact ⟨_, rfl⟩


theorem encQuotedContent_obj (x : QuotedContent) : ∃ l, encQuotedContent x = Json.obj l := by
  cases x
  rw [encQuotedContent.eq_def]
  exact ⟨_, rfl⟩


theorem encAmendmentContent_obj (x : AmendmentContent) : ∃ l, encAmendmentContent x = Json.obj l := by
  cases x
  rw [encAmendmentContent.eq_def]
  exact ⟨_, rfl⟩


mutual

def decSection (j : Json) : Option Section :=
  match j with
  | Json.obj kvs =>
    obind (readStr kvs "id") fun a1 =>
    obind (readStr kvs "identifier") fun a2 =>
    obind (readStr kvs "role") fun a3 =>
    obind (readStr kvs "class") fun a4 =>
    obind (readOpt decNum kvs "num") fun a5 =>
    obind (readOpt decHeading kvs "heading") fun a6 =>
    obind (readOpt decChapeau kvs "chapeau") fun a7 =>
    obind (decContentFrom (jLookup "content" kvs)) fun a8 =>
    obind (decParagraphsFrom (jLookup "paragraphs" kvs)) fun a9 =>
    obind (decSubsectionsFrom (jLookup "subsections" kvs)) fun a10 =>
    some (Section.mk emptyName a1 a2 a3 a4 a5 a6 a7 a8 a9 a10)
  | _ => none
  termination_by sizeOf j
  decreasing_by all_goals (simp_wf; first | omega | exact jLookup_opt_sizeOf_lt)

def decSubsection (j : Json) : Option Subsection :=
  match j with
  | Json.obj kvs =>
    obind (readStr kvs "id") fun a1 =>
    obind (readStr kvs "identifier") fun a2 =>
    obind (readStr kvs "class") fun a3 =>
    obind (readOpt decNum kvs "num") fun a4 =>
    obind (readOpt decHeading kvs "heading") fun a5 =>
    obind (readOpt decChapeau kvs "chapeau") fun a6 =>
    obind (decContentFrom (jLookup "content" kvs)) fun a7 =>
    obind (decParagraphsFrom (jLookup "paragraphs" kvs)) fun a8 =>
    some (Subsection.mk emptyName a1 a2 a3 a4 a5 a6 a7 a8)
  | _ => none
  termination_by sizeOf j
  decreasing_by all_goals (simp_wf; first | omega | exact jLookup_opt_sizeOf_lt)

def decParagraph (j : Json) : Option Paragraph :=
  match j with
  | Json.obj kvs =>
    obind (readStr kvs "id") fun a1 =>
    obind (readStr kvs "identifier") fun a2 =>
    obind (readStr kvs "class") fun a3 =>
    obind (readStr kvs "role") fun a4 =>
    obind (readOpt decNum kvs "num") fun a5 =>
    obind (readOpt decHeading kvs "heading") fun a6 =>
    obind (readOpt decChapeau kvs "chapeau") fun a7 =>
    obind (decContentFrom (jLookup "content" kvs)) fun a8 =>
    obind (decSubparagraphsFrom (jLookup "subparagraphs" kvs)) fun a9 =>
    some (Paragraph.mk emptyName a1 a2 a3 a4 a5 a6 a7 a8 a9)
  | _ => none
  termination_by sizeOf j
  decreasing_by all_goals (simp_wf; first | omega | exact jLookup_opt_sizeOf_lt)

def decSubparagraph (j : Json) : Option Subparagraph :=
  match j with
  | Json.obj kvs =>
    obind (readStr kvs "id") fun a1 =>
    obind (readStr kvs "identifier") fun a2 =>
    obind (readStr kvs "class") fun a3 =>
    obind (readOpt decNum kvs "num") fun a4 =>
    obind (readOpt decChapeau kvs "chapeau") fun a5 =>
    obind (decContentFrom (jLookup "content" kvs)) fun a6 =>
    obind (decClausesFrom (jLookup "clauses" kvs)) fun a7 =>
    some (Subparagraph.mk emptyName a1 a2 a3 a4 a5 a6 a7)
  | _ => none
  termination_by sizeOf j
  decreasing_by all_goals (simp_wf; first | omega | exact jLookup_opt_sizeOf_lt)

def decClause (j : Json) : Option Clause :=
  match j with
  | Json.obj kvs =>
    obind (readStr kvs "id") fun a1 =>
    obind (readStr kvs "identifier") fun a2 =>
    obind (readStr kvs "class") fun a3 =>
    obind (readOpt decNum kvs "num") fun a4 =>
    obind (decContentFrom (jLookup "content" kvs)) fun a5 =>
    obind (decSubclausesFrom (jLookup "subclauses" kvs)) fun a6 =>
    some (Clause.mk emptyName a1 a2 a3 a4 a5 a6)
  | _ => none
  termination_by sizeOf j
  decreasing_by all_goals (simp_wf; first | omega | exact jLookup_opt_sizeOf_lt)

def decSubclause (j : Json) : Option Subclause :=
  match j with
  | Json.obj kvs =>
    obind (readStr kvs "id") fun a1 =>
    obind (readStr kvs "identifier") fun a2 =>
    obind (readStr kvs "class") fun a3 =>
    obind (readOpt decNum kvs "num") fun a4 =>
    obind (decContentFrom (jLookup "content" kvs)) fun a5 =>
    some (Subclause.mk emptyName a1 a2 a3 a4 a5)
  | _ => none
  termination_by sizeOf j
  decreasing_by all_goals (simp_wf; first | omega | exact jLookup_opt_sizeOf_lt)

def decContent (j : Json) : Option Content :=
  match j with
  | Json.obj kvs =>
    obind (readStr kvs "class") fun a1 =>
    obind (readStr kvs "text") fun a2 =>
    obind (readList decInline kvs "inline") fun a3 =>
    obind (readList decItalic kvs "i") fun a4 =>
    obind (readList decRef kvs "ref") fun a5 =>
    obind (readList decShortTitle kvs "shortTitle") fun a6 =>
    obind (readList decQuotedText kvs "quotedText") fun a7 =>
    obind (readList decAmendingAction kvs "amendingAction") fun a8 =>
    obind (decQuotedContentsFrom (jLookup "quotedContent" kvs)) fun a9 =>
    obind (decAmendmentContentsFrom (jLookup "amendmentContent" kvs)) fun a10 =>
    some (Content.mk emptyName a1 a2 a3 a4 a5 a6 a7 a8 a9 a10)
  | _ => none
  termination_by sizeOf j
  decreasing_by all_goals (simp_wf; first | omega | exact jLookup_opt_sizeOf_lt)

def decQuotedContent (j : Json) : Option QuotedContent :=
  match j with
  | Json.obj kvs =>
    obind (readStr kvs "id") fun a1 =>
    obind (readStr kvs "styleType") fun a2 =>
    obind (decParagraphsFrom (jLookup "paragraph" kvs)) fun a3 =>
    obind (decSubsectionsFrom (jLookup "subsection" kvs)) fun a4 =>
    obind (decSectionsFrom (jLookup "section" kvs)) fun a5 =>
    some (QuotedContent.mk emptyName a1 a2 a3 a4 a5)
  | _ => none
  termination_by sizeOf j
  decreasing_by all_goals (simp_wf; first | omega | exact jLookup_opt_sizeOf_lt)

def decAmendmentContent (j : Json) : Option AmendmentContent :=
  match j with
  | Json.obj kvs =>
    obind (readStr kvs "class") fun a1 =>
    obind (readStr kvs "changed") fun a2 =>
    obind (readStr kvs "styleType") fun a3 =>
    obind (decSectionsFrom (jLookup "section" kvs)) fun a4 =>
    some (AmendmentContent.mk emptyName a1 a2 a3 a4)
  | _ => none
  termination_by sizeOf j
  decreasing_by all_goals (simp_wf; first | omega | exact jLookup_opt_sizeOf_lt)

def decContentFrom : Option Json → Option (Option Content)
  | none => some none
  | some Json.null => some none
  | some j => (decContent j).map some
  termination_by o => sizeOf o
  decreasing_by all_goals (simp_wf <;> omega)

def decSectionsFrom : Option Json → Option (List Section)
  | none => some []
  | some Json.null => some []
  | some (Json.arr js) => decSectionsList js
  | some _ => none
  termination_by o => sizeOf o
  decreasing_by all_goals (simp_wf <;> omega)

def decSectionsList : List Json → Option (List Section)
  | [] => some []
  | j :: rest =>
    obind (decSection j) fun x =>
    obind (decSectionsList rest) fun xs =>
    some (x :: xs)
  termination_by js => sizeOf js
  decreasing_by all_goals (simp_wf <;> omega)

def decSubsectionsFrom : Option Json → Option (List Subsection)
  | none => some []
  | some Json.null => some []
  | some (Json.arr js) => decSubsectionsList js
  | some _ => none
  termination_by o => sizeOf o
  decreasing_by all_goals (simp_wf <;> omega)

def decSubsectionsList : List Json → Option (List Subsection)
  | [] => some []
  | j :: rest =>
    obind (decSubsection j) fun x =>
    obind (decSubsectionsList rest) fun xs =>
    some (x :: xs)
  termination_by js => sizeOf js
  decreasing_by all_goals (simp_wf <;> omega)

def decParagraphsFrom : Option Json → Option (List Paragraph)
  | none => some []
  | some Json.null => some []
  | some (Json.arr js) => decParagraphsList js
  | some _ => none
  termination_by o => sizeOf o
  decreasing_by all_goals (simp_wf <;> omega)

def decParagraphsList : List Json → Option (List Paragraph)
  | [] => some []
  | j :: rest =>
    obind (decParagraph j) fun x =>
    obind (decParagraphsList rest) fun xs =>
    some (x :: xs)
  termination_by js => sizeOf js
  decreasing_by all_goals (simp_wf <;> omega)

def decSubparagraphsFrom : Option Json → Option (List Subparagraph)
  | none => some []
  | some Json.null => some []
  | some (Json.arr js) => decSubparagraphsList js
  | some _ => none
  termination_by o => sizeOf o
  decreasing_by all_goals (simp_wf <;> omega)

def decSubparagraphsList : List Json → Option (List Subparagraph)
  | [] => some []
  | j :: rest =>
    obind (decSubparagraph j) fun x =>
    obind (decSubparagraphsList rest) fun xs =>
    some (x :: xs)
  termination_by js => sizeOf js
  decreasing_by all_goals (simp_wf <;> omega)

def decClausesFrom : Option Json → Option (List Clause)
  | none => some []
  | some Json.null => some []
  | some (Json.arr js) => decClausesList js
  | some _ => none
  termination_by o => sizeOf o
  decreasing_by all_goals (simp_wf <;> omega)

def decClausesList : List Json → Option (List Clause)
  | [] => some []
  | j :: rest =>
    obind (decClause j) fun x =>
    obind (decClausesList rest) fun xs =>
    some (x :: xs)
  termination_by js => sizeOf js
  decreasing_by all_goals (simp_wf <;> omega)

def decSubclausesFrom : Option Json → Option (List Subclause)
  | none => some []
  | some Json.null => some []
  | some (Json.arr js) => decSubclausesList js
  | some _ => none
  termination_by o => sizeOf o
  decreasing_by all_goals (simp_wf <;> omega)

def decSubclausesList : List Json → Option (List Subclause)
  | [] => some []
  | j :: rest =>
    obind (decSubclause j) fun x =>
    obind (decSubclausesList rest) fun xs =>
    some (x :: xs)
  termination_by js => sizeOf js
  decreasing_by all_goals (simp_wf <;> omega)

def decQuotedContentsFrom : Option Json → Option (List QuotedContent)
  | none => some []
  | some Json.null => some []
  | some (Json.arr js) => decQuotedContentsList js
  | some _ => none
  termination_by o => sizeOf o
  decreasing_by all_goals (simp_wf <;> omega)

def decQuotedContentsList : List Json → Option (List QuotedContent)
  | [] => some []
  | j :: rest =>
    obind (decQuotedContent j) fun x =>
    obind (decQuotedContentsList rest) fun xs =>
    some (x :: xs)
  termination_by js => sizeOf js
  decreasing_by all_goals (simp_wf <;> omega)

def decAmendmentContentsFrom : Option Json → Option (List AmendmentContent)
  | none => some []
  | some Json.null => some []
  | some (Json.arr js) => decAmendmentContentsList js
  | some _ => none
  termination_by o => sizeOf o
  decreasing_by all_goals (simp_wf <;> omega)

def decAmendmentContentsList : List Json → Option (List AmendmentContent)
  | [] => some []
  | j :: rest =>
    obind (decAmendmentContent j) fun x =>
    obind (decAmendmentContentsList rest) fun xs =>
    some (x :: xs)
  termination_by js => sizeOf js
  decreasing_by all_goals (simp_wf <;> omega)

end



mutual

def clearSection : Section → Section
  | .mk _ a1 a2 a3 a4 a5 a6 a7 a8 a9 a10 =>
    Section.mk emptyName a1 a2 a3 a4 (a5.map clearNum) (a6.map clearHeading) (a7.map clearChapeau) (match a8 with | none => none | some c => some (clearContent c)) (clearParagraphsList a9) (clearSubsectionsList a10)
  termination_by x => sizeOf x
  decreasing_by all_goals (simp_wf <;> omega)

def clearSubsection : Subsection → Subsection
  | .mk _ a1 a2 a3 a4 a5 a6 a7 a8 =>
    Subsection.mk emptyName a1 a2 a3 (a4.map clearNum) (a5.map clearHeading) (a6.map clearChapeau) (match a7 with | none => none | some c => some (clearContent c)) (clearParagraphsList a8)
  termination_by x => sizeOf x
  decreasing_by all_goals (simp_wf <;> omega)

def clearParagraph : Paragraph → Paragraph
  | .mk _ a1 a2 a3 a4 a5 a6 a7 a8 a9 =>
    Paragraph.mk emptyName a1 a2 a3 a4 (a5.map clearNum) (a6.map clearHeading) (a7.map clearChapeau) (match a8 with | none => none | some c => some (clearContent c)) (clearSubparagraphsList a9)
  termination_by x => sizeOf x
  decreasing_by all_goals (simp_wf <;> omega)

def clearSubparagraph : Subparagraph → Subparagraph
  | .mk _ a1 a2 a3 a4 a5 a6 a7 =>
    Subparagraph.mk emptyName a1 a2 a3 (a4.map clearNum) (a5.map clearChapeau) (match a6 with | none => none | some c => some (clearContent c)) (clearClausesList a7)
  termination_by x => sizeOf x
  decreasing_by all_goals (simp_wf <;> omega)

def clearClause : Clause → Clause
  | .mk _ a1 a2 a3 a4 a5 a6 =>
    Clause.mk emptyName a1 a2 a3 (a4.map clearNum) (match a5 with | none => none | some c => some (clearContent c)) (clearSubclausesList a6)
  termination_by x => sizeOf x
  decreasing_by all_goals (simp_wf <;> omega)

def clearSubclause : Subclause → Subclause
  | .mk _ a1 a2 a3 a4 a5 =>
    Subclause.mk emptyName a1 a2 a3 (a4.map clearNum) (match a5 with | none => none | some c => some (clearContent c))
  termination_by x => sizeOf x
  decreasing_by all_goals (simp_wf <;> omega)

def clearContent : Content → Content
  | .mk _ a1 a2 a3 a4 a5 a6 a7 a8 a9 a10 =>
    Content.mk emptyName a1 a2 (a3.map clearInline) (a4.map clearItalic) (a5.map clearRef) (a6.map clearShortTitle) (a7.map clearQuotedText) (a8.map clearAmendingAction) (clearQuotedContentsList a9) (clearAmendmentContentsList a10)
  termination_by x => sizeOf x
  decreasing_by all_goals (simp_wf <;> omega)

def clearQuotedContent : QuotedContent → QuotedContent
  | .mk _ a1 a2 a3 a4 a5 =>
    QuotedContent.mk emptyName a1 a2 (clearParagraphsList a3) (clearSubsectionsList a4) (clearSectionsList a5)
  termination_by x => sizeOf x
  decreasing_by all_goals (simp_wf <;> omega)

def clearAmendmentContent : AmendmentContent → AmendmentContent
  | .mk _ a1 a2 a3 a4 =>
    AmendmentContent.mk emptyName a1 a2 a3 (clearSectionsList a4)
  termination_by x => sizeOf x
  decreasing_by all_goals (simp_wf <;> omega)

def clearSectionsList : List Section → List Section
  | [] => []
  | x :: xs => clearSection x :: clearSectionsList xs
  termination_by xs => sizeOf xs
  decreasing_by all_goals (simp_wf <;> omega)

def clearSubsectionsList : List Subsection → List Subsection
  | [] => []
  | x :: xs => clearSubsection x :: clearSubsectionsList xs
  termination_by xs => sizeOf xs
  decreasing_by all_goals (simp_wf <;> omega)

def clearParagraphsList : List Paragraph → List Paragraph
  | [] => []
  | x :: xs => clearParagraph x :: clearParagraphsList xs
  termination_by xs => sizeOf xs
  decreasing_by all_goals (simp_wf <;> omega)

def clearSubparagraphsList : List Subparagraph → List Subparagraph
  | [] => []
  | x :: xs => clearSubparagraph x :: clearSubparagraphsList xs
  termination_by xs => sizeOf xs
  decreasing_by all_goals (simp_wf <;> omega)

def clearClausesList : List Clause → List Clause
  | [] => []
  | x :: xs => clearClause x :: clearClausesList xs
  termination_by xs => sizeOf xs
  decreasing_by all_goals (simp_wf <;> omega)

def clearSubclausesList : List Subclause → List Subclause
  | [] => []
  | x :: xs => clearSubclause x :: clearSubclausesList xs
  termination_by xs => sizeOf xs
  decreasing_by all_goals (simp_wf <;> omega)

def clearQuotedContentsList : List QuotedContent → List QuotedContent
  | [] => []
  | x :: xs => clearQuotedContent x :: clearQuotedContentsList xs
  termination_by xs => sizeOf xs
  decreasing_by all_goals (simp_wf <;> omega)

def clearAmendmentContentsList : List AmendmentContent → List AmendmentContent
  | [] => []
  | x :: xs => clearAmendmentContent x :: clearAmendmentContentsList xs
  termination_by xs => sizeOf xs
  decreasing_by all_goals (simp_wf <;> omega)

end


/-! ### Decoding helpers: equations and field-level round-trip lemmas -/

@[simp] theorem decContentFrom_none : decContentFrom none = some none := by
  simp [decContentFrom]

@[simp] theorem decContentFrom_null : decContentFrom (some Json.null) = some none := by
  simp [decContentFrom]

@[simp] theorem decContentFrom_obj {l} :
    decContentFrom (some (Json.obj l)) = (decContent (Json.obj l)).map some := by
  simp [decContentFrom]


theorem decSectionsFrom_here {k : String} {rest} {xs : List Section}
    (h : jLookup k rest = none)
    (hdec : decSectionsList (encSectionsList xs) = some (clearSectionsList xs)) :
    decSectionsFrom (jLookup k (fArrOmit k (encSectionsList xs) ++ rest)) =
      some (clearSectionsList xs) := by
  cases xs with
  | nil => simp [encSectionsList, fArrOmit, h, decSectionsFrom, clearSectionsList]
  | cons x xs =>
    simp only [encSectionsList] at hdec ⊢
    simp [fArrOmit, jLookup, decSectionsFrom, hdec]

theorem decSectionsFrom_last_here {k : String} {xs : List Section}
    (hdec : decSectionsList (encSectionsList xs) = some (clearSectionsList xs)) :
    decSectionsFrom (jLookup k (fArrOmit k (encSectionsList xs))) = some (clearSectionsList xs) := by
  cases xs with
  | nil => simp [encSectionsList, fArrOmit, decSectionsFrom, clearSectionsList]
  | cons x xs =>
    simp only [encSectionsList] at hdec ⊢
    simp [fArrOmit, jLookup, decSectionsFrom, hdec]


theorem decSubsectionsFrom_here {k : String} {rest} {xs : List Subsection}
    (h : jLookup k rest = none)
    (hdec : decSubsectionsList (encSubsectionsList xs) = some (clearSubsectionsList xs)) :
    decSubsectionsFrom (jLookup k (fArrOmit k (encSubsectionsList xs) ++ rest)) =
      some (clearSubsectionsList xs) := by
  cases xs with
  | nil => simp [encSubsectionsList, fArrOmit, h, decSubsectionsFrom, clearSubsectionsList]
  | cons x xs =>
    simp only [encSubsectionsList] at hdec ⊢
    simp [fArrOmit, jLookup, decSubsectionsFrom, hdec]

theorem decSubsectionsFrom_last_here {k : String} {xs : List Subsection}
    (hdec : decSubsectionsList (encSubsectionsList xs) = some (clearSubsectionsList xs)) :
    decSubsectionsFrom (jLookup k (fArrOmit k (encSubsectionsList xs))) = some (clearSubsectionsList xs) := by
  cases xs with
  | nil => simp [encSubsectionsList, fArrOmit, decSubsectionsFrom, clearSubsectionsList]
  | cons x xs =>
    simp only [encSubsectionsList] at hdec ⊢
    simp [fArrOmit, jLookup, decSubsectionsFrom, hdec]


theorem decParagraphsFrom_here {k : String} {rest} {xs : List Paragraph}
    (h : jLookup k rest = none)
    (hdec : decParagraphsList (encParagraphsList xs) = some (clearParagraphsList xs)) :
    decParagraphsFrom (jLookup k (fArrOmit k (encParagraphsList xs) ++ rest)) =
      some (clearParagraphsList xs) := by
  cases xs with
  | nil => simp [encParagraphsList, fArrOmit, h, decParagraphsFrom, clearParagraphsList]
  | cons x xs =>
    simp only [encParagraphsList] at hdec ⊢
    simp [fArrOmit, jLookup, decParagraphsFrom, hdec]

theorem decParagraphsFrom_last_here {k : String} {xs : List Paragraph}
    (hdec : decParagraphsList (encParagraphsList xs) = some (clearParagraphsList xs)) :
    decParagraphsFrom (jLookup k (fArrOmit k (encParagraphsList xs))) = some (clearParagraphsList xs) := by
  cases xs with
  | nil => simp [encParagraphsList, fArrOmit, decParagraphsFrom, clearParagraphsList]
  | cons x xs =>
    simp only [encParagraphsList] at hdec ⊢
    simp [fArrOmit, jLookup, decParagraphsFrom, hdec]


theorem decSubparagraphsFrom_here {k : String} {rest} {xs : List Subparagraph}
    (h : jLookup k rest = none)
    (hdec : decSubparagraphsList (encSubparagraphsList xs) = some (clearSubparagraphsList xs)) :
    decSubparagraphsFrom (jLookup k (fArrOmit k (encSubparagraphsList xs) ++ rest)) =
      some (clearSubparagraphsList xs) := by
  cases xs with
  | nil => simp [encSubparagraphsList, fArrOmit, h, decSubparagraphsFrom, clearSubparagraphsList]
  | cons x xs =>
    simp only [encSubparagraphsList] at hdec ⊢
    simp [fArrOmit, jLookup, decSubparagraphsFrom, hdec]

theorem decSubparagraphsFrom_last_here {k : String} {xs : List Subparagraph}
    (hdec : decSubparagraphsList (encSubparagraphsList xs) = some (clearSubparagraphsList xs)) :
    decSubparagraphsFrom (jLookup k (fArrOmit k (encSubparagraphsList xs))) = some (clearSubparagraphsList xs) := by
  cases xs with
  | nil => simp [encSubparagraphsList, fArrOmit, decSubparagraphsFrom, clearSubparagraphsList]
  | cons x xs =>
    simp only [encSubparagraphsList] at hdec ⊢
    simp [fArrOmit, jLookup, decSubparagraphsFrom, hdec]


theorem decClausesFrom_here {k : String} {rest} {xs : List Clause}
    (h : jLookup k rest = none)
    (hdec : decClausesList (encClausesList xs) = some (clearClausesList xs)) :
    decClausesFrom (jLookup k (fArrOmit k (encClausesList xs) ++ rest)) =
      some (clearClausesList xs) := by
  cases xs with
  | nil => simp [encClausesList, fArrOmit, h, decClausesFrom, clearClausesList]
  | cons x xs =>
    simp only [encClausesList] at hdec ⊢
    simp [fArrOmit, jLookup, decClausesFrom, hdec]

theorem decClausesFrom_last_here {k : String} {xs : List Clause}
    (hdec : decClausesList (encClausesList xs) = some (clearClausesList xs)) :
    decClausesFrom (jLookup k (fArrOmit k (encClausesList xs))) = some (clearClausesList xs) := by
  cases xs with
  | nil => simp [encClausesList, fArrOmit, decClausesFrom, clearClausesList]
  | cons x xs =>
    simp only [encClausesList] at hdec ⊢
    simp [fArrOmit, jLookup, decClausesFrom, hdec]


theorem decSubclausesFrom_here {k : String} {rest} {xs : List Subclause}
    (h : jLookup k rest = none)
    (hdec : decSubclausesList (encSubclausesList xs) = some (clearSubclausesList xs)) :
    decSubclausesFrom (jLookup k (fArrOmit k (encSubclausesList xs) ++ rest)) =
      some (clearSubclausesList xs) := by
  cases xs with
  | nil => simp [encSubclausesList, fArrOmit, h, decSubclausesFrom, clearSubclausesList]
  | cons x xs =>
    simp only [encSubclausesList] at hdec ⊢
    simp [fArrOmit, jLookup, decSubclausesFrom, hdec]

theorem decSubclausesFrom_last_here {k : String} {xs : List Subclause}
    (hdec : decSubclausesList (encSubclausesList xs) = some (clearSubclausesList xs)) :
    decSubclausesFrom (jLookup k (fArrOmit k (encSubclausesList xs))) = some (clearSubclausesList xs) := by
  cases xs with
  | nil => simp [encSubclausesList, fArrOmit, decSubclausesFrom, clearSubclausesList]
  | cons x xs =>
    simp only [encSubclausesList] at hdec ⊢
    simp [fArrOmit, jLookup, decSubclausesFrom, hdec]


theorem decQuotedContentsFrom_here {k : String} {rest} {xs : List QuotedContent}
    (h : jLookup k rest = none)
    (hdec : decQuotedContentsList (encQuotedContentsList xs) = some (clearQuotedContentsList xs)) :
    decQuotedContentsFrom (jLookup k (fArrOmit k (encQuotedContentsList xs) ++ rest)) =
      some (clearQuotedContentsList xs) := by
  cases xs with
  | nil => simp [encQuotedContentsList, fArrOmit, h, decQuotedContentsFrom, clearQuotedContentsList]
  | cons x xs =>
    simp only [encQuotedContentsList] at hdec ⊢
    simp [fArrOmit, jLookup, decQuotedContentsFrom, hdec]

theorem decQuotedContentsFrom_last_here {k : String} {xs : List QuotedContent}
    (hdec : decQuotedContentsList (encQuotedContentsList xs) = some (clearQuotedContentsList xs)) :
    decQuotedContentsFrom (jLookup k (fArrOmit k (encQuotedContentsList xs))) = some (clearQuotedContentsList xs) := by
  cases xs with
  | nil => simp [encQuotedContentsList, fArrOmit, decQuotedContentsFrom, clearQuotedContentsList]
  | cons x xs =>
    simp only [encQuotedContentsList] at hdec ⊢
    simp [fArrOmit, jLookup, decQuotedContentsFrom, hdec]


theorem decAmendmentContentsFrom_here {k : String} {rest} {xs : List AmendmentContent}
    (h : jLookup k rest = none)
    (hdec : decAmendmentContentsList (encAmendmentContentsList xs) = some (clearAmendmentContentsList xs)) :
    decAmendmentContentsFrom (jLookup k (fArrOmit k (encAmendmentContentsList xs) ++ rest)) =
      some (clearAmendmentContentsList xs) := by
  cases xs with
  | nil => simp [encAmendmentContentsList, fArrOmit, h, decAmendmentContentsFrom, clearAmendmentContentsList]
  | cons x xs =>
    simp only [encAmendmentContentsList] at hdec ⊢
    simp [fArrOmit, jLookup, decAmendmentContentsFrom, hdec]

theorem decAmendmentContentsFrom_last_here {k : String} {xs : List AmendmentContent}
    (hdec : decAmendmentContentsList (encAmendmentContentsList xs) = some (clearAmendmentContentsList xs)) :
    decAmendmentContentsFrom (jLookup k (fArrOmit k (encAmendmentContentsList xs))) = some (clearAmendmentContentsList xs) := by
  cases xs with
  | nil => simp [encAmendmentContentsList, fArrOmit, decAmendmentContentsFrom, clearAmendmentContentsList]
  | cons x xs =>
    simp only [encAmendmentContentsList] at hdec ⊢
    simp [fArrOmit, jLookup, decAmendmentContentsFrom, hdec]


mutual

theorem rt_Section (x : Section) : decSection (encSection x) = some (clearSection x) := by
  match x with
  | .mk xn a1 a2 a3 a4 a5 a6 a7 a8 a9 a10 =>
    have ha9 := rt_ParagraphsList a9
    have ha10 := rt_SubsectionsList a10
    cases a8 with
    | none =>
      simp only [encSection, decSection, clearSection, List.append_assoc, obind_some, ne_eq, not_false_eq_true, String.reduceEq, jLookup_nil, readStr_nil, readStrList_nil, readOpt_nil, readList_nil, jLookup_fStr_skip, jLookup_fStrOmit_skip, jLookup_fArr_skip, jLookup_fArrOmit_skip, jLookup_fOptOmit_skip, jLookup_fOptNull_skip, jLookup_fStr_last_skip, jLookup_fStrOmit_last_skip, jLookup_fArr_last_skip, jLookup_fArrOmit_last_skip, jLookup_fOptOmit_last_skip, jLookup_fOptNull_last_skip, readStr_fStr_here, readStr_fStr_last_here, readStr_fStrOmit_here, readStr_fStrOmit_last_here, readStrList_fArr_here, readStrList_fArr_last_here, readStr_fStr_skip, readStr_fStrOmit_skip, readStr_fArr_skip, readStr_fArrOmit_skip, readStr_fOptOmit_skip, readStr_fOptNull_skip, readStr_fStr_last_skip, readStr_fStrOmit_last_skip, readStr_fArr_last_skip, readStr_fArrOmit_last_skip, readStr_fOptOmit_last_skip, readStr_fOptNull_last_skip, readStrList_fStr_skip, readStrList_fStrOmit_skip, readStrList_fArrOmit_skip, readStrList_fOptOmit_skip, readStrList_fOptNull_skip, readStrList_fStr_last_skip, readStrList_fStrOmit_last_skip, readStrList_fArrOmit_last_skip, readStrList_fOptOmit_last_skip, readStrList_fOptNull_last_skip, readOpt_fStr_skip, readOpt_fStrOmit_skip, readOpt_fArr_skip, readOpt_fArrOmit_skip, readOpt_fOptOmit_skip, readOpt_fOptNull_skip, readOpt_fStr_last_skip, readOpt_fStrOmit_last_skip, readOpt_fArr_last_skip, readOpt_fArrOmit_last_skip, readOpt_fOptOmit_last_skip, readOpt_fOptNull_last_skip, readList_fStr_skip, readList_fStrOmit_skip, readList_fArr_skip, readList_fArrOmit_skip, readList_fOptOmit_skip, readList_fOptNull_skip, readList_fStr_last_skip, readList_fStrOmit_last_skip, readList_fArr_last_skip, readList_fArrOmit_last_skip, readList_fOptOmit_last_skip, readList_fOptNull_last_skip, Option.map_some', Option.map_none', jLookup_fOptOmit_here, jLookup_fOptOmit_last_here, decContentFrom_none, decContentFrom_null, decContentFrom_obj, readOpt_encNum_here, readOpt_encNum_last_here, readOpt_encHeading_here, readOpt_encHeading_last_here, readOpt_encChapeau_here, readOpt_encChapeau_last_here, readList_encInline_here, readList_encInline_last_here, readList_encItalic_here, readList_encItalic_last_here, readList_encRef_here, readList_encRef_last_here, readList_encShortTitle_here, readList_encShortTitle_last_here, readList_encQuotedText_here, readList_encQuotedText_last_here, readList_encAmendingAction_here, readList_encAmendingAction_last_here, decParagraphsFrom_here, decParagraphsFrom_last_here, decSubsectionsFrom_here, decSubsectionsFrom_last_here, ha9, ha10]
    | some cc =>
      have hcc := rt_Content cc
      obtain ⟨l, hl⟩ := encContent_obj cc
      rw [hl] at hcc
      simp only [hl, hcc, encSection, decSection, clearSection, List.append_assoc, obind_some, ne_eq, not_false_eq_true, String.reduceEq, jLookup_nil, readStr_nil, readStrList_nil, readOpt_nil, readList_nil, jLookup_fStr_skip, jLookup_fStrOmit_skip, jLookup_fArr_skip, jLookup_fArrOmit_skip, jLookup_fOptOmit_skip, jLookup_fOptNull_skip, jLookup_fStr_last_skip, jLookup_fStrOmit_last_skip, jLookup_fArr_last_skip, jLookup_fArrOmit_last_skip, jLookup_fOptOmit_last_skip, jLookup_fOptNull_last_skip, readStr_fStr_here, readStr_fStr_last_here, readStr_fStrOmit_here, readStr_fStrOmit_last_here, readStrList_fArr_here, readStrList_fArr_last_here, readStr_fStr_skip, readStr_fStrOmit_skip, readStr_fArr_skip, readStr_fArrOmit_skip, readStr_fOptOmit_skip, readStr_fOptNull_skip, readStr_fStr_last_skip, readStr_fStrOmit_last_skip, readStr_fArr_last_skip, readStr_fArrOmit_last_skip, readStr_fOptOmit_last_skip, readStr_fOptNull_last_skip, readStrList_fStr_skip, readStrList_fStrOmit_skip, readStrList_fArrOmit_skip, readStrList_fOptOmit_skip, readStrList_fOptNull_skip, readStrList_fStr_last_skip, readStrList_fStrOmit_last_skip, readStrList_fArrOmit_last_skip, readStrList_fOptOmit_last_skip, readStrList_fOptNull_last_skip, readOpt_fStr_skip, readOpt_fStrOmit_skip, readOpt_fArr_skip, readOpt_fArrOmit_skip, readOpt_fOptOmit_skip, readOpt_fOptNull_skip, readOpt_fStr_last_skip, readOpt_fStrOmit_last_skip, readOpt_fArr_last_skip, readOpt_fArrOmit_last_skip, readOpt_fOptOmit_last_skip, readOpt_fOptNull_last_skip, readList_fStr_skip, readList_fStrOmit_skip, readList_fArr_skip, readList_fArrOmit_skip, readList_fOptOmit_skip, readList_fOptNull_skip, readList_fStr_last_skip, readList_fStrOmit_last_skip, readList_fArr_last_skip, readList_fArrOmit_last_skip, readList_fOptOmit_last_skip, readList_fOptNull_last_skip, Option.map_some', Option.map_none', jLookup_fOptOmit_here, jLookup_fOptOmit_last_here, decContentFrom_none, decContentFrom_null, decContentFrom_obj, readOpt_encNum_here, readOpt_encNum_last_here, readOpt_encHeading_here, readOpt_encHeading_last_here, readOpt_encChapeau_here, readOpt_encChapeau_last_here, readList_encInline_here, readList_encInline_last_here, readList_encItalic_here, readList_encItalic_last_here, readList_encRef_here, readList_encRef_last_here, readList_encShortTitle_here, readList_encShortTitle_last_here, readList_encQuotedText_here, readList_encQuotedText_last_here, readList_encAmendingAction_here, readList_encAmendingAction_last_here, decParagraphsFrom_here, decParagraphsFrom_last_here, decSubsectionsFrom_here, decSubsectionsFrom_last_here, ha9, ha10]
  termination_by sizeOf x

theorem rt_Subsection (x : Subsection) : decSubsection (encSubsection x) = some (clearSubsection x) := by
  match x with
  | .mk xn a1 a2 a3 a4 a5 a6 a7 a8 =>
    have ha8 := rt_ParagraphsList a8
    cases a7 with
    | none =>
      simp only [encSubsection, decSubsection, clearSubsection, List.append_assoc, obind_some, ne_eq, not_false_eq_true, String.reduceEq, jLookup_nil, readStr_nil, readStrList_nil, readOpt_nil, readList_nil, jLookup_fStr_skip, jLookup_fStrOmit_skip, jLookup_fArr_skip, jLookup_fArrOmit_skip, jLookup_fOptOmit_skip, jLookup_fOptNull_skip, jLookup_fStr_last_skip, jLookup_fStrOmit_last_skip, jLookup_fArr_last_skip, jLookup_fArrOmit_last_skip, jLookup_fOptOmit_last_skip, jLookup_fOptNull_last_skip, readStr_fStr_here, readStr_fStr_last_here, readStr_fStrOmit_here, readStr_fStrOmit_last_here, readStrList_fArr_here, readStrList_fArr_last_here, readStr_fStr_skip, readStr_fStrOmit_skip, readStr_fArr_skip, readStr_fArrOmit_skip, readStr_fOptOmit_skip, readStr_fOptNull_skip, readStr_fStr_last_skip, readStr_fStrOmit_last_skip, readStr_fArr_last_skip, readStr_fArrOmit_last_skip, readStr_fOptOmit_last_skip, readStr_fOptNull_last_skip, readStrList_fStr_skip, readStrList_fStrOmit_skip, readStrList_fArrOmit_skip, readStrList_fOptOmit_skip, readStrList_fOptNull_skip, readStrList_fStr_last_skip, readStrList_fStrOmit_last_skip, readStrList_fArrOmit_last_skip, readStrList_fOptOmit_last_skip, readStrList_fOptNull_last_skip, readOpt_fStr_skip, readOpt_fStrOmit_skip, readOpt_fArr_skip, readOpt_fArrOmit_skip, readOpt_fOptOmit_skip, readOpt_fOptNull_skip, readOpt_fStr_last_skip, readOpt_fStrOmit_last_skip, readOpt_fArr_last_skip, readOpt_fArrOmit_last_skip, readOpt_fOptOmit_last_skip, readOpt_fOptNull_last_skip, readList_fStr_skip, readList_fStrOmit_skip, readList_fArr_skip, readList_fArrOmit_skip, readList_fOptOmit_skip, readList_fOptNull_skip, readList_fStr_last_skip, readList_fStrOmit_last_skip, readList_fArr_last_skip, readList_fArrOmit_last_skip, readList_fOptOmit_last_skip, readList_fOptNull_last_skip, Option.map_some', Option.map_none', jLookup_fOptOmit_here, jLookup_fOptOmit_last_here, decContentFrom_none, decContentFrom_null, decContentFrom_obj, readOpt_encNum_here, readOpt_encNum_last_here, readOpt_encHeading_here, readOpt_encHeading_last_here, readOpt_encChapeau_here, readOpt_encChapeau_last_here, readList_encInline_here, readList_encInline_last_here, readList_encItalic_here, readList_encItalic_last_here, readList_encRef_here, readList_encRef_last_here, readList_encShortTitle_here, readList_encShortTitle_last_here, readList_encQuotedText_here, readList_encQuotedText_last_here, readList_encAmendingAction_here, readList_encAmendingAction_last_here, decParagraphsFrom_here, decParagraphsFrom_last_here, ha8]
    | some cc =>
      have hcc := rt_Content cc
      obtain ⟨l, hl⟩ := encContent_obj cc
      rw [hl] at hcc
      simp only [hl, hcc, encSubsection, decSubsection, clearSubsection, List.append_assoc, obind_some, ne_eq, not_false_eq_true, String.reduceEq, jLookup_nil, readStr_nil, readStrList_nil, readOpt_nil, readList_nil, jLookup_fStr_skip, jLookup_fStrOmit_skip, jLookup_fArr_skip, jLookup_fArrOmit_skip, jLookup_fOptOmit_skip, jLookup_fOptNull_skip, jLookup_fStr_last_skip, jLookup_fStrOmit_last_skip, jLookup_fArr_last_skip, jLookup_fArrOmit_last_skip, jLookup_fOptOmit_last_skip, jLookup_fOptNull_last_skip, readStr_fStr_here, readStr_fStr_last_here, readStr_fStrOmit_here, readStr_fStrOmit_last_here, readStrList_fArr_here, readStrList_fArr_last_here, readStr_fStr_skip, readStr_fStrOmit_skip, readStr_fArr_skip, readStr_fArrOmit_skip, readStr_fOptOmit_skip, readStr_fOptNull_skip, readStr_fStr_last_skip, readStr_fStrOmit_last_skip, readStr_fArr_last_skip, readStr_fArrOmit_last_skip, readStr_fOptOmit_last_skip, readStr_fOptNull_last_skip, readStrList_fStr_skip, readStrList_fStrOmit_skip, readStrList_fArrOmit_skip, readStrList_fOptOmit_skip, readStrList_fOptNull_skip, readStrList_fStr_last_skip, readStrList_fStrOmit_last_skip, readStrList_fArrOmit_last_skip, readStrList_fOptOmit_last_skip, readStrList_fOptNull_last_skip, readOpt_fStr_skip, readOpt_fStrOmit_skip, readOpt_fArr_skip, readOpt_fArrOmit_skip, readOpt_fOptOmit_skip, readOpt_fOptNull_skip, readOpt_fStr_last_skip, readOpt_fStrOmit_last_skip, readOpt_fArr_last_skip, readOpt_fArrOmit_last_skip, readOpt_fOptOmit_last_skip, readOpt_fOptNull_last_skip, readList_fStr_skip, readList_fStrOmit_skip, readList_fArr_skip, readList_fArrOmit_skip, readList_fOptOmit_skip, readList_fOptNull_skip, readList_fStr_last_skip, readList_fStrOmit_last_skip, readList_fArr_last_skip, readList_fArrOmit_last_skip, readList_fOptOmit_last_skip, readList_fOptNull_last_skip, Option.map_some', Option.map_none', jLookup_fOptOmit_here, jLookup_fOptOmit_last_here, decContentFrom_none, decContentFrom_null, decContentFrom_obj, readOpt_encNum_here, readOpt_encNum_last_here, readOpt_encHeading_here, readOpt_encHeading_last_here, readOpt_encChapeau_here, readOpt_encChapeau_last_here, readList_encInline_here, readList_encInline_last_here, readList_encItalic_here, readList_encItalic_last_here, readList_encRef_here, readList_encRef_last_here, readList_encShortTitle_here, readList_encShortTitle_last_here, readList_encQuotedText_here, readList_encQuotedText_last_here, readList_encAmendingAction_here, readList_encAmendingAction_last_here, decParagraphsFrom_here, decParagraphsFrom_last_here, ha8]
  termination_by sizeOf x

theorem rt_Paragraph (x : Paragraph) : decParagraph (encParagraph x) = some (clearParagraph x) := by
  match x with
  | .mk xn a1 a2 a3 a4 a5 a6 a7 a8 a9 =>
    have ha9 := rt_SubparagraphsList a9
    cases a8 with
    | none =>
      simp only [encParagraph, decParagraph, clearParagraph, List.append_assoc, obind_some, ne_eq, not_false_eq_true, String.reduceEq, jLookup_nil, readStr_nil, readStrList_nil, readOpt_nil, readList_nil, jLookup_fStr_skip, jLookup_fStrOmit_skip, jLookup_fArr_skip, jLookup_fArrOmit_skip, jLookup_fOptOmit_skip, jLookup_fOptNull_skip, jLookup_fStr_last_skip, jLookup_fStrOmit_last_skip, jLookup_fArr_last_skip, jLookup_fArrOmit_last_skip, jLookup_fOptOmit_last_skip, jLookup_fOptNull_last_skip, readStr_fStr_here, readStr_fStr_last_here, readStr_fStrOmit_here, readStr_fStrOmit_last_here, readStrList_fArr_here, readStrList_fArr_last_here, readStr_fStr_skip, readStr_fStrOmit_skip, readStr_fArr_skip, readStr_fArrOmit_skip, readStr_fOptOmit_skip, readStr_fOptNull_skip, readStr_fStr_last_skip, readStr_fStrOmit_last_skip, readStr_fArr_last_skip, readStr_fArrOmit_last_skip, readStr_fOptOmit_last_skip, readStr_fOptNull_last_skip, readStrList_fStr_skip, readStrList_fStrOmit_skip, readStrList_fArrOmit_skip, readStrList_fOptOmit_skip, readStrList_fOptNull_skip, readStrList_fStr_last_skip, readStrList_fStrOmit_last_skip, readStrList_fArrOmit_last_skip, readStrList_fOptOmit_last_skip, readStrList_fOptNull_last_skip, readOpt_fStr_skip, readOpt_fStrOmit_skip, readOpt_fArr_skip, readOpt_fArrOmit_skip, readOpt_fOptOmit_skip, readOpt_fOptNull_skip, readOpt_fStr_last_skip, readOpt_fStrOmit_last_skip, readOpt_fArr_last_skip, readOpt_fArrOmit_last_skip, readOpt_fOptOmit_last_skip, readOpt_fOptNull_last_skip, readList_fStr_skip, readList_fStrOmit_skip, readList_fArr_skip, readList_fArrOmit_skip, readList_fOptOmit_skip, readList_fOptNull_skip, readList_fStr_last_skip, readList_fStrOmit_last_skip, readList_fArr_last_skip, readList_fArrOmit_last_skip, readList_fOptOmit_last_skip, readList_fOptNull_last_skip, Option.map_some', Option.map_none', jLookup_fOptOmit_here, jLookup_fOptOmit_last_here, decContentFrom_none, decContentFrom_null, decContentFrom_obj, readOpt_encNum_here, readOpt_encNum_last_here, readOpt_encHeading_here, readOpt_encHeading_last_here, readOpt_encChapeau_here, readOpt_encChapeau_last_here, readList_encInline_here, readList_encInline_last_here, readList_encItalic_here, readList_encItalic_last_here, readList_encRef_here, readList_encRef_last_here, readList_encShortTitle_here, readList_encShortTitle_last_here, readList_encQuotedText_here, readList_encQuotedText_last_here, readList_encAmendingAction_here, readList_encAmendingAction_last_here, decSubparagraphsFrom_here, decSubparagraphsFrom_last_here, ha9]
    | some cc =>
      have hcc := rt_Content cc
      obtain ⟨l, hl⟩ := encContent_obj cc
      rw [hl] at hcc
      simp only [hl, hcc, encParagraph, decParagraph, clearParagraph, List.append_assoc, obind_some, ne_eq, not_false_eq_true, String.reduceEq, jLookup_nil, readStr_nil, readStrList_nil, readOpt_nil, readList_nil, jLookup_fStr_skip, jLookup_fStrOmit_skip, jLookup_fArr_skip, jLookup_fArrOmit_skip, jLookup_fOptOmit_skip, jLookup_fOptNull_skip, jLookup_fStr_last_skip, jLookup_fStrOmit_last_skip, jLookup_fArr_last_skip, jLookup_fArrOmit_last_skip, jLookup_fOptOmit_last_skip, jLookup_fOptNull_last_skip, readStr_fStr_here, readStr_fStr_last_here, readStr_fStrOmit_here, readStr_fStrOmit_last_here, readStrList_fArr_here, readStrList_fArr_last_here, readStr_fStr_skip, readStr_fStrOmit_skip, readStr_fArr_skip, readStr_fArrOmit_skip, readStr_fOptOmit_skip, readStr_fOptNull_skip, readStr_fStr_last_skip, readStr_fStrOmit_last_skip, readStr_fArr_last_skip, readStr_fArrOmit_last_skip, readStr_fOptOmit_last_skip, readStr_fOptNull_last_skip, readStrList_fStr_skip, readStrList_fStrOmit_skip, readStrList_fArrOmit_skip, readStrList_fOptOmit_skip, readStrList_fOptNull_skip, readStrList_fStr_last_skip, readStrList_fStrOmit_last_skip, readStrList_fArrOmit_last_skip, readStrList_fOptOmit_last_skip, readStrList_fOptNull_last_skip, readOpt_fStr_skip, readOpt_fStrOmit_skip, readOpt_fArr_skip, readOpt_fArrOmit_skip, readOpt_fOptOmit_skip, readOpt_fOptNull_skip, readOpt_fStr_last_skip, readOpt_fStrOmit_last_skip, readOpt_fArr_last_skip, readOpt_fArrOmit_last_skip, readOpt_fOptOmit_last_skip, readOpt_fOptNull_last_skip, readList_fStr_skip, readList_fStrOmit_skip, readList_fArr_skip, readList_fArrOmit_skip, readList_fOptOmit_skip, readList_fOptNull_skip, readList_fStr_last_skip, readList_fStrOmit_last_skip, readList_fArr_last_skip, readList_fArrOmit_last_skip, readList_fOptOmit_last_skip, readList_fOptNull_last_skip, Option.map_some', Option.map_none', jLookup_fOptOmit_here, jLookup_fOptOmit_last_here, decContentFrom_none, decContentFrom_null, decContentFrom_obj, readOpt_encNum_here, readOpt_encNum_last_here, readOpt_encHeading_here, readOpt_encHeading_last_here, readOpt_encChapeau_here, readOpt_encChapeau_last_here, readList_encInline_here, readList_encInline_last_here, readList_encItalic_here, readList_encItalic_last_here, readList_encRef_here, readList_encRef_last_here, readList_encShortTitle_here, readList_encShortTitle_last_here, readList_encQuotedText_here, readList_encQuotedText_last_here, readList_encAmendingAction_here, readList_encAmendingAction_last_here, decSubparagraphsFrom_here, decSubparagraphsFrom_last_here, ha9]
  termination_by sizeOf x

theorem rt_Subparagraph (x : Subparagraph) : decSubparagraph (encSubparagraph x) = some (clearSubparagraph x) := by
  match x with
  | .mk xn a1 a2 a3 a4 a5 a6 a7 =>
    have ha7 := rt_ClausesList a7
    cases a6 with
    | none =>
      simp only [encSubparagraph, decSubparagraph, clearSubparagraph, List.append_assoc, obind_some, ne_eq, not_false_eq_true, String.reduceEq, jLookup_nil, readStr_nil, readStrList_nil, readOpt_nil, readList_nil, jLookup_fStr_skip, jLookup_fStrOmit_skip, jLookup_fArr_skip, jLookup_fArrOmit_skip, jLookup_fOptOmit_skip, jLookup_fOptNull_skip, jLookup_fStr_last_skip, jLookup_fStrOmit_last_skip, jLookup_fArr_last_skip, jLookup_fArrOmit_last_skip, jLookup_fOptOmit_last_skip, jLookup_fOptNull_last_skip, readStr_fStr_here, readStr_fStr_last_here, readStr_fStrOmit_here, readStr_fStrOmit_last_here, readStrList_fArr_here, readStrList_fArr_last_here, readStr_fStr_skip, readStr_fStrOmit_skip, readStr_fArr_skip, readStr_fArrOmit_skip, readStr_fOptOmit_skip, readStr_fOptNull_skip, readStr_fStr_last_skip, readStr_fStrOmit_last_skip, readStr_fArr_last_skip, readStr_fArrOmit_last_skip, readStr_fOptOmit_last_skip, readStr_fOptNull_last_skip, readStrList_fStr_skip, readStrList_fStrOmit_skip, readStrList_fArrOmit_skip, readStrList_fOptOmit_skip, readStrList_fOptNull_skip, readStrList_fStr_last_skip, readStrList_fStrOmit_last_skip, readStrList_fArrOmit_last_skip, readStrList_fOptOmit_last_skip, readStrList_fOptNull_last_skip, readOpt_fStr_skip, readOpt_fStrOmit_skip, readOpt_fArr_skip, readOpt_fArrOmit_skip, readOpt_fOptOmit_skip, readOpt_fOptNull_skip, readOpt_fStr_last_skip, readOpt_fStrOmit_last_skip, readOpt_fArr_last_skip, readOpt_fArrOmit_last_skip, readOpt_fOptOmit_last_skip, readOpt_fOptNull_last_skip, readList_fStr_skip, readList_fStrOmit_skip, readList_fArr_skip, readList_fArrOmit_skip, readList_fOptOmit_skip, readList_fOptNull_skip, readList_fStr_last_skip, readList_fStrOmit_last_skip, readList_fArr_last_skip, readList_fArrOmit_last_skip, readList_fOptOmit_last_skip, readList_fOptNull_last_skip, Option.map_some', Option.map_none', jLookup_fOptOmit_here, jLookup_fOptOmit_last_here, decContentFrom_none, decContentFrom_null, decContentFrom_obj, readOpt_encNum_here, readOpt_encNum_last_here, readOpt_encHeading_here, readOpt_encHeading_last_here, readOpt_encChapeau_here, readOpt_encChapeau_last_here, readList_encInline_here, readList_encInline_last_here, readList_encItalic_here, readList_encItalic_last_here, readList_encRef_here, readList_encRef_last_here, readList_encShortTitle_here, readList_encShortTitle_last_here, readList_encQuotedText_here, readList_encQuotedText_last_here, readList_encAmendingAction_here, readList_encAmendingAction_last_here, decClausesFrom_here, decClausesFrom_last_here, ha7]
    | some cc =>
      have hcc := rt_Content cc
      obtain ⟨l, hl⟩ := encContent_obj cc
      rw [hl] at hcc
      simp only [hl, hcc, encSubparagraph, decSubparagraph, clearSubparagraph, List.append_assoc, obind_some, ne_eq, not_false_eq_true, String.reduceEq, jLookup_nil, readStr_nil, readStrList_nil, readOpt_nil, readList_nil, jLookup_fStr_skip, jLookup_fStrOmit_skip, jLookup_fArr_skip, jLookup_fArrOmit_skip, jLookup_fOptOmit_skip, jLookup_fOptNull_skip, jLookup_fStr_last_skip, jLookup_fStrOmit_last_skip, jLookup_fArr_last_skip, jLookup_fArrOmit_last_skip, jLookup_fOptOmit_last_skip, jLookup_fOptNull_last_skip, readStr_fStr_here, readStr_fStr_last_here, readStr_fStrOmit_here, readStr_fStrOmit_last_here, readStrList_fArr_here, readStrList_fArr_last_here, readStr_fStr_skip, readStr_fStrOmit_skip, readStr_fArr_skip, readStr_fArrOmit_skip, readStr_fOptOmit_skip, readStr_fOptNull_skip, readStr_fStr_last_skip, readStr_fStrOmit_last_skip, readStr_fArr_last_skip, readStr_fArrOmit_last_skip, readStr_fOptOmit_last_skip, readStr_fOptNull_last_skip, readStrList_fStr_skip, readStrList_fStrOmit_skip, readStrList_fArrOmit_skip, readStrList_fOptOmit_skip, readStrList_fOptNull_skip, readStrList_fStr_last_skip, readStrList_fStrOmit_last_skip, readStrList_fArrOmit_last_skip, readStrList_fOptOmit_last_skip, readStrList_fOptNull_last_skip, readOpt_fStr_skip, readOpt_fStrOmit_skip, readOpt_fArr_skip, readOpt_fArrOmit_skip, readOpt_fOptOmit_skip, readOpt_fOptNull_skip, readOpt_fStr_last_skip, readOpt_fStrOmit_last_skip, readOpt_fArr_last_skip, readOpt_fArrOmit_last_skip, readOpt_fOptOmit_last_skip, readOpt_fOptNull_last_skip, readList_fStr_skip, readList_fStrOmit_skip, readList_fArr_skip, readList_fArrOmit_skip, readList_fOptOmit_skip, readList_fOptNull_skip, readList_fStr_last_skip, readList_fStrOmit_last_skip, readList_fArr_last_skip, readList_fArrOmit_last_skip, readList_fOptOmit_last_skip, readList_fOptNull_last_skip, Option.map_some', Option.map_none', jLookup_fOptOmit_here, jLookup_fOptOmit_last_here, decContentFrom_none, decContentFrom_null, decContentFrom_obj, readOpt_encNum_here, readOpt_encNum_last_here, readOpt_encHeading_here, readOpt_encHeading_last_here, readOpt_encChapeau_here, readOpt_encChapeau_last_here, readList_encInline_here, readList_encInline_last_here, readList_encItalic_here, readList_encItalic_last_here, readList_encRef_here, readList_encRef_last_here, readList_encShortTitle_here, readList_encShortTitle_last_here, readList_encQuotedText_here, readList_encQuotedText_last_here, readList_encAmendingAction_here, readList_encAmendingAction_last_here, decClausesFrom_here, decClausesFrom_last_here, ha7]
  termination_by sizeOf x

theorem rt_Clause (x : Clause) : decClause (encClause x) = some (clearClause x) := by
  match x with
  | .mk xn a1 a2 a3 a4 a5 a6 =>
    have ha6 := rt_SubclausesList a6
    cases a5 with
    | none =>
      simp only [encClause, decClause, clearClause, List.append_assoc, obind_some, ne_eq, not_false_eq_true, String.reduceEq, jLookup_nil, readStr_nil, readStrList_nil, readOpt_nil, readList_nil, jLookup_fStr_skip, jLookup_fStrOmit_skip, jLookup_fArr_skip, jLookup_fArrOmit_skip, jLookup_fOptOmit_skip, jLookup_fOptNull_skip, jLookup_fStr_last_skip, jLookup_fStrOmit_last_skip, jLookup_fArr_last_skip, jLookup_fArrOmit_last_skip, jLookup_fOptOmit_last_skip, jLookup_fOptNull_last_skip, readStr_fStr_here, readStr_fStr_last_here, readStr_fStrOmit_here, readStr_fStrOmit_last_here, readStrList_fArr_here, readStrList_fArr_last_here, readStr_fStr_skip, readStr_fStrOmit_skip, readStr_fArr_skip, readStr_fArrOmit_skip, readStr_fOptOmit_skip, readStr_fOptNull_skip, readStr_fStr_last_skip, readStr_fStrOmit_last_skip, readStr_fArr_last_skip, readStr_fArrOmit_last_skip, readStr_fOptOmit_last_skip, readStr_fOptNull_last_skip, readStrList_fStr_skip, readStrList_fStrOmit_skip, readStrList_fArrOmit_skip, readStrList_fOptOmit_skip, readStrList_fOptNull_skip, readStrList_fStr_last_skip, readStrList_fStrOmit_last_skip, readStrList_fArrOmit_last_skip, readStrList_fOptOmit_last_skip, readStrList_fOptNull_last_skip, readOpt_fStr_skip, readOpt_fStrOmit_skip, readOpt_fArr_skip, readOpt_fArrOmit_skip, readOpt_fOptOmit_skip, readOpt_fOptNull_skip, readOpt_fStr_last_skip, readOpt_fStrOmit_last_skip, readOpt_fArr_last_skip, readOpt_fArrOmit_last_skip, readOpt_fOptOmit_last_skip, readOpt_fOptNull_last_skip, readList_fStr_skip, readList_fStrOmit_skip, readList_fArr_skip, readList_fArrOmit_skip, readList_fOptOmit_skip, readList_fOptNull_skip, readList_fStr_last_skip, readList_fStrOmit_last_skip, readList_fArr_last_skip, readList_fArrOmit_last_skip, readList_fOptOmit_last_skip, readList_fOptNull_last_skip, Option.map_some', Option.map_none', jLookup_fOptOmit_here, jLookup_fOptOmit_last_here, decContentFrom_none, decContentFrom_null, decContentFrom_obj, readOpt_encNum_here, readOpt_encNum_last_here, readOpt_encHeading_here, readOpt_encHeading_last_here, readOpt_encChapeau_here, readOpt_encChapeau_last_here, readList_encInline_here, readList_encInline_last_here, readList_encItalic_here, readList_encItalic_last_here, readList_encRef_here, readList_encRef_last_here, readList_encShortTitle_here, readList_encShortTitle_last_here, readList_encQuotedText_here, readList_encQuotedText_last_here, readList_encAmendingAction_here, readList_encAmendingAction_last_here, decSubclausesFrom_here, decSubclausesFrom_last_here, ha6]
    | some cc =>
      have hcc := rt_Content cc
      obtain ⟨l, hl⟩ := encContent_obj cc
      rw [hl] at hcc
      simp only [hl, hcc, encClause, decClause, clearClause, List.append_assoc, obind_some, ne_eq, not_false_eq_true, String.reduceEq, jLookup_nil, readStr_nil, readStrList_nil, readOpt_nil, readList_nil, jLookup_fStr_skip, jLookup_fStrOmit_skip, jLookup_fArr_skip, jLookup_fArrOmit_skip, jLookup_fOptOmit_skip, jLookup_fOptNull_skip, jLookup_fStr_last_skip, jLookup_fStrOmit_last_skip, jLookup_fArr_last_skip, jLookup_fArrOmit_last_skip, jLookup_fOptOmit_last_skip, jLookup_fOptNull_last_skip, readStr_fStr_here, readStr_fStr_last_here, readStr_fStrOmit_here, readStr_fStrOmit_last_here, readStrList_fArr_here, readStrList_fArr_last_here, readStr_fStr_skip, readStr_fStrOmit_skip, readStr_fArr_skip, readStr_fArrOmit_skip, readStr_fOptOmit_skip, readStr_fOptNull_skip, readStr_fStr_last_skip, readStr_fStrOmit_last_skip, readStr_fArr_last_skip, readStr_fArrOmit_last_skip, readStr_fOptOmit_last_skip, readStr_fOptNull_last_skip, readStrList_fStr_skip, readStrList_fStrOmit_skip, readStrList_fArrOmit_skip, readStrList_fOptOmit_skip, readStrList_fOptNull_skip, readStrList_fStr_last_skip, readStrList_fStrOmit_last_skip, readStrList_fArrOmit_last_skip, readStrList_fOptOmit_last_skip, readStrList_fOptNull_last_skip, readOpt_fStr_skip, readOpt_fStrOmit_skip, readOpt_fArr_skip, readOpt_fArrOmit_skip, readOpt_fOptOmit_skip, readOpt_fOptNull_skip, readOpt_fStr_last_skip, readOpt_fStrOmit_last_skip, readOpt_fArr_last_skip, readOpt_fArrOmit_last_skip, readOpt_fOptOmit_last_skip, readOpt_fOptNull_last_skip, readList_fStr_skip, readList_fStrOmit_skip, readList_fArr_skip, readList_fArrOmit_skip, readList_fOptOmit_skip, readList_fOptNull_skip, readList_fStr_last_skip, readList_fStrOmit_last_skip, readList_fArr_last_skip, readList_fArrOmit_last_skip, readList_fOptOmit_last_skip, readList_fOptNull_last_skip, Option.map_some', Option.map_none', jLookup_fOptOmit_here, jLookup_fOptOmit_last_here, decContentFrom_none, decContentFrom_null, decContentFrom_obj, readOpt_encNum_here, readOpt_encNum_last_here, readOpt_encHeading_here, readOpt_encHeading_last_here, readOpt_encChapeau_here, readOpt_encChapeau_last_here, readList_encInline_here, readList_encInline_last_here, readList_encItalic_here, readList_encItalic_last_here, readList_encRef_here, readList_encRef_last_here, readList_encShortTitle_here, readList_encShortTitle_last_here, readList_encQuotedText_here, readList_encQuotedText_last_here, readList_encAmendingAction_here, readList_encAmendingAction_last_here, decSubclausesFrom_here, decSubclausesFrom_last_here, ha6]
  termination_by sizeOf x

theorem rt_Subclause (x : Subclause) : decSubclause (encSubclause x) = some (clearSubclause x) := by
  match x with
  | .mk xn a1 a2 a3 a4 a5 =>
    cases a5 with
    | none =>
      simp only [encSubclause, decSubclause, clearSubclause, List.append_assoc, obind_some, ne_eq, not_false_eq_true, String.reduceEq, jLookup_nil, readStr_nil, readStrList_nil, readOpt_nil, readList_nil, jLookup_fStr_skip, jLookup_fStrOmit_skip, jLookup_fArr_skip, jLookup_fArrOmit_skip, jLookup_fOptOmit_skip, jLookup_fOptNull_skip, jLookup_fStr_last_skip, jLookup_fStrOmit_last_skip, jLookup_fArr_last_skip, jLookup_fArrOmit_last_skip, jLookup_fOptOmit_last_skip, jLookup_fOptNull_last_skip, readStr_fStr_here, readStr_fStr_last_here, readStr_fStrOmit_here, readStr_fStrOmit_last_here, readStrList_fArr_here, readStrList_fArr_last_here, readStr_fStr_skip, readStr_fStrOmit_skip, readStr_fArr_skip, readStr_fArrOmit_skip, readStr_fOptOmit_skip, readStr_fOptNull_skip, readStr_fStr_last_skip, readStr_fStrOmit_last_skip, readStr_fArr_last_skip, readStr_fArrOmit_last_skip, readStr_fOptOmit_last_skip, readStr_fOptNull_last_skip, readStrList_fStr_skip, readStrList_fStrOmit_skip, readStrList_fArrOmit_skip, readStrList_fOptOmit_skip, readStrList_fOptNull_skip, readStrList_fStr_last_skip, readStrList_fStrOmit_last_skip, readStrList_fArrOmit_last_skip, readStrList_fOptOmit_last_skip, readStrList_fOptNull_last_skip, readOpt_fStr_skip, readOpt_fStrOmit_skip, readOpt_fArr_skip, readOpt_fArrOmit_skip, readOpt_fOptOmit_skip, readOpt_fOptNull_skip, readOpt_fStr_last_skip, readOpt_fStrOmit_last_skip, readOpt_fArr_last_skip, readOpt_fArrOmit_last_skip, readOpt_fOptOmit_last_skip, readOpt_fOptNull_last_skip, readList_fStr_skip, readList_fStrOmit_skip, readList_fArr_skip, readList_fArrOmit_skip, readList_fOptOmit_skip, readList_fOptNull_skip, readList_fStr_last_skip, readList_fStrOmit_last_skip, readList_fArr_last_skip, readList_fArrOmit_last_skip, readList_fOptOmit_last_skip, readList_fOptNull_last_skip, Option.map_some', Option.map_none', jLookup_fOptOmit_here, jLookup_fOptOmit_last_here, decContentFrom_none, decContentFrom_null, decContentFrom_obj, readOpt_encNum_here, readOpt_encNum_last_here, readOpt_encHeading_here, readOpt_encHeading_last_here, readOpt_encChapeau_here, readOpt_encChapeau_last_here, readList_encInline_here, readList_encInline_last_here, readList_encItalic_here, readList_encItalic_last_here, readList_encRef_here, readList_encRef_last_here, readList_encShortTitle_here, readList_encShortTitle_last_here, readList_encQuotedText_here, readList_encQuotedText_last_here, readList_encAmendingAction_here, readList_encAmendingAction_last_here]
    | some cc =>
      have hcc := rt_Content cc
      obtain ⟨l, hl⟩ := encContent_obj cc
      rw [hl] at hcc
      simp only [hl, hcc, encSubclause, decSubclause, clearSubclause, List.append_assoc, obind_some, ne_eq, not_false_eq_true, String.reduceEq, jLookup_nil, readStr_nil, readStrList_nil, readOpt_nil, readList_nil, jLookup_fStr_skip, jLookup_fStrOmit_skip, jLookup_fArr_skip, jLookup_fArrOmit_skip, jLookup_fOptOmit_skip, jLookup_fOptNull_skip, jLookup_fStr_last_skip, jLookup_fStrOmit_last_skip, jLookup_fArr_last_skip, jLookup_fArrOmit_last_skip, jLookup_fOptOmit_last_skip, jLookup_fOptNull_last_skip, readStr_fStr_here, readStr_fStr_last_here, readStr_fStrOmit_here, readStr_fStrOmit_last_here, readStrList_fArr_here, readStrList_fArr_last_here, readStr_fStr_skip, readStr_fStrOmit_skip, readStr_fArr_skip, readStr_fArrOmit_skip, readStr_fOptOmit_skip, readStr_fOptNull_skip, readStr_fStr_last_skip, readStr_fStrOmit_last_skip, readStr_fArr_last_skip, readStr_fArrOmit_last_skip, readStr_fOptOmit_last_skip, readStr_fOptNull_last_skip, readStrList_fStr_skip, readStrList_fStrOmit_skip, readStrList_fArrOmit_skip, readStrList_fOptOmit_skip, readStrList_fOptNull_skip, readStrList_fStr_last_skip, readStrList_fStrOmit_last_skip, readStrList_fArrOmit_last_skip, readStrList_fOptOmit_last_skip, readStrList_fOptNull_last_skip, readOpt_fStr_skip, readOpt_fStrOmit_skip, readOpt_fArr_skip, readOpt_fArrOmit_skip, readOpt_fOptOmit_skip, readOpt_fOptNull_skip, readOpt_fStr_last_skip, readOpt_fStrOmit_last_skip, readOpt_fArr_last_skip, readOpt_fArrOmit_last_skip, readOpt_fOptOmit_last_skip, readOpt_fOptNull_last_skip, readList_fStr_skip, readList_fStrOmit_skip, readList_fArr_skip, readList_fArrOmit_skip, readList_fOptOmit_skip, readList_fOptNull_skip, readList_fStr_last_skip, readList_fStrOmit_last_skip, readList_fArr_last_skip, readList_fArrOmit_last_skip, readList_fOptOmit_last_skip, readList_fOptNull_last_skip, Option.map_some', Option.map_none', jLookup_fOptOmit_here, jLookup_fOptOmit_last_here, decContentFrom_none, decContentFrom_null, decContentFrom_obj, readOpt_encNum_here, readOpt_encNum_last_here, readOpt_encHeading_here, readOpt_encHeading_last_here, readOpt_encChapeau_here, readOpt_encChapeau_last_here, readList_encInline_here, readList_encInline_last_here, readList_encItalic_here, readList_encItalic_last_here, readList_encRef_here, readList_encRef_last_here, readList_encShortTitle_here, readList_encShortTitle_last_here, readList_encQuotedText_here, readList_encQuotedText_last_here, readList_encAmendingAction_here, readList_encAmendingAction_last_here]
  termination_by sizeOf x

theorem rt_Content (x : Content) : decContent (encContent x) = some (clearContent x) := by
  match x with
  | .mk xn a1 a2 a3 a4 a5 a6 a7 a8 a9 a10 =>
    have ha9 := rt_QuotedContentsList a9
    have ha10 := rt_AmendmentContentsList a10
    simp only [encContent, decContent, clearContent, List.append_assoc, obind_some, ne_eq, not_false_eq_true, String.reduceEq, jLookup_nil, readStr_nil, readStrList_nil, readOpt_nil, readList_nil, jLookup_fStr_skip, jLookup_fStrOmit_skip, jLookup_fArr_skip, jLookup_fArrOmit_skip, jLookup_fOptOmit_skip, jLookup_fOptNull_skip, jLookup_fStr_last_skip, jLookup_fStrOmit_last_skip, jLookup_fArr_last_skip, jLookup_fArrOmit_last_skip, jLookup_fOptOmit_last_skip, jLookup_fOptNull_last_skip, readStr_fStr_here, readStr_fStr_last_here, readStr_fStrOmit_here, readStr_fStrOmit_last_here, readStrList_fArr_here, readStrList_fArr_last_here, readStr_fStr_skip, readStr_fStrOmit_skip, readStr_fArr_skip, readStr_fArrOmit_skip, readStr_fOptOmit_skip, readStr_fOptNull_skip, readStr_fStr_last_skip, readStr_fStrOmit_last_skip, readStr_fArr_last_skip, readStr_fArrOmit_last_skip, readStr_fOptOmit_last_skip, readStr_fOptNull_last_skip, readStrList_fStr_skip, readStrList_fStrOmit_skip, readStrList_fArrOmit_skip, readStrList_fOptOmit_skip, readStrList_fOptNull_skip, readStrList_fStr_last_skip, readStrList_fStrOmit_last_skip, readStrList_fArrOmit_last_skip, readStrList_fOptOmit_last_skip, readStrList_fOptNull_last_skip, readOpt_fStr_skip, readOpt_fStrOmit_skip, readOpt_fArr_skip, readOpt_fArrOmit_skip, readOpt_fOptOmit_skip, readOpt_fOptNull_skip, readOpt_fStr_last_skip, readOpt_fStrOmit_last_skip, readOpt_fArr_last_skip, readOpt_fArrOmit_last_skip, readOpt_fOptOmit_last_skip, readOpt_fOptNull_last_skip, readList_fStr_skip, readList_fStrOmit_skip, readList_fArr_skip, readList_fArrOmit_skip, readList_fOptOmit_skip, readList_fOptNull_skip, readList_fStr_last_skip, readList_fStrOmit_last_skip, readList_fArr_last_skip, readList_fArrOmit_last_skip, readList_fOptOmit_last_skip, readList_fOptNull_last_skip, Option.map_some', Option.map_none', jLookup_fOptOmit_here, jLookup_fOptOmit_last_here, decContentFrom_none, decContentFrom_null, decContentFrom_obj, readOpt_encNum_here, readOpt_encNum_last_here, readOpt_encHeading_here, readOpt_encHeading_last_here, readOpt_encChapeau_here, readOpt_encChapeau_last_here, readList_encInline_here, readList_encInline_last_here, readList_encItalic_here, readList_encItalic_last_here, readList_encRef_here, readList_encRef_last_here, readList_encShortTitle_here, readList_encShortTitle_last_here, readList_encQuotedText_here, readList_encQuotedText_last_here, readList_encAmendingAction_here, readList_encAmendingAction_last_here, decAmendmentContentsFrom_here, decAmendmentContentsFrom_last_here, decQuotedContentsFrom_here, decQuotedContentsFrom_last_here, ha9, ha10]
  termination_by sizeOf x

theorem rt_QuotedContent (x : QuotedContent) : decQuotedContent (encQuotedContent x) = some (clearQuotedContent x) := by
  match x with
  | .mk xn a1 a2 a3 a4 a5 =>
    have ha3 := rt_ParagraphsList a3
    have ha4 := rt_SubsectionsList a4
    have ha5 := rt_SectionsList a5
    simp only [encQuotedContent, decQuotedContent, clearQuotedContent, List.append_assoc, obind_some, ne_eq, not_false_eq_true, String.reduceEq, jLookup_nil, readStr_nil, readStrList_nil, readOpt_nil, readList_nil, jLookup_fStr_skip, jLookup_fStrOmit_skip, jLookup_fArr_skip, jLookup_fArrOmit_skip, jLookup_fOptOmit_skip, jLookup_fOptNull_skip, jLookup_fStr_last_skip, jLookup_fStrOmit_last_skip, jLookup_fArr_last_skip, jLookup_fArrOmit_last_skip, jLookup_fOptOmit_last_skip, jLookup_fOptNull_last_skip, readStr_fStr_here, readStr_fStr_last_here, readStr_fStrOmit_here, readStr_fStrOmit_last_here, readStrList_fArr_here, readStrList_fArr_last_here, readStr_fStr_skip, readStr_fStrOmit_skip, readStr_fArr_skip, readStr_fArrOmit_skip, readStr_fOptOmit_skip, readStr_fOptNull_skip, readStr_fStr_last_skip, readStr_fStrOmit_last_skip, readStr_fArr_last_skip, readStr_fArrOmit_last_skip, readStr_fOptOmit_last_skip, readStr_fOptNull_last_skip, readStrList_fStr_skip, readStrList_fStrOmit_skip, readStrList_fArrOmit_skip, readStrList_fOptOmit_skip, readStrList_fOptNull_skip, readStrList_fStr_last_skip, readStrList_fStrOmit_last_skip, readStrList_fArrOmit_last_skip, readStrList_fOptOmit_last_skip, readStrList_fOptNull_last_skip, readOpt_fStr_skip, readOpt_fStrOmit_skip, readOpt_fArr_skip, readOpt_fArrOmit_skip, readOpt_fOptOmit_skip, readOpt_fOptNull_skip, readOpt_fStr_last_skip, readOpt_fStrOmit_last_skip, readOpt_fArr_last_skip, readOpt_fArrOmit_last_skip, readOpt_fOptOmit_last_skip, readOpt_fOptNull_last_skip, readList_fStr_skip, readList_fStrOmit_skip, readList_fArr_skip, readList_fArrOmit_skip, readList_fOptOmit_skip, readList_fOptNull_skip, readList_fStr_last_skip, readList_fStrOmit_last_skip, readList_fArr_last_skip, readList_fArrOmit_last_skip, readList_fOptOmit_last_skip, readList_fOptNull_last_skip, Option.map_some', Option.map_none', jLookup_fOptOmit_here, jLookup_fOptOmit_last_here, decContentFrom_none, decContentFrom_null, decContentFrom_obj, readOpt_encNum_here, readOpt_encNum_last_here, readOpt_encHeading_here, readOpt_encHeading_last_here, readOpt_encChapeau_here, readOpt_encChapeau_last_here, readList_encInline_here, readList_encInline_last_here, readList_encItalic_here, readList_encItalic_last_here, readList_encRef_here, readList_encRef_last_here, readList_encShortTitle_here, readList_encShortTitle_last_here, readList_encQuotedText_here, readList_encQuotedText_last_here, readList_encAmendingAction_here, readList_encAmendingAction_last_here, decParagraphsFrom_here, decParagraphsFrom_last_here, decSectionsFrom_here, decSectionsFrom_last_here, decSubsectionsFrom_here, decSubsectionsFrom_last_here, ha3, ha4, ha5]
  termination_by sizeOf x

theorem rt_AmendmentContent (x : AmendmentContent) : decAmendmentContent (encAmendmentContent x) = some (clearAmendmentContent x) := by
  match x with
  | .mk xn a1 a2 a3 a4 =>
    have ha4 := rt_SectionsList a4
    simp only [encAmendmentContent, decAmendmentContent, clearAmendmentContent, List.append_assoc, obind_some, ne_eq, not_false_eq_true, String.reduceEq, jLookup_nil, readStr_nil, readStrList_nil, readOpt_nil, readList_nil, jLookup_fStr_skip, jLookup_fStrOmit_skip, jLookup_fArr_skip, jLookup_fArrOmit_skip, jLookup_fOptOmit_skip, jLookup_fOptNull_skip, jLookup_fStr_last_skip, jLookup_fStrOmit_last_skip, jLookup_fArr_last_skip, jLookup_fArrOmit_last_skip, jLookup_fOptOmit_last_skip, jLookup_fOptNull_last_skip, readStr_fStr_here, readStr_fStr_last_here, readStr_fStrOmit_here, readStr_fStrOmit_last_here, readStrList_fArr_here, readStrList_fArr_last_here, readStr_fStr_skip, readStr_fStrOmit_skip, readStr_fArr_skip, readStr_fArrOmit_skip, readStr_fOptOmit_skip, readStr_fOptNull_skip, readStr_fStr_last_skip, readStr_fStrOmit_last_skip, readStr_fArr_last_skip, readStr_fArrOmit_last_skip, readStr_fOptOmit_last_skip, readStr_fOptNull_last_skip, readStrList_fStr_skip, readStrList_fStrOmit_skip, readStrList_fArrOmit_skip, readStrList_fOptOmit_skip, readStrList_fOptNull_skip, readStrList_fStr_last_skip, readStrList_fStrOmit_last_skip, readStrList_fArrOmit_last_skip, readStrList_fOptOmit_last_skip, readStrList_fOptNull_last_skip, readOpt_fStr_skip, readOpt_fStrOmit_skip, readOpt_fArr_skip, readOpt_fArrOmit_skip, readOpt_fOptOmit_skip, readOpt_fOptNull_skip, readOpt_fStr_last_skip, readOpt_fStrOmit_last_skip, readOpt_fArr_last_skip, readOpt_fArrOmit_last_skip, readOpt_fOptOmit_last_skip, readOpt_fOptNull_last_skip, readList_fStr_skip, readList_fStrOmit_skip, readList_fArr_skip, readList_fArrOmit_skip, readList_fOptOmit_skip, readList_fOptNull_skip, readList_fStr_last_skip, readList_fStrOmit_last_skip, readList_fArr_last_skip, readList_fArrOmit_last_skip, readList_fOptOmit_last_skip, readList_fOptNull_last_skip, Option.map_some', Option.map_none', jLookup_fOptOmit_here, jLookup_fOptOmit_last_here, decContentFrom_none, decContentFrom_null, decContentFrom_obj, readOpt_encNum_here, readOpt_encNum_last_here, readOpt_encHeading_here, readOpt_encHeading_last_here, readOpt_encChapeau_here, readOpt_encChapeau_last_here, readList_encInline_here, readList_encInline_last_here, readList_encItalic_here, readList_encItalic_last_here, readList_encRef_here, readList_encRef_last_here, readList_encShortTitle_here, readList_encShortTitle_last_here, readList_encQuotedText_here, readList_encQuotedText_last_here, readList_encAmendingAction_here, readList_encAmendingAction_last_here, decSectionsFrom_here, decSectionsFrom_last_here, ha4]
  termination_by sizeOf x

theorem rt_SectionsList (xs : List Section) :
    decSectionsList (encSectionsList xs) = some (clearSectionsList xs) := by
  match xs with
  | [] => simp [encSectionsList, decSectionsList, clearSectionsList]
  | x :: rest =>
    have h1 := rt_Section x
    have h2 := rt_SectionsList rest
    simp only [encSectionsList, clearSectionsList, decSectionsList]
    simp [h1, h2]
  termination_by sizeOf xs

theorem rt_SubsectionsList (xs : List Subsection) :
    decSubsectionsList (encSubsectionsList xs) = some (clearSubsectionsList xs) := by
  match xs with
  | [] => simp [encSubsectionsList, decSubsectionsList, clearSubsectionsList]
  | x :: rest =>
    have h1 := rt_Subsection x
    have h2 := rt_SubsectionsList rest
    simp only [encSubsectionsList, clearSubsectionsList, decSubsectionsList]
    simp [h1, h2]
  termination_by sizeOf xs

theorem rt_ParagraphsList (xs : List Paragraph) :
    decParagraphsList (encParagraphsList xs) = some (clearParagraphsList xs) := by
  match xs with
  | [] => simp [encParagraphsList, decParagraphsList, clearParagraphsList]
  | x :: rest =>
    have h1 := rt_Paragraph x
    have h2 := rt_ParagraphsList rest
    simp only [encParagraphsList, clearParagraphsList, decParagraphsList]
    simp [h1, h2]
  termination_by sizeOf xs

theorem rt_SubparagraphsList (xs : List Subparagraph) :
    decSubparagraphsList (encSubparagraphsList xs) = some (clearSubparagraphsList xs) := by
  match xs with
  | [] => simp [encSubparagraphsList, decSubparagraphsList, clearSubparagraphsList]
  | x :: rest =>
    have h1 := rt_Subparagraph x
    have h2 := rt_SubparagraphsList rest
    simp only [encSubparagraphsList, clearSubparagraphsList, decSubparagraphsList]
    simp [h1, h2]
  termination_by sizeOf xs

theorem rt_ClausesList (xs : List Clause) :
    decClausesList (encClausesList xs) = some (clearClausesList xs) := by
  match xs with
  | [] => simp [encClausesList, decClausesList, clearClausesList]
  | x :: rest =>
    have h1 := rt_Clause x
    have h2 := rt_ClausesList rest
    simp only [encClausesList, clearClausesList, decClausesList]
    simp [h1, h2]
  termination_by sizeOf xs

theorem rt_SubclausesList (xs : List Subclause) :
    decSubclausesList (encSubclausesList xs) = some (clearSubclausesList xs) := by
  match xs with
  | [] => simp [encSubclausesList, decSubclausesList, clearSubclausesList]
  | x :: rest =>
    have h1 := rt_Subclause x
    have h2 := rt_SubclausesList rest
    simp only [encSubclausesList, clearSubclausesList, decSubclausesList]
    simp [h1, h2]
  termination_by sizeOf xs

theorem rt_QuotedContentsList (xs : List QuotedContent) :
    decQuotedContentsList (encQuotedContentsList xs) = some (clearQuotedContentsList xs) := by
  match xs with
  | [] => simp [encQuotedContentsList, decQuotedContentsList, clearQuotedContentsList]
  | x :: rest =>
    have h1 := rt_QuotedContent x
    have h2 := rt_QuotedContentsList rest
    simp only [encQuotedContentsList, clearQuotedContentsList, decQuotedContentsList]
    simp [h1, h2]
  termination_by sizeOf xs

theorem rt_AmendmentContentsList (xs : List AmendmentContent) :
    decAmendmentContentsList (encAmendmentContentsList xs) = some (clearAmendmentContentsList xs) := by
  match xs with
  | [] => simp [encAmendmentContentsList, decAmendmentContentsList, clearAmendmentContentsList]
  | x :: rest =>
    have h1 := rt_AmendmentContent x
    have h2 := rt_AmendmentContentsList rest
    simp only [encAmendmentContentsList, clearAmendmentContentsList, decAmendmentContentsList]
    simp [h1, h2]
  termination_by sizeOf xs

end


/-! ### Specialized round-trip lemmas for family types used by the
outer document structures. -/

@[simp] theorem readList_encSection_here {k : String} {rest} {xs : List Section}
    (h : jLookup k rest = none) :
    readList decSection (fArrOmit k (xs.map encSection) ++ rest) k = some (xs.map clearSection) :=
  readList_fArrOmit_map h (fun y _ => rt_Section y)

@[simp] theorem readList_encSection_last_here {k : String} {xs : List Section} :
    readList decSection (fArrOmit k (xs.map encSection)) k = some (xs.map clearSection) :=
  readList_fArrOmit_last_map (fun y _ => rt_Section y)

@[simp] theorem readList_encParagraph_here {k : String} {rest} {xs : List Paragraph}
    (h : jLookup k rest = none) :
    readList decParagraph (fArrOmit k (xs.map encParagraph) ++ rest) k =
      some (xs.map clearParagraph) :=
  readList_fArrOmit_map h (fun y _ => rt_Paragraph y)

@[simp] theorem readList_encParagraph_last_here {k : String} {xs : List Paragraph} :
    readList decParagraph (fArrOmit k (xs.map encParagraph)) k = some (xs.map clearParagraph) :=
  readList_fArrOmit_last_map (fun y _ => rt_Paragraph y)

@[simp] theorem readOpt_encContent_here {k : String} {rest} {c : Option Content}
    (h : jLookup k rest = none) :
    readOpt decContent (fOptOmit k (c.map encContent) ++ rest) k = some (c.map clearContent) :=
  readOpt_fOptOmit_map h encContent_obj (fun y _ => rt_Content y)

@[simp] theorem readOpt_encContent_last_here {k : String} {c : Option Content} :
    readOpt decContent (fOptOmit k (c.map encContent)) k = some (c.map clearContent) :=
  readOpt_fOptOmit_last_map encContent_obj (fun y _ => rt_Content y)

@[simp] theorem readOpt_encSection_here {k : String} {rest} {c : Option Section}
    (h : jLookup k rest = none) :
    readOpt decSection (fOptOmit k (c.map encSection) ++ rest) k = some (c.map clearSection) :=
  readOpt_fOptOmit_map h encSection_obj (fun y _ => rt_Section y)

@[simp] theorem readOpt_encSection_last_here {k : String} {c : Option Section} :
    readOpt decSection (fOptOmit k (c.map encSection)) k = some (c.map clearSection) :=
  readOpt_fOptOmit_last_map encSection_obj (fun y _ => rt_Section y)

@[simp] theorem readOpt_encParagraph_here {k : String} {rest} {c : Option Paragraph}
    (h : jLookup k rest = none) :
    readOpt decParagraph (fOptOmit k (c.map encParagraph) ++ rest) k = some (c.map clearParagraph) :=
  readOpt_fOptOmit_map h encParagraph_obj (fun y _ => rt_Paragraph y)

@[simp] theorem readOpt_encParagraph_last_here {k : String} {c : Option Paragraph} :
    readOpt decParagraph (fOptOmit k (c.map encParagraph)) k = some (c.map clearParagraph) :=
  readOpt_fOptOmit_last_map encParagraph_obj (fun y _ => rt_Paragraph y)

@[simp] theorem readList_encContent_here {k : String} {rest} {xs : List Content}
    (h : jLookup k rest = none) :
    readList decContent (fArrOmit k (xs.map encContent) ++ rest) k = some (xs.map clearContent) :=
  readList_fArrOmit_map h (fun y _ => rt_Content y)

@[simp] theorem readList_encContent_last_here {k : String} {xs : List Content} :
    readList decContent (fArrOmit k (xs.map encContent)) k = some (xs.map clearContent) :=
  readList_fArrOmit_last_map (fun y _ => rt_Content y)

/-! ## Outer document structures -/

structure Title where
  XMLName : Name
  ID : String
  Num : Option Num
  Heading : Option Heading
  Sections : List Section

def encTitle (x : Title) : Json :=
  Json.obj (fStrOmit "id" x.ID ++
    fOptOmit "num" (x.Num.map encNum) ++
    fOptOmit "heading" (x.Heading.map encHeading) ++
    fArrOmit "sections" (x.Sections.map encSection))

def decTitle : Json → Option Title
  | Json.obj kvs =>
    obind (readStr kvs "id") fun a1 =>
    obind (readOpt decNum kvs "num") fun a2 =>
    obind (readOpt decHeading kvs "heading") fun a3 =>
    obind (readList decSection kvs "sections") fun a4 =>
    some ⟨emptyName, a1, a2, a3, a4⟩
  | _ => none

def clearTitle (x : Title) : Title :=
  ⟨emptyName, x.ID, x.Num.map clearNum, x.Heading.map clearHeading, x.Sections.map clearSection⟩

theorem encTitle_obj (x : Title) : ∃ l, encTitle x = Json.obj l := ⟨_, rfl⟩

theorem rt_Title (x : Title) : decTitle (encTitle x) = some (clearTitle x) := by
  simp only [encTitle, decTitle, clearTitle, List.append_assoc, obind_some, ne_eq, not_false_eq_true, String.reduceEq, jLookup_nil, readStr_nil, readStrList_nil, readOpt_nil, readList_nil, jLookup_fStr_skip, jLookup_fStrOmit_skip, jLookup_fArr_skip, jLookup_fArrOmit_skip, jLookup_fOptOmit_skip, jLookup_fOptNull_skip, jLookup_fStr_last_skip, jLookup_fStrOmit_last_skip, jLookup_fArr_last_skip, jLookup_fArrOmit_last_skip, jLookup_fOptOmit_last_skip, jLookup_fOptNull_last_skip, readStr_fStr_here, readStr_fStr_last_here, readStr_fStrOmit_here, readStr_fStrOmit_last_here, readStrList_fArr_here, readStrList_fArr_last_here, readStr_fStr_skip, readStr_fStrOmit_skip, readStr_fArr_skip, readStr_fArrOmit_skip, readStr_fOptOmit_skip, readStr_fOptNull_skip, readStr_fStr_last_skip, readStr_fStrOmit_last_skip, readStr_fArr_last_skip, readStr_fArrOmit_last_skip, readStr_fOptOmit_last_skip, readStr_fOptNull_last_skip, readStrList_fStr_skip, readStrList_fStrOmit_skip, readStrList_fArrOmit_skip, readStrList_fOptOmit_skip, readStrList_fOptNull_skip, readStrList_fStr_last_skip, readStrList_fStrOmit_last_skip, readStrList_fArrOmit_last_skip, readStrList_fOptOmit_last_skip, readStrList_fOptNull_last_skip, readOpt_fStr_skip, readOpt_fStrOmit_skip, readOpt_fArr_skip, readOpt_fArrOmit_skip, readOpt_fOptOmit_skip, readOpt_fOptNull_skip, readOpt_fStr_last_skip, readOpt_fStrOmit_last_skip, readOpt_fArr_last_skip, readOpt_fArrOmit_last_skip, readOpt_fOptOmit_last_skip, readOpt_fOptNull_last_skip, readList_fStr_skip, readList_fStrOmit_skip, readList_fArr_skip, readList_fArrOmit_skip, readList_fOptOmit_skip, readList_fOptNull_skip, readList_fStr_last_skip, readList_fStrOmit_last_skip, readList_fArr_last_skip, readList_fArrOmit_last_skip, readList_fOptOmit_last_skip, readList_fOptNull_last_skip, readList_encHeading_here, readList_encHeading_last_here, readOpt_encHeading_here, readOpt_encHeading_last_here, readList_encNum_here, readList_encNum_last_here, readOpt_encNum_here, readOpt_encNum_last_here, readList_encSection_here, readList_encSection_last_here, readOpt_encSection_here, readOpt_encSection_last_here]

@[simp] theorem readList_encTitle_here {k : String} {rest} {xs : List Title}
    (h : jLookup k rest = none) :
    readList decTitle (fArrOmit k (xs.map encTitle) ++ rest) k = some (xs.map clearTitle) :=
  readList_fArrOmit_map h (fun y _ => rt_Title y)

@[simp] theorem readList_encTitle_last_here {k : String} {xs : List Title} :
    readList decTitle (fArrOmit k (xs.map encTitle)) k = some (xs.map clearTitle) :=
  readList_fArrOmit_last_map (fun y _ => rt_Title y)

@[simp] theorem readOpt_encTitle_here {k : String} {rest} {c : Option Title}
    (h : jLookup k rest = none) :
    readOpt decTitle (fOptOmit k (c.map encTitle) ++ rest) k = some (c.map clearTitle) :=
  readOpt_fOptOmit_map h encTitle_obj (fun y _ => rt_Title y)

@[simp] theorem readOpt_encTitle_last_here {k : String} {c : Option Title} :
    readOpt decTitle (fOptOmit k (c.map encTitle)) k = some (c.map clearTitle) :=
  readOpt_fOptOmit_last_map encTitle_obj (fun y _ => rt_Title y)

structure Recital where
  XMLName : Name
  Text : String
  P : List P
  Paragraphs : List Paragraph

def encRecital (x : Recital) : Json :=
  Json.obj (fStrOmit "text" x.Text ++
    fArrOmit "p" (x.P.map encP) ++
    fArrOmit "paragraphs" (x.Paragraphs.map encParagraph))

def decRecital : Json → Option Recital
  | Json.obj kvs =>
    obind (readStr kvs "text") fun a1 =>
    obind (readList decP kvs "p") fun a2 =>
    obind (readList decParagraph kvs "paragraphs") fun a3 =>
    some ⟨emptyName, a1, a2, a3⟩
  | _ => none

def clearRecital (x : Recital) : Recital :=
  ⟨emptyName, x.Text, x.P.map clearP, x.Paragraphs.map clearParagraph⟩

theorem encRecital_obj (x : Recital) : ∃ l, encRecital x = Json.obj l := ⟨_, rfl⟩

theorem rt_Recital (x : Recital) : decRecital (encRecital x) = some (clearRecital x) := by
  simp only [encRecital, decRecital, clearRecital, List.append_assoc, obind_some, ne_eq, not_false_eq_true, String.reduceEq, jLookup_nil, readStr_nil, readStrList_nil, readOpt_nil, readList_nil, jLookup_fStr_skip, jLookup_fStrOmit_skip, jLookup_fArr_skip, jLookup_fArrOmit_skip, jLookup_fOptOmit_skip, jLookup_fOptNull_skip, jLookup_fStr_last_skip, jLookup_fStrOmit_last_skip, jLookup_fArr_last_skip, jLookup_fArrOmit_last_skip, jLookup_fOptOmit_last_skip, jLookup_fOptNull_last_skip, readStr_fStr_here, readStr_fStr_last_here, readStr_fStrOmit_here, readStr_fStrOmit_last_here, readStrList_fArr_here, readStrList_fArr_last_here, readStr_fStr_skip, readStr_fStrOmit_skip, readStr_fArr_skip, readStr_fArrOmit_skip, readStr_fOptOmit_skip, readStr_fOptNull_skip, readStr_fStr_last_skip, readStr_fStrOmit_last_skip, readStr_fArr_last_skip, readStr_fArrOmit_last_skip, readStr_fOptOmit_last_skip, readStr_fOptNull_last_skip, readStrList_fStr_skip, readStrList_fStrOmit_skip, readStrList_fArrOmit_skip, readStrList_fOptOmit_skip, readStrList_fOptNull_skip, readStrList_fStr_last_skip, readStrList_fStrOmit_last_skip, readStrList_fArrOmit_last_skip, readStrList_fOptOmit_last_skip, readStrList_fOptNull_last_skip, readOpt_fStr_skip, readOpt_fStrOmit_skip, readOpt_fArr_skip, readOpt_fArrOmit_skip, readOpt_fOptOmit_skip, readOpt_fOptNull_skip, readOpt_fStr_last_skip, readOpt_fStrOmit_last_skip, readOpt_fArr_last_skip, readOpt_fArrOmit_last_skip, readOpt_fOptOmit_last_skip, readOpt_fOptNull_last_skip, readList_fStr_skip, readList_fStrOmit_skip, readList_fArr_skip, readList_fArrOmit_skip, readList_fOptOmit_skip, readList_fOptNull_skip, readList_fStr_last_skip, readList_fStrOmit_last_skip, readList_fArr_last_skip, readList_fArrOmit_last_skip, readList_fOptOmit_last_skip, readList_fOptNull_last_skip, readList_encP_here, readList_encP_last_here, readOpt_encP_here, readOpt_encP_last_here, readList_encParagraph_here, readList_encParagraph_last_here, readOpt_encParagraph_here, readOpt_encParagraph_last_here]

@[simp] theorem readList_encRecital_here {k : String} {rest} {xs : List Recital}
    (h : jLookup k rest = none) :
    readList decRecital (fArrOmit k (xs.map encRecital) ++ rest) k = some (xs.map clearRecital) :=
  readList_fArrOmit_map h (fun y _ => rt_Recital y)

@[simp] theorem readList_encRecital_last_here {k : String} {xs : List Recital} :
    readList decRecital (fArrOmit k (xs.map encRecital)) k = some (xs.map clearRecital) :=
  readList_fArrOmit_last_map (fun y _ => rt_Recital y)

@[simp] theorem readOpt_encRecital_here {k : String} {rest} {c : Option Recital}
    (h : jLookup k rest = none) :
    readOpt decRecital (fOptOmit k (c.map encRecital) ++ rest) k = some (c.map clearRecital) :=
  readOpt_fOptOmit_map h encRecital_obj (fun y _ => rt_Recital y)

@[simp] theorem readOpt_encRecital_last_here {k : String} {c : Option Recital} :
    readOpt decRecital (fOptOmit k (c.map encRecital)) k = some (c.map clearRecital) :=
  readOpt_fOptOmit_last_map encRecital_obj (fun y _ => rt_Recital y)

structure Preamble where
  XMLName : Name
  Recitals : List Recital
  ResolvingClause : Option ResolvingClause

def encPreamble (x : Preamble) : Json :=
  Json.obj (fArrOmit "recitals" (x.Recitals.map encRecital) ++
    fOptOmit "resolvingClause" (x.ResolvingClause.map encResolvingClause))

def decPreamble : Json → Option Preamble
  | Json.obj kvs =>
    obind (readList decRecital kvs "recitals") fun a1 =>
    obind (readOpt decResolvingClause kvs "resolvingClause") fun a2 =>
    some ⟨emptyName, a1, a2⟩
  | _ => none

def clearPreamble (x : Preamble) : Preamble :=
  ⟨emptyName, x.Recitals.map clearRecital, x.ResolvingClause.map clearResolvingClause⟩

theorem encPreamble_obj (x : Preamble) : ∃ l, encPreamble x = Json.obj l := ⟨_, rfl⟩

theorem rt_Preamble (x : Preamble) : decPreamble (encPreamble x) = some (clearPreamble x) := by
  simp only [encPreamble, decPreamble, clearPreamble, List.append_assoc, obind_some, ne_eq, not_false_eq_true, String.reduceEq, jLookup_nil, readStr_nil, readStrList_nil, readOpt_nil, readList_nil, jLookup_fStr_skip, jLookup_fStrOmit_skip, jLookup_fArr_skip, jLookup_fArrOmit_skip, jLookup_fOptOmit_skip, jLookup_fOptNull_skip, jLookup_fStr_last_skip, jLookup_fStrOmit_last_skip, jLookup_fArr_last_skip, jLookup_fArrOmit_last_skip, jLookup_fOptOmit_last_skip, jLookup_fOptNull_last_skip, readStr_fStr_here, readStr_fStr_last_here, readStr_fStrOmit_here, readStr_fStrOmit_last_here, readStrList_fArr_here, readStrList_fArr_last_here, readStr_fStr_skip, readStr_fStrOmit_skip, readStr_fArr_skip, readStr_fArrOmit_skip, readStr_fOptOmit_skip, readStr_fOptNull_skip, readStr_fStr_last_skip, readStr_fStrOmit_last_skip, readStr_fArr_last_skip, readStr_fArrOmit_last_skip, readStr_fOptOmit_last_skip, readStr_fOptNull_last_skip, readStrList_fStr_skip, readStrList_fStrOmit_skip, readStrList_fArrOmit_skip, readStrList_fOptOmit_skip, readStrList_fOptNull_skip, readStrList_fStr_last_skip, readStrList_fStrOmit_last_skip, readStrList_fArrOmit_last_skip, readStrList_fOptOmit_last_skip, readStrList_fOptNull_last_skip, readOpt_fStr_skip, readOpt_fStrOmit_skip, readOpt_fArr_skip, readOpt_fArrOmit_skip, readOpt_fOptOmit_skip, readOpt_fOptNull_skip, readOpt_fStr_last_skip, readOpt_fStrOmit_last_skip, readOpt_fArr_last_skip, readOpt_fArrOmit_last_skip, readOpt_fOptOmit_last_skip, readOpt_fOptNull_last_skip, readList_fStr_skip, readList_fStrOmit_skip, readList_fArr_skip, readList_fArrOmit_skip, readList_fOptOmit_skip, readList_fOptNull_skip, readList_fStr_last_skip, readList_fStrOmit_last_skip, readList_fArr_last_skip, readList_fArrOmit_last_skip, readList_fOptOmit_last_skip, readList_fOptNull_last_skip, readList_encRecital_here, readList_encRecital_last_here, readOpt_encRecital_here, readOpt_encRecital_last_here, readList_encResolvingClause_here, readList_encResolvingClause_last_here, readOpt_encResolvingClause_here, readOpt_encResolvingClause_last_here]

@[simp] theorem readList_encPreamble_here {k : String} {rest} {xs : List Preamble}
    (h : jLookup k rest = none) :
    readList decPreamble (fArrOmit k (xs.map encPreamble) ++ rest) k = some (xs.map clearPreamble) :=
  readList_fArrOmit_map h (fun y _ => rt_Preamble y)

@[simp] theorem readList_encPreamble_last_here {k : String} {xs : List Preamble} :
    readList decPreamble (fArrOmit k (xs.map encPreamble)) k = some (xs.map clearPreamble) :=
  readList_fArrOmit_last_map (fun y _ => rt_Preamble y)

@[simp] theorem readOpt_encPreamble_here {k : String} {rest} {c : Option Preamble}
    (h : jLookup k rest = none) :
    readOpt decPreamble (fOptOmit k (c.map encPreamble) ++ rest) k = some (c.map clearPreamble) :=
  readOpt_fOptOmit_map h encPreamble_obj (fun y _ => rt_Preamble y)

@[simp] theorem readOpt_encPreamble_last_here {k : String} {c : Option Preamble} :
    readOpt decPreamble (fOptOmit k (c.map encPreamble)) k = some (c.map clearPreamble) :=
  readOpt_fOptOmit_last_map encPreamble_obj (fun y _ => rt_Preamble y)

structure Main where
  XMLName : Name
  StyleType : String
  LongTitle : Option LongTitle
  EnactingFormula : Option EnactingFormula
  TOC : Option TOC
  Preamble : Option Preamble
  Sections : List Section
  Titles : List Title
  EndMarker : String

def encMain (x : Main) : Json :=
  Json.obj (fStrOmit "styleType" x.StyleType ++
    fOptOmit "longTitle" (x.LongTitle.map encLongTitle) ++
    fOptOmit "enactingFormula" (x.EnactingFormula.map encEnactingFormula) ++
    fOptOmit "toc" (x.TOC.map encTOC) ++
    fOptOmit "preamble" (x.Preamble.map encPreamble) ++
    fArrOmit "sections" (x.Sections.map encSection) ++
    fArrOmit "titles" (x.Titles.map encTitle) ++
    fStrOmit "endMarker" x.EndMarker)

def decMain : Json → Option Main
  | Json.obj kvs =>
    obind (readStr kvs "styleType") fun a1 =>
    obind (readOpt decLongTitle kvs "longTitle") fun a2 =>
    obind (readOpt decEnactingFormula kvs "enactingFormula") fun a3 =>
    obind (readOpt decTOC kvs "toc") fun a4 =>
    obind (readOpt decPreamble kvs "preamble") fun a5 =>
    obind (readList decSection kvs "sections") fun a6 =>
    obind (readList decTitle kvs "titles") fun a7 =>
    obind (readStr kvs "endMarker") fun a8 =>
    some ⟨emptyName, a1, a2, a3, a4, a5, a6, a7, a8⟩
  | _ => none

def clearMain (x : Main) : Main :=
  ⟨emptyName, x.StyleType, x.LongTitle.map clearLongTitle, x.EnactingFormula.map clearEnactingFormula, x.TOC.map clearTOC, x.Preamble.map clearPreamble, x.Sections.map clearSection, x.Titles.map clearTitle, x.EndMarker⟩

theorem encMain_obj (x : Main) : ∃ l, encMain x = Json.obj l := ⟨_, rfl⟩

theorem rt_Main (x : Main) : decMain (encMain x) = some (clearMain x) := by
  simp only [encMain, decMain, clearMain, List.append_assoc, obind_some, ne_eq, not_false_eq_true, String.reduceEq, jLookup_nil, readStr_nil, readStrList_nil, readOpt_nil, readList_nil, jLookup_fStr_skip, jLookup_fStrOmit_skip, jLookup_fArr_skip, jLookup_fArrOmit_skip, jLookup_fOptOmit_skip, jLookup_fOptNull_skip, jLookup_fStr_last_skip, jLookup_fStrOmit_last_skip, jLookup_fArr_last_skip, jLookup_fArrOmit_last_skip, jLookup_fOptOmit_last_skip, jLookup_fOptNull_last_skip, readStr_fStr_here, readStr_fStr_last_here, readStr_fStrOmit_here, readStr_fStrOmit_last_here, readStrList_fArr_here, readStrList_fArr_last_here, readStr_fStr_skip, readStr_fStrOmit_skip, readStr_fArr_skip, readStr_fArrOmit_skip, readStr_fOptOmit_skip, readStr_fOptNull_skip, readStr_fStr_last_skip, readStr_fStrOmit_last_skip, readStr_fArr_last_skip, readStr_fArrOmit_last_skip, readStr_fOptOmit_last_skip, readStr_fOptNull_last_skip, readStrList_fStr_skip, readStrList_fStrOmit_skip, readStrList_fArrOmit_skip, readStrList_fOptOmit_skip, readStrList_fOptNull_skip, readStrList_fStr_last_skip, readStrList_fStrOmit_last_skip, readStrList_fArrOmit_last_skip, readStrList_fOptOmit_last_skip, readStrList_fOptNull_last_skip, readOpt_fStr_skip, readOpt_fStrOmit_skip, readOpt_fArr_skip, readOpt_fArrOmit_skip, readOpt_fOptOmit_skip, readOpt_fOptNull_skip, readOpt_fStr_last_skip, readOpt_fStrOmit_last_skip, readOpt_fArr_last_skip, readOpt_fArrOmit_last_skip, readOpt_fOptOmit_last_skip, readOpt_fOptNull_last_skip, readList_fStr_skip, readList_fStrOmit_skip, readList_fArr_skip, readList_fArrOmit_skip, readList_fOptOmit_skip, readList_fOptNull_skip, readList_fStr_last_skip, readList_fStrOmit_last_skip, readList_fArr_last_skip, readList_fArrOmit_last_skip, readList_fOptOmit_last_skip, readList_fOptNull_last_skip, readList_encEnactingFormula_here, readList_encEnactingFormula_last_here, readOpt_encEnactingFormula_here, readOpt_encEnactingFormula_last_here, readList_encLongTitle_here, readList_encLongTitle_last_here, readOpt_encLongTitle_here, readOpt_encLongTitle_last_here, readList_encPreamble_here, readList_encPreamble_last_here, readOpt_encPreamble_here, readOpt_encPreamble_last_here, readList_encSection_here, readList_encSection_last_here, readOpt_encSection_here, readOpt_encSection_last_here, readList_encTOC_here, readList_encTOC_last_here, readOpt_encTOC_here, readOpt_encTOC_last_here, readList_encTitle_here, readList_encTitle_last_here, readOpt_encTitle_here, readOpt_encTitle_last_here]

@[simp] theorem readList_encMain_here {k : String} {rest} {xs : List Main}
    (h : jLookup k rest = none) :
    readList decMain (fArrOmit k (xs.map encMain) ++ rest) k = some (xs.map clearMain) :=
  readList_fArrOmit_map h (fun y _ => rt_Main y)

@[simp] theorem readList_encMain_last_here {k : String} {xs : List Main} :
    readList decMain (fArrOmit k (xs.map encMain)) k = some (xs.map clearMain) :=
  readList_fArrOmit_last_map (fun y _ => rt_Main y)

@[simp] theorem readOpt_encMain_here {k : String} {rest} {c : Option Main}
    (h : jLookup k rest = none) :
    readOpt decMain (fOptOmit k (c.map encMain) ++ rest) k = some (c.map clearMain) :=
  readOpt_fOptOmit_map h encMain_obj (fun y _ => rt_Main y)

@[simp] theorem readOpt_encMain_last_here {k : String} {c : Option Main} :
    readOpt decMain (fOptOmit k (c.map encMain)) k = some (c.map clearMain) :=
  readOpt_fOptOmit_last_map encMain_obj (fun y _ => rt_Main y)

structure AmendmentInstruction where
  XMLName : Name
  Num : Option Num
  Content : Option Content

def encAmendmentInstruction (x : AmendmentInstruction) : Json :=
  Json.obj (fOptOmit "num" (x.Num.map encNum) ++
    fOptOmit "content" (x.Content.map encContent))

def decAmendmentInstruction : Json → Option AmendmentInstruction
  | Json.obj kvs =>
    obind (readOpt decNum kvs "num") fun a1 =>
    obind (readOpt decContent kvs "content") fun a2 =>
    some ⟨emptyName, a1, a2⟩
  | _ => none

def clearAmendmentInstruction (x : AmendmentInstruction) : AmendmentInstruction :=
  ⟨emptyName, x.Num.map clearNum, x.Content.map clearContent⟩

theorem encAmendmentInstruction_obj (x : AmendmentInstruction) : ∃ l, encAmendmentInstruction x = Json.obj l := ⟨_, rfl⟩

theorem rt_AmendmentInstruction (x : AmendmentInstruction) : decAmendmentInstruction (encAmendmentInstruction x) = some (clearAmendmentInstruction x) := by
  simp only [encAmendmentInstruction, decAmendmentInstruction, clearAmendmentInstruction, List.append_assoc, obind_some, ne_eq, not_false_eq_true, String.reduceEq, jLookup_nil, readStr_nil, readStrList_nil, readOpt_nil, readList_nil, jLookup_fStr_skip, jLookup_fStrOmit_skip, jLookup_fArr_skip, jLookup_fArrOmit_skip, jLookup_fOptOmit_skip, jLookup_fOptNull_skip, jLookup_fStr_last_skip, jLookup_fStrOmit_last_skip, jLookup_fArr_last_skip, jLookup_fArrOmit_last_skip, jLookup_fOptOmit_last_skip, jLookup_fOptNull_last_skip, readStr_fStr_here, readStr_fStr_last_here, readStr_fStrOmit_here, readStr_fStrOmit_last_here, readStrList_fArr_here, readStrList_fArr_last_here, readStr_fStr_skip, readStr_fStrOmit_skip, readStr_fArr_skip, readStr_fArrOmit_skip, readStr_fOptOmit_skip, readStr_fOptNull_skip, readStr_fStr_last_skip, readStr_fStrOmit_last_skip, readStr_fArr_last_skip, readStr_fArrOmit_last_skip, readStr_fOptOmit_last_skip, readStr_fOptNull_last_skip, readStrList_fStr_skip, readStrList_fStrOmit_skip, readStrList_fArrOmit_skip, readStrList_fOptOmit_skip, readStrList_fOptNull_skip, readStrList_fStr_last_skip, readStrList_fStrOmit_last_skip, readStrList_fArrOmit_last_skip, readStrList_fOptOmit_last_skip, readStrList_fOptNull_last_skip, readOpt_fStr_skip, readOpt_fStrOmit_skip, readOpt_fArr_skip, readOpt_fArrOmit_skip, readOpt_fOptOmit_skip, readOpt_fOptNull_skip, readOpt_fStr_last_skip, readOpt_fStrOmit_last_skip, readOpt_fArr_last_skip, readOpt_fArrOmit_last_skip, readOpt_fOptOmit_last_skip, readOpt_fOptNull_last_skip, readList_fStr_skip, readList_fStrOmit_skip, readList_fArr_skip, readList_fArrOmit_skip, readList_fOptOmit_skip, readList_fOptNull_skip, readList_fStr_last_skip, readList_fStrOmit_last_skip, readList_fArr_last_skip, readList_fArrOmit_last_skip, readList_fOptOmit_last_skip, readList_fOptNull_last_skip, readList_encContent_here, readList_encContent_last_here, readOpt_encContent_here, readOpt_encContent_last_here, readList_encNum_here, readList_encNum_last_here, readOpt_encNum_here, readOpt_encNum_last_here]

@[simp] theorem readList_encAmendmentInstruction_here {k : String} {rest} {xs : List AmendmentInstruction}
    (h : jLookup k rest = none) :
    readList decAmendmentInstruction (fArrOmit k (xs.map encAmendmentInstruction) ++ rest) k = some (xs.map clearAmendmentInstruction) :=
  readList_fArrOmit_map h (fun y _ => rt_AmendmentInstruction y)

@[simp] theorem readList_encAmendmentInstruction_last_here {k : String} {xs : List AmendmentInstruction} :
    readList decAmendmentInstruction (fArrOmit k (xs.map encAmendmentInstruction)) k = some (xs.map clearAmendmentInstruction) :=
  readList_fArrOmit_last_map (fun y _ => rt_AmendmentInstruction y)

@[simp] theorem readOpt_encAmendmentInstruction_here {k : String} {rest} {c : Option AmendmentInstruction}
    (h : jLookup k rest = none) :
    readOpt decAmendmentInstruction (fOptOmit k (c.map encAmendmentInstruction) ++ rest) k = some (c.map clearAmendmentInstruction) :=
  readOpt_fOptOmit_map h encAmendmentInstruction_obj (fun y _ => rt_AmendmentInstruction y)

@[simp] theorem readOpt_encAmendmentInstruction_last_here {k : String} {c : Option AmendmentInstruction} :
    readOpt decAmendmentInstruction (fOptOmit k (c.map encAmendmentInstruction)) k = some (c.map clearAmendmentInstruction) :=
  readOpt_fOptOmit_last_map encAmendmentInstruction_obj (fun y _ => rt_AmendmentInstruction y)

structure AmendMain where
  XMLName : Name
  AmendmentInstructionLineNumbering : String
  ResolvingClause : Option ResolvingClause
  Sections : List Section
  DocTitle : String
  AmendmentInstructions : List AmendmentInstruction
  Signatures : Option Signatures
  Endorsement : Option Endorsement

def encAmendMain (x : AmendMain) : Json :=
  Json.obj (fStrOmit "amendmentInstructionLineNumbering" x.AmendmentInstructionLineNumbering ++
    fOptOmit "resolvingClause" (x.ResolvingClause.map encResolvingClause) ++
    fArrOmit "sections" (x.Sections.map encSection) ++
    fStrOmit "docTitle" x.DocTitle ++
    fArrOmit "amendmentInstructions" (x.AmendmentInstructions.map encAmendmentInstruction) ++
    fOptOmit "signatures" (x.Signatures.map encSignatures) ++
    fOptOmit "endorsement" (x.Endorsement.map encEndorsement))

def decAmendMain : Json → Option AmendMain
  | Json.obj kvs =>
    obind (readStr kvs "amendmentInstructionLineNumbering") fun a1 =>
    obind (readOpt decResolvingClause kvs "resolvingClause") fun a2 =>
    obind (readList decSection kvs "sections") fun a3 =>
    obind (readStr kvs "docTitle") fun a4 =>
    obind (readList decAmendmentInstruction kvs "amendmentInstructions") fun a5 =>
    obind (readOpt decSignatures kvs "signatures") fun a6 =>
    obind (readOpt decEndorsement kvs "endorsement") fun a7 =>
    some ⟨emptyName, a1, a2, a3, a4, a5, a6, a7⟩
  | _ => none

def clearAmendMain (x : AmendMain) : AmendMain :=
  ⟨emptyName, x.AmendmentInstructionLineNumbering, x.ResolvingClause.map clearResolvingClause, x.Sections.map clearSection, x.DocTitle, x.AmendmentInstructions.map clearAmendmentInstruction, x.Signatures.map clearSignatures, x.Endorsement.map clearEndorsement⟩

theorem encAmendMain_obj (x : AmendMain) : ∃ l, encAmendMain x = Json.obj l := ⟨_, rfl⟩

theorem rt_AmendMain (x : AmendMain) : decAmendMain (encAmendMain x) = some (clearAmendMain x) := by
  simp only [encAmendMain, decAmendMain, clearAmendMain, List.append_assoc, obind_some, ne_eq, not_false_eq_true, String.reduceEq, jLookup_nil, readStr_nil, readStrList_nil, readOpt_nil, readList_nil, jLookup_fStr_skip, jLookup_fStrOmit_skip, jLookup_fArr_skip, jLookup_fArrOmit_skip, jLookup_fOptOmit_skip, jLookup_fOptNull_skip, jLookup_fStr_last_skip, jLookup_fStrOmit_last_skip, jLookup_fArr_last_skip, jLookup_fArrOmit_last_skip, jLookup_fOptOmit_last_skip, jLookup_fOptNull_last_skip, readStr_fStr_here, readStr_fStr_last_here, readStr_fStrOmit_here, readStr_fStrOmit_last_here, readStrList_fArr_here, readStrList_fArr_last_here, readStr_fStr_skip, readStr_fStrOmit_skip, readStr_fArr_skip, readStr_fArrOmit_skip, readStr_fOptOmit_skip, readStr_fOptNull_skip, readStr_fStr_last_skip, readStr_fStrOmit_last_skip, readStr_fArr_last_skip, readStr_fArrOmit_last_skip, readStr_fOptOmit_last_skip, readStr_fOptNull_last_skip, readStrList_fStr_skip, readStrList_fStrOmit_skip, readStrList_fArrOmit_skip, readStrList_fOptOmit_skip, readStrList_fOptNull_skip, readStrList_fStr_last_skip, readStrList_fStrOmit_last_skip, readStrList_fArrOmit_last_skip, readStrList_fOptOmit_last_skip, readStrList_fOptNull_last_skip, readOpt_fStr_skip, readOpt_fStrOmit_skip, readOpt_fArr_skip, readOpt_fArrOmit_skip, readOpt_fOptOmit_skip, readOpt_fOptNull_skip, readOpt_fStr_last_skip, readOpt_fStrOmit_last_skip, readOpt_fArr_last_skip, readOpt_fArrOmit_last_skip, readOpt_fOptOmit_last_skip, readOpt_fOptNull_last_skip, readList_fStr_skip, readList_fStrOmit_skip, readList_fArr_skip, readList_fArrOmit_skip, readList_fOptOmit_skip, readList_fOptNull_skip, readList_fStr_last_skip, readList_fStrOmit_last_skip, readList_fArr_last_skip, readList_fArrOmit_last_skip, readList_fOptOmit_last_skip, readList_fOptNull_last_skip, readList_encAmendmentInstruction_here, readList_encAmendmentInstruction_last_here, readOpt_encAmendmentInstruction_here, readOpt_encAmendmentInstruction_last_here, readList_encEndorsement_here, readList_encEndorsement_last_here, readOpt_encEndorsement_here, readOpt_encEndorsement_last_here, readList_encResolvingClause_here, readList_encResolvingClause_last_here, readOpt_encResolvingClause_here, readOpt_encResolvingClause_last_here, readList_encSection_here, readList_encSection_last_here, readOpt_encSection_here, readOpt_encSection_last_here, readList_encSignatures_here, readList_encSignatures_last_here, readOpt_encSignatures_here, readOpt_encSignatures_last_here]

@[simp] theorem readList_encAmendMain_here {k : String} {rest} {xs : List AmendMain}
    (h : jLookup k rest = none) :
    readList decAmendMain (fArrOmit k (xs.map encAmendMain) ++ rest) k = some (xs.map clearAmendMain) :=
  readList_fArrOmit_map h (fun y _ => rt_AmendMain y)

@[simp] theorem readList_encAmendMain_last_here {k : String} {xs : List AmendMain} :
    readList decAmendMain (fArrOmit k (xs.map encAmendMain)) k = some (xs.map clearAmendMain) :=
  readList_fArrOmit_last_map (fun y _ => rt_AmendMain y)

@[simp] theorem readOpt_encAmendMain_here {k : String} {rest} {c : Option AmendMain}
    (h : jLookup k rest = none) :
    readOpt decAmendMain (fOptOmit k (c.map encAmendMain) ++ rest) k = some (c.map clearAmendMain) :=
  readOpt_fOptOmit_map h encAmendMain_obj (fun y _ => rt_AmendMain y)

@[simp] theorem readOpt_encAmendMain_last_here {k : String} {c : Option AmendMain} :
    readOpt decAmendMain (fOptOmit k (c.map encAmendMain)) k = some (c.map clearAmendMain) :=
  readOpt_fOptOmit_last_map encAmendMain_obj (fun y _ => rt_AmendMain y)

@[simp] theorem readOptNull_encMeta_here {k : String} {rest} {c : Option Meta} :
    readOpt decMeta (fOptNull k (c.map encMeta) ++ rest) k = some (c.map clearMeta) :=
  readOpt_fOptNull_map encMeta_obj (fun y _ => rt_Meta y)

@[simp] theorem readOptNull_encMeta_last_here {k : String} {c : Option Meta} :
    readOpt decMeta (fOptNull k (c.map encMeta)) k = some (c.map clearMeta) :=
  readOpt_fOptNull_last_map encMeta_obj (fun y _ => rt_Meta y)

@[simp] theorem readOptNull_encAmendMeta_here {k : String} {rest} {c : Option AmendMeta} :
    readOpt decAmendMeta (fOptNull k (c.map encAmendMeta) ++ rest) k = some (c.map clearAmendMeta) :=
  readOpt_fOptNull_map encAmendMeta_obj (fun y _ => rt_AmendMeta y)

@[simp] theorem readOptNull_encAmendMeta_last_here {k : String} {c : Option AmendMeta} :
    readOpt decAmendMeta (fOptNull k (c.map encAmendMeta)) k = some (c.map clearAmendMeta) :=
  readOpt_fOptNull_last_map encAmendMeta_obj (fun y _ => rt_AmendMeta y)

structure Bill where
  XMLName : Name
  XMLNS : String
  XMLNSDC : String
  XMLNSHTML : String
  XMLNSUSLM : String
  XMLNSXSI : String
  XSISchemaLocation : String
  XMLLang : String
  Meta : Option Meta
  Preface : Option Preface
  Main : Option Main
  EndMarker : String

def encBill (x : Bill) : Json :=
  Json.obj (fStr "xmlns" x.XMLNS ++
    fStrOmit "xmlnsDC" x.XMLNSDC ++
    fStrOmit "xmlnsHTML" x.XMLNSHTML ++
    fStrOmit "xmlnsUSLM" x.XMLNSUSLM ++
    fStrOmit "xmlnsXSI" x.XMLNSXSI ++
    fStrOmit "xsiSchemaLocation" x.XSISchemaLocation ++
    fStrOmit "xmlLang" x.XMLLang ++
    fOptNull "meta" (x.Meta.map encMeta) ++
    fOptOmit "preface" (x.Preface.map encPreface) ++
    fOptOmit "main" (x.Main.map encMain) ++
    fStrOmit "endMarker" x.EndMarker)

def decBill : Json → Option Bill
  | Json.obj kvs =>
    obind (readStr kvs "xmlns") fun a1 =>
    obind (readStr kvs "xmlnsDC") fun a2 =>
    obind (readStr kvs "xmlnsHTML") fun a3 =>
    obind (readStr kvs "xmlnsUSLM") fun a4 =>
    obind (readStr kvs "xmlnsXSI") fun a5 =>
    obind (readStr kvs "xsiSchemaLocation") fun a6 =>
    obind (readStr kvs "xmlLang") fun a7 =>
    obind (readOpt decMeta kvs "meta") fun a8 =>
    obind (readOpt decPreface kvs "preface") fun a9 =>
    obind (readOpt decMain kvs "main") fun a10 =>
    obind (readStr kvs "endMarker") fun a11 =>
    some ⟨emptyName, a1, a2, a3, a4, a5, a6, a7, a8, a9, a10, a11⟩
  | _ => none

def clearBill (x : Bill) : Bill :=
  ⟨emptyName, x.XMLNS, x.XMLNSDC, x.XMLNSHTML, x.XMLNSUSLM, x.XMLNSXSI, x.XSISchemaLocation, x.XMLLang, x.Meta.map clearMeta, x.Preface.map clearPreface, x.Main.map clearMain, x.EndMarker⟩

theorem encBill_obj (x : Bill) : ∃ l, encBill x = Json.obj l := ⟨_, rfl⟩

theorem rt_Bill (x : Bill) : decBill (encBill x) = some (clearBill x) := by
  simp only [encBill, decBill, clearBill, List.append_assoc, obind_some, ne_eq, not_false_eq_true, String.reduceEq, jLookup_nil, readStr_nil, readStrList_nil, readOpt_nil, readList_nil, jLookup_fStr_skip, jLookup_fStrOmit_skip, jLookup_fArr_skip, jLookup_fArrOmit_skip, jLookup_fOptOmit_skip, jLookup_fOptNull_skip, jLookup_fStr_last_skip, jLookup_fStrOmit_last_skip, jLookup_fArr_last_skip, jLookup_fArrOmit_last_skip, jLookup_fOptOmit_last_skip, jLookup_fOptNull_last_skip, readStr_fStr_here, readStr_fStr_last_here, readStr_fStrOmit_here, readStr_fStrOmit_last_here, readStrList_fArr_here, readStrList_fArr_last_here, readStr_fStr_skip, readStr_fStrOmit_skip, readStr_fArr_skip, readStr_fArrOmit_skip, readStr_fOptOmit_skip, readStr_fOptNull_skip, readStr_fStr_last_skip, readStr_fStrOmit_last_skip, readStr_fArr_last_skip, readStr_fArrOmit_last_skip, readStr_fOptOmit_last_skip, readStr_fOptNull_last_skip, readStrList_fStr_skip, readStrList_fStrOmit_skip, readStrList_fArrOmit_skip, readStrList_fOptOmit_skip, readStrList_fOptNull_skip, readStrList_fStr_last_skip, readStrList_fStrOmit_last_skip, readStrList_fArrOmit_last_skip, readStrList_fOptOmit_last_skip, readStrList_fOptNull_last_skip, readOpt_fStr_skip, readOpt_fStrOmit_skip, readOpt_fArr_skip, readOpt_fArrOmit_skip, readOpt_fOptOmit_skip, readOpt_fOptNull_skip, readOpt_fStr_last_skip, readOpt_fStrOmit_last_skip, readOpt_fArr_last_skip, readOpt_fArrOmit_last_skip, readOpt_fOptOmit_last_skip, readOpt_fOptNull_last_skip, readList_fStr_skip, readList_fStrOmit_skip, readList_fArr_skip, readList_fArrOmit_skip, readList_fOptOmit_skip, readList_fOptNull_skip, readList_fStr_last_skip, readList_fStrOmit_last_skip, readList_fArr_last_skip, readList_fArrOmit_last_skip, readList_fOptOmit_last_skip, readList_fOptNull_last_skip, readList_encMain_here, readList_encMain_last_here, readOpt_encMain_here, readOpt_encMain_last_here, readList_encPreface_here, readList_encPreface_last_here, readOpt_encPreface_here, readOpt_encPreface_last_here, readOptNull_encMeta_here, readOptNull_encMeta_last_here]

@[simp] theorem readList_encBill_here {k : String} {rest} {xs : List Bill}
    (h : jLookup k rest = none) :
    readList decBill (fArrOmit k (xs.map encBill) ++ rest) k = some (xs.map clearBill) :=
  readList_fArrOmit_map h (fun y _ => rt_Bill y)

@[simp] theorem readList_encBill_last_here {k : String} {xs : List Bill} :
    readList decBill (fArrOmit k (xs.map encBill)) k = some (xs.map clearBill) :=
  readList_fArrOmit_last_map (fun y _ => rt_Bill y)

@[simp] theorem readOpt_encBill_here {k : String} {rest} {c : Option Bill}
    (h : jLookup k rest = none) :
    readOpt decBill (fOptOmit k (c.map encBill) ++ rest) k = some (c.map clearBill) :=
  readOpt_fOptOmit_map h encBill_obj (fun y _ => rt_Bill y)

@[simp] theorem readOpt_encBill_last_here {k : String} {c : Option Bill} :
    readOpt decBill (fOptOmit k (c.map encBill)) k = some (c.map clearBill) :=
  readOpt_fOptOmit_last_map encBill_obj (fun y _ => rt_Bill y)

structure Resolution where
  XMLName : Name
  XMLNS : String
  XMLNSDC : String
  XMLNSHTML : String
  XMLNSUSLM : String
  XMLNSXSI : String
  XSISchemaLocation : String
  XMLLang : String
  Meta : Option Meta
  Preface : Option Preface
  Main : Option Main
  EndMarker : String

def encResolution (x : Resolution) : Json :=
  Json.obj (fStr "xmlns" x.XMLNS ++
    fStrOmit "xmlnsDC" x.XMLNSDC ++
    fStrOmit "xmlnsHTML" x.XMLNSHTML ++
    fStrOmit "xmlnsUSLM" x.XMLNSUSLM ++
    fStrOmit "xmlnsXSI" x.XMLNSXSI ++
    fStrOmit "xsiSchemaLocation" x.XSISchemaLocation ++
    fStrOmit "xmlLang" x.XMLLang ++
    fOptNull "meta" (x.Meta.map encMeta) ++
    fOptOmit "preface" (x.Preface.map encPreface) ++
    fOptOmit "main" (x.Main.map encMain) ++
    fStrOmit "endMarker" x.EndMarker)

def decResolution : Json → Option Resolution
  | Json.obj kvs =>
    obind (readStr kvs "xmlns") fun a1 =>
    obind (readStr kvs "xmlnsDC") fun a2 =>
    obind (readStr kvs "xmlnsHTML") fun a3 =>
    obind (readStr kvs "xmlnsUSLM") fun a4 =>
    obind (readStr kvs "xmlnsXSI") fun a5 =>
    obind (readStr kvs "xsiSchemaLocation") fun a6 =>
    obind (readStr kvs "xmlLang") fun a7 =>
    obind (readOpt decMeta kvs "meta") fun a8 =>
    obind (readOpt decPreface kvs "preface") fun a9 =>
    obind (readOpt decMain kvs "main") fun a10 =>
    obind (readStr kvs "endMarker") fun a11 =>
    some ⟨emptyName, a1, a2, a3, a4, a5, a6, a7, a8, a9, a10, a11⟩
  | _ => none

def clearResolution (x : Resolution) : Resolution :=
  ⟨emptyName, x.XMLNS, x.XMLNSDC, x.XMLNSHTML, x.XMLNSUSLM, x.XMLNSXSI, x.XSISchemaLocation, x.XMLLang, x.Meta.map clearMeta, x.Preface.map clearPreface, x.Main.map clearMain, x.EndMarker⟩

theorem encResolution_obj (x : Resolution) : ∃ l, encResolution x = Json.obj l := ⟨_, rfl⟩

theorem rt_Resolution (x : Resolution) : decResolution (encResolution x) = some (clearResolution x) := by
  simp only [encResolution, decResolution, clearResolution, List.append_assoc, obind_some, ne_eq, not_false_eq_true, String.reduceEq, jLookup_nil, readStr_nil, readStrList_nil, readOpt_nil, readList_nil, jLookup_fStr_skip, jLookup_fStrOmit_skip, jLookup_fArr_skip, jLookup_fArrOmit_skip, jLookup_fOptOmit_skip, jLookup_fOptNull_skip, jLookup_fStr_last_skip, jLookup_fStrOmit_last_skip, jLookup_fArr_last_skip, jLookup_fArrOmit_last_skip, jLookup_fOptOmit_last_skip, jLookup_fOptNull_last_skip, readStr_fStr_here, readStr_fStr_last_here, readStr_fStrOmit_here, readStr_fStrOmit_last_here, readStrList_fArr_here, readStrList_fArr_last_here, readStr_fStr_skip, readStr_fStrOmit_skip, readStr_fArr_skip, readStr_fArrOmit_skip, readStr_fOptOmit_skip, readStr_fOptNull_skip, readStr_fStr_last_skip, readStr_fStrOmit_last_skip, readStr_fArr_last_skip, readStr_fArrOmit_last_skip, readStr_fOptOmit_last_skip, readStr_fOptNull_last_skip, readStrList_fStr_skip, readStrList_fStrOmit_skip, readStrList_fArrOmit_skip, readStrList_fOptOmit_skip, readStrList_fOptNull_skip, readStrList_fStr_last_skip, readStrList_fStrOmit_last_skip, readStrList_fArrOmit_last_skip, readStrList_fOptOmit_last_skip, readStrList_fOptNull_last_skip, readOpt_fStr_skip, readOpt_fStrOmit_skip, readOpt_fArr_skip, readOpt_fArrOmit_skip, readOpt_fOptOmit_skip, readOpt_fOptNull_skip, readOpt_fStr_last_skip, readOpt_fStrOmit_last_skip, readOpt_fArr_last_skip, readOpt_fArrOmit_last_skip, readOpt_fOptOmit_last_skip, readOpt_fOptNull_last_skip, readList_fStr_skip, readList_fStrOmit_skip, readList_fArr_skip, readList_fArrOmit_skip, readList_fOptOmit_skip, readList_fOptNull_skip, readList_fStr_last_skip, readList_fStrOmit_last_skip, readList_fArr_last_skip, readList_fArrOmit_last_skip, readList_fOptOmit_last_skip, readList_fOptNull_last_skip, readList_encMain_here, readList_encMain_last_here, readOpt_encMain_here, readOpt_encMain_last_here, readList_encPreface_here, readList_encPreface_last_here, readOpt_encPreface_here, readOpt_encPreface_last_here, readOptNull_encMeta_here, readOptNull_encMeta_last_here]

@[simp] theorem readList_encResolution_here {k : String} {rest} {xs : List Resolution}
    (h : jLookup k rest = none) :
    readList decResolution (fArrOmit k (xs.map encResolution) ++ rest) k = some (xs.map clearResolution) :=
  readList_fArrOmit_map h (fun y _ => rt_Resolution y)

@[simp] theorem readList_encResolution_last_here {k : String} {xs : List Resolution} :
    readList decResolution (fArrOmit k (xs.map encResolution)) k = some (xs.map clearResolution) :=
  readList_fArrOmit_last_map (fun y _ => rt_Resolution y)

@[simp] theorem readOpt_encResolution_here {k : String} {rest} {c : Option Resolution}
    (h : jLookup k rest = none) :
    readOpt decResolution (fOptOmit k (c.map encResolution) ++ rest) k = some (c.map clearResolution) :=
  readOpt_fOptOmit_map h encResolution_obj (fun y _ => rt_Resolution y)

@[simp] theorem readOpt_encResolution_last_here {k : String} {c : Option Resolution} :
    readOpt decResolution (fOptOmit k (c.map encResolution)) k = some (c.map clearResolution) :=
  readOpt_fOptOmit_last_map encResolution_obj (fun y _ => rt_Resolution y)

structure EngrossedAmendment where
  XMLName : Name
  XMLNS : String
  XMLNSDC : String
  XMLNSHTML : String
  XMLNSUSLM : String
  XMLNSXSI : String
  StyleType : String
  XSISchemaLocation : String
  XMLLang : String
  AmendMeta : Option AmendMeta
  AmendPreface : Option AmendPreface
  AmendMain : Option AmendMain
  Signatures : Option Signatures
  Endorsement : Option Endorsement

def encEngrossedAmendment (x : EngrossedAmendment) : Json :=
  Json.obj (fStr "xmlns" x.XMLNS ++
    fStrOmit "xmlnsDC" x.XMLNSDC ++
    fStrOmit "xmlnsHTML" x.XMLNSHTML ++
    fStrOmit "xmlnsUSLM" x.XMLNSUSLM ++
    fStrOmit "xmlnsXSI" x.XMLNSXSI ++
    fStrOmit "styleType" x.StyleType ++
    fStrOmit "xsiSchemaLocation" x.XSISchemaLocation ++
    fStrOmit "xmlLang" x.XMLLang ++
    fOptNull "amendMeta" (x.AmendMeta.map encAmendMeta) ++
    fOptOmit "amendPreface" (x.AmendPreface.map encAmendPreface) ++
    fOptOmit "amendMain" (x.AmendMain.map encAmendMain) ++
    fOptOmit "signatures" (x.Signatures.map encSignatures) ++
    fOptOmit "endorsement" (x.Endorsement.map encEndorsement))

def decEngrossedAmendment : Json → Option EngrossedAmendment
  | Json.obj kvs =>
    obind (readStr kvs "xmlns") fun a1 =>
    obind (readStr kvs "xmlnsDC") fun a2 =>
    obind (readStr kvs "xmlnsHTML") fun a3 =>
    obind (readStr kvs "xmlnsUSLM") fun a4 =>
    obind (readStr kvs "xmlnsXSI") fun a5 =>
    obind (readStr kvs "styleType") fun a6 =>
    obind (readStr kvs "xsiSchemaLocation") fun a7 =>
    obind (readStr kvs "xmlLang") fun a8 =>
    obind (readOpt decAmendMeta kvs "amendMeta") fun a9 =>
    obind (readOpt decAmendPreface kvs "amendPreface") fun a10 =>
    obind (readOpt decAmendMain kvs "amendMain") fun a11 =>
    obind (readOpt decSignatures kvs "signatures") fun a12 =>
    obind (readOpt decEndorsement kvs "endorsement") fun a13 =>
    some ⟨emptyName, a1, a2, a3, a4, a5, a6, a7, a8, a9, a10, a11, a12, a13⟩
  | _ => none

def clearEngrossedAmendment (x : EngrossedAmendment) : EngrossedAmendment :=
  ⟨emptyName, x.XMLNS, x.XMLNSDC, x.XMLNSHTML, x.XMLNSUSLM, x.XMLNSXSI, x.StyleType, x.XSISchemaLocation, x.XMLLang, x.AmendMeta.map clearAmendMeta, x.AmendPreface.map clearAmendPreface, x.AmendMain.map clearAmendMain, x.Signatures.map clearSignatures, x.Endorsement.map clearEndorsement⟩

theorem encEngrossedAmendment_obj (x : EngrossedAmendment) : ∃ l, encEngrossedAmendment x = Json.obj l := ⟨_, rfl⟩

theorem rt_EngrossedAmendment (x : EngrossedAmendment) : decEngrossedAmendment (encEngrossedAmendment x) = some (clearEngrossedAmendment x) := by
  simp only [encEngrossedAmendment, decEngrossedAmendment, clearEngrossedAmendment, List.append_assoc, obind_some, ne_eq, not_false_eq_true, String.reduceEq, jLookup_nil, readStr_nil, readStrList_nil, readOpt_nil, readList_nil, jLookup_fStr_skip, jLookup_fStrOmit_skip, jLookup_fArr_skip, jLookup_fArrOmit_skip, jLookup_fOptOmit_skip, jLookup_fOptNull_skip, jLookup_fStr_last_skip, jLookup_fStrOmit_last_skip, jLookup_fArr_last_skip, jLookup_fArrOmit_last_skip, jLookup_fOptOmit_last_skip, jLookup_fOptNull_last_skip, readStr_fStr_here, readStr_fStr_last_here, readStr_fStrOmit_here, readStr_fStrOmit_last_here, readStrList_fArr_here, readStrList_fArr_last_here, readStr_fStr_skip, readStr_fStrOmit_skip, readStr_fArr_skip, readStr_fArrOmit_skip, readStr_fOptOmit_skip, readStr_fOptNull_skip, readStr_fStr_last_skip, readStr_fStrOmit_last_skip, readStr_fArr_last_skip, readStr_fArrOmit_last_skip, readStr_fOptOmit_last_skip, readStr_fOptNull_last_skip, readStrList_fStr_skip, readStrList_fStrOmit_skip, readStrList_fArrOmit_skip, readStrList_fOptOmit_skip, readStrList_fOptNull_skip, readStrList_fStr_last_skip, readStrList_fStrOmit_last_skip, readStrList_fArrOmit_last_skip, readStrList_fOptOmit_last_skip, readStrList_fOptNull_last_skip, readOpt_fStr_skip, readOpt_fStrOmit_skip, readOpt_fArr_skip, readOpt_fArrOmit_skip, readOpt_fOptOmit_skip, readOpt_fOptNull_skip, readOpt_fStr_last_skip, readOpt_fStrOmit_last_skip, readOpt_fArr_last_skip, readOpt_fArrOmit_last_skip, readOpt_fOptOmit_last_skip, readOpt_fOptNull_last_skip, readList_fStr_skip, readList_fStrOmit_skip, readList_fArr_skip, readList_fArrOmit_skip, readList_fOptOmit_skip, readList_fOptNull_skip, readList_fStr_last_skip, readList_fStrOmit_last_skip, readList_fArr_last_skip, readList_fArrOmit_last_skip, readList_fOptOmit_last_skip, readList_fOptNull_last_skip, readList_encAmendMain_here, readList_encAmendMain_last_here, readOpt_encAmendMain_here, readOpt_encAmendMain_last_here, readList_encAmendPreface_here, readList_encAmendPreface_last_here, readOpt_encAmendPreface_here, readOpt_encAmendPreface_last_here, readList_encEndorsement_here, readList_encEndorsement_last_here, readOpt_encEndorsement_here, readOpt_encEndorsement_last_here, readList_encSignatures_here, readList_encSignatures_last_here, readOpt_encSignatures_here, readOpt_encSignatures_last_here, readOptNull_encAmendMeta_here, readOptNull_encAmendMeta_last_here]

@[simp] theorem readList_encEngrossedAmendment_here {k : String} {rest} {xs : List EngrossedAmendment}
    (h : jLookup k rest = none) :
    readList decEngrossedAmendment (fArrOmit k (xs.map encEngrossedAmendment) ++ rest) k = some (xs.map clearEngrossedAmendment) :=
  readList_fArrOmit_map h (fun y _ => rt_EngrossedAmendment y)

@[simp] theorem readList_encEngrossedAmendment_last_here {k : String} {xs : List EngrossedAmendment} :
    readList decEngrossedAmendment (fArrOmit k (xs.map encEngrossedAmendment)) k = some (xs.map clearEngrossedAmendment) :=
  readList_fArrOmit_last_map (fun y _ => rt_EngrossedAmendment y)

@[simp] theorem readOpt_encEngrossedAmendment_here {k : String} {rest} {c : Option EngrossedAmendment}
    (h : jLookup k rest = none) :
    readOpt decEngrossedAmendment (fOptOmit k (c.map encEngrossedAmendment) ++ rest) k = some (c.map clearEngrossedAmendment) :=
  readOpt_fOptOmit_map h encEngrossedAmendment_obj (fun y _ => rt_EngrossedAmendment y)

@[simp] theorem readOpt_encEngrossedAmendment_last_here {k : String} {c : Option EngrossedAmendment} :
    readOpt decEngrossedAmendment (fOptOmit k (c.map encEngrossedAmendment)) k = some (c.map clearEngrossedAmendment) :=
  readOpt_fOptOmit_last_map encEngrossedAmendment_obj (fun y _ => rt_EngrossedAmendment y)

structure Amendment where
  XMLName : Name
  XMLNS : String
  XMLNSDC : String
  XMLNSHTML : String
  XMLNSUSLM : String
  XMLNSXSI : String
  XSISchemaLocation : String
  XMLLang : String
  AmendMeta : Option AmendMeta
  AmendPreface : Option AmendPreface
  AmendMain : Option AmendMain

def encAmendment (x : Amendment) : Json :=
  Json.obj (fStr "xmlns" x.XMLNS ++
    fStrOmit "xmlnsDC" x.XMLNSDC ++
    fStrOmit "xmlnsHTML" x.XMLNSHTML ++
    fStrOmit "xmlnsUSLM" x.XMLNSUSLM ++
    fStrOmit "xmlnsXSI" x.XMLNSXSI ++
    fStrOmit "xsiSchemaLocation" x.XSISchemaLocation ++
    fStrOmit "xmlLang" x.XMLLang ++
    fOptNull "amendMeta" (x.AmendMeta.map encAmendMeta) ++
    fOptOmit "amendPreface" (x.AmendPreface.map encAmendPreface) ++
    fOptOmit "amendMain" (x.AmendMain.map encAmendMain))

def decAmendment : Json → Option Amendment
  | Json.obj kvs =>
    obind (readStr kvs "xmlns") fun a1 =>
    obind (readStr kvs "xmlnsDC") fun a2 =>
    obind (readStr kvs "xmlnsHTML") fun a3 =>
    obind (readStr kvs "xmlnsUSLM") fun a4 =>
    obind (readStr kvs "xmlnsXSI") fun a5 =>
    obind (readStr kvs "xsiSchemaLocation") fun a6 =>
    obind (readStr kvs "xmlLang") fun a7 =>
    obind (readOpt decAmendMeta kvs "amendMeta") fun a8 =>
    obind (readOpt decAmendPreface kvs "amendPreface") fun a9 =>
    obind (readOpt decAmendMain kvs "amendMain") fun a10 =>
    some ⟨emptyName, a1, a2, a3, a4, a5, a6, a7, a8, a9, a10⟩
  | _ => none

def clearAmendment (x : Amendment) : Amendment :=
  ⟨emptyName, x.XMLNS, x.XMLNSDC, x.XMLNSHTML, x.XMLNSUSLM, x.XMLNSXSI, x.XSISchemaLocation, x.XMLLang, x.AmendMeta.map clearAmendMeta, x.AmendPreface.map clearAmendPreface, x.AmendMain.map clearAmendMain⟩

theorem encAmendment_obj (x : Amendment) : ∃ l, encAmendment x = Json.obj l := ⟨_, rfl⟩

theorem rt_Amendment (x : Amendment) : decAmendment (encAmendment x) = some (clearAmendment x) := by
  simp only [encAmendment, decAmendment, clearAmendment, List.append_assoc, obind_some, ne_eq, not_false_eq_true, String.reduceEq, jLookup_nil, readStr_nil, readStrList_nil, readOpt_nil, readList_nil, jLookup_fStr_skip, jLookup_fStrOmit_skip, jLookup_fArr_skip, jLookup_fArrOmit_skip, jLookup_fOptOmit_skip, jLookup_fOptNull_skip, jLookup_fStr_last_skip, jLookup_fStrOmit_last_skip, jLookup_fArr_last_skip, jLookup_fArrOmit_last_skip, jLookup_fOptOmit_last_skip, jLookup_fOptNull_last_skip, readStr_fStr_here, readStr_fStr_last_here, readStr_fStrOmit_here, readStr_fStrOmit_last_here, readStrList_fArr_here, readStrList_fArr_last_here, readStr_fStr_skip, readStr_fStrOmit_skip, readStr_fArr_skip, readStr_fArrOmit_skip, readStr_fOptOmit_skip, readStr_fOptNull_skip, readStr_fStr_last_skip, readStr_fStrOmit_last_skip, readStr_fArr_last_skip, readStr_fArrOmit_last_skip, readStr_fOptOmit_last_skip, readStr_fOptNull_last_skip, readStrList_fStr_skip, readStrList_fStrOmit_skip, readStrList_fArrOmit_skip, readStrList_fOptOmit_skip, readStrList_fOptNull_skip, readStrList_fStr_last_skip, readStrList_fStrOmit_last_skip, readStrList_fArrOmit_last_skip, readStrList_fOptOmit_last_skip, readStrList_fOptNull_last_skip, readOpt_fStr_skip, readOpt_fStrOmit_skip, readOpt_fArr_skip, readOpt_fArrOmit_skip, readOpt_fOptOmit_skip, readOpt_fOptNull_skip, readOpt_fStr_last_skip, readOpt_fStrOmit_last_skip, readOpt_fArr_last_skip, readOpt_fArrOmit_last_skip, readOpt_fOptOmit_last_skip, readOpt_fOptNull_last_skip, readList_fStr_skip, readList_fStrOmit_skip, readList_fArr_skip, readList_fArrOmit_skip, readList_fOptOmit_skip, readList_fOptNull_skip, readList_fStr_last_skip, readList_fStrOmit_last_skip, readList_fArr_last_skip, readList_fArrOmit_last_skip, readList_fOptOmit_last_skip, readList_fOptNull_last_skip, readList_encAmendMain_here, readList_encAmendMain_last_here, readOpt_encAmendMain_here, readOpt_encAmendMain_last_here, readList_encAmendPreface_here, readList_encAmendPreface_last_here, readOpt_encAmendPreface_here, readOpt_encAmendPreface_last_here, readOptNull_encAmendMeta_here, readOptNull_encAmendMeta_last_here]

@[simp] theorem readList_encAmendment_here {k : String} {rest} {xs : List Amendment}
    (h : jLookup k rest = none) :
    readList decAmendment (fArrOmit k (xs.map encAmendment) ++ rest) k = some (xs.map clearAmendment) :=
  readList_fArrOmit_map h (fun y _ => rt_Amendment y)

@[simp] theorem readList_encAmendment_last_here {k : String} {xs : List Amendment} :
    readList decAmendment (fArrOmit k (xs.map encAmendment)) k = some (xs.map clearAmendment) :=
  readList_fArrOmit_last_map (fun y _ => rt_Amendment y)

@[simp] theorem readOpt_encAmendment_here {k : String} {rest} {c : Option Amendment}
    (h : jLookup k rest = none) :
    readOpt decAmendment (fOptOmit k (c.map encAmendment) ++ rest) k = some (c.map clearAmendment) :=
  readOpt_fOptOmit_map h encAmendment_obj (fun y _ => rt_Amendment y)

@[simp] theorem readOpt_encAmendment_last_here {k : String} {c : Option Amendment} :
    readOpt decAmendment (fOptOmit k (c.map encAmendment)) k = some (c.map clearAmendment) :=
  readOpt_fOptOmit_last_map encAmendment_obj (fun y _ => rt_Amendment y)



/-! ## Top-level JSON entry points

`ToJSON` (`json.MarshalIndent` on a document pointer) and the
`...FromJSON` functions (`json.Unmarshal`), modelled at the JSON value
level: serialising a `Json` value to bytes and parsing it back is the
identity on values, so the byte step is dropped. -/

def BillToJSON (b : Bill) : Json := encBill b

def ResolutionToJSON (r : Resolution) : Json := encResolution r

def AmendmentToJSON (a : Amendment) : Json := encAmendment a

def EngrossedAmendmentToJSON (e : EngrossedAmendment) : Json := encEngrossedAmendment e

def BillFromJSON (j : Json) : Option Bill := decBill j

def ResolutionFromJSON (j : Json) : Option Resolution := decResolution j

def AmendmentFromJSON (j : Json) : Option Amendment := decAmendment j

def EngrossedAmendmentFromJSON (j : Json) : Option EngrossedAmendment := decEngrossedAmendment j

/-! ## Section projections and accessors (`pkg/uslm/content.go`) -/

def Section.ID : Section → String
  | .mk _ i _ _ _ _ _ _ _ _ _ => i

def Section.Identifier : Section → String
  | .mk _ _ idf _ _ _ _ _ _ _ _ => idf

def Section.Num (s : Section) : Option Uslm.Num :=
  match s with
  | .mk _ _ _ _ _ n _ _ _ _ _ => n

def Section.Heading (s : Section) : Option Uslm.Heading :=
  match s with
  | .mk _ _ _ _ _ _ h _ _ _ _ => h

def Section.Chapeau (s : Section) : Option Uslm.Chapeau :=
  match s with
  | .mk _ _ _ _ _ _ _ c _ _ _ => c

def Section.Content (s : Section) : Option Uslm.Content :=
  match s with
  | .mk _ _ _ _ _ _ _ _ c _ _ => c

def Heading.GetText (h : Heading) : String := h.Text

def Section.GetID (s : Section) : String := s.ID

def Section.GetIdentifier (s : Section) : String := s.Identifier

def Section.GetNum (s : Section) : String :=
  match s.Num with
  | some n => n.Text
  | none => ""

def Section.GetNumValue (s : Section) : String :=
  match s.Num with
  | some n => n.Value
  | none => ""

def Section.GetHeading (s : Section) : String :=
  match s.Heading with
  | some h => h.GetText
  | none => ""

def Section.GetContent (s : Section) : String :=
  match s.Content with
  | some c => (match c with | .mk _ _ t _ _ _ _ _ _ _ _ => t)
  | none => ""

def Section.GetChapeau (s : Section) : String :=
  match s.Chapeau with
  | some c => c.Text
  | none => ""

/-! ## Sponsor, Cosponsor and Committee accessors (`pkg/uslm/preface.go`) -/

def Sponsor.GetID (s : Sponsor) : String :=
  if s.SenateID ≠ "" then s.SenateID else s.HouseID

def Sponsor.GetName (s : Sponsor) : String := s.Text

def Cosponsor.GetID (c : Cosponsor) : String :=
  if c.SenateID ≠ "" then c.SenateID else c.HouseID

def Cosponsor.GetName (c : Cosponsor) : String := c.Text

def Committee.GetID (c : Committee) : String := c.CommitteeID

def Committee.GetName (c : Committee) : String := c.Text

/-! ## Bill capability accessors -/

def Bill.GetDocumentNumber (b : Bill) : String :=
  match b.Meta with
  | some m => m.DocNumber
  | none => ""

def Bill.GetDocumentType (b : Bill) : String :=
  match b.Meta with
  | some m => m.DCType
  | none => ""

def Bill.GetCongress (b : Bill) : String :=
  match b.Meta with
  | some m => m.Congress
  | none => ""

def Bill.GetSession (b : Bill) : String :=
  match b.Meta with
  | some m => m.Session
  | none => ""

def Bill.GetTitle (b : Bill) : String :=
  match b.Meta with
  | some m => m.DCTitle
  | none => ""

def Bill.GetStage (b : Bill) : String :=
  match b.Meta with
  | some m => m.DocStage
  | none => ""

def Bill.GetChamber (b : Bill) : String :=
  match b.Meta with
  | some m => m.CurrentChamber
  | none => ""

def Bill.GetCreator (b : Bill) : String :=
  match b.Meta with
  | some m => m.DCCreator
  | none => ""

def Bill.GetPublisher (b : Bill) : String :=
  match b.Meta with
  | some m => m.DCPublisher
  | none => ""

def Bill.GetLanguage (b : Bill) : String :=
  match b.Meta with
  | some m => m.DCLanguage
  | none => ""

def Bill.GetRights (b : Bill) : String :=
  match b.Meta with
  | some m => m.DCRights
  | none => ""

def Bill.GetProcessedBy (b : Bill) : String :=
  match b.Meta with
  | some m => m.ProcessedBy
  | none => ""

def Bill.GetProcessedDate (b : Bill) : String :=
  match b.Meta with
  | some m => m.ProcessedDate
  | none => ""

def Bill.IsPublic (b : Bill) : Bool :=
  match b.Meta with
  | some m => m.PublicPrivate == "public"
  | none => false

def Bill.GetCitations (b : Bill) : List String :=
  match b.Meta with
  | some m => m.CitableAs
  | none => []

def Bill.GetSponsors (b : Bill) : List Sponsor :=
  match b.Preface with
  | some p =>
    p.Actions.foldl (fun acc action =>
      match action.ActionDescription with
      | some d => acc ++ d.Sponsors
      | none => acc) []
  | none => []

def Bill.GetCosponsors (b : Bill) : List Cosponsor :=
  match b.Preface with
  | some p =>
    p.Actions.foldl (fun acc action =>
      match action.ActionDescription with
      | some d => acc ++ d.Cosponsors
      | none => acc) []
  | none => []

def Bill.GetCommittees (b : Bill) : List Committee :=
  match b.Preface with
  | some p =>
    p.Actions.foldl (fun acc action =>
      match action.ActionDescription with
      | some d => acc ++ d.Committees
      | none => acc) []
  | none => []

def Bill.GetActions (b : Bill) : List Action :=
  match b.Preface with
  | some p => p.Actions
  | none => []

def Bill.GetSections (b : Bill) : List Section :=
  match b.Main with
  | some m => m.Sections
  | none => []

/-! ## Resolution capability accessors -/

def Resolution.GetDocumentNumber (r : Resolution) : String :=
  match r.Meta with
  | some m => m.DocNumber
  | none => ""

def Resolution.GetDocumentType (r : Resolution) : String :=
  match r.Meta with
  | some m => m.DCType
  | none => ""

def Resolution.GetCongress (r : Resolution) : String :=
  match r.Meta with
  | some m => m.Congress
  | none => ""

def Resolution.GetSession (r : Resolution) : String :=
  match r.Meta with
  | some m => m.Session
  | none => ""

def Resolution.GetTitle (r : Resolution) : String :=
  match r.Meta with
  | some m => m.DCTitle
  | none => ""

def Resolution.GetStage (r : Resolution) : String :=
  match r.Meta with
  | some m => m.DocStage
  | none => ""

def Resolution.GetChamber (r : Resolution) : String :=
  match r.Meta with
  | some m => m.CurrentChamber
  | none => ""

def Resolution.GetCreator (r : Resolution) : String :=
  match r.Meta with
  | some m => m.DCCreator
  | none => ""

def Resolution.GetPublisher (r : Resolution) : String :=
  match r.Meta with
  | some m => m.DCPublisher
  | none => ""

def Resolution.GetLanguage (r : Resolution) : String :=
  match r.Meta with
  | some m => m.DCLanguage
  | none => ""

def Resolution.GetRights (r : Resolution) : String :=
  match r.Meta with
  | some m => m.DCRights
  | none => ""

def Resolution.GetProcessedBy (r : Resolution) : String :=
  match r.Meta with
  | some m => m.ProcessedBy
  | none => ""

def Resolution.GetProcessedDate (r : Resolution) : String :=
  match r.Meta with
  | some m => m.ProcessedDate
  | none => ""

def Resolution.IsPublic (r : Resolution) : Bool :=
  match r.Meta with
  | some m => m.PublicPrivate == "public"
  | none => false

def Resolution.GetCitations (r : Resolution) : List String :=
  match r.Meta with
  | some m => m.CitableAs
  | none => []

def Resolution.GetSponsors (r : Resolution) : List Sponsor :=
  match r.Preface with
  | some p =>
    p.Actions.foldl (fun acc action =>
      match action.ActionDescription with
      | some d => acc ++ d.Sponsors
      | none => acc) []
  | none => []

def Resolution.GetCosponsors (r : Resolution) : List Cosponsor :=
  match r.Preface with
  | some p =>
    p.Actions.foldl (fun acc action =>
      match action.ActionDescription with
      | some d => acc ++ d.Cosponsors
      | none => acc) []
  | none => []

def Resolution.GetCommittees (r : Resolution) : List Committee :=
  match r.Preface with
  | some p =>
    p.Actions.foldl (fun acc action =>
      match action.ActionDescription with
      | some d => acc ++ d.Committees
      | none => acc) []
  | none => []

def Resolution.GetActions (r : Resolution) : List Action :=
  match r.Preface with
  | some p => p.Actions
  | none => []

def Resolution.GetSections (r : Resolution) : List Section :=
  match r.Main with
  | some m => m.Sections
  | none => []

/-! ## EngrossedAmendment capability accessors -/

def EngrossedAmendment.GetDocumentNumber (e : EngrossedAmendment) : String :=
  match e.AmendMeta with
  | some m => m.DocNumber
  | none => ""

def EngrossedAmendment.GetDocumentType (e : EngrossedAmendment) : String :=
  match e.AmendMeta with
  | some m => m.DCType
  | none => ""

def EngrossedAmendment.GetCongress (e : EngrossedAmendment) : String :=
  match e.AmendMeta with
  | some m => m.Congress
  | none => ""

def EngrossedAmendment.GetSession (e : EngrossedAmendment) : String :=
  match e.AmendMeta with
  | some m => m.Session
  | none => ""

def EngrossedAmendment.GetTitle (e : EngrossedAmendment) : String :=
  match e.AmendMeta with
  | some m => m.DCTitle
  | none => ""

def EngrossedAmendment.GetStage (e : EngrossedAmendment) : String :=
  match e.AmendMeta with
  | some m => m.DocStage
  | none => ""

def EngrossedAmendment.GetChamber (e : EngrossedAmendment) : String :=
  match e.AmendMeta with
  | some m => m.CurrentChamber
  | none => ""

def EngrossedAmendment.GetCreator (e : EngrossedAmendment) : String :=
  match e.AmendMeta with
  | some m => m.DCCreator
  | none => ""

def EngrossedAmendment.GetPublisher (e : EngrossedAmendment) : String :=
  match e.AmendMeta with
  | some m => m.DCPublisher
  | none => ""

def EngrossedAmendment.GetLanguage (e : EngrossedAmendment) : String :=
  match e.AmendMeta with
  | some m => m.DCLanguage
  | none => ""

def EngrossedAmendment.GetRights (e : EngrossedAmendment) : String :=
  match e.AmendMeta with
  | some m => m.DCRights
  | none => ""

def EngrossedAmendment.GetProcessedBy (e : EngrossedAmendment) : String :=
  match e.AmendMeta with
  | some m => m.ProcessedBy
  | none => ""

def EngrossedAmendment.GetProcessedDate (e : EngrossedAmendment) : String :=
  match e.AmendMeta with
  | some m => m.ProcessedDate
  | none => ""

def EngrossedAmendment.IsPublic (e : EngrossedAmendment) : Bool :=
  match e.AmendMeta with
  | some m => m.PublicPrivate == "public"
  | none => false

def EngrossedAmendment.GetCitations (e : EngrossedAmendment) : List String :=
  match e.AmendMeta with
  | some m => m.CitableAs
  | none => []

def EngrossedAmendment.GetAmendmentDegree (e : EngrossedAmendment) : String :=
  match e.AmendMeta with
  | some m => m.AmendDegree
  | none => ""

def EngrossedAmendment.GetActions (e : EngrossedAmendment) : List Action :=
  match e.AmendPreface with
  | some p => p.Actions
  | none => []

/-! ## Amendment capability accessors -/

def Amendment.GetDocumentNumber (a : Amendment) : String :=
  match a.AmendMeta with
  | some m => m.DocNumber
  | none => ""

def Amendment.GetDocumentType (a : Amendment) : String :=
  match a.AmendMeta with
  | some m => m.DCType
  | none => ""

def Amendment.GetCongress (a : Amendment) : String :=
  match a.AmendMeta with
  | some m => m.Congress
  | none => ""

def Amendment.GetSession (a : Amendment) : String :=
  match a.AmendMeta with
  | some m => m.Session
  | none => ""

def Amendment.GetTitle (a : Amendment) : String :=
  match a.AmendMeta with
  | some m => m.DCTitle
  | none => ""

def Amendment.GetStage (a : Amendment) : String :=
  match a.AmendMeta with
  | some m => m.DocStage
  | none => ""

def Amendment.GetChamber (a : Amendment) : String :=
  match a.AmendMeta with
  | some m => m.CurrentChamber
  | none => ""

def Amendment.GetCreator (a : Amendment) : String :=
  match a.AmendMeta with
  | some m => m.DCCreator
  | none => ""

def Amendment.GetPublisher (a : Amendment) : String :=
  match a.AmendMeta with
  | some m => m.DCPublisher
  | none => ""

def Amendment.GetLanguage (a : Amendment) : String :=
  match a.AmendMeta with
  | some m => m.DCLanguage
  | none => ""

def Amendment.GetRights (a : Amendment) : String :=
  match a.AmendMeta with
  | some m => m.DCRights
  | none => ""

def Amendment.GetProcessedBy (a : Amendment) : String :=
  match a.AmendMeta with
  | some m => m.ProcessedBy
  | none => ""

def Amendment.GetProcessedDate (a : Amendment) : String :=
  match a.AmendMeta with
  | some m => m.ProcessedDate
  | none => ""

def Amendment.IsPublic (a : Amendment) : Bool :=
  match a.AmendMeta with
  | some m => m.PublicPrivate == "public"
  | none => false

def Amendment.GetCitations (a : Amendment) : List String :=
  match a.AmendMeta with
  | some m => m.CitableAs
  | none => []

def Amendment.GetAmendmentDegree (a : Amendment) : String :=
  match a.AmendMeta with
  | some m => m.AmendDegree
  | none => ""

def Amendment.GetActions (a : Amendment) : List Action :=
  match a.AmendPreface with
  | some p => p.Actions
  | none => []

/-! ## Document-type detection and parse entry points

`DetectDocumentType` transliterates the Go function: substring
containment (`strings.Contains`) over the whole byte content and a
`strings.HasPrefix(strings.TrimSpace(content), "<?xml")` check, with
Go's `&&` binding tighter than `||`. Bytes are `List Char`;
`goIsSpace` is `unicode.IsSpace` restricted to the ASCII space class. -/

inductive DocumentType where
  | bill
  | resolution
  | amendment
  | engrossedAmendment
  | unknown
deriving DecidableEq

/-- Character-list prefix test (`strings.HasPrefix`). -/
def isPrefixOfChars : List Char → List Char → Bool
  | [], _ => true
  | _ :: _, [] => false
  | a :: as, b :: bs => a = b && isPrefixOfChars as bs

/-- Character-list substring containment (`strings.Contains`). -/
def isInfixOfChars (needle : List Char) : List Char → Bool
  | [] => isPrefixOfChars needle []
  | b :: rest => isPrefixOfChars needle (b :: rest) || isInfixOfChars needle rest

def goIsSpace (c : Char) : Bool :=
  c = ' ' || c = '\t' || c = '\n' || c = Char.ofNat 11 || c = Char.ofNat 12 || c = '\r'

def trimSpaceChars (s : List Char) : List Char :=
  ((s.dropWhile goIsSpace).reverse.dropWhile goIsSpace).reverse

def DetectDocumentType (content : List Char) : DocumentType :=
  if isInfixOfChars "<bill ".toList content ||
     (isPrefixOfChars "<?xml".toList (trimSpaceChars content) &&
      isInfixOfChars "<bill".toList content) then
    DocumentType.bill
  else if isInfixOfChars "<resolution ".toList content ||
          isInfixOfChars "<resolution>".toList content then
    DocumentType.resolution
  else if isInfixOfChars "<engrossedAmendment ".toList content ||
          isInfixOfChars "<engrossedAmendment>".toList content then
    DocumentType.engrossedAmendment
  else if isInfixOfChars "<amendment ".toList content ||
          isInfixOfChars "<amendment>".toList content then
    DocumentType.amendment
  else
    DocumentType.unknown

/-! ## Parse entry points

Go's `xml.Unmarshal` is an external library call; each entry point is
parameterised over it. A Go `(*T, error)` return is a pair
`Option T × Option String`: the Go functions return either
`(&doc, nil)` or `(nil, err)`. -/

def ParseBill (unmarshalBill : List Char → Except String Bill)
    (data : List Char) : Option Bill × Option String :=
  match unmarshalBill data with
  | Except.error e => (none, some ("failed to parse bill: " ++ e))
  | Except.ok b => (some b, none)

def ParseResolution (unmarshalResolution : List Char → Except String Resolution)
    (data : List Char) : Option Resolution × Option String :=
  match unmarshalResolution data with
  | Except.error e => (none, some ("failed to parse resolution: " ++ e))
  | Except.ok r => (some r, none)

def ParseEngrossedAmendment
    (unmarshalEngrossedAmendment : List Char → Except String EngrossedAmendment)
    (data : List Char) : Option EngrossedAmendment × Option String :=
  match unmarshalEngrossedAmendment data with
  | Except.error e => (none, some ("failed to parse engrossed amendment: " ++ e))
  | Except.ok a => (some a, none)

def ParseAmendment (unmarshalAmendment : List Char → Except String Amendment)
    (data : List Char) : Option Amendment × Option String :=
  match unmarshalAmendment data with
  | Except.error e => (none, some ("failed to parse amendment: " ++ e))
  | Except.ok a => (some a, none)

/-- A non-nil `LegislativeDocument` interface value: a typed pointer
to one of the four concrete document types. The pointer itself may be
nil (`none`): Go's implicit conversion of a `*Bill` to the interface
type always yields a non-nil interface value, even when the pointer
is nil. The interface value as a whole is `Option LegislativeDocument`
in `ParseDocument`: outer `none` is the nil interface, which only the
conversion of a literal untyped `nil` produces. -/
inductive LegislativeDocument where
  | bill : Option Bill → LegislativeDocument
  | resolution : Option Resolution → LegislativeDocument
  | engrossedAmendment : Option EngrossedAmendment → LegislativeDocument
  | amendment : Option Amendment → LegislativeDocument

def ParseDocument
    (unmarshalBill : List Char → Except String Bill)
    (unmarshalResolution : List Char → Except String Resolution)
    (unmarshalEngrossedAmendment : List Char → Except String EngrossedAmendment)
    (unmarshalAmendment : List Char → Except String Amendment)
    (data : List Char) : Option LegislativeDocument × Option String :=
  match DetectDocumentType data with
  | DocumentType.bill =>
    let r := ParseBill unmarshalBill data
    (some (LegislativeDocument.bill r.1), r.2)
  | DocumentType.resolution =>
    let r := ParseResolution unmarshalResolution data
    (some (LegislativeDocument.resolution r.1), r.2)
  | DocumentType.engrossedAmendment =>
    let r := ParseEngrossedAmendment unmarshalEngrossedAmendment data
    (some (LegislativeDocument.engrossedAmendment r.1), r.2)
  | DocumentType.amendment =>
    let r := ParseAmendment unmarshalAmendment data
    (some (LegislativeDocument.amendment r.1), r.2)
  | DocumentType.unknown => (none, some "unknown document type")


/-! ## XML emission model

`MarshalBillToXML` calls `xml.MarshalIndent(bill, "", "  ")` and
prepends `xml.Header`. The element tree an `encoding/xml` marshal of a
`Bill` produces is modelled by `XNode` and the `xenc...` functions,
read off the `xml:` struct tags: a nil pointer field is omitted, a
string element field is omitted when empty only under `,omitempty`, an
attribute is omitted when empty only under `,omitempty`, a slice emits
one element per item, and a Dublin-Core (namespaced) field emits its
namespace as an `xmlns` attribute. `renderXNode` then renders the tree
with two-space indentation. Namespace constants are from
`pkg/uslm/common.go`. -/

def NamespaceUSLM : String := "http://schemas.gpo.gov/xml/uslm"

def NamespaceDC : String := "http://purl.org/dc/elements/1.1/"

def NamespaceHTML : String := "http://www.w3.org/1999/xhtml"

def NamespaceXSI : String := "http://www.w3.org/2001/XMLSchema-instance"

def NamespaceMathML : String := "http://www.w3.org/1998/Math/MathML"

def NamespaceSenate : String := "https://www.senate.gov/schemas"

inductive XNode where
  | text : String → XNode
  | elem : String → List (String × String) → List XNode → XNode

def xaStr (k v : String) : List (String × String) := [(k, v)]

def xaOmit (k v : String) : List (String × String) :=
  if v = "" then [] else [(k, v)]

def xText (s : String) : List XNode :=
  if s = "" then [] else [XNode.text s]

def xElemStr (n v : String) : List XNode := [XNode.elem n [] (xText v)]

def xElemStrOmit (n v : String) : List XNode :=
  if v = "" then [] else [XNode.elem n [] (xText v)]

def xElemStrNS (n ns v : String) : List XNode :=
  [XNode.elem n [("xmlns", ns)] (xText v)]

def xOpt {α : Type} (f : α → XNode) : Option α → List XNode
  | none => []
  | some x => [f x]

def attrNames : XNode → List String
  | XNode.text _ => []
  | XNode.elem _ attrs _ => attrs.map Prod.fst

def childNames : XNode → List String
  | XNode.text _ => []
  | XNode.elem _ _ cs =>
    cs.filterMap fun c =>
      match c with
      | XNode.elem n _ _ => some n
      | XNode.text _ => none

def xencInline (x : Inline) : XNode :=
  XNode.elem "inline" (xaOmit "class" x.Class ++ xaOmit "role" x.Role) (xText x.Text)

def xencItalic (x : Italic) : XNode :=
  XNode.elem "i" [] (xText x.Text)

def xencP (x : P) : XNode :=
  XNode.elem "p" (xaOmit "class" x.Class) (xText x.Text)

def xencShortTitle (x : ShortTitle) : XNode :=
  XNode.elem "shortTitle" (xaOmit "role" x.Role) (xText x.Text)

def xencQuotedText (x : QuotedText) : XNode :=
  XNode.elem "quotedText" [] (xText x.Text)

def xencAmendingAction (x : AmendingAction) : XNode :=
  XNode.elem "amendingAction" (xaOmit "type" x.Type') (xText x.Text)

def xencNum (x : Num) : XNode :=
  XNode.elem "num" (xaOmit "value" x.Value) (xText x.Text)

def xencHeading (x : Heading) : XNode :=
  XNode.elem "heading" (xaOmit "class" x.Class)
    (xText x.Text ++ x.Inline.map xencInline)

def xencRef : Ref → XNode
  | .mk _ h t ir =>
    XNode.elem "ref" (xaOmit "href" h)
      (xText t ++ (match ir with | none => [] | some r => [xencRef r]))
  termination_by r => sizeOf r
  decreasing_by simp_wf <;> omega

def xencChapeau (x : Chapeau) : XNode :=
  XNode.elem "chapeau" (xaOmit "class" x.Class)
    (xText x.Text ++ x.Inline.map xencInline ++ x.Ref.map xencRef ++
     x.AmendingAction.map xencAmendingAction)

def xencRelatedDocument (x : RelatedDocument) : XNode :=
  XNode.elem "relatedDocument" (xaOmit "role" x.Role ++ xaOmit "href" x.Href)
    (xText x.Text)

def xencDistributionCode (x : DistributionCode) : XNode :=
  XNode.elem "distributionCode" (xaOmit "display" x.Display) (xText x.Text)

def xencCongressElement (x : CongressElement) : XNode :=
  XNode.elem "congress" (xaOmit "value" x.Value) (xText x.Text)

def xencSessionElement (x : SessionElement) : XNode :=
  XNode.elem "session" (xaOmit "value" x.Value) (xText x.Text)

def xencCurrentChamber (x : CurrentChamber) : XNode :=
  XNode.elem "currentChamber" (xaOmit "value" x.Value) (xText x.Text)

def xencActionDate (x : ActionDate) : XNode :=
  XNode.elem "date" (xaOmit "date" x.Date) (xText x.Text ++ x.Inline.map xencInline)

def xencSponsor (x : Sponsor) : XNode :=
  XNode.elem "sponsor" (xaOmit "senateId" x.SenateID ++ xaOmit "houseId" x.HouseID)
    (xText x.Text ++ x.Inline.map xencInline)

def xencCosponsor (x : Cosponsor) : XNode :=
  XNode.elem "cosponsor" (xaOmit "senateId" x.SenateID ++ xaOmit "houseId" x.HouseID)
    (xText x.Text ++ x.Inline.map xencInline)

def xencCommittee (x : Committee) : XNode :=
  XNode.elem "committee" (xaOmit "committeeId" x.CommitteeID) (xText x.Text)

def xencActionDescription (x : ActionDescription) : XNode :=
  XNode.elem "actionDescription" []
    (xText x.Text ++ x.Sponsors.map xencSponsor ++ x.Cosponsors.map xencCosponsor ++
     x.Committees.map xencCommittee ++ x.Inline.map xencInline)

def xencAction (x : Action) : XNode :=
  XNode.elem "action" (xaOmit "actionStage" x.ActionStage)
    (xOpt xencActionDate x.Date ++ xOpt xencActionDescription x.ActionDescription ++
     xElemStrOmit "actionInstruction" x.ActionInstruction)

def xencPreface (x : Preface) : XNode :=
  XNode.elem "preface" []
    (xElemStrOmit "slugLine" x.SlugLine ++
     xOpt xencDistributionCode x.DistributionCode ++
     xOpt xencCongressElement x.Congress ++
     xOpt xencSessionElement x.Session ++
     xElemStrNS "type" NamespaceDC x.DCType ++
     xElemStrOmit "docNumber" x.DocNumber ++
     xElemStrNS "title" NamespaceDC x.DCTitle ++
     xOpt xencCurrentChamber x.CurrentChamber ++
     x.Actions.map xencAction)

def xencMeta (m : Meta) : XNode :=
  XNode.elem "meta" []
    (xElemStrNS "title" NamespaceDC m.DCTitle ++
     xElemStrNS "type" NamespaceDC m.DCType ++
     xElemStrNS "creator" NamespaceDC m.DCCreator ++
     xElemStrNS "publisher" NamespaceDC m.DCPublisher ++
     xElemStrNS "format" NamespaceDC m.DCFormat ++
     xElemStrNS "language" NamespaceDC m.DCLanguage ++
     xElemStrNS "rights" NamespaceDC m.DCRights ++
     xElemStr "docNumber" m.DocNumber ++
     (m.CitableAs.map fun v => XNode.elem "citableAs" [] (xText v)) ++
     xElemStr "docStage" m.DocStage ++
     xElemStrOmit "currentChamber" m.CurrentChamber ++
     xElemStr "congress" m.Congress ++
     xElemStr "session" m.Session ++
     xElemStr "publicPrivate" m.PublicPrivate ++
     xElemStrOmit "processedBy" m.ProcessedBy ++
     xElemStrOmit "processedDate" m.ProcessedDate ++
     m.RelatedDocuments.map xencRelatedDocument ++
     xElemStrOmit "popularName" m.PopularName)


mutual

def xencSection : Section → XNode
  | .mk _ a1 a2 a3 a4 a5 a6 a7 a8 a9 a10 =>
    XNode.elem "section" (xaOmit "id" a1 ++ xaOmit "identifier" a2 ++ xaOmit "role" a3 ++ xaOmit "class" a4)
      (xOpt xencNum a5 ++
       xOpt xencHeading a6 ++
       xOpt xencChapeau a7 ++
       (match a8 with | none => [] | some c => [xencContent c]) ++
       xencParagraphsList a9 ++
       xencSubsectionsList a10)
  termination_by x => sizeOf x
  decreasing_by all_goals (simp_wf <;> omega)

def xencSubsection : Subsection → XNode
  | .mk _ a1 a2 a3 a4 a5 a6 a7 a8 =>
    XNode.elem "subsection" (xaOmit "id" a1 ++ xaOmit "identifier" a2 ++ xaOmit "class" a3)
      (xOpt xencNum a4 ++
       xOpt xencHeading a5 ++
       xOpt xencChapeau a6 ++
       (match a7 with | none => [] | some c => [xencContent c]) ++
       xencParagraphsList a8)
  termination_by x => sizeOf x
  decreasing_by all_goals (simp_wf <;> omega)

def xencParagraph : Paragraph → XNode
  | .mk _ a1 a2 a3 a4 a5 a6 a7 a8 a9 =>
    XNode.elem "paragraph" (xaOmit "id" a1 ++ xaOmit "identifier" a2 ++ xaOmit "class" a3 ++ xaOmit "role" a4)
      (xOpt xencNum a5 ++
       xOpt xencHeading a6 ++
       xOpt xencChapeau a7 ++
       (match a8 with | none => [] | some c => [xencContent c]) ++
       xencSubparagraphsList a9)
  termination_by x => sizeOf x
  decreasing_by all_goals (simp_wf <;> omega)

def xencSubparagraph : Subparagraph → XNode
  | .mk _ a1 a2 a3 a4 a5 a6 a7 =>
    XNode.elem "subparagraph" (xaOmit "id" a1 ++ xaOmit "identifier" a2 ++ xaOmit "class" a3)
      (xOpt xencNum a4 ++
       xOpt xencChapeau a5 ++
       (match a6 with | none => [] | some c => [xencContent c]) ++
       xencClausesList a7)
  termination_by x => sizeOf x
  decreasing_by all_goals (simp_wf <;> omega)

def xencClause : Clause → XNode
  | .mk _ a1 a2 a3 a4 a5 a6 =>
    XNode.elem "clause" (xaOmit "id" a1 ++ xaOmit "identifier" a2 ++ xaOmit "class" a3)
      (xOpt xencNum a4 ++
       (match a5 with | none => [] | some c => [xencContent c]) ++
       xencSubclausesList a6)
  termination_by x => sizeOf x
  decreasing_by all_goals (simp_wf <;> omega)

def xencSubclause : Subclause → XNode
  | .mk _ a1 a2 a3 a4 a5 =>
    XNode.elem "subclause" (xaOmit "id" a1 ++ xaOmit "identifier" a2 ++ xaOmit "class" a3)
      (xOpt xencNum a4 ++
       (match a5 with | none => [] | some c => [xencContent c]))
  termination_by x => sizeOf x
  decreasing_by all_goals (simp_wf <;> omega)

def xencContent : Content → XNode
  | .mk _ a1 a2 a3 a4 a5 a6 a7 a8 a9 a10 =>
    XNode.elem "content" (xaOmit "class" a1)
      (xText a2 ++
       a3.map xencInline ++
       a4.map xencItalic ++
       a5.map xencRef ++
       a6.map xencShortTitle ++
       a7.map xencQuotedText ++
       a8.map xencAmendingAction ++
       xencQuotedContentsList a9 ++
       xencAmendmentContentsList a10)
  termination_by x => sizeOf x
  decreasing_by all_goals (simp_wf <;> omega)

def xencQuotedContent : QuotedContent → XNode
  | .mk _ a1 a2 a3 a4 a5 =>
    XNode.elem "quotedContent" (xaOmit "id" a1 ++ xaOmit "styleType" a2)
      (xencParagraphsList a3 ++
       xencSubsectionsList a4 ++
       xencSectionsList a5)
  termination_by x => sizeOf x
  decreasing_by all_goals (simp_wf <;> omega)

def xencAmendmentContent : AmendmentContent → XNode
  | .mk _ a1 a2 a3 a4 =>
    XNode.elem "amendmentContent" (xaOmit "class" a1 ++ xaOmit "changed" a2 ++ xaOmit "styleType" a3)
      (xencSectionsList a4)
  termination_by x => sizeOf x
  decreasing_by all_goals (simp_wf <;> omega)

def xencSectionsList : List Section → List XNode
  | [] => []
  | x :: xs => xencSection x :: xencSectionsList xs
  termination_by xs => sizeOf xs
  decreasing_by all_goals (simp_wf <;> omega)

def xencSubsectionsList : List Subsection → List XNode
  | [] => []
  | x :: xs => xencSubsection x :: xencSubsectionsList xs
  termination_by xs => sizeOf xs
  decreasing_by all_goals (simp_wf <;> omega)

def xencParagraphsList : List Paragraph → List XNode
  | [] => []
  | x :: xs => xencParagraph x :: xencParagraphsList xs
  termination_by xs => sizeOf xs
  decreasing_by all_goals (simp_wf <;> omega)

def xencSubparagraphsList : List Subparagraph → List XNode
  | [] => []
  | x :: xs => xencSubparagraph x :: xencSubparagraphsList xs
  termination_by xs => sizeOf xs
  decreasing_by all_goals (simp_wf <;> omega)

def xencClausesList : List Clause → List XNode
  | [] => []
  | x :: xs => xencClause x :: xencClausesList xs
  termination_by xs => sizeOf xs
  decreasing_by all_goals (simp_wf <;> omega)

def xencSubclausesList : List Subclause → List XNode
  | [] => []
  | x :: xs => xencSubclause x :: xencSubclausesList xs
  termination_by xs => sizeOf xs
  decreasing_by all_goals (simp_wf <;> omega)

def xencQuotedContentsList : List QuotedContent → List XNode
  | [] => []
  | x :: xs => xencQuotedContent x :: xencQuotedContentsList xs
  termination_by xs => sizeOf xs
  decreasing_by all_goals (simp_wf <;> omega)

def xencAmendmentContentsList : List AmendmentContent → List XNode
  | [] => []
  | x :: xs => xencAmendmentContent x :: xencAmendmentContentsList xs
  termination_by xs => sizeOf xs
  decreasing_by all_goals (simp_wf <;> omega)

end


def xencLongTitle (x : LongTitle) : XNode :=
  XNode.elem "longTitle" []
    (xElemStr "docTitle" x.DocTitle ++ xElemStr "officialTitle" x.OfficialTitle)

def xencEnactingFormula (x : EnactingFormula) : XNode :=
  XNode.elem "enactingFormula" [] (xText x.Text ++ x.I.map xencItalic)

def xencReferenceItem (x : ReferenceItem) : XNode :=
  XNode.elem "referenceItem" (xaOmit "role" x.Role)
    (xElemStrOmit "designator" x.Designator ++ xElemStrOmit "label" x.Label)

def xencTOC (x : TOC) : XNode :=
  XNode.elem "toc" [] (x.ReferenceItem.map xencReferenceItem)

def xencRecital (x : Recital) : XNode :=
  XNode.elem "recital" []
    (xText x.Text ++ x.P.map xencP ++ x.Paragraphs.map xencParagraph)

def xencResolvingClause (x : ResolvingClause) : XNode :=
  XNode.elem "resolvingClause" (xaOmit "class" x.Class) (xText x.Text ++ x.I.map xencItalic)

def xencPreamble (x : Preamble) : XNode :=
  XNode.elem "preamble" []
    (x.Recitals.map xencRecital ++ xOpt xencResolvingClause x.ResolvingClause)

def xencTitle (x : Title) : XNode :=
  XNode.elem "title" (xaOmit "id" x.ID)
    (xOpt xencNum x.Num ++ xOpt xencHeading x.Heading ++ x.Sections.map xencSection)

def xencMain (x : Main) : XNode :=
  XNode.elem "main" (xaOmit "styleType" x.StyleType)
    (xOpt xencLongTitle x.LongTitle ++
     xOpt xencEnactingFormula x.EnactingFormula ++
     xOpt xencTOC x.TOC ++
     xOpt xencPreamble x.Preamble ++
     x.Sections.map xencSection ++
     x.Titles.map xencTitle ++
     xElemStrOmit "endMarker" x.EndMarker)

def xencBill (b : Bill) : XNode :=
  XNode.elem "bill"
    (xaStr "xmlns" b.XMLNS ++ xaStr "xmlns:dc" b.XMLNSDC ++
     xaStr "xmlns:html" b.XMLNSHTML ++ xaStr "xmlns:uslm" b.XMLNSUSLM ++
     xaStr "xmlns:xsi" b.XMLNSXSI ++ xaStr "xsi:schemaLocation" b.XSISchemaLocation ++
     xaStr "xml:lang" b.XMLLang)
    (xOpt xencMeta b.Meta ++ xOpt xencPreface b.Preface ++ xOpt xencMain b.Main ++
     xElemStrOmit "endMarker" b.EndMarker)

/-! ### Rendering (`xml.MarshalIndent` with prefix `""` and indent two
spaces, then `xml.Header` prepended). The renderer nests children on
indented lines except pure-character-data content, which stays inline;
empty elements render as an open tag directly followed by a close tag
(Go's encoder never self-closes). -/

def xmlEscapeChar (c : Char) : String :=
  if c = '&' then "&amp;"
  else if c = '<' then "&lt;"
  else if c = '>' then "&gt;"
  else if c = '\'' then "&#39;"
  else if c = '"' then "&#34;"
  else String.singleton c

def xmlEscape (s : String) : String :=
  String.join (s.toList.map xmlEscapeChar)

def renderAttrs (attrs : List (String × String)) : String :=
  attrs.foldl (fun acc kv => acc ++ " " ++ kv.1 ++ "=\"" ++ xmlEscape kv.2 ++ "\"") ""

def XNode.isText : XNode → Bool
  | XNode.text _ => true
  | XNode.elem _ _ _ => false

def indentStr (n : Nat) : String := String.join (List.replicate n "  ")

def renderXNode (ind : Nat) (x : XNode) : String :=
  match x with
  | XNode.text s => xmlEscape s
  | XNode.elem n attrs children =>
    if children.all XNode.isText then
      "<" ++ n ++ renderAttrs attrs ++ ">" ++
      String.join (children.attach.map fun c => renderXNode (ind + 1) c.1) ++
      "</" ++ n ++ ">"
    else
      "<" ++ n ++ renderAttrs attrs ++ ">" ++
      String.join (children.attach.map fun c =>
        "\n" ++ indentStr (ind + 1) ++ renderXNode (ind + 1) c.1) ++
      "\n" ++ indentStr ind ++ "</" ++ n ++ ">"
  termination_by sizeOf x
  decreasing_by
    all_goals (simp_wf; have := List.sizeOf_lt_of_mem c.2; omega)

/-- `xml.Header`. -/
def xmlHeader : String := "<?xml version=\"1.0\" encoding=\"UTF-8\"?>\n"

/-- `MarshalBillToXML`: `xml.MarshalIndent(bill, "", "  ")` output with
`xml.Header` prepended, as bytes. -/
def MarshalBillToXML (b : Bill) : List Char :=
  (xmlHeader ++ renderXNode 0 (xencBill b)).toList


/-! ## Substring lemmas for the detector -/

theorem isPrefixOfChars_append_self : ∀ (s t : List Char),
    isPrefixOfChars s (s ++ t) = true := by
  intro s t
  induction s with
  | nil => rfl
  | cons a as ih => simp [isPrefixOfChars, ih]

theorem isPrefixOfChars_trans : ∀ {a b c : List Char},
    isPrefixOfChars a b = true → isPrefixOfChars b c = true →
    isPrefixOfChars a c = true := by
  intro a
  induction a with
  | nil => intro b c _ _; rfl
  | cons x xs ih =>
    intro b c h1 h2
    cases b with
    | nil => simp [isPrefixOfChars] at h1
    | cons y ys =>
      cases c with
      | nil => simp [isPrefixOfChars] at h2
      | cons z zs =>
        simp only [isPrefixOfChars, Bool.and_eq_true, decide_eq_true_eq] at h1 h2 ⊢
        exact ⟨h1.1.trans h2.1, ih h1.2 h2.2⟩

theorem isInfixOfChars_nil_needle : ∀ (hay : List Char),
    isInfixOfChars [] hay = true := by
  intro hay
  cases hay <;> rfl

theorem isInfixOfChars_append_self : ∀ (s t : List Char),
    isInfixOfChars s (s ++ t) = true := by
  intro s t
  cases s with
  | nil => exact isInfixOfChars_nil_needle t
  | cons a as =>
    simp only [List.cons_append, isInfixOfChars, Bool.or_eq_true]
    exact Or.inl (by simpa using isPrefixOfChars_append_self (a :: as) t)

theorem isInfixOfChars_mono : ∀ {n1 n2 hay : List Char},
    isPrefixOfChars n1 n2 = true → isInfixOfChars n2 hay = true →
    isInfixOfChars n1 hay = true := by
  intro n1 n2 hay
  induction hay with
  | nil =>
    intro h1 h2
    cases n2 with
    | nil => cases n1 with
      | nil => rfl
      | cons x xs => simp [isPrefixOfChars] at h1
    | cons y ys => simp [isInfixOfChars, isPrefixOfChars] at h2
  | cons b bs ih =>
    intro h1 h2
    simp only [isInfixOfChars, Bool.or_eq_true] at h2 ⊢
    cases h2 with
    | inl hp => exact Or.inl (isPrefixOfChars_trans h1 hp)
    | inr hi => exact Or.inr (ih h1 hi)

theorem isInfixOfChars_false_of_prefix {n1 n2 hay : List Char}
    (hp : isPrefixOfChars n1 n2 = true) (h : isInfixOfChars n1 hay = false) :
    isInfixOfChars n2 hay = false := by
  cases hc : isInfixOfChars n2 hay with
  | false => rfl
  | true => rw [isInfixOfChars_mono hp hc] at h; cases h

/-! ## Claim C2 -/

/-- C2 counterexample: `DetectDocumentType` is raw substring
containment, not root-name inspection. A document whose root element
is `resolution` (with an attribute) but whose body contains a
`billingCode` element is classified as a bill, because the prolog-led
branch only asks whether the bytes contain `<bill` anywhere; and a
document whose root element is `bill`, written without attributes and
without an XML declaration, is classified as Unknown, because the bill
branch requires either `<bill ` with a trailing space or an `<?xml`
prefix. -/
theorem C2_counterexample :
    DetectDocumentType
        "<?xml version=\"1.0\"?><resolution id=\"a\"><billingCode/></resolution>".toList
      = DocumentType.bill ∧
    DetectDocumentType "<bill>x</bill>".toList = DocumentType.unknown := by
  constructor <;> rfl

/-- C2 amended: detection reads the whole byte content by substring
containment in a fixed priority order (bill, resolution,
engrossedAmendment, amendment), so it returns the root's type only
when no earlier-checked trigger substring occurs elsewhere in the
input: a root opening `<bill ` always yields Bill; a root opening
`<resolution ` yields Resolution provided `<bill` occurs nowhere; a
root opening `<engrossedAmendment ` yields EngrossedAmendment
provided `<bill` and `<resolution` occur nowhere; a root opening
`<amendment ` yields Amendment provided `<bill`, `<resolution` and
`<engrossedAmendment` occur nowhere. -/
theorem C2_detect_by_containment :
    (∀ rest : List Char,
      DetectDocumentType ("<bill ".toList ++ rest) = DocumentType.bill) ∧
    (∀ rest : List Char,
      isInfixOfChars "<bill".toList ("<resolution ".toList ++ rest) = false →
      DetectDocumentType ("<resolution ".toList ++ rest) = DocumentType.resolution) ∧
    (∀ rest : List Char,
      isInfixOfChars "<bill".toList ("<engrossedAmendment ".toList ++ rest) = false →
      isInfixOfChars "<resolution".toList ("<engrossedAmendment ".toList ++ rest) = false →
      DetectDocumentType ("<engrossedAmendment ".toList ++ rest) =
        DocumentType.engrossedAmendment) ∧
    (∀ rest : List Char,
      isInfixOfChars "<bill".toList ("<amendment ".toList ++ rest) = false →
      isInfixOfChars "<resolution".toList ("<amendment ".toList ++ rest) = false →
      isInfixOfChars "<engrossedAmendment".toList ("<amendment ".toList ++ rest) = false →
      DetectDocumentType ("<amendment ".toList ++ rest) = DocumentType.amendment) := by
  refine ⟨fun rest => ?_, fun rest hb => ?_, fun rest hb hr => ?_, fun rest hb hr he => ?_⟩
  · have h := isInfixOfChars_append_self "<bill ".toList rest
    unfold DetectDocumentType
    rw [h]
    simp
  · have h1 : isInfixOfChars "<bill ".toList ("<resolution ".toList ++ rest) = false :=
      isInfixOfChars_false_of_prefix (by decide) hb
    have h := isInfixOfChars_append_self "<resolution ".toList rest
    unfold DetectDocumentType
    rw [h1, hb, h]
    simp
  · have h1 : isInfixOfChars "<bill ".toList ("<engrossedAmendment ".toList ++ rest) = false :=
      isInfixOfChars_false_of_prefix (by decide) hb
    have h2 : isInfixOfChars "<resolution ".toList ("<engrossedAmendment ".toList ++ rest) = false :=
      isInfixOfChars_false_of_prefix (by decide) hr
    have h3 : isInfixOfChars "<resolution>".toList ("<engrossedAmendment ".toList ++ rest) = false :=
      isInfixOfChars_false_of_prefix (by decide) hr
    have h := isInfixOfChars_append_self "<engrossedAmendment ".toList rest
    unfold DetectDocumentType
    rw [h1, h2, h3, hb, h]
    simp
  · have h1 : isInfixOfChars "<bill ".toList ("<amendment ".toList ++ rest) = false :=
      isInfixOfChars_false_of_prefix (by decide) hb
    have h2 : isInfixOfChars "<resolution ".toList ("<amendment ".toList ++ rest) = false :=
      isInfixOfChars_false_of_prefix (by decide) hr
    have h3 : isInfixOfChars "<resolution>".toList ("<amendment ".toList ++ rest) = false :=
      isInfixOfChars_false_of_prefix (by decide) hr
    have h4 : isInfixOfChars "<engrossedAmendment ".toList ("<amendment ".toList ++ rest) = false :=
      isInfixOfChars_false_of_prefix (by decide) he
    have h5 : isInfixOfChars "<engrossedAmendment>".toList ("<amendment ".toList ++ rest) = false :=
      isInfixOfChars_false_of_prefix (by decide) he
    have h := isInfixOfChars_append_self "<amendment ".toList rest
    unfold DetectDocumentType
    rw [h1, h2, h3, h4, h5, hb, h]
    simp

/-- C2 witness: the four detection branches at concrete inputs. -/
theorem C2_detect_by_containment_witness :
    DetectDocumentType ("<bill ".toList ++ "x/>".toList) = DocumentType.bill ∧
    DetectDocumentType ("<resolution ".toList ++ "x/>".toList) = DocumentType.resolution ∧
    DetectDocumentType ("<engrossedAmendment ".toList ++ "x/>".toList) =
      DocumentType.engrossedAmendment ∧
    DetectDocumentType ("<amendment ".toList ++ "x/>".toList) = DocumentType.amendment :=
  ⟨C2_detect_by_containment.1 _,
   C2_detect_by_containment.2.1 _ (by decide),
   C2_detect_by_containment.2.2.1 _ (by decide) (by decide),
   C2_detect_by_containment.2.2.2 _ (by decide) (by decide) (by decide)⟩

/-! ## Claim C3 -/

/-- C3 counterexample: a legal `engrossedAmendment` root element whose
name is followed by a tab rather than a space evades the
engrossed-amendment substring checks (`<engrossedAmendment ` and
`<engrossedAmendment>`), so the detector falls through to the
amendment check and classifies the document as a plain Amendment from
the `<amendment>` bytes in its body. -/
theorem C3_counterexample :
    DetectDocumentType
        "<engrossedAmendment\tid=\"a\"><amendment>x</amendment></engrossedAmendment>".toList
      = DocumentType.amendment := by
  rfl

/-- C3 amended: whenever the input does contain `<engrossedAmendment `
or `<engrossedAmendment>` — as any engrossedAmendment root written
with a space before its attributes, or with no attributes, produces —
the detector never returns Amendment: the engrossed-amendment check
is evaluated before the generic amendment check. -/
theorem C3_engrossed_not_amendment : ∀ s : List Char,
    isInfixOfChars "<engrossedAmendment ".toList s = true ∨
    isInfixOfChars "<engrossedAmendment>".toList s = true →
    DetectDocumentType s ≠ DocumentType.amendment := by
  intro s h
  unfold DetectDocumentType
  split
  · intro hc; cases hc
  · split
    · intro hc; cases hc
    · split
      · intro hc; cases hc
      · rename_i hno
        exfalso
        apply hno
        rw [Bool.or_eq_true]
        exact h

/-- C3 witness: a concrete engrossedAmendment root with attributes. -/
theorem C3_engrossed_not_amendment_witness :
    DetectDocumentType "<engrossedAmendment xmlns=\"x\"></engrossedAmendment>".toList ≠
      DocumentType.amendment :=
  C3_engrossed_not_amendment _ (Or.inl (by decide))


/-! ## Claim C1 -/

/-- A minimal decoded bill: `xml.Unmarshal` on
`<bill xmlns="…"></bill>` populates `XMLName` with the root element
name and `XMLNS` with the namespace, and leaves every other field at
its zero value. -/
def billCex : Bill :=
  ⟨⟨NamespaceUSLM, "bill"⟩, NamespaceUSLM, "", "", "", "", "", "", none, none, none, ""⟩

/-- C1 counterexample: the JSON round trip does not restore the
`XMLName` field (tagged `json:"-"`), so a decoded document with a
populated root `XMLName` is not field-wise equal to its round-tripped
image. -/
theorem C1_counterexample : BillFromJSON (BillToJSON billCex) ≠ some billCex := by
  rw [show BillFromJSON (BillToJSON billCex) = some (clearBill billCex) from rt_Bill billCex]
  intro h
  have h2 : (clearBill billCex).XMLName = billCex.XMLName :=
    congrArg Bill.XMLName (Option.some.inj h)
  revert h2
  decide

/-- C1 amended: for every document of each of the four variants,
decoding the JSON produced by the matching `ToJSON` succeeds and
yields the document with every JSON-carried field preserved — the
namespace-declaration string fields included — while the `XMLName`
fields of every node (tagged `json:"-"`) come back as the zero name
rather than the original element names. `clearBill` and its
companions replace exactly the `XMLName` fields with the zero name
and keep every other field; the trailing conjuncts record this for
the root fields named in the claim. -/
theorem C1_json_round_trip :
    (∀ b : Bill, BillFromJSON (BillToJSON b) = some (clearBill b)) ∧
    (∀ r : Resolution, ResolutionFromJSON (ResolutionToJSON r) = some (clearResolution r)) ∧
    (∀ a : Amendment, AmendmentFromJSON (AmendmentToJSON a) = some (clearAmendment a)) ∧
    (∀ e : EngrossedAmendment,
      EngrossedAmendmentFromJSON (EngrossedAmendmentToJSON e) = some (clearEngrossedAmendment e)) ∧
    (∀ b : Bill,
      (clearBill b).XMLName = emptyName ∧
      (clearBill b).XMLNS = b.XMLNS ∧
      (clearBill b).XMLNSDC = b.XMLNSDC ∧
      (clearBill b).XMLNSHTML = b.XMLNSHTML ∧
      (clearBill b).XMLNSUSLM = b.XMLNSUSLM ∧
      (clearBill b).XMLNSXSI = b.XMLNSXSI ∧
      (clearBill b).XSISchemaLocation = b.XSISchemaLocation ∧
      (clearBill b).XMLLang = b.XMLLang ∧
      (clearBill b).EndMarker = b.EndMarker ∧
      (clearBill b).Meta = b.Meta.map clearMeta ∧
      (clearBill b).Preface = b.Preface.map clearPreface ∧
      (clearBill b).Main = b.Main.map clearMain) :=
  ⟨rt_Bill, rt_Resolution, rt_Amendment, rt_EngrossedAmendment,
   fun b => ⟨rfl, rfl, rfl, rfl, rfl, rfl, rfl, rfl, rfl, rfl, rfl, rfl⟩⟩

/-! ## Claim C4 -/

/-- An unmarshal function that fails on every input, as `xml.Unmarshal`
does on malformed XML. -/
def failUnmarshal {T : Type} : List Char → Except String T :=
  fun _ => Except.error "bad input"

/-- C4 counterexample: when detection selects a variant and that
variant's decode fails, `ParseDocument` does `return ParseBill(data)`,
which converts the nil `*Bill` into a non-nil interface value wrapping
a typed nil pointer — so it returns a non-nil document together with a
non-nil error, and the claimed nil-document/non-nil-error dichotomy
fails. -/
theorem C4_counterexample :
    ParseDocument failUnmarshal failUnmarshal failUnmarshal failUnmarshal
        "<bill />".toList =
      (some (LegislativeDocument.bill none), some "failed to parse bill: bad input") ∧
    ¬ (((ParseDocument failUnmarshal failUnmarshal failUnmarshal failUnmarshal
          "<bill />".toList).1.isSome ∧
        (ParseDocument failUnmarshal failUnmarshal failUnmarshal failUnmarshal
          "<bill />".toList).2 = none) ∨
       ((ParseDocument failUnmarshal failUnmarshal failUnmarshal failUnmarshal
          "<bill />".toList).1 = none ∧
        (ParseDocument failUnmarshal failUnmarshal failUnmarshal failUnmarshal
          "<bill />".toList).2.isSome)) := by
  have h : ParseDocument failUnmarshal failUnmarshal failUnmarshal failUnmarshal
      "<bill />".toList =
      (some (LegislativeDocument.bill none), some "failed to parse bill: bad input") := rfl
  refine ⟨h, ?_⟩
  rw [h]
  simp

/-- C4 amended: the four variant entry points are all-or-nothing —
each returns either a document and no error or a nil pointer and an
error — and `ParseDocument` returns an error exactly when detection
yields Unknown or the selected variant decode fails; but
`ParseDocument`'s returned interface is nil only on the Unknown path:
on every detected-variant path it is a non-nil interface value, which
on a decode failure wraps a typed nil pointer alongside the non-nil
error. -/
theorem C4_parse_error_paths :
    (∀ (u : List Char → Except String Bill) (d : List Char),
      ((ParseBill u d).1.isSome ∧ (ParseBill u d).2 = none) ∨
      ((ParseBill u d).1 = none ∧ (ParseBill u d).2.isSome)) ∧
    (∀ (u : List Char → Except String Resolution) (d : List Char),
      ((ParseResolution u d).1.isSome ∧ (ParseResolution u d).2 = none) ∨
      ((ParseResolution u d).1 = none ∧ (ParseResolution u d).2.isSome)) ∧
    (∀ (u : List Char → Except String EngrossedAmendment) (d : List Char),
      ((ParseEngrossedAmendment u d).1.isSome ∧ (ParseEngrossedAmendment u d).2 = none) ∨
      ((ParseEngrossedAmendment u d).1 = none ∧ (ParseEngrossedAmendment u d).2.isSome)) ∧
    (∀ (u : List Char → Except String Amendment) (d : List Char),
      ((ParseAmendment u d).1.isSome ∧ (ParseAmendment u d).2 = none) ∨
      ((ParseAmendment u d).1 = none ∧ (ParseAmendment u d).2.isSome)) ∧
    (∀ (ub : List Char → Except String Bill)
       (ur : List Char → Except String Resolution)
       (ue : List Char → Except String EngrossedAmendment)
       (ua : List Char → Except String Amendment) (d : List Char),
      ((ParseDocument ub ur ue ua d).2.isSome ↔
        (DetectDocumentType d = DocumentType.unknown ∨
         (DetectDocumentType d = DocumentType.bill ∧ ∃ e, ub d = Except.error e) ∨
         (DetectDocumentType d = DocumentType.resolution ∧ ∃ e, ur d = Except.error e) ∨
         (DetectDocumentType d = DocumentType.engrossedAmendment ∧
           ∃ e, ue d = Except.error e) ∨
         (DetectDocumentType d = DocumentType.amendment ∧ ∃ e, ua d = Except.error e))) ∧
      ((ParseDocument ub ur ue ua d).1 = none ↔
        DetectDocumentType d = DocumentType.unknown) ∧
      (DetectDocumentType d = DocumentType.bill →
        ∀ e, ub d = Except.error e →
          ParseDocument ub ur ue ua d =
            (some (LegislativeDocument.bill none),
             some ("failed to parse bill: " ++ e))) ∧
      (DetectDocumentType d = DocumentType.resolution →
        ∀ e, ur d = Except.error e →
          ParseDocument ub ur ue ua d =
            (some (LegislativeDocument.resolution none),
             some ("failed to parse resolution: " ++ e))) ∧
      (DetectDocumentType d = DocumentType.engrossedAmendment →
        ∀ e, ue d = Except.error e →
          ParseDocument ub ur ue ua d =
            (some (LegislativeDocument.engrossedAmendment none),
             some ("failed to parse engrossed amendment: " ++ e))) ∧
      (DetectDocumentType d = DocumentType.amendment →
        ∀ e, ua d = Except.error e →
          ParseDocument ub ur ue ua d =
            (some (LegislativeDocument.amendment none),
             some ("failed to parse amendment: " ++ e)))) := by
  refine ⟨fun u d => ?_, fun u d => ?_, fun u d => ?_, fun u d => ?_, fun ub ur ue ua d => ?_⟩
  · unfold ParseBill; cases u d <;> simp
  · unfold ParseResolution; cases u d <;> simp
  · unfold ParseEngrossedAmendment; cases u d <;> simp
  · unfold ParseAmendment; cases u d <;> simp
  · unfold ParseDocument
    cases hdet : DetectDocumentType d with
    | bill =>
      unfold ParseBill
      cases hu : ub d <;> simp [hdet, hu]
    | resolution =>
      unfold ParseResolution
      cases hu : ur d <;> simp [hdet, hu]
    | engrossedAmendment =>
      unfold ParseEngrossedAmendment
      cases hu : ue d <;> simp [hdet, hu]
    | amendment =>
      unfold ParseAmendment
      cases hu : ua d <;> simp [hdet, hu]
    | unknown => simp [hdet]


/-! ## Claim C5 -/

/-- A metadata block in which every field is empty. -/
def metaEmpty : Meta :=
  ⟨emptyName, "", "", "", "", "", "", "", "", [], "", "", "", "", "", "", "", [], ""⟩

/-- C5 counterexample: the claim allows only the document number and
the Dublin-Core type as always-emitted fields, but a `Meta` whose
fields are all empty still emits elements for the creator and the
docStage (and ten others): those fields carry no `omitempty` in their
XML tags. -/
theorem C5_counterexample :
    metaEmpty.DCCreator = "" ∧
    "creator" ∈ childNames (xencMeta metaEmpty) ∧
    metaEmpty.DocStage = "" ∧
    "docStage" ∈ childNames (xencMeta metaEmpty) ∧
    childNames (xencMeta metaEmpty) =
      ["title", "type", "creator", "publisher", "format", "language", "rights",
       "docNumber", "docStage", "congress", "session", "publicPrivate"] := by
  decide

/-- C5 amended: `MarshalBillToXML` begins with the XML declaration and
indents with two spaces, and fields whose XML tags carry `omitempty`
are omitted when empty — but the set of always-emitted fields is
larger than the claim's: the root carries all seven attributes
(the namespace declarations plus `xsi:schemaLocation` and `xml:lang`)
even when empty, and within `meta` the seven Dublin-Core elements,
`docNumber`, `docStage`, `congress`, `session` and `publicPrivate`
are emitted even when empty; `currentChamber`, `processedBy`,
`processedDate` and `popularName` are the metadata fields omitted
exactly when empty. -/
theorem C5_marshal_bill :
    (∀ b : Bill, isPrefixOfChars xmlHeader.toList (MarshalBillToXML b) = true) ∧
    (∀ b : Bill, attrNames (xencBill b) =
      ["xmlns", "xmlns:dc", "xmlns:html", "xmlns:uslm", "xmlns:xsi",
       "xsi:schemaLocation", "xml:lang"]) ∧
    (∀ m : Meta,
      "title" ∈ childNames (xencMeta m) ∧ "type" ∈ childNames (xencMeta m) ∧
      "creator" ∈ childNames (xencMeta m) ∧ "publisher" ∈ childNames (xencMeta m) ∧
      "format" ∈ childNames (xencMeta m) ∧ "language" ∈ childNames (xencMeta m) ∧
      "rights" ∈ childNames (xencMeta m) ∧ "docNumber" ∈ childNames (xencMeta m) ∧
      "docStage" ∈ childNames (xencMeta m) ∧ "congress" ∈ childNames (xencMeta m) ∧
      "session" ∈ childNames (xencMeta m) ∧ "publicPrivate" ∈ childNames (xencMeta m)) ∧
    (∀ m : Meta,
      ("currentChamber" ∈ childNames (xencMeta m) ↔ m.CurrentChamber ≠ "") ∧
      ("processedBy" ∈ childNames (xencMeta m) ↔ m.ProcessedBy ≠ "") ∧
      ("processedDate" ∈ childNames (xencMeta m) ↔ m.ProcessedDate ≠ "") ∧
      ("popularName" ∈ childNames (xencMeta m) ↔ m.PopularName ≠ "")) := by
  refine ⟨fun b => ?_, fun b => ?_, fun m => ?_, fun m => ?_⟩
  · exact isPrefixOfChars_append_self _ _
  · rfl
  · refine ⟨?_, ?_, ?_, ?_, ?_, ?_, ?_, ?_, ?_, ?_, ?_, ?_⟩ <;>
      simp [xencMeta, childNames, xElemStrNS, xElemStr, xElemStrOmit, xencRelatedDocument]
  · refine ⟨?_, ?_, ?_, ?_⟩
    · by_cases hv : m.CurrentChamber = "" <;>
        simp [xencMeta, childNames, xElemStrNS, xElemStr, xElemStrOmit,
          xencRelatedDocument, hv]
    · by_cases hv : m.ProcessedBy = "" <;>
        simp [xencMeta, childNames, xElemStrNS, xElemStr, xElemStrOmit,
          xencRelatedDocument, hv]
    · by_cases hv : m.ProcessedDate = "" <;>
        simp [xencMeta, childNames, xElemStrNS, xElemStr, xElemStrOmit,
          xencRelatedDocument, hv]
    · by_cases hv : m.PopularName = "" <;>
        simp [xencMeta, childNames, xElemStrNS, xElemStr, xElemStrOmit,
          xencRelatedDocument, hv]

/-! ## Claim C6 -/

def billEmpty : Bill := ⟨emptyName, "", "", "", "", "", "", "", none, none, none, ""⟩

def resolutionEmpty : Resolution := ⟨emptyName, "", "", "", "", "", "", "", none, none, none, ""⟩

def amendmentEmpty : Amendment := ⟨emptyName, "", "", "", "", "", "", "", none, none, none⟩

def engrossedEmpty : EngrossedAmendment :=
  ⟨emptyName, "", "", "", "", "", "", "", "", none, none, none, none, none⟩

/-- C6: every capability accessor is total and yields the empty
result on an absent nested block — an absent Preface (or AmendPreface)
gives empty sponsor/cosponsor/committee/action lists, an absent Main
gives an empty section list, and an absent metadata block gives the
empty string or empty list from every metadata accessor. -/
theorem C6_absent_block_accessors :
    (∀ b : Bill, b.Preface = none →
      b.GetSponsors = [] ∧ b.GetCosponsors = [] ∧ b.GetCommittees = [] ∧
      b.GetActions = []) ∧
    (∀ b : Bill, b.Main = none → b.GetSections = []) ∧
    (∀ b : Bill, b.Meta = none →
      b.GetDocumentNumber = "" ∧ b.GetDocumentType = "" ∧ b.GetCongress = "" ∧
      b.GetSession = "" ∧ b.GetTitle = "" ∧ b.GetStage = "" ∧ b.GetChamber = "" ∧
      b.GetCitations = [] ∧ b.GetCreator = "" ∧ b.GetPublisher = "" ∧
      b.GetLanguage = "" ∧ b.GetRights = "" ∧ b.GetProcessedBy = "" ∧
      b.GetProcessedDate = "") ∧
    (∀ r : Resolution, r.Preface = none →
      r.GetSponsors = [] ∧ r.GetCosponsors = [] ∧ r.GetCommittees = [] ∧
      r.GetActions = []) ∧
    (∀ r : Resolution, r.Main = none → r.GetSections = []) ∧
    (∀ r : Resolution, r.Meta = none →
      r.GetDocumentNumber = "" ∧ r.GetDocumentType = "" ∧ r.GetCongress = "" ∧
      r.GetSession = "" ∧ r.GetTitle = "" ∧ r.GetStage = "" ∧ r.GetChamber = "" ∧
      r.GetCitations = [] ∧ r.GetCreator = "" ∧ r.GetPublisher = "" ∧
      r.GetLanguage = "" ∧ r.GetRights = "" ∧ r.GetProcessedBy = "" ∧
      r.GetProcessedDate = "") ∧
    (∀ a : Amendment, a.AmendPreface = none → a.GetActions = []) ∧
    (∀ a : Amendment, a.AmendMeta = none →
      a.GetDocumentNumber = "" ∧ a.GetDocumentType = "" ∧ a.GetCongress = "" ∧
      a.GetSession = "" ∧ a.GetTitle = "" ∧ a.GetStage = "" ∧ a.GetChamber = "" ∧
      a.GetCitations = [] ∧ a.GetCreator = "" ∧ a.GetPublisher = "" ∧
      a.GetLanguage = "" ∧ a.GetRights = "" ∧ a.GetProcessedBy = "" ∧
      a.GetProcessedDate = "" ∧ a.GetAmendmentDegree = "") ∧
    (∀ e : EngrossedAmendment, e.AmendPreface = none → e.GetActions = []) ∧
    (∀ e : EngrossedAmendment, e.AmendMeta = none →
      e.GetDocumentNumber = "" ∧ e.GetDocumentType = "" ∧ e.GetCongress = "" ∧
      e.GetSession = "" ∧ e.GetTitle = "" ∧ e.GetStage = "" ∧ e.GetChamber = "" ∧
      e.GetCitations = [] ∧ e.GetCreator = "" ∧ e.GetPublisher = "" ∧
      e.GetLanguage = "" ∧ e.GetRights = "" ∧ e.GetProcessedBy = "" ∧
      e.GetProcessedDate = "" ∧ e.GetAmendmentDegree = "") := by
  refine ⟨fun b h => ?_, fun b h => ?_, fun b h => ?_, fun r h => ?_, fun r h => ?_,
    fun r h => ?_, fun a h => ?_, fun a h => ?_, fun e h => ?_, fun e h => ?_⟩
  · exact ⟨by simp [Bill.GetSponsors, h], by simp [Bill.GetCosponsors, h],
      by simp [Bill.GetCommittees, h], by simp [Bill.GetActions, h]⟩
  · simp [Bill.GetSections, h]
  · simp [Bill.GetDocumentNumber, Bill.GetDocumentType, Bill.GetCongress, Bill.GetSession,
      Bill.GetTitle, Bill.GetStage, Bill.GetChamber, Bill.GetCitations, Bill.GetCreator,
      Bill.GetPublisher, Bill.GetLanguage, Bill.GetRights, Bill.GetProcessedBy,
      Bill.GetProcessedDate, h]
  · exact ⟨by simp [Resolution.GetSponsors, h], by simp [Resolution.GetCosponsors, h],
      by simp [Resolution.GetCommittees, h], by simp [Resolution.GetActions, h]⟩
  · simp [Resolution.GetSections, h]
  · simp [Resolution.GetDocumentNumber, Resolution.GetDocumentType, Resolution.GetCongress,
      Resolution.GetSession, Resolution.GetTitle, Resolution.GetStage, Resolution.GetChamber,
      Resolution.GetCitations, Resolution.GetCreator, Resolution.GetPublisher,
      Resolution.GetLanguage, Resolution.GetRights, Resolution.GetProcessedBy,
      Resolution.GetProcessedDate, h]
  · simp [Amendment.GetActions, h]
  · simp [Amendment.GetDocumentNumber, Amendment.GetDocumentType, Amendment.GetCongress,
      Amendment.GetSession, Amendment.GetTitle, Amendment.GetStage, Amendment.GetChamber,
      Amendment.GetCitations, Amendment.GetCreator, Amendment.GetPublisher,
      Amendment.GetLanguage, Amendment.GetRights, Amendment.GetProcessedBy,
      Amendment.GetProcessedDate, Amendment.GetAmendmentDegree, h]
  · simp [EngrossedAmendment.GetActions, h]
  · simp [EngrossedAmendment.GetDocumentNumber, EngrossedAmendment.GetDocumentType,
      EngrossedAmendment.GetCongress, EngrossedAmendment.GetSession,
      EngrossedAmendment.GetTitle, EngrossedAmendment.GetStage,
      EngrossedAmendment.GetChamber, EngrossedAmendment.GetCitations,
      EngrossedAmendment.GetCreator, EngrossedAmendment.GetPublisher,
      EngrossedAmendment.GetLanguage, EngrossedAmendment.GetRights,
      EngrossedAmendment.GetProcessedBy, EngrossedAmendment.GetProcessedDate,
      EngrossedAmendment.GetAmendmentDegree, h]

/-- C6 witness: the accessors evaluated on documents whose nested
blocks are all absent. -/
theorem C6_absent_block_accessors_witness :
    Bill.GetSponsors billEmpty = [] ∧
    Bill.GetSections billEmpty = [] ∧
    Bill.GetDocumentNumber billEmpty = "" ∧
    Resolution.GetCosponsors resolutionEmpty = [] ∧
    Resolution.GetSections resolutionEmpty = [] ∧
    Resolution.GetTitle resolutionEmpty = "" ∧
    Amendment.GetActions amendmentEmpty = [] ∧
    Amendment.GetAmendmentDegree amendmentEmpty = "" ∧
    EngrossedAmendment.GetActions engrossedEmpty = [] ∧
    EngrossedAmendment.GetChamber engrossedEmpty = "" :=
  ⟨(C6_absent_block_accessors.1 billEmpty rfl).1,
   C6_absent_block_accessors.2.1 billEmpty rfl,
   (C6_absent_block_accessors.2.2.1 billEmpty rfl).1,
   (C6_absent_block_accessors.2.2.2.1 resolutionEmpty rfl).2.1,
   C6_absent_block_accessors.2.2.2.2.1 resolutionEmpty rfl,
   (C6_absent_block_accessors.2.2.2.2.2.1 resolutionEmpty rfl).2.2.2.2.1,
   C6_absent_block_accessors.2.2.2.2.2.2.1 amendmentEmpty rfl,
   (C6_absent_block_accessors.2.2.2.2.2.2.2.1 amendmentEmpty rfl).2.2.2.2.2.2.2.2.2.2.2.2.2.2,
   C6_absent_block_accessors.2.2.2.2.2.2.2.2.1 engrossedEmpty rfl,
   (C6_absent_block_accessors.2.2.2.2.2.2.2.2.2 engrossedEmpty rfl).2.2.2.2.2.2.1⟩

/-! ## Claim C7 -/

/-- C7: `GetID` returns the Senate identifier whenever it is
non-empty — including when both identifiers are present — else the
House identifier when non-empty, else the empty string; likewise for
cosponsors. -/
theorem C7_sponsor_id_precedence :
    (∀ s : Sponsor,
      (s.SenateID ≠ "" → s.GetID = s.SenateID) ∧
      (s.SenateID = "" → s.HouseID ≠ "" → s.GetID = s.HouseID) ∧
      (s.SenateID = "" → s.HouseID = "" → s.GetID = "")) ∧
    (∀ c : Cosponsor,
      (c.SenateID ≠ "" → c.GetID = c.SenateID) ∧
      (c.SenateID = "" → c.HouseID ≠ "" → c.GetID = c.HouseID) ∧
      (c.SenateID = "" → c.HouseID = "" → c.GetID = "")) := by
  constructor
  · intro s
    refine ⟨fun h => ?_, fun h1 _ => ?_, fun h1 h2 => ?_⟩
    · simp [Sponsor.GetID, h]
    · simp [Sponsor.GetID, h1]
    · simp [Sponsor.GetID, h1, h2]
  · intro c
    refine ⟨fun h => ?_, fun h1 _ => ?_, fun h1 h2 => ?_⟩
    · simp [Cosponsor.GetID, h]
    · simp [Cosponsor.GetID, h1]
    · simp [Cosponsor.GetID, h1, h2]

/-- C7 witness: a sponsor carrying both identifiers resolves to the
Senate one; a cosponsor with only a House identifier resolves to it;
a sponsor with neither yields the empty string. -/
theorem C7_sponsor_id_precedence_witness :
    Sponsor.GetID ⟨emptyName, "S221", "H001", "Some Senator", []⟩ = "S221" ∧
    Cosponsor.GetID ⟨emptyName, "", "H123", "Some Member", []⟩ = "H123" ∧
    Sponsor.GetID ⟨emptyName, "", "", "Nobody", []⟩ = "" :=
  ⟨(C7_sponsor_id_precedence.1 _).1 (by decide),
   (C7_sponsor_id_precedence.2 _).2.1 rfl (by decide),
   (C7_sponsor_id_precedence.1 _).2.2 rfl rfl⟩

/-! ## Claim C8 -/

/-- A reference chain three levels deep. -/
def refCex : Ref :=
  Ref.mk emptyName "" "outer"
    (some (Ref.mk emptyName "" "middle" (some (Ref.mk emptyName "" "inner" none))))

/-- C8 counterexample: the `Ref` model is not bounded at one extra
level of nesting — `refCex` nests two further references below the
outer one (depth 3), so "the inner reference contains no further
nested reference" fails. -/
theorem C8_counterexample :
    Ref.depth refCex = 3 ∧ ¬ (∀ r : Ref, Ref.depth r ≤ 2) := by
  have h3 : Ref.depth refCex = 3 := by simp [refCex, Ref.depth]
  exact ⟨h3, fun hall => by have := hall refCex; omega⟩

/-- C8 amended: reference nesting is unbounded in the model — the
`InnerRef *Ref` field is recursive, so for every n there is a
reference chain of depth n + 1. -/
theorem C8_ref_nesting_unbounded : ∀ n : Nat, ∃ r : Ref, Ref.depth r = n + 1 := by
  intro n
  induction n with
  | zero => exact ⟨Ref.mk emptyName "" "" none, by simp [Ref.depth]⟩
  | succ m ih =>
    obtain ⟨r, hr⟩ := ih
    exact ⟨Ref.mk emptyName "" "" (some r), by simp [Ref.depth, hr]⟩

/-! ## Claim C9 -/

/-- C9: a section's normalized number value is exactly the `value`
attribute of its `num` element when present — whatever the displayed
number text — and the empty string when the element is absent. -/
theorem C9_section_num_value :
    ∀ s : Section,
      (∀ n : Num, s.Num = some n → s.GetNumValue = n.Value) ∧
      (s.Num = none → s.GetNumValue = "") := by
  intro s
  exact ⟨fun n h => by simp [Section.GetNumValue, h],
         fun h => by simp [Section.GetNumValue, h]⟩

def sectionW : Section :=
  Section.mk emptyName "" "" "" "" (some ⟨emptyName, "1", "SECTION 1."⟩) none none none [] []

def sectionN : Section := Section.mk emptyName "" "" "" "" none none none none [] []

/-- C9 witness: a section numbered with display text `SECTION 1.` and
value `1` yields `1`; a section with no num element yields `""`. -/
theorem C9_section_num_value_witness :
    Section.GetNumValue sectionW = "1" ∧ Section.GetNumValue sectionN = "" :=
  ⟨(C9_section_num_value sectionW).1 ⟨emptyName, "1", "SECTION 1."⟩ rfl,
   (C9_section_num_value sectionN).2 rfl⟩

/-! ## Claim C10 -/

/-- C10: `IsPublic` holds exactly when the metadata block is present
and its `PublicPrivate` field is the string "public" (case-sensitive);
an absent block or any other value yields false. -/
theorem C10_is_public_iff :
    (∀ b : Bill, b.IsPublic = true ↔
      ∃ m, b.Meta = some m ∧ m.PublicPrivate = "public") ∧
    (∀ r : Resolution, r.IsPublic = true ↔
      ∃ m, r.Meta = some m ∧ m.PublicPrivate = "public") ∧
    (∀ a : Amendment, a.IsPublic = true ↔
      ∃ m, a.AmendMeta = some m ∧ m.PublicPrivate = "public") ∧
    (∀ e : EngrossedAmendment, e.IsPublic = true ↔
      ∃ m, e.AmendMeta = some m ∧ m.PublicPrivate = "public") := by
  refine ⟨fun b => ?_, fun r => ?_, fun a => ?_, fun e => ?_⟩
  · cases hm : b.Meta with
    | none => simp [Bill.IsPublic, hm]
    | some m => simp [Bill.IsPublic, hm]
  · cases hm : r.Meta with
    | none => simp [Resolution.IsPublic, hm]
    | some m => simp [Resolution.IsPublic, hm]
  · cases hm : a.AmendMeta with
    | none => simp [Amendment.IsPublic, hm]
    | some m => simp [Amendment.IsPublic, hm]
  · cases hm : e.AmendMeta with
    | none => simp [EngrossedAmendment.IsPublic, hm]
    | some m => simp [EngrossedAmendment.IsPublic, hm]


end Uslm
